import Mathlib

/-!
# C166 architecture plugin: extension-state store, resolver, classifier, lifter

A shallow embedding of the parts of `src/util.cpp`, `src/lift.cpp`,
`src/info.cpp` and `src/architecture.cpp` that decide the properties proved
below.

Conventions of the embedding.

* Machine integers are natural numbers.  A reduction `% 2^w` is written
  wherever the C++ arithmetic can leave the range of its type: the
  `uint16_t` / `uint8_t` parameters of the setters (callers pass wider
  values), `addr + len` on `uint64_t`, and the shifts of `GetMem` on
  `uint32_t`.
* The process-wide globals `StateMap` and `default_dpp` are the two fields of
  `Globals`, passed explicitly to every function that touches them.
* `std::unordered_map<uint64_t, InstructionState>` is an association list
  with at most one pair per key; `mapFind` is `find`, `mapAssign` is
  `StateMap[addr] = v`.  The iteration order of the map is the list order.
* A `bool` function with an output pointer returns an `Option`.
* An instruction buffer `const uint8_t *data` is a `List Nat`; a byte that is
  read is reduced `% 256`.  The host is little-endian, as the casts to
  `const uint16_t *` in the source assume.
-/

namespace C166

/-! ## util.h -/

/-- The enumerator `ExtNone` of `enum ExtState`. -/
abbrev ExtNone : Nat := 0x0
/-- The enumerator `ExtRegister` of `enum ExtState`. -/
abbrev ExtRegister : Nat := 0x1
/-- The enumerator `ExtSegment` of `enum ExtState`. -/
abbrev ExtSegment : Nat := 0x2
/-- The enumerator `ExtPage` of `enum ExtState`. -/
abbrev ExtPage : Nat := 0x4
/-- The enumerator `ExtAtomic` of `enum ExtState`. -/
abbrev ExtAtomic : Nat := 0x8
/-- The enumerator `ExtNoneCustomDpps` of `enum ExtState`. -/
abbrev ExtNoneCustomDpps : Nat := 0x10

/-- A vector `uint32_t dpp[4]`. -/
structure Dpp where
  d0 : Nat
  d1 : Nat
  d2 : Nat
  d3 : Nat
deriving DecidableEq, Repr

/-- The element `dpp[i]`, for an index `i` in `0..3`. -/
def Dpp.get (v : Dpp) (i : Nat) : Nat :=
  if i = 0 then v.d0 else if i = 1 then v.d1 else if i = 2 then v.d2 else v.d3

/-- The class `InstructionState`: `uint8_t ext_state, num_insns`,
`uint32_t pag10, seg8, dpp[4]`. -/
structure InstructionState where
  ext_state : Nat
  num_insns : Nat
  pag10 : Nat
  seg8 : Nat
  dpp : Dpp
deriving DecidableEq, Repr

/-- The globals of `util.cpp`: the table `StateMap` and the vector
`default_dpp`. -/
structure Globals where
  StateMap : List (Nat × InstructionState)
  default_dpp : Dpp
deriving DecidableEq, Repr

/-- The state of the process at start-up: an empty table and the reset values
`default_dpp = {0, 0, 0, 0}`. -/
def Globals.initial : Globals := ⟨[], ⟨0, 0, 0, 0⟩⟩

/-- The lookup `StateMap.find(addr)`. -/
def mapFind (m : List (Nat × InstructionState)) (addr : Nat) : Option InstructionState :=
  match m with
  | [] => none
  | (k, v) :: rest => if k = addr then some v else mapFind rest addr

/-- The assignment `StateMap[addr] = v`: the value of an existing key is
replaced, a new key is added. -/
def mapAssign (m : List (Nat × InstructionState)) (addr : Nat) (v : InstructionState) :
    List (Nat × InstructionState) :=
  match m with
  | [] => [(addr, v)]
  | (k, w) :: rest => if k = addr then (k, v) :: rest else (k, w) :: mapAssign rest addr v

/-- The default constructor `InstructionState::InstructionState()`, which
copies the current `default_dpp`. -/
def InstructionState.new (default_dpp : Dpp) : InstructionState :=
  { ext_state := ExtNone, pag10 := 0x0, seg8 := 0x0, num_insns := 0, dpp := default_dpp }

/-! ## util.cpp: the extension-state store -/

/-- The function `Instruction::SetDefaultDpps`. -/
def SetDefaultDpps (g : Globals) (dpp0 dpp1 dpp2 dpp3 : Nat) : Globals :=
  { g with default_dpp := ⟨dpp0 % 65536, dpp1 % 65536, dpp2 % 65536, dpp3 % 65536⟩ }

/-- The function `Instruction::SetDpps`. -/
def SetDpps (g : Globals) (addr dpp0 dpp1 dpp2 dpp3 : Nat) : Globals :=
  let d : Dpp := ⟨dpp0 % 65536, dpp1 % 65536, dpp2 % 65536, dpp3 % 65536⟩
  match mapFind g.StateMap addr with
  | some st =>
    let st1 : InstructionState :=
      { st with ext_state := ExtNoneCustomDpps, dpp := d }
    { g with StateMap := mapAssign g.StateMap addr st1 }
  | none =>
    let st1 : InstructionState :=
      { InstructionState.new g.default_dpp with ext_state := ExtNoneCustomDpps, dpp := d }
    { g with StateMap := mapAssign g.StateMap addr st1 }

/-- The body of the loop of `Instruction::SetDppsRange` at one address. -/
def SetDppsRangeBody (g : Globals) (addr dpp0 dpp1 dpp2 dpp3 : Nat) : Globals :=
  let d : Dpp := ⟨dpp0 % 65536, dpp1 % 65536, dpp2 % 65536, dpp3 % 65536⟩
  match mapFind g.StateMap addr with
  | some st =>
    if st.ext_state = ExtNoneCustomDpps ∨ st.ext_state = ExtNone then
      let st1 : InstructionState :=
        { st with ext_state := ExtNoneCustomDpps, dpp := d }
      { g with StateMap := mapAssign g.StateMap addr st1 }
    else
      let st1 : InstructionState :=
        { InstructionState.new g.default_dpp with ext_state := ExtNoneCustomDpps, dpp := d }
      { g with StateMap := mapAssign g.StateMap addr st1 }
  | none =>
    let st1 : InstructionState :=
      { InstructionState.new g.default_dpp with ext_state := ExtNoneCustomDpps, dpp := d }
    { g with StateMap := mapAssign g.StateMap addr st1 }

/-- The loop `for (auto addr = start; addr <= end; addr += 2)` of
`Instruction::SetDppsRange`, on `uint64_t`, run for at most `fuel` tests of
its condition; `none` when the fuel runs out first. -/
def SetDppsRangeLoop (fuel : Nat) (g : Globals) (addr end_ dpp0 dpp1 dpp2 dpp3 : Nat) :
    Option Globals :=
  match fuel with
  | 0 => none
  | fuel + 1 =>
    if addr ≤ end_ then
      SetDppsRangeLoop fuel (SetDppsRangeBody g addr dpp0 dpp1 dpp2 dpp3)
        ((addr + 2) % 18446744073709551616) end_ dpp0 dpp1 dpp2 dpp3
    else some g

/-- The function `Instruction::SetDppsRange`, with the bound `fuel` on the
number of loop tests. -/
def SetDppsRange (fuel : Nat) (g : Globals) (start end_ dpp0 dpp1 dpp2 dpp3 : Nat) :
    Option Globals :=
  SetDppsRangeLoop fuel g start end_ dpp0 dpp1 dpp2 dpp3

/-- The function `Instruction::SetExtpPag10`. -/
def SetExtpPag10 (g : Globals) (addr pag10 num_insns : Nat) : Globals :=
  match mapFind g.StateMap addr with
  | some st =>
    let st1 : InstructionState :=
      { st with ext_state := st.ext_state ||| ExtPage, pag10 := pag10 % 65536, num_insns := num_insns % 256 }
    { g with StateMap := mapAssign g.StateMap addr st1 }
  | none =>
    let st1 : InstructionState :=
      { InstructionState.new g.default_dpp with ext_state := ExtPage, pag10 := pag10 % 65536, num_insns := num_insns % 256 }
    { g with StateMap := mapAssign g.StateMap addr st1 }

/-- The function `Instruction::SetExtsSeg8`. -/
def SetExtsSeg8 (g : Globals) (addr seg8 num_insns : Nat) : Globals :=
  match mapFind g.StateMap addr with
  | some st =>
    let st1 : InstructionState :=
      { st with ext_state := st.ext_state ||| ExtSegment, seg8 := seg8 % 65536, num_insns := num_insns % 256 }
    { g with StateMap := mapAssign g.StateMap addr st1 }
  | none =>
    let st1 : InstructionState :=
      { InstructionState.new g.default_dpp with ext_state := ExtSegment, seg8 := seg8 % 65536, num_insns := num_insns % 256 }
    { g with StateMap := mapAssign g.StateMap addr st1 }

/-- The function `Instruction::SetExtr`. -/
def SetExtr (g : Globals) (addr num_insns : Nat) : Globals :=
  match mapFind g.StateMap addr with
  | some st =>
    let st1 : InstructionState :=
      { st with ext_state := st.ext_state ||| ExtRegister, num_insns := num_insns % 256 }
    { g with StateMap := mapAssign g.StateMap addr st1 }
  | none =>
    let st1 : InstructionState :=
      { InstructionState.new g.default_dpp with ext_state := ExtRegister, num_insns := num_insns % 256 }
    { g with StateMap := mapAssign g.StateMap addr st1 }

/-- The function `Instruction::ShouldUseExtr`. -/
def ShouldUseExtr (g : Globals) (addr : Nat) : Bool :=
  match mapFind g.StateMap addr with
  | some st => if st.ext_state &&& ExtRegister ≠ 0 then true else false
  | none => false

/-- The function `Instruction::ShouldUseExts`: `some seg8` when it returns
true and writes `*seg8`. -/
def ShouldUseExts (g : Globals) (addr : Nat) : Option Nat :=
  match mapFind g.StateMap addr with
  | some st => if st.ext_state &&& ExtSegment ≠ 0 then some st.seg8 else none
  | none => none

/-- The function `Instruction::ShouldUseExtp`: `some pag10` when it returns
true and writes `*pag10`. -/
def ShouldUseExtp (g : Globals) (addr : Nat) : Option Nat :=
  match mapFind g.StateMap addr with
  | some st => if st.ext_state &&& ExtPage ≠ 0 then some st.pag10 else none
  | none => none

/-- The function `Instruction::ShouldUseCustomDpps`: `some dpps` when it
returns true and writes `dpps[0..3]`. -/
def ShouldUseCustomDpps (g : Globals) (addr : Nat) : Option Dpp :=
  match mapFind g.StateMap addr with
  | some st => if st.ext_state &&& ExtNoneCustomDpps ≠ 0 then some st.dpp else none
  | none => none

/-- The function `Instruction::GetInstructionState`. -/
def GetInstructionState (g : Globals) (addr : Nat) : InstructionState :=
  match mapFind g.StateMap addr with
  | none => InstructionState.new g.default_dpp
  | some st => st

/-! ## util.cpp: the queries as operations on the store

The queries above give what a query returns.  Whether a query leaves the
table alone hangs on its uses of `StateMap[addr]`: `operator[]` of
`std::unordered_map` inserts a default-constructed value when the key is
absent.  Below, every `StateMap[addr]` of a query is a `mapSubscript`, and a
query returns the globals it leaves together with its result. -/

/-- The expression `StateMap[addr]` read as a value: the stored state, or a
default-constructed state that is inserted first when the key is absent. -/
def mapSubscript (g : Globals) (addr : Nat) : InstructionState × Globals :=
  match mapFind g.StateMap addr with
  | some st => (st, g)
  | none =>
    (InstructionState.new g.default_dpp,
     { g with StateMap := mapAssign g.StateMap addr (InstructionState.new g.default_dpp) })

/-- The function `Instruction::ShouldUseExtr`, with the globals it leaves. -/
def ShouldUseExtr.stateful (g : Globals) (addr : Nat) : Bool × Globals :=
  match mapFind g.StateMap addr with
  | some _ =>
    let r := mapSubscript g addr
    if r.1.ext_state &&& ExtRegister ≠ 0 then (true, r.2) else (false, r.2)
  | none => (false, g)

/-- The function `Instruction::ShouldUseExts`, with the globals it leaves. -/
def ShouldUseExts.stateful (g : Globals) (addr : Nat) : Option Nat × Globals :=
  match mapFind g.StateMap addr with
  | some _ =>
    let r := mapSubscript g addr
    if r.1.ext_state &&& ExtSegment ≠ 0 then
      let r1 := mapSubscript r.2 addr
      (some r1.1.seg8, r1.2)
    else (none, r.2)
  | none => (none, g)

/-- The function `Instruction::ShouldUseExtp`, with the globals it leaves. -/
def ShouldUseExtp.stateful (g : Globals) (addr : Nat) : Option Nat × Globals :=
  match mapFind g.StateMap addr with
  | some _ =>
    let r := mapSubscript g addr
    if r.1.ext_state &&& ExtPage ≠ 0 then
      let r1 := mapSubscript r.2 addr
      (some r1.1.pag10, r1.2)
    else (none, r.2)
  | none => (none, g)

/-- The function `Instruction::ShouldUseCustomDpps`, with the globals it
leaves: one `StateMap[addr]` for the test and one for each `dpps[i]`. -/
def ShouldUseCustomDpps.stateful (g : Globals) (addr : Nat) : Option Dpp × Globals :=
  match mapFind g.StateMap addr with
  | some _ =>
    let r := mapSubscript g addr
    if r.1.ext_state &&& ExtNoneCustomDpps ≠ 0 then
      let r0 := mapSubscript r.2 addr
      let r1 := mapSubscript r0.2 addr
      let r2 := mapSubscript r1.2 addr
      let r3 := mapSubscript r2.2 addr
      (some ⟨r0.1.dpp.d0, r1.1.dpp.d1, r2.1.dpp.d2, r3.1.dpp.d3⟩, r3.2)
    else (none, r.2)
  | none => (none, g)

/-- The function `Instruction::GetInstructionState`, with the globals it
leaves. -/
def GetInstructionState.stateful (g : Globals) (addr : Nat) : InstructionState × Globals :=
  match mapFind g.StateMap addr with
  | none => (InstructionState.new g.default_dpp, g)
  | some _ => mapSubscript g addr

/-! ## util.cpp: the persisted form of the table

`sizeof(InstructionState)` is 28 with the usual layout: `ext_state` at offset
0, `num_insns` at 1, two bytes of padding, `pag10` at 4, `seg8` at 8 and
`dpp[0..3]` at 12, 16, 20, 24.  A record is the 8-byte address followed by
these 28 bytes.  The pointer `head` into the buffer is the list of the bytes
from `head` on. -/

/-- The value of `sizeof(InstructionState)`. -/
abbrev sizeofInstructionState : Nat := 28

/-- The value of `sizeof(uint64_t) + sizeof(InstructionState)`. -/
abbrev recordSize : Nat := 8 + sizeofInstructionState

/-- The byte `data[i]`. -/
def byteAt (data : List Nat) (i : Nat) : Nat := data.getD i 0 % 256

/-- The four bytes of a `uint32_t` in memory. -/
def u32le (v : Nat) : List Nat :=
  [v % 256, v / 256 % 256, v / 65536 % 256, v / 16777216 % 256]

/-- The eight bytes of a `uint64_t` in memory. -/
def u64le (v : Nat) : List Nat :=
  [v % 256, v / 256 % 256, v / 65536 % 256, v / 16777216 % 256,
   v / 4294967296 % 256, v / 1099511627776 % 256, v / 281474976710656 % 256,
   v / 72057594037927936 % 256]

/-- The `uint32_t` read by `memcpy` from the bytes at offset `off`. -/
def readU32 (buf : List Nat) (off : Nat) : Nat :=
  byteAt buf off + 256 * byteAt buf (off + 1) + 65536 * byteAt buf (off + 2)
    + 16777216 * byteAt buf (off + 3)

/-- The `uint64_t` read by `memcpy` from the bytes at offset `off`. -/
def readU64 (buf : List Nat) (off : Nat) : Nat :=
  readU32 buf off + 4294967296 * readU32 buf (off + 4)

/-- The 28 bytes of an `InstructionState` object; `p0` and `p1` are the
contents of its two padding bytes, which the language leaves unspecified. -/
def InstructionState.bytes (p0 p1 : Nat) (s : InstructionState) : List Nat :=
  [s.ext_state % 256, s.num_insns % 256, p0 % 256, p1 % 256] ++ u32le s.pag10 ++ u32le s.seg8
    ++ u32le s.dpp.d0 ++ u32le s.dpp.d1 ++ u32le s.dpp.d2 ++ u32le s.dpp.d3

/-- The `InstructionState` object whose 28 bytes are copied from offset `off`
of the buffer. -/
def InstructionState.ofBytes (buf : List Nat) (off : Nat) : InstructionState :=
  { ext_state := byteAt buf off, num_insns := byteAt buf (off + 1),
    pag10 := readU32 buf (off + 4), seg8 := readU32 buf (off + 8),
    dpp := ⟨readU32 buf (off + 12), readU32 buf (off + 16), readU32 buf (off + 20),
            readU32 buf (off + 24)⟩ }

/-- The function `Instruction::SizeOfStateMap`. -/
def SizeOfStateMap (g : Globals) : Nat := g.StateMap.length * recordSize

/-- The loop of `Instruction::SerializeStateMap`: the bytes written for the
elements still to visit, the next one at buffer offset `off`; `pad` gives
the contents of the padding bytes by buffer offset. -/
def SerializeLoop (pad : Nat → Nat) (off : Nat) (elems : List (Nat × InstructionState)) :
    List Nat :=
  match elems with
  | [] => []
  | (k, v) :: rest =>
    u64le k ++ v.bytes (pad (off + 10)) (pad (off + 11)) ++ SerializeLoop pad (off + recordSize) rest

/-- The function `Instruction::SerializeStateMap` on a buffer of `size`
bytes: the value returned and the bytes written to the front of the buffer. -/
def SerializeStateMap (pad : Nat → Nat) (g : Globals) (size : Nat) : Nat × List Nat :=
  if size < g.StateMap.length * recordSize then (0, [])
  else
    let out := SerializeLoop pad 0 g.StateMap
    (out.length, out)

/-- The function `Instruction::SerializeStateMap`, with the globals it
leaves: it reads `StateMap.size()` and iterates over copies of the elements
(`for (auto elem : StateMap)`); it has no `StateMap[..]` and no assignment. -/
def SerializeStateMap.stateful (pad : Nat → Nat) (g : Globals) (size : Nat) :
    (Nat × List Nat) × Globals :=
  (SerializeStateMap pad g size, g)

/-- The loop of `Instruction::DeserializeStateMap`, run while `head` is
before the end of the buffer, for at most `fuel` tests. -/
def DeserializeLoop (fuel : Nat) (head : List Nat) (m : List (Nat × InstructionState)) :
    List (Nat × InstructionState) :=
  match fuel with
  | 0 => m
  | fuel + 1 =>
    if 0 < head.length then
      DeserializeLoop fuel (head.drop recordSize)
        (mapAssign m (readU64 head 0) (InstructionState.ofBytes head 8))
    else m

/-- The function `Instruction::DeserializeStateMap` on the buffer `buf` of
`buf.length` bytes: the value returned and the globals afterwards.  The loop
advances by 36 bytes, so `buf.length` tests are enough. -/
def DeserializeStateMap (g : Globals) (buf : List Nat) : Bool × Globals :=
  if buf.length % recordSize ≠ 0 then (false, g)
  else (true, { g with StateMap := DeserializeLoop buf.length buf [] })

/-- The address that the loop of `Instruction::DeserializeStateMap` copies out
of record `i` of the buffer, at `head = buf + i * recordSize`. -/
def recordAddr (buf : List Nat) (i : Nat) : Nat := readU64 buf (i * recordSize)

/-- The state that the loop of `Instruction::DeserializeStateMap` copies out
of record `i` of the buffer, at `head + sizeof(addr)`. -/
def recordState (buf : List Nat) (i : Nat) : InstructionState :=
  InstructionState.ofBytes buf (i * recordSize + 8)

/-! ## util.cpp: operand fields and the resolver -/

/-- The 16-bit word `*(wdata + i)` of the instruction buffer. -/
def wordAt (data : List Nat) (i : Nat) : Nat :=
  byteAt data (2 * i) + 256 * byteAt data (2 * i + 1)

/-- The function `Instruction::GetMem`. -/
def GetMem (g : Globals) (addr : Nat) (data : List Nat) : Nat :=
  let mem := wordAt data 1 &&& 0xFFFF
  let dpp_index := (mem &&& 0xC000) >>> 14
  let dflt := ((g.default_dpp.get dpp_index <<< 14) % 4294967296) ||| (mem &&& 0x3FFF)
  match mapFind g.StateMap addr with
  | some st =>
    if st.ext_state &&& ExtPage ≠ 0 then
      ((st.pag10 <<< 14) % 4294967296) ||| (mem &&& 0x3FFF)
    else if st.ext_state &&& ExtSegment ≠ 0 then
      ((st.seg8 <<< 16) % 4294967296) ||| mem
    else if st.ext_state &&& ExtNoneCustomDpps ≠ 0 then
      ((st.dpp.get dpp_index <<< 14) % 4294967296) ||| (mem &&& 0x3FFF)
    else dflt
  | none => dflt

/-- The function `Instruction::GetRegSfrAddress`; `value` is a `uint8_t`, the
sum is a `uint32_t`. -/
def GetRegSfrAddress (value : Nat) (extr : Bool) : Nat :=
  let base := if extr then 0xF000 else 0xFE00
  (base + 2 * value) % 4294967296

/-- The function `Instruction::TranslateReg`; the `uint32_t` argument `reg` is
converted to the `uint8_t` parameter of `GetRegSfrAddress`. -/
def TranslateReg (g : Globals) (addr reg : Nat) : Nat :=
  if reg ≤ 0xEF then GetRegSfrAddress (reg % 256) (ShouldUseExtr g addr)
  else reg &&& 0xF

/-! ## lift.cpp: the propagation rule -/

/-- The function `UpdateExtSequence` of `lift.cpp`. -/
def UpdateExtSequence (g : Globals) (addr len : Nat) : Globals :=
  if (ShouldUseExts g addr).isSome then
    let curState := GetInstructionState g addr
    if curState.num_insns > 0 then
      SetExtsSeg8 g ((addr + len) % 18446744073709551616) curState.seg8 (curState.num_insns - 1)
    else g
  else if (ShouldUseExtp g addr).isSome then
    let curState := GetInstructionState g addr
    if curState.num_insns > 0 then
      SetExtpPag10 g ((addr + len) % 18446744073709551616) curState.pag10 (curState.num_insns - 1)
    else g
  else if ShouldUseExtr g addr then
    let curState := GetInstructionState g addr
    if curState.num_insns > 0 then
      SetExtr g ((addr + len) % 18446744073709551616) (curState.num_insns - 1)
    else g
  else g

/-! ## opcodes.h -/

/-- The constant `Opcodes::ADD_RWN_RWM`. -/
abbrev Opcodes.ADD_RWN_RWM : Nat := 0x00
/-- The constant `Opcodes::ADD_REG_MEM`. -/
abbrev Opcodes.ADD_REG_MEM : Nat := 0x02
/-- The constant `Opcodes::ADD_MEM_REG`. -/
abbrev Opcodes.ADD_MEM_REG : Nat := 0x04
/-- The constant `Opcodes::ADD_REG_DATA16`. -/
abbrev Opcodes.ADD_REG_DATA16 : Nat := 0x06
/-- The constant `Opcodes::ADD_RWN_RWI_DATA3`. -/
abbrev Opcodes.ADD_RWN_RWI_DATA3 : Nat := 0x08
/-- The constant `Opcodes::ADDB_RBN_RBM`. -/
abbrev Opcodes.ADDB_RBN_RBM : Nat := 0x01
/-- The constant `Opcodes::ADDB_REG_MEM`. -/
abbrev Opcodes.ADDB_REG_MEM : Nat := 0x03
/-- The constant `Opcodes::ADDB_MEM_REG`. -/
abbrev Opcodes.ADDB_MEM_REG : Nat := 0x05
/-- The constant `Opcodes::ADDB_REG_DATA8`. -/
abbrev Opcodes.ADDB_REG_DATA8 : Nat := 0x07
/-- The constant `Opcodes::ADDB_RBN_RWI_DATA3`. -/
abbrev Opcodes.ADDB_RBN_RWI_DATA3 : Nat := 0x09
/-- The constant `Opcodes::ADDC_RWN_RWM`. -/
abbrev Opcodes.ADDC_RWN_RWM : Nat := 0x10
/-- The constant `Opcodes::ADDC_REG_MEM`. -/
abbrev Opcodes.ADDC_REG_MEM : Nat := 0x12
/-- The constant `Opcodes::ADDC_MEM_REG`. -/
abbrev Opcodes.ADDC_MEM_REG : Nat := 0x14
/-- The constant `Opcodes::ADDC_REG_DATA16`. -/
abbrev Opcodes.ADDC_REG_DATA16 : Nat := 0x16
/-- The constant `Opcodes::ADDC_RWN_RWI_DATA3`. -/
abbrev Opcodes.ADDC_RWN_RWI_DATA3 : Nat := 0x18
/-- The constant `Opcodes::ADDCB_RBN_RBM`. -/
abbrev Opcodes.ADDCB_RBN_RBM : Nat := 0x11
/-- The constant `Opcodes::ADDCB_REG_MEM`. -/
abbrev Opcodes.ADDCB_REG_MEM : Nat := 0x13
/-- The constant `Opcodes::ADDCB_MEM_REG`. -/
abbrev Opcodes.ADDCB_MEM_REG : Nat := 0x15
/-- The constant `Opcodes::ADDCB_REG_DATA8`. -/
abbrev Opcodes.ADDCB_REG_DATA8 : Nat := 0x17
/-- The constant `Opcodes::ADDCB_RBN_RWI_DATA3`. -/
abbrev Opcodes.ADDCB_RBN_RWI_DATA3 : Nat := 0x19
/-- The constant `Opcodes::AND_RWN_RWM`. -/
abbrev Opcodes.AND_RWN_RWM : Nat := 0x60
/-- The constant `Opcodes::AND_REG_MEM`. -/
abbrev Opcodes.AND_REG_MEM : Nat := 0x62
/-- The constant `Opcodes::AND_MEM_REG`. -/
abbrev Opcodes.AND_MEM_REG : Nat := 0x64
/-- The constant `Opcodes::AND_REG_DATA16`. -/
abbrev Opcodes.AND_REG_DATA16 : Nat := 0x66
/-- The constant `Opcodes::AND_RWN_RWI_DATA3`. -/
abbrev Opcodes.AND_RWN_RWI_DATA3 : Nat := 0x68
/-- The constant `Opcodes::ANDB_RBN_RBM`. -/
abbrev Opcodes.ANDB_RBN_RBM : Nat := 0x61
/-- The constant `Opcodes::ANDB_REG_MEM`. -/
abbrev Opcodes.ANDB_REG_MEM : Nat := 0x63
/-- The constant `Opcodes::ANDB_MEM_REG`. -/
abbrev Opcodes.ANDB_MEM_REG : Nat := 0x65
/-- The constant `Opcodes::ANDB_REG_DATA8`. -/
abbrev Opcodes.ANDB_REG_DATA8 : Nat := 0x67
/-- The constant `Opcodes::ANDB_RBN_RWI_DATA3`. -/
abbrev Opcodes.ANDB_RBN_RWI_DATA3 : Nat := 0x69
/-- The constant `Opcodes::ASHR_RWN_RWM`. -/
abbrev Opcodes.ASHR_RWN_RWM : Nat := 0xAC
/-- The constant `Opcodes::ASHR_RWN_DATA4`. -/
abbrev Opcodes.ASHR_RWN_DATA4 : Nat := 0xBC
/-- The constant `Opcodes::BAND`. -/
abbrev Opcodes.BAND : Nat := 0x6A
/-- The constant `Opcodes::BCLR_0`. -/
abbrev Opcodes.BCLR_0 : Nat := 0x0E
/-- The constant `Opcodes::BCLR_1`. -/
abbrev Opcodes.BCLR_1 : Nat := 0x1E
/-- The constant `Opcodes::BCLR_2`. -/
abbrev Opcodes.BCLR_2 : Nat := 0x2E
/-- The constant `Opcodes::BCLR_3`. -/
abbrev Opcodes.BCLR_3 : Nat := 0x3E
/-- The constant `Opcodes::BCLR_4`. -/
abbrev Opcodes.BCLR_4 : Nat := 0x4E
/-- The constant `Opcodes::BCLR_5`. -/
abbrev Opcodes.BCLR_5 : Nat := 0x5E
/-- The constant `Opcodes::BCLR_6`. -/
abbrev Opcodes.BCLR_6 : Nat := 0x6E
/-- The constant `Opcodes::BCLR_7`. -/
abbrev Opcodes.BCLR_7 : Nat := 0x7E
/-- The constant `Opcodes::BCLR_8`. -/
abbrev Opcodes.BCLR_8 : Nat := 0x8E
/-- The constant `Opcodes::BCLR_9`. -/
abbrev Opcodes.BCLR_9 : Nat := 0x9E
/-- The constant `Opcodes::BCLR_A`. -/
abbrev Opcodes.BCLR_A : Nat := 0xAE
/-- The constant `Opcodes::BCLR_B`. -/
abbrev Opcodes.BCLR_B : Nat := 0xBE
/-- The constant `Opcodes::BCLR_C`. -/
abbrev Opcodes.BCLR_C : Nat := 0xCE
/-- The constant `Opcodes::BCLR_D`. -/
abbrev Opcodes.BCLR_D : Nat := 0xDE
/-- The constant `Opcodes::BCLR_E`. -/
abbrev Opcodes.BCLR_E : Nat := 0xEE
/-- The constant `Opcodes::BCLR_F`. -/
abbrev Opcodes.BCLR_F : Nat := 0xFE
/-- The constant `Opcodes::BCMP`. -/
abbrev Opcodes.BCMP : Nat := 0x2A
/-- The constant `Opcodes::BFLDH`. -/
abbrev Opcodes.BFLDH : Nat := 0x1A
/-- The constant `Opcodes::BFLDL`. -/
abbrev Opcodes.BFLDL : Nat := 0x0A
/-- The constant `Opcodes::BMOV`. -/
abbrev Opcodes.BMOV : Nat := 0x4A
/-- The constant `Opcodes::BMOVN`. -/
abbrev Opcodes.BMOVN : Nat := 0x3A
/-- The constant `Opcodes::BOR`. -/
abbrev Opcodes.BOR : Nat := 0x5A
/-- The constant `Opcodes::BSET_0`. -/
abbrev Opcodes.BSET_0 : Nat := 0x0F
/-- The constant `Opcodes::BSET_1`. -/
abbrev Opcodes.BSET_1 : Nat := 0x1F
/-- The constant `Opcodes::BSET_2`. -/
abbrev Opcodes.BSET_2 : Nat := 0x2F
/-- The constant `Opcodes::BSET_3`. -/
abbrev Opcodes.BSET_3 : Nat := 0x3F
/-- The constant `Opcodes::BSET_4`. -/
abbrev Opcodes.BSET_4 : Nat := 0x4F
/-- The constant `Opcodes::BSET_5`. -/
abbrev Opcodes.BSET_5 : Nat := 0x5F
/-- The constant `Opcodes::BSET_6`. -/
abbrev Opcodes.BSET_6 : Nat := 0x6F
/-- The constant `Opcodes::BSET_7`. -/
abbrev Opcodes.BSET_7 : Nat := 0x7F
/-- The constant `Opcodes::BSET_8`. -/
abbrev Opcodes.BSET_8 : Nat := 0x8F
/-- The constant `Opcodes::BSET_9`. -/
abbrev Opcodes.BSET_9 : Nat := 0x9F
/-- The constant `Opcodes::BSET_A`. -/
abbrev Opcodes.BSET_A : Nat := 0xAF
/-- The constant `Opcodes::BSET_B`. -/
abbrev Opcodes.BSET_B : Nat := 0xBF
/-- The constant `Opcodes::BSET_C`. -/
abbrev Opcodes.BSET_C : Nat := 0xCF
/-- The constant `Opcodes::BSET_D`. -/
abbrev Opcodes.BSET_D : Nat := 0xDF
/-- The constant `Opcodes::BSET_E`. -/
abbrev Opcodes.BSET_E : Nat := 0xEF
/-- The constant `Opcodes::BSET_F`. -/
abbrev Opcodes.BSET_F : Nat := 0xFF
/-- The constant `Opcodes::BXOR`. -/
abbrev Opcodes.BXOR : Nat := 0x7A
/-- The constant `Opcodes::CALLA`. -/
abbrev Opcodes.CALLA : Nat := 0xCA
/-- The constant `Opcodes::CALLI`. -/
abbrev Opcodes.CALLI : Nat := 0xAB
/-- The constant `Opcodes::CALLR`. -/
abbrev Opcodes.CALLR : Nat := 0xBB
/-- The constant `Opcodes::CALLS`. -/
abbrev Opcodes.CALLS : Nat := 0xDA
/-- The constant `Opcodes::CMP_RWN_RWM`. -/
abbrev Opcodes.CMP_RWN_RWM : Nat := 0x40
/-- The constant `Opcodes::CMP_REG_MEM`. -/
abbrev Opcodes.CMP_REG_MEM : Nat := 0x42
/-- The constant `Opcodes::CMP_REG_DATA16`. -/
abbrev Opcodes.CMP_REG_DATA16 : Nat := 0x46
/-- The constant `Opcodes::CMP_RWN_RWI_DATA3`. -/
abbrev Opcodes.CMP_RWN_RWI_DATA3 : Nat := 0x48
/-- The constant `Opcodes::CMPB_RBN_RBM`. -/
abbrev Opcodes.CMPB_RBN_RBM : Nat := 0x41
/-- The constant `Opcodes::CMPB_REG_MEM`. -/
abbrev Opcodes.CMPB_REG_MEM : Nat := 0x43
/-- The constant `Opcodes::CMPB_REG_DATA8`. -/
abbrev Opcodes.CMPB_REG_DATA8 : Nat := 0x47
/-- The constant `Opcodes::CMPB_RBN_RWI_DATA3`. -/
abbrev Opcodes.CMPB_RBN_RWI_DATA3 : Nat := 0x49
/-- The constant `Opcodes::CMPD1_RWN_DATA4`. -/
abbrev Opcodes.CMPD1_RWN_DATA4 : Nat := 0xA0
/-- The constant `Opcodes::CMPD1_RWN_MEM`. -/
abbrev Opcodes.CMPD1_RWN_MEM : Nat := 0xA2
/-- The constant `Opcodes::CMPD1_RWN_DATA16`. -/
abbrev Opcodes.CMPD1_RWN_DATA16 : Nat := 0xA6
/-- The constant `Opcodes::CMPD2_RWN_DATA4`. -/
abbrev Opcodes.CMPD2_RWN_DATA4 : Nat := 0xB0
/-- The constant `Opcodes::CMPD2_RWN_MEM`. -/
abbrev Opcodes.CMPD2_RWN_MEM : Nat := 0xB2
/-- The constant `Opcodes::CMPD2_RWN_DATA16`. -/
abbrev Opcodes.CMPD2_RWN_DATA16 : Nat := 0xB6
/-- The constant `Opcodes::CMPI1_RWN_DATA4`. -/
abbrev Opcodes.CMPI1_RWN_DATA4 : Nat := 0x80
/-- The constant `Opcodes::CMPI1_RWN_MEM`. -/
abbrev Opcodes.CMPI1_RWN_MEM : Nat := 0x82
/-- The constant `Opcodes::CMPI1_RWN_DATA16`. -/
abbrev Opcodes.CMPI1_RWN_DATA16 : Nat := 0x86
/-- The constant `Opcodes::CMPI2_RWN_DATA4`. -/
abbrev Opcodes.CMPI2_RWN_DATA4 : Nat := 0x90
/-- The constant `Opcodes::CMPI2_RWN_MEM`. -/
abbrev Opcodes.CMPI2_RWN_MEM : Nat := 0x92
/-- The constant `Opcodes::CMPI2_RWN_DATA16`. -/
abbrev Opcodes.CMPI2_RWN_DATA16 : Nat := 0x96
/-- The constant `Opcodes::CPL`. -/
abbrev Opcodes.CPL : Nat := 0x91
/-- The constant `Opcodes::CPLB`. -/
abbrev Opcodes.CPLB : Nat := 0xB1
/-- The constant `Opcodes::DISWDT`. -/
abbrev Opcodes.DISWDT : Nat := 0xA5
/-- The constant `Opcodes::DIV`. -/
abbrev Opcodes.DIV : Nat := 0x4B
/-- The constant `Opcodes::DIVL`. -/
abbrev Opcodes.DIVL : Nat := 0x6B
/-- The constant `Opcodes::DIVLU`. -/
abbrev Opcodes.DIVLU : Nat := 0x7B
/-- The constant `Opcodes::DIVU`. -/
abbrev Opcodes.DIVU : Nat := 0x5B
/-- The constant `Opcodes::EINIT`. -/
abbrev Opcodes.EINIT : Nat := 0xB5
/-- The constant `Opcodes::EXTPRS_PAG_SEG_COUNT`. -/
abbrev Opcodes.EXTPRS_PAG_SEG_COUNT : Nat := 0xD7
/-- The constant `Opcodes::EXTPRS_RWM_COUNT`. -/
abbrev Opcodes.EXTPRS_RWM_COUNT : Nat := 0xDC
/-- The constant `Opcodes::EXTR_ATOMIC`. -/
abbrev Opcodes.EXTR_ATOMIC : Nat := 0xD1
/-- The constant `Opcodes::IDLE`. -/
abbrev Opcodes.IDLE : Nat := 0x87
/-- The constant `Opcodes::JB`. -/
abbrev Opcodes.JB : Nat := 0x8A
/-- The constant `Opcodes::JBC`. -/
abbrev Opcodes.JBC : Nat := 0xAA
/-- The constant `Opcodes::JMPI`. -/
abbrev Opcodes.JMPI : Nat := 0x9C
/-- The constant `Opcodes::JMPA`. -/
abbrev Opcodes.JMPA : Nat := 0xEA
/-- The constant `Opcodes::JMPR_UC`. -/
abbrev Opcodes.JMPR_UC : Nat := 0x0D
/-- The constant `Opcodes::JMPR_NET`. -/
abbrev Opcodes.JMPR_NET : Nat := 0x1D
/-- The constant `Opcodes::JMPR_Z`. -/
abbrev Opcodes.JMPR_Z : Nat := 0x2D
/-- The constant `Opcodes::JMPR_NZ`. -/
abbrev Opcodes.JMPR_NZ : Nat := 0x3D
/-- The constant `Opcodes::JMPR_V`. -/
abbrev Opcodes.JMPR_V : Nat := 0x4D
/-- The constant `Opcodes::JMPR_NV`. -/
abbrev Opcodes.JMPR_NV : Nat := 0x5D
/-- The constant `Opcodes::JMPR_N`. -/
abbrev Opcodes.JMPR_N : Nat := 0x6D
/-- The constant `Opcodes::JMPR_NN`. -/
abbrev Opcodes.JMPR_NN : Nat := 0x7D
/-- The constant `Opcodes::JMPR_ULT`. -/
abbrev Opcodes.JMPR_ULT : Nat := 0x8D
/-- The constant `Opcodes::JMPR_SGT`. -/
abbrev Opcodes.JMPR_SGT : Nat := 0x9D
/-- The constant `Opcodes::JMPR_UGE`. -/
abbrev Opcodes.JMPR_UGE : Nat := 0xAD
/-- The constant `Opcodes::JMPR_SLE`. -/
abbrev Opcodes.JMPR_SLE : Nat := 0xBD
/-- The constant `Opcodes::JMPR_SLT`. -/
abbrev Opcodes.JMPR_SLT : Nat := 0xCD
/-- The constant `Opcodes::JMPR_SGE`. -/
abbrev Opcodes.JMPR_SGE : Nat := 0xDD
/-- The constant `Opcodes::JMPR_UGT`. -/
abbrev Opcodes.JMPR_UGT : Nat := 0xED
/-- The constant `Opcodes::JMPR_ULE`. -/
abbrev Opcodes.JMPR_ULE : Nat := 0xFD
/-- The constant `Opcodes::JMPS`. -/
abbrev Opcodes.JMPS : Nat := 0xFA
/-- The constant `Opcodes::JNB`. -/
abbrev Opcodes.JNB : Nat := 0x9A
/-- The constant `Opcodes::JNBS`. -/
abbrev Opcodes.JNBS : Nat := 0xBA
/-- The constant `Opcodes::MOV_RWN_RWM`. -/
abbrev Opcodes.MOV_RWN_RWM : Nat := 0xF0
/-- The constant `Opcodes::MOV_RWN_DATA4`. -/
abbrev Opcodes.MOV_RWN_DATA4 : Nat := 0xE0
/-- The constant `Opcodes::MOV_REG_DATA16`. -/
abbrev Opcodes.MOV_REG_DATA16 : Nat := 0xE6
/-- The constant `Opcodes::MOV_RWN_REF_RWM`. -/
abbrev Opcodes.MOV_RWN_REF_RWM : Nat := 0xA8
/-- The constant `Opcodes::MOV_RWN_REF_POST_INC_RWM`. -/
abbrev Opcodes.MOV_RWN_REF_POST_INC_RWM : Nat := 0x98
/-- The constant `Opcodes::MOV_REF_RWM_RWN`. -/
abbrev Opcodes.MOV_REF_RWM_RWN : Nat := 0xB8
/-- The constant `Opcodes::MOV_REF_PRE_DEC_RWM_RWN`. -/
abbrev Opcodes.MOV_REF_PRE_DEC_RWM_RWN : Nat := 0x88
/-- The constant `Opcodes::MOV_REF_RWN_REF_RWM`. -/
abbrev Opcodes.MOV_REF_RWN_REF_RWM : Nat := 0xC8
/-- The constant `Opcodes::MOV_REF_POST_INC_RWN_REF_RWM`. -/
abbrev Opcodes.MOV_REF_POST_INC_RWN_REF_RWM : Nat := 0xD8
/-- The constant `Opcodes::MOV_REF_RWN_REF_POST_INC_RWM`. -/
abbrev Opcodes.MOV_REF_RWN_REF_POST_INC_RWM : Nat := 0xE8
/-- The constant `Opcodes::MOV_RWN_REF_RWM_DATA16`. -/
abbrev Opcodes.MOV_RWN_REF_RWM_DATA16 : Nat := 0xD4
/-- The constant `Opcodes::MOV_REF_RWM_DATA16_RWN`. -/
abbrev Opcodes.MOV_REF_RWM_DATA16_RWN : Nat := 0xC4
/-- The constant `Opcodes::MOV_REF_RWN_MEM`. -/
abbrev Opcodes.MOV_REF_RWN_MEM : Nat := 0x84
/-- The constant `Opcodes::MOV_MEM_REF_RWN`. -/
abbrev Opcodes.MOV_MEM_REF_RWN : Nat := 0x94
/-- The constant `Opcodes::MOV_REG_MEM`. -/
abbrev Opcodes.MOV_REG_MEM : Nat := 0xF2
/-- The constant `Opcodes::MOV_MEM_REG`. -/
abbrev Opcodes.MOV_MEM_REG : Nat := 0xF6
/-- The constant `Opcodes::MOVB_RBN_RBM`. -/
abbrev Opcodes.MOVB_RBN_RBM : Nat := 0xF1
/-- The constant `Opcodes::MOVB_RBN_DATA4`. -/
abbrev Opcodes.MOVB_RBN_DATA4 : Nat := 0xE1
/-- The constant `Opcodes::MOVB_REG_DATA8`. -/
abbrev Opcodes.MOVB_REG_DATA8 : Nat := 0xE7
/-- The constant `Opcodes::MOVB_RBN_REF_RWM`. -/
abbrev Opcodes.MOVB_RBN_REF_RWM : Nat := 0xA9
/-- The constant `Opcodes::MOVB_RBN_REF_POST_INC_RWM`. -/
abbrev Opcodes.MOVB_RBN_REF_POST_INC_RWM : Nat := 0x99
/-- The constant `Opcodes::MOVB_REF_RWM_RBN`. -/
abbrev Opcodes.MOVB_REF_RWM_RBN : Nat := 0xB9
/-- The constant `Opcodes::MOVB_REF_PRE_DEC_RWM_RBN`. -/
abbrev Opcodes.MOVB_REF_PRE_DEC_RWM_RBN : Nat := 0x89
/-- The constant `Opcodes::MOVB_REF_RWN_REF_RWM`. -/
abbrev Opcodes.MOVB_REF_RWN_REF_RWM : Nat := 0xC9
/-- The constant `Opcodes::MOVB_REF_POST_INC_RWN_REF_RWM`. -/
abbrev Opcodes.MOVB_REF_POST_INC_RWN_REF_RWM : Nat := 0xD9
/-- The constant `Opcodes::MOVB_REF_RWN_REF_POST_INC_RWM`. -/
abbrev Opcodes.MOVB_REF_RWN_REF_POST_INC_RWM : Nat := 0xE9
/-- The constant `Opcodes::MOVB_RBN_REF_RWM_DATA16`. -/
abbrev Opcodes.MOVB_RBN_REF_RWM_DATA16 : Nat := 0xF4
/-- The constant `Opcodes::MOVB_REF_RWM_DATA16_RBN`. -/
abbrev Opcodes.MOVB_REF_RWM_DATA16_RBN : Nat := 0xE4
/-- The constant `Opcodes::MOVB_REF_RWN_MEM`. -/
abbrev Opcodes.MOVB_REF_RWN_MEM : Nat := 0xA4
/-- The constant `Opcodes::MOVB_MEM_REF_RWN`. -/
abbrev Opcodes.MOVB_MEM_REF_RWN : Nat := 0xB4
/-- The constant `Opcodes::MOVB_REG_MEM`. -/
abbrev Opcodes.MOVB_REG_MEM : Nat := 0xF3
/-- The constant `Opcodes::MOVB_MEM_REG`. -/
abbrev Opcodes.MOVB_MEM_REG : Nat := 0xF7
/-- The constant `Opcodes::MOVBS_RWN_RBM`. -/
abbrev Opcodes.MOVBS_RWN_RBM : Nat := 0xD0
/-- The constant `Opcodes::MOVBS_REG_MEM`. -/
abbrev Opcodes.MOVBS_REG_MEM : Nat := 0xD2
/-- The constant `Opcodes::MOVBS_MEM_REG`. -/
abbrev Opcodes.MOVBS_MEM_REG : Nat := 0xD5
/-- The constant `Opcodes::MOVBZ_RWN_RBM`. -/
abbrev Opcodes.MOVBZ_RWN_RBM : Nat := 0xC0
/-- The constant `Opcodes::MOVBZ_REG_MEM`. -/
abbrev Opcodes.MOVBZ_REG_MEM : Nat := 0xC2
/-- The constant `Opcodes::MOVBZ_MEM_REG`. -/
abbrev Opcodes.MOVBZ_MEM_REG : Nat := 0xC5
/-- The constant `Opcodes::MUL`. -/
abbrev Opcodes.MUL : Nat := 0x0B
/-- The constant `Opcodes::MULU`. -/
abbrev Opcodes.MULU : Nat := 0x1B
/-- The constant `Opcodes::NEG`. -/
abbrev Opcodes.NEG : Nat := 0x81
/-- The constant `Opcodes::NEGB`. -/
abbrev Opcodes.NEGB : Nat := 0xA1
/-- The constant `Opcodes::NOP`. -/
abbrev Opcodes.NOP : Nat := 0xCC
/-- The constant `Opcodes::OR_RWN_RWM`. -/
abbrev Opcodes.OR_RWN_RWM : Nat := 0x70
/-- The constant `Opcodes::OR_RWN_RWI_DATA3`. -/
abbrev Opcodes.OR_RWN_RWI_DATA3 : Nat := 0x78
/-- The constant `Opcodes::OR_REG_DATA16`. -/
abbrev Opcodes.OR_REG_DATA16 : Nat := 0x76
/-- The constant `Opcodes::OR_REG_MEM`. -/
abbrev Opcodes.OR_REG_MEM : Nat := 0x72
/-- The constant `Opcodes::OR_MEM_REG`. -/
abbrev Opcodes.OR_MEM_REG : Nat := 0x74
/-- The constant `Opcodes::ORB_RBN_RBM`. -/
abbrev Opcodes.ORB_RBN_RBM : Nat := 0x71
/-- The constant `Opcodes::ORB_RBN_RWI_DATA3`. -/
abbrev Opcodes.ORB_RBN_RWI_DATA3 : Nat := 0x79
/-- The constant `Opcodes::ORB_REG_DATA8`. -/
abbrev Opcodes.ORB_REG_DATA8 : Nat := 0x77
/-- The constant `Opcodes::ORB_REG_MEM`. -/
abbrev Opcodes.ORB_REG_MEM : Nat := 0x73
/-- The constant `Opcodes::ORB_MEM_REG`. -/
abbrev Opcodes.ORB_MEM_REG : Nat := 0x75
/-- The constant `Opcodes::PCALL`. -/
abbrev Opcodes.PCALL : Nat := 0xE2
/-- The constant `Opcodes::POP`. -/
abbrev Opcodes.POP : Nat := 0xFC
/-- The constant `Opcodes::PRIOR`. -/
abbrev Opcodes.PRIOR : Nat := 0x2B
/-- The constant `Opcodes::PUSH`. -/
abbrev Opcodes.PUSH : Nat := 0xEC
/-- The constant `Opcodes::PWRDN`. -/
abbrev Opcodes.PWRDN : Nat := 0x97
/-- The constant `Opcodes::RET`. -/
abbrev Opcodes.RET : Nat := 0xCB
/-- The constant `Opcodes::RETI`. -/
abbrev Opcodes.RETI : Nat := 0xFB
/-- The constant `Opcodes::RETP`. -/
abbrev Opcodes.RETP : Nat := 0xEB
/-- The constant `Opcodes::RETS`. -/
abbrev Opcodes.RETS : Nat := 0xDB
/-- The constant `Opcodes::ROL_RWN_RWM`. -/
abbrev Opcodes.ROL_RWN_RWM : Nat := 0x0C
/-- The constant `Opcodes::ROL_RWN_DATA4`. -/
abbrev Opcodes.ROL_RWN_DATA4 : Nat := 0x1C
/-- The constant `Opcodes::ROR_RWN_RWM`. -/
abbrev Opcodes.ROR_RWN_RWM : Nat := 0x2C
/-- The constant `Opcodes::ROR_RWN_DATA4`. -/
abbrev Opcodes.ROR_RWN_DATA4 : Nat := 0x3C
/-- The constant `Opcodes::SCXT_REG_DATA16`. -/
abbrev Opcodes.SCXT_REG_DATA16 : Nat := 0xC6
/-- The constant `Opcodes::SCXT_REG_MEM`. -/
abbrev Opcodes.SCXT_REG_MEM : Nat := 0xD6
/-- The constant `Opcodes::SHL_RWN_RWM`. -/
abbrev Opcodes.SHL_RWN_RWM : Nat := 0x4C
/-- The constant `Opcodes::SHL_RWN_DATA4`. -/
abbrev Opcodes.SHL_RWN_DATA4 : Nat := 0x5C
/-- The constant `Opcodes::SHR_RWN_RWM`. -/
abbrev Opcodes.SHR_RWN_RWM : Nat := 0x6C
/-- The constant `Opcodes::SHR_RWN_DATA4`. -/
abbrev Opcodes.SHR_RWN_DATA4 : Nat := 0x7C
/-- The constant `Opcodes::SRST`. -/
abbrev Opcodes.SRST : Nat := 0xB7
/-- The constant `Opcodes::SRVWDT`. -/
abbrev Opcodes.SRVWDT : Nat := 0xA7
/-- The constant `Opcodes::SUB_RWN_RWM`. -/
abbrev Opcodes.SUB_RWN_RWM : Nat := 0x20
/-- The constant `Opcodes::SUB_RWN_RWI_DATA3`. -/
abbrev Opcodes.SUB_RWN_RWI_DATA3 : Nat := 0x28
/-- The constant `Opcodes::SUB_REG_DATA16`. -/
abbrev Opcodes.SUB_REG_DATA16 : Nat := 0x26
/-- The constant `Opcodes::SUB_REG_MEM`. -/
abbrev Opcodes.SUB_REG_MEM : Nat := 0x22
/-- The constant `Opcodes::SUB_MEM_REG`. -/
abbrev Opcodes.SUB_MEM_REG : Nat := 0x24
/-- The constant `Opcodes::SUBB_RBN_RBM`. -/
abbrev Opcodes.SUBB_RBN_RBM : Nat := 0x21
/-- The constant `Opcodes::SUBB_RBN_RWI_DATA3`. -/
abbrev Opcodes.SUBB_RBN_RWI_DATA3 : Nat := 0x29
/-- The constant `Opcodes::SUBB_REG_DATA8`. -/
abbrev Opcodes.SUBB_REG_DATA8 : Nat := 0x27
/-- The constant `Opcodes::SUBB_REG_MEM`. -/
abbrev Opcodes.SUBB_REG_MEM : Nat := 0x23
/-- The constant `Opcodes::SUBB_MEM_REG`. -/
abbrev Opcodes.SUBB_MEM_REG : Nat := 0x25
/-- The constant `Opcodes::SUBC_RWN_RWM`. -/
abbrev Opcodes.SUBC_RWN_RWM : Nat := 0x30
/-- The constant `Opcodes::SUBC_RWN_RWI_DATA3`. -/
abbrev Opcodes.SUBC_RWN_RWI_DATA3 : Nat := 0x38
/-- The constant `Opcodes::SUBC_REG_DATA16`. -/
abbrev Opcodes.SUBC_REG_DATA16 : Nat := 0x36
/-- The constant `Opcodes::SUBC_REG_MEM`. -/
abbrev Opcodes.SUBC_REG_MEM : Nat := 0x32
/-- The constant `Opcodes::SUBC_MEM_REG`. -/
abbrev Opcodes.SUBC_MEM_REG : Nat := 0x34
/-- The constant `Opcodes::SUBCB_RBN_RBM`. -/
abbrev Opcodes.SUBCB_RBN_RBM : Nat := 0x31
/-- The constant `Opcodes::SUBCB_RBN_RWI_DATA3`. -/
abbrev Opcodes.SUBCB_RBN_RWI_DATA3 : Nat := 0x39
/-- The constant `Opcodes::SUBCB_REG_DATA8`. -/
abbrev Opcodes.SUBCB_REG_DATA8 : Nat := 0x37
/-- The constant `Opcodes::SUBCB_REG_MEM`. -/
abbrev Opcodes.SUBCB_REG_MEM : Nat := 0x33
/-- The constant `Opcodes::SUBCB_MEM_REG`. -/
abbrev Opcodes.SUBCB_MEM_REG : Nat := 0x35
/-- The constant `Opcodes::TRAP`. -/
abbrev Opcodes.TRAP : Nat := 0x9B
/-- The constant `Opcodes::XOR_RWN_RWM`. -/
abbrev Opcodes.XOR_RWN_RWM : Nat := 0x50
/-- The constant `Opcodes::XOR_RWN_RWI_DATA3`. -/
abbrev Opcodes.XOR_RWN_RWI_DATA3 : Nat := 0x58
/-- The constant `Opcodes::XOR_REG_DATA16`. -/
abbrev Opcodes.XOR_REG_DATA16 : Nat := 0x56
/-- The constant `Opcodes::XOR_REG_MEM`. -/
abbrev Opcodes.XOR_REG_MEM : Nat := 0x52
/-- The constant `Opcodes::XOR_MEM_REG`. -/
abbrev Opcodes.XOR_MEM_REG : Nat := 0x54
/-- The constant `Opcodes::XORB_RBN_RBM`. -/
abbrev Opcodes.XORB_RBN_RBM : Nat := 0x51
/-- The constant `Opcodes::XORB_RBN_RWI_DATA3`. -/
abbrev Opcodes.XORB_RBN_RWI_DATA3 : Nat := 0x59
/-- The constant `Opcodes::XORB_REG_DATA8`. -/
abbrev Opcodes.XORB_REG_DATA8 : Nat := 0x57
/-- The constant `Opcodes::XORB_REG_MEM`. -/
abbrev Opcodes.XORB_REG_MEM : Nat := 0x53
/-- The constant `Opcodes::XORB_MEM_REG`. -/
abbrev Opcodes.XORB_MEM_REG : Nat := 0x55

/-- The opcode table: every constant of `namespace Opcodes`, in the order of
`opcodes.h`. -/
def Opcodes.table : List Nat :=
  [Opcodes.ADD_RWN_RWM, Opcodes.ADD_REG_MEM, Opcodes.ADD_MEM_REG, Opcodes.ADD_REG_DATA16,
   Opcodes.ADD_RWN_RWI_DATA3, Opcodes.ADDB_RBN_RBM, Opcodes.ADDB_REG_MEM, Opcodes.ADDB_MEM_REG,
   Opcodes.ADDB_REG_DATA8, Opcodes.ADDB_RBN_RWI_DATA3, Opcodes.ADDC_RWN_RWM,
   Opcodes.ADDC_REG_MEM, Opcodes.ADDC_MEM_REG, Opcodes.ADDC_REG_DATA16,
   Opcodes.ADDC_RWN_RWI_DATA3, Opcodes.ADDCB_RBN_RBM, Opcodes.ADDCB_REG_MEM,
   Opcodes.ADDCB_MEM_REG, Opcodes.ADDCB_REG_DATA8, Opcodes.ADDCB_RBN_RWI_DATA3,
   Opcodes.AND_RWN_RWM, Opcodes.AND_REG_MEM, Opcodes.AND_MEM_REG, Opcodes.AND_REG_DATA16,
   Opcodes.AND_RWN_RWI_DATA3, Opcodes.ANDB_RBN_RBM, Opcodes.ANDB_REG_MEM, Opcodes.ANDB_MEM_REG,
   Opcodes.ANDB_REG_DATA8, Opcodes.ANDB_RBN_RWI_DATA3, Opcodes.ASHR_RWN_RWM,
   Opcodes.ASHR_RWN_DATA4, Opcodes.BAND, Opcodes.BCLR_0, Opcodes.BCLR_1, Opcodes.BCLR_2,
   Opcodes.BCLR_3, Opcodes.BCLR_4, Opcodes.BCLR_5, Opcodes.BCLR_6, Opcodes.BCLR_7,
   Opcodes.BCLR_8, Opcodes.BCLR_9, Opcodes.BCLR_A, Opcodes.BCLR_B, Opcodes.BCLR_C,
   Opcodes.BCLR_D, Opcodes.BCLR_E, Opcodes.BCLR_F, Opcodes.BCMP, Opcodes.BFLDH, Opcodes.BFLDL,
   Opcodes.BMOV, Opcodes.BMOVN, Opcodes.BOR, Opcodes.BSET_0, Opcodes.BSET_1, Opcodes.BSET_2,
   Opcodes.BSET_3, Opcodes.BSET_4, Opcodes.BSET_5, Opcodes.BSET_6, Opcodes.BSET_7,
   Opcodes.BSET_8, Opcodes.BSET_9, Opcodes.BSET_A, Opcodes.BSET_B, Opcodes.BSET_C,
   Opcodes.BSET_D, Opcodes.BSET_E, Opcodes.BSET_F, Opcodes.BXOR, Opcodes.CALLA, Opcodes.CALLI,
   Opcodes.CALLR, Opcodes.CALLS, Opcodes.CMP_RWN_RWM, Opcodes.CMP_REG_MEM,
   Opcodes.CMP_REG_DATA16, Opcodes.CMP_RWN_RWI_DATA3, Opcodes.CMPB_RBN_RBM, Opcodes.CMPB_REG_MEM,
   Opcodes.CMPB_REG_DATA8, Opcodes.CMPB_RBN_RWI_DATA3, Opcodes.CMPD1_RWN_DATA4,
   Opcodes.CMPD1_RWN_MEM, Opcodes.CMPD1_RWN_DATA16, Opcodes.CMPD2_RWN_DATA4,
   Opcodes.CMPD2_RWN_MEM, Opcodes.CMPD2_RWN_DATA16, Opcodes.CMPI1_RWN_DATA4,
   Opcodes.CMPI1_RWN_MEM, Opcodes.CMPI1_RWN_DATA16, Opcodes.CMPI2_RWN_DATA4,
   Opcodes.CMPI2_RWN_MEM, Opcodes.CMPI2_RWN_DATA16, Opcodes.CPL, Opcodes.CPLB, Opcodes.DISWDT,
   Opcodes.DIV, Opcodes.DIVL, Opcodes.DIVLU, Opcodes.DIVU, Opcodes.EINIT,
   Opcodes.EXTPRS_PAG_SEG_COUNT, Opcodes.EXTPRS_RWM_COUNT, Opcodes.EXTR_ATOMIC, Opcodes.IDLE,
   Opcodes.JB, Opcodes.JBC, Opcodes.JMPI, Opcodes.JMPA, Opcodes.JMPR_UC, Opcodes.JMPR_NET,
   Opcodes.JMPR_Z, Opcodes.JMPR_NZ, Opcodes.JMPR_V, Opcodes.JMPR_NV, Opcodes.JMPR_N,
   Opcodes.JMPR_NN, Opcodes.JMPR_ULT, Opcodes.JMPR_SGT, Opcodes.JMPR_UGE, Opcodes.JMPR_SLE,
   Opcodes.JMPR_SLT, Opcodes.JMPR_SGE, Opcodes.JMPR_UGT, Opcodes.JMPR_ULE, Opcodes.JMPS,
   Opcodes.JNB, Opcodes.JNBS, Opcodes.MOV_RWN_RWM, Opcodes.MOV_RWN_DATA4, Opcodes.MOV_REG_DATA16,
   Opcodes.MOV_RWN_REF_RWM, Opcodes.MOV_RWN_REF_POST_INC_RWM, Opcodes.MOV_REF_RWM_RWN,
   Opcodes.MOV_REF_PRE_DEC_RWM_RWN, Opcodes.MOV_REF_RWN_REF_RWM,
   Opcodes.MOV_REF_POST_INC_RWN_REF_RWM, Opcodes.MOV_REF_RWN_REF_POST_INC_RWM,
   Opcodes.MOV_RWN_REF_RWM_DATA16, Opcodes.MOV_REF_RWM_DATA16_RWN, Opcodes.MOV_REF_RWN_MEM,
   Opcodes.MOV_MEM_REF_RWN, Opcodes.MOV_REG_MEM, Opcodes.MOV_MEM_REG, Opcodes.MOVB_RBN_RBM,
   Opcodes.MOVB_RBN_DATA4, Opcodes.MOVB_REG_DATA8, Opcodes.MOVB_RBN_REF_RWM,
   Opcodes.MOVB_RBN_REF_POST_INC_RWM, Opcodes.MOVB_REF_RWM_RBN, Opcodes.MOVB_REF_PRE_DEC_RWM_RBN,
   Opcodes.MOVB_REF_RWN_REF_RWM, Opcodes.MOVB_REF_POST_INC_RWN_REF_RWM,
   Opcodes.MOVB_REF_RWN_REF_POST_INC_RWM, Opcodes.MOVB_RBN_REF_RWM_DATA16,
   Opcodes.MOVB_REF_RWM_DATA16_RBN, Opcodes.MOVB_REF_RWN_MEM, Opcodes.MOVB_MEM_REF_RWN,
   Opcodes.MOVB_REG_MEM, Opcodes.MOVB_MEM_REG, Opcodes.MOVBS_RWN_RBM, Opcodes.MOVBS_REG_MEM,
   Opcodes.MOVBS_MEM_REG, Opcodes.MOVBZ_RWN_RBM, Opcodes.MOVBZ_REG_MEM, Opcodes.MOVBZ_MEM_REG,
   Opcodes.MUL, Opcodes.MULU, Opcodes.NEG, Opcodes.NEGB, Opcodes.NOP, Opcodes.OR_RWN_RWM,
   Opcodes.OR_RWN_RWI_DATA3, Opcodes.OR_REG_DATA16, Opcodes.OR_REG_MEM, Opcodes.OR_MEM_REG,
   Opcodes.ORB_RBN_RBM, Opcodes.ORB_RBN_RWI_DATA3, Opcodes.ORB_REG_DATA8, Opcodes.ORB_REG_MEM,
   Opcodes.ORB_MEM_REG, Opcodes.PCALL, Opcodes.POP, Opcodes.PRIOR, Opcodes.PUSH, Opcodes.PWRDN,
   Opcodes.RET, Opcodes.RETI, Opcodes.RETP, Opcodes.RETS, Opcodes.ROL_RWN_RWM,
   Opcodes.ROL_RWN_DATA4, Opcodes.ROR_RWN_RWM, Opcodes.ROR_RWN_DATA4, Opcodes.SCXT_REG_DATA16,
   Opcodes.SCXT_REG_MEM, Opcodes.SHL_RWN_RWM, Opcodes.SHL_RWN_DATA4, Opcodes.SHR_RWN_RWM,
   Opcodes.SHR_RWN_DATA4, Opcodes.SRST, Opcodes.SRVWDT, Opcodes.SUB_RWN_RWM,
   Opcodes.SUB_RWN_RWI_DATA3, Opcodes.SUB_REG_DATA16, Opcodes.SUB_REG_MEM, Opcodes.SUB_MEM_REG,
   Opcodes.SUBB_RBN_RBM, Opcodes.SUBB_RBN_RWI_DATA3, Opcodes.SUBB_REG_DATA8,
   Opcodes.SUBB_REG_MEM, Opcodes.SUBB_MEM_REG, Opcodes.SUBC_RWN_RWM, Opcodes.SUBC_RWN_RWI_DATA3,
   Opcodes.SUBC_REG_DATA16, Opcodes.SUBC_REG_MEM, Opcodes.SUBC_MEM_REG, Opcodes.SUBCB_RBN_RBM,
   Opcodes.SUBCB_RBN_RWI_DATA3, Opcodes.SUBCB_REG_DATA8, Opcodes.SUBCB_REG_MEM,
   Opcodes.SUBCB_MEM_REG, Opcodes.TRAP, Opcodes.XOR_RWN_RWM, Opcodes.XOR_RWN_RWI_DATA3,
   Opcodes.XOR_REG_DATA16, Opcodes.XOR_REG_MEM, Opcodes.XOR_MEM_REG, Opcodes.XORB_RBN_RBM,
   Opcodes.XORB_RBN_RWI_DATA3, Opcodes.XORB_REG_DATA8, Opcodes.XORB_REG_MEM, Opcodes.XORB_MEM_REG]

/-! ## instructions.h: the constant `length` of each instruction class -/

/-- The constant `Ashr::length`. -/
abbrev Ashr.length : Nat := 2
/-- The constant `Band::length`. -/
abbrev Band.length : Nat := 4
/-- The constant `Bclr::length`. -/
abbrev Bclr.length : Nat := 2
/-- The constant `Bcmp::length`. -/
abbrev Bcmp.length : Nat := 4
/-- The constant `Bfldh::length`. -/
abbrev Bfldh.length : Nat := 4
/-- The constant `Bfldl::length`. -/
abbrev Bfldl.length : Nat := 4
/-- The constant `Bmov::length`. -/
abbrev Bmov.length : Nat := 4
/-- The constant `Bmovn::length`. -/
abbrev Bmovn.length : Nat := 4
/-- The constant `Bor::length`. -/
abbrev Bor.length : Nat := 4
/-- The constant `Bset::length`. -/
abbrev Bset.length : Nat := 2
/-- The constant `Bxor::length`. -/
abbrev Bxor.length : Nat := 4
/-- The constant `Calla::length`. -/
abbrev Calla.length : Nat := 4
/-- The constant `Calli::length`. -/
abbrev Calli.length : Nat := 2
/-- The constant `Callr::length`. -/
abbrev Callr.length : Nat := 2
/-- The constant `Calls::length`. -/
abbrev Calls.length : Nat := 4
/-- The constant `Cpl::length`. -/
abbrev Cpl.length : Nat := 2
/-- The constant `Cplb::length`. -/
abbrev Cplb.length : Nat := 2
/-- The constant `Diswdt::length`. -/
abbrev Diswdt.length : Nat := 4
/-- The constant `Div::length`. -/
abbrev Div.length : Nat := 2
/-- The constant `Divl::length`. -/
abbrev Divl.length : Nat := 2
/-- The constant `Divlu::length`. -/
abbrev Divlu.length : Nat := 2
/-- The constant `Divu::length`. -/
abbrev Divu.length : Nat := 2
/-- The constant `Einit::length`. -/
abbrev Einit.length : Nat := 4
/-- The constant `ExtrAtomic::length`. -/
abbrev ExtrAtomic.length : Nat := 2
/-- The constant `Idle::length`. -/
abbrev Idle.length : Nat := 4
/-- The constant `Jb::length`. -/
abbrev Jb.length : Nat := 4
/-- The constant `Jbc::length`. -/
abbrev Jbc.length : Nat := 4
/-- The constant `Jmpa::length`. -/
abbrev Jmpa.length : Nat := 4
/-- The constant `Jmpi::length`. -/
abbrev Jmpi.length : Nat := 2
/-- The constant `Jmpr::length`. -/
abbrev Jmpr.length : Nat := 2
/-- The constant `Jmps::length`. -/
abbrev Jmps.length : Nat := 4
/-- The constant `Jnb::length`. -/
abbrev Jnb.length : Nat := 4
/-- The constant `Jnbs::length`. -/
abbrev Jnbs.length : Nat := 4
/-- The constant `Mul::length`. -/
abbrev Mul.length : Nat := 2
/-- The constant `Mulu::length`. -/
abbrev Mulu.length : Nat := 2
/-- The constant `Neg::length`. -/
abbrev Neg.length : Nat := 2
/-- The constant `Negb::length`. -/
abbrev Negb.length : Nat := 2
/-- The constant `Nop::length`. -/
abbrev Nop.length : Nat := 2
/-- The constant `Pop::length`. -/
abbrev Pop.length : Nat := 2
/-- The constant `Prior::length`. -/
abbrev Prior.length : Nat := 2
/-- The constant `Push::length`. -/
abbrev Push.length : Nat := 2
/-- The constant `Pwrdn::length`. -/
abbrev Pwrdn.length : Nat := 4
/-- The constant `Ret::length`. -/
abbrev Ret.length : Nat := 2
/-- The constant `Reti::length`. -/
abbrev Reti.length : Nat := 2
/-- The constant `Retp::length`. -/
abbrev Retp.length : Nat := 2
/-- The constant `Rets::length`. -/
abbrev Rets.length : Nat := 2
/-- The constant `Rol::length`. -/
abbrev Rol.length : Nat := 2
/-- The constant `Ror::length`. -/
abbrev Ror.length : Nat := 2
/-- The constant `Scxt::length`. -/
abbrev Scxt.length : Nat := 4
/-- The constant `Shl::length`. -/
abbrev Shl.length : Nat := 2
/-- The constant `Shr::length`. -/
abbrev Shr.length : Nat := 2
/-- The constant `Srst::length`. -/
abbrev Srst.length : Nat := 4
/-- The constant `Srvwdt::length`. -/
abbrev Srvwdt.length : Nat := 4
/-- The constant `Trap::length`. -/
abbrev Trap.length : Nat := 2


/-! ## conditions.h -/

/-- The constant `Conditions::CC_UC`. -/
abbrev Conditions.CC_UC : Nat := 0x0

/-! ## util.cpp: field extractors and branch targets -/

/-- The function `Instruction::SignExtend`: the `int8_t` with the bit pattern
of the byte. -/
def SignExtend (data : Nat) : Int :=
  let d := if (data >>> 7) &&& 1 ≠ 0 then data ||| 0x80 else data
  if d % 256 < 128 then ((d % 256 : Nat) : Int) else ((d % 256 : Nat) : Int) - 256

/-- The function `Instruction::GetData4High`. -/
def GetData4High (data : List Nat) (len : Nat) : Nat :=
  if len = 2 then ((wordAt data 0 &&& (0xF <<< (4 * len + 4))) >>> (4 * len + 4)) % 256
  else if len = 4 then ((wordAt data 1 &&& (0xF <<< (4 * len + 4))) >>> (4 * len + 4)) % 256
  else 0

/-- The function `Instruction::GetData4Low`. -/
def GetData4Low (data : List Nat) (len : Nat) : Nat :=
  if len = 2 then ((wordAt data 0 &&& (0xF <<< (4 * len))) >>> (4 * len)) % 256
  else if len = 4 then ((wordAt data 1 &&& (0xF <<< (4 * len))) >>> (4 * len)) % 256
  else 0

/-- The function `Instruction::GetOpSeg`. -/
def GetOpSeg (data : List Nat) : Nat := ((wordAt data 0 &&& (0xFF <<< 8)) >>> 8) % 256

/-- The function `Instruction::GetOpCaddr`. -/
def GetOpCaddr (data : List Nat) : Nat := wordAt data 1

/-- The sum `addr + off * 2 + k` of a `uint64_t`, a sign-extended offset and a
constant, computed on `uint64_t` and returned as `uint32_t`. -/
def relativeTarget (addr : Nat) (off : Int) (k : Nat) : Nat :=
  ((((addr : Int) + off * 2 + (k : Int)) % 18446744073709551616) % 4294967296).toNat

/-- The function `Calla::GetConditionCode`. -/
def Calla.GetConditionCode (data : List Nat) : Nat := (byteAt data 1 &&& 0xF0) >>> 4

/-- The function `Calla::GetTarget`. -/
def Calla.GetTarget (data : List Nat) (addr : Nat) : Nat :=
  ((addr &&& (0xFF <<< 16)) + wordAt data 1) % 4294967296

/-- The function `Calli::GetConditionCode`. -/
def Calli.GetConditionCode (data : List Nat) : Nat := (byteAt data 1 &&& 0xF0) >>> 4

/-- The function `Callr::GetRelativeOffset`. -/
def Callr.GetRelativeOffset (data : List Nat) : Nat := byteAt data 1 &&& 0xFF

/-- The function `Callr::GetTarget`. -/
def Callr.GetTarget (data : List Nat) (addr : Nat) : Nat :=
  relativeTarget addr (SignExtend (Callr.GetRelativeOffset data)) 2

/-- The function `Calls::GetTarget`. -/
def Calls.GetTarget (data : List Nat) : Nat := ((GetOpSeg data <<< 16) % 4294967296) ||| GetOpCaddr data

/-- The function `Jb::GetRelativeOffset`. -/
def Jb.GetRelativeOffset (data : List Nat) : Nat := wordAt data 1 &&& 0xFF

/-- The function `Jb::GetTarget`. -/
def Jb.GetTarget (data : List Nat) (addr : Nat) : Nat :=
  relativeTarget addr (SignExtend (Jb.GetRelativeOffset data)) Jb.length

/-- The function `Jbc::GetRelativeOffset`. -/
def Jbc.GetRelativeOffset (data : List Nat) : Nat := wordAt data 1 &&& 0xFF

/-- The function `Jbc::GetTarget`. -/
def Jbc.GetTarget (data : List Nat) (addr : Nat) : Nat :=
  relativeTarget addr (SignExtend (Jbc.GetRelativeOffset data)) Jbc.length

/-- The function `Jmpa::GetConditionCode`. -/
def Jmpa.GetConditionCode (data : List Nat) : Nat := (byteAt data 1 &&& 0xF0) >>> 4

/-- The function `Jmpa::GetTarget`. -/
def Jmpa.GetTarget (data : List Nat) (addr : Nat) : Nat :=
  ((addr &&& (0xFF <<< 16)) + wordAt data 1) % 4294967296

/-- The function `Jmpr::GetConditionCode`. -/
def Jmpr.GetConditionCode (data : List Nat) : Nat := (byteAt data 0 &&& 0xF0) >>> 4

/-- The function `Jmpr::GetRelativeOffset`. -/
def Jmpr.GetRelativeOffset (data : List Nat) : Nat := byteAt data 1 &&& 0xFF

/-- The function `Jmpr::GetTarget`. -/
def Jmpr.GetTarget (data : List Nat) (addr : Nat) : Nat :=
  relativeTarget addr (SignExtend (Jmpr.GetRelativeOffset data)) 2

/-- The function `Jmps::GetTarget`. -/
def Jmps.GetTarget (data : List Nat) : Nat := ((GetOpSeg data <<< 16) % 4294967296) ||| GetOpCaddr data

/-- The function `Jnb::GetRelativeOffset`. -/
def Jnb.GetRelativeOffset (data : List Nat) : Nat := wordAt data 1 &&& 0xFF

/-- The function `Jnb::GetTarget`. -/
def Jnb.GetTarget (data : List Nat) (addr : Nat) : Nat :=
  relativeTarget addr (SignExtend (Jnb.GetRelativeOffset data)) Jnb.length

/-- The function `Jnbs::GetRelativeOffset`. -/
def Jnbs.GetRelativeOffset (data : List Nat) : Nat := wordAt data 1 &&& 0xFF

/-- The function `Jnbs::GetTarget`. -/
def Jnbs.GetTarget (data : List Nat) (addr : Nat) : Nat :=
  relativeTarget addr (SignExtend (Jnbs.GetRelativeOffset data)) Jnbs.length

/-- The function `Trap::GetTrap7`. -/
def Trap.GetTrap7 (data : List Nat) : Nat := (byteAt data 1 &&& (0x7F <<< 1)) >>> 1

/-- The function `Trap::GetTarget`. -/
def Trap.GetTarget (data : List Nat) (addr : Nat) : Nat :=
  ((addr &&& (0xFF <<< 16)) + Trap.GetTrap7 data * 4) % 4294967296

/-! ## info.cpp and architecture.cpp: the classifier -/

/-- The branch kinds of the host that the classifier uses. -/
inductive BranchType where
  | UnconditionalBranch
  | FalseBranch
  | TrueBranch
  | CallDestination
  | FunctionReturn
  | UnresolvedBranch
deriving DecidableEq, Repr

/-- The fields of the host's `InstructionInfo` that the classifier writes:
the length and the branches added, in order, each with its target (0 when
`AddBranch` is called without one). -/
structure InstructionInfo where
  length : Nat
  branches : List (BranchType × Nat)
deriving DecidableEq, Repr

/-- An `InstructionInfo` as the host passes it in: no length, no branch. -/
def InstructionInfo.empty : InstructionInfo := ⟨0, []⟩

/-- The call `result.AddBranch(type, target)`. -/
def InstructionInfo.AddBranch (result : InstructionInfo) (type : BranchType) (target : Nat) :
    InstructionInfo :=
  { result with branches := result.branches ++ [(type, target)] }

/-- The function `Calla::Info`. -/
def Calla.Info (data : List Nat) (addr : Nat) (result : InstructionInfo) : Bool × InstructionInfo :=
  let code := Calla.GetConditionCode data
  let target := Calla.GetTarget data addr
  let r1 :=
    if code = Conditions.CC_UC then result.AddBranch BranchType.CallDestination target
    else (result.AddBranch BranchType.TrueBranch target).AddBranch BranchType.FalseBranch
      ((addr + Calla.length) % 18446744073709551616)
  (true, { r1 with length := Calla.length })

/-- The function `Calli::Info`. -/
def Calli.Info (data : List Nat) (_addr : Nat) (result : InstructionInfo) : Bool × InstructionInfo :=
  if Calli.GetConditionCode data = Conditions.CC_UC then
    (true, { (result.AddBranch BranchType.UnresolvedBranch 0) with length := Calli.length })
  else (false, result)

/-- The function `Callr::Info`. -/
def Callr.Info (data : List Nat) (addr : Nat) (result : InstructionInfo) : Bool × InstructionInfo :=
  (true, { (result.AddBranch BranchType.CallDestination (Callr.GetTarget data addr)) with
    length := Callr.length })

/-- The function `Calls::Info`. -/
def Calls.Info (data : List Nat) (_addr : Nat) (result : InstructionInfo) : Bool × InstructionInfo :=
  (true, { (result.AddBranch BranchType.CallDestination (Calls.GetTarget data)) with
    length := Calls.length })

/-- The function `Jb::Info`. -/
def Jb.Info (data : List Nat) (addr : Nat) (result : InstructionInfo) : Bool × InstructionInfo :=
  let target := Jb.GetTarget data addr
  let r1 := (result.AddBranch BranchType.TrueBranch target).AddBranch BranchType.FalseBranch
    ((addr + Jb.length) % 18446744073709551616)
  (true, { r1 with length := Jb.length })

/-- The function `Jbc::Info`. -/
def Jbc.Info (data : List Nat) (addr : Nat) (result : InstructionInfo) : Bool × InstructionInfo :=
  let target := Jbc.GetTarget data addr
  let r1 := (result.AddBranch BranchType.TrueBranch target).AddBranch BranchType.FalseBranch
    ((addr + Jbc.length) % 18446744073709551616)
  (true, { r1 with length := Jbc.length })

/-- The function `Jmpa::Info`. -/
def Jmpa.Info (data : List Nat) (addr : Nat) (result : InstructionInfo) : Bool × InstructionInfo :=
  let code := Jmpa.GetConditionCode data
  let target := Jmpa.GetTarget data addr
  let r1 :=
    if code = Conditions.CC_UC then result.AddBranch BranchType.UnconditionalBranch target
    else (result.AddBranch BranchType.TrueBranch target).AddBranch BranchType.FalseBranch
      ((addr + Jmpa.length) % 18446744073709551616)
  (true, { r1 with length := Jmpa.length })

/-- The function `Jmpi::Info`. -/
def Jmpi.Info (data : List Nat) (_addr : Nat) (result : InstructionInfo) : Bool × InstructionInfo :=
  if GetData4High data Jmpi.length = Conditions.CC_UC then
    (true, { (result.AddBranch BranchType.UnresolvedBranch 0) with length := Jmpi.length })
  else (false, result)

/-- The function `Jmpr::Info`. -/
def Jmpr.Info (data : List Nat) (addr : Nat) (result : InstructionInfo) : Bool × InstructionInfo :=
  let target := Jmpr.GetTarget data addr
  let r1 :=
    if Jmpr.GetConditionCode data = Conditions.CC_UC then
      result.AddBranch BranchType.UnconditionalBranch target
    else (result.AddBranch BranchType.TrueBranch target).AddBranch BranchType.FalseBranch
      ((addr + Jmpr.length) % 18446744073709551616)
  (true, { r1 with length := Jmpr.length })

/-- The function `Jmps::Info`. -/
def Jmps.Info (data : List Nat) (_addr : Nat) (result : InstructionInfo) : Bool × InstructionInfo :=
  let target := Jmps.GetTarget data
  (true, { (result.AddBranch BranchType.UnconditionalBranch target) with length := Jmps.length })

/-- The function `Jnb::Info`. -/
def Jnb.Info (data : List Nat) (addr : Nat) (result : InstructionInfo) : Bool × InstructionInfo :=
  let target := Jnb.GetTarget data addr
  let r1 := (result.AddBranch BranchType.TrueBranch target).AddBranch BranchType.FalseBranch
    ((addr + Jnb.length) % 18446744073709551616)
  (true, { r1 with length := Jnb.length })

/-- The function `Jnbs::Info`. -/
def Jnbs.Info (data : List Nat) (addr : Nat) (result : InstructionInfo) : Bool × InstructionInfo :=
  let target := Jnbs.GetTarget data addr
  let r1 := (result.AddBranch BranchType.TrueBranch target).AddBranch BranchType.FalseBranch
    ((addr + Jnbs.length) % 18446744073709551616)
  (true, { r1 with length := Jnbs.length })

/-- The function `Trap::Info`. -/
def Trap.Info (data : List Nat) (addr : Nat) (result : InstructionInfo) : Bool × InstructionInfo :=
  (true, { (result.AddBranch BranchType.CallDestination (Trap.GetTarget data addr)) with
    length := Trap.length })


/-- The `switch` statement of `C166Architecture::GetInstructionInfo` on the opcode `op`. -/
def GetInstructionInfo.switch (op : Nat) (data : List Nat) (addr : Nat) (result : InstructionInfo) :
    Bool × InstructionInfo :=
  if op ∈ [Opcodes.ADD_RWN_RWM, Opcodes.ADD_RWN_RWI_DATA3, Opcodes.ADDB_RBN_RBM,
      Opcodes.ADDB_RBN_RWI_DATA3, Opcodes.ADDC_RWN_RWM, Opcodes.ADDC_RWN_RWI_DATA3,
      Opcodes.ADDCB_RBN_RBM, Opcodes.ADDCB_RBN_RWI_DATA3, Opcodes.AND_RWN_RWM,
      Opcodes.AND_RWN_RWI_DATA3, Opcodes.ANDB_RBN_RBM, Opcodes.ANDB_RBN_RWI_DATA3,
      Opcodes.ASHR_RWN_RWM, Opcodes.ASHR_RWN_DATA4, Opcodes.BCLR_0,
      Opcodes.BCLR_1, Opcodes.BCLR_2, Opcodes.BCLR_3,
      Opcodes.BCLR_4, Opcodes.BCLR_5, Opcodes.BCLR_6,
      Opcodes.BCLR_7, Opcodes.BCLR_8, Opcodes.BCLR_9,
      Opcodes.BCLR_A, Opcodes.BCLR_B, Opcodes.BCLR_C,
      Opcodes.BCLR_D, Opcodes.BCLR_E, Opcodes.BCLR_F,
      Opcodes.BSET_0, Opcodes.BSET_1, Opcodes.BSET_2,
      Opcodes.BSET_3, Opcodes.BSET_4, Opcodes.BSET_5,
      Opcodes.BSET_6, Opcodes.BSET_7, Opcodes.BSET_8,
      Opcodes.BSET_9, Opcodes.BSET_A, Opcodes.BSET_B,
      Opcodes.BSET_C, Opcodes.BSET_D, Opcodes.BSET_E,
      Opcodes.BSET_F, Opcodes.CMP_RWN_RWM, Opcodes.CMP_RWN_RWI_DATA3,
      Opcodes.CMPB_RBN_RBM, Opcodes.CMPB_RBN_RWI_DATA3, Opcodes.CMPD1_RWN_DATA4,
      Opcodes.CMPD2_RWN_DATA4, Opcodes.CMPI1_RWN_DATA4, Opcodes.CMPI2_RWN_DATA4,
      Opcodes.CPL, Opcodes.CPLB, Opcodes.DIV,
      Opcodes.DIVL, Opcodes.DIVLU, Opcodes.DIVU,
      Opcodes.EXTPRS_RWM_COUNT, Opcodes.EXTR_ATOMIC, Opcodes.MOV_RWN_RWM,
      Opcodes.MOV_RWN_DATA4, Opcodes.MOV_RWN_REF_RWM, Opcodes.MOV_RWN_REF_POST_INC_RWM,
      Opcodes.MOV_REF_RWM_RWN, Opcodes.MOV_REF_PRE_DEC_RWM_RWN, Opcodes.MOV_REF_RWN_REF_RWM,
      Opcodes.MOV_REF_POST_INC_RWN_REF_RWM, Opcodes.MOV_REF_RWN_REF_POST_INC_RWM, Opcodes.MOVB_RBN_RBM,
      Opcodes.MOVB_RBN_DATA4, Opcodes.MOVB_RBN_REF_RWM, Opcodes.MOVB_RBN_REF_POST_INC_RWM,
      Opcodes.MOVB_REF_RWM_RBN, Opcodes.MOVB_REF_PRE_DEC_RWM_RBN, Opcodes.MOVB_REF_RWN_REF_RWM,
      Opcodes.MOVB_REF_POST_INC_RWN_REF_RWM, Opcodes.MOVB_REF_RWN_REF_POST_INC_RWM, Opcodes.MOVBS_RWN_RBM,
      Opcodes.MOVBZ_RWN_RBM, Opcodes.MUL, Opcodes.MULU,
      Opcodes.NEG, Opcodes.NEGB, Opcodes.NOP,
      Opcodes.OR_RWN_RWM, Opcodes.OR_RWN_RWI_DATA3, Opcodes.ORB_RBN_RBM,
      Opcodes.ORB_RBN_RWI_DATA3, Opcodes.POP, Opcodes.PRIOR,
      Opcodes.PUSH, Opcodes.SHL_RWN_RWM, Opcodes.SHL_RWN_DATA4,
      Opcodes.SHR_RWN_RWM, Opcodes.SHR_RWN_DATA4, Opcodes.SUB_RWN_RWM,
      Opcodes.SUB_RWN_RWI_DATA3, Opcodes.SUBB_RBN_RBM, Opcodes.SUBB_RBN_RWI_DATA3,
      Opcodes.SUBC_RWN_RWM, Opcodes.SUBC_RWN_RWI_DATA3, Opcodes.SUBCB_RBN_RBM,
      Opcodes.SUBCB_RBN_RWI_DATA3, Opcodes.XOR_RWN_RWM, Opcodes.XOR_RWN_RWI_DATA3,
      Opcodes.XORB_RBN_RBM, Opcodes.XORB_RBN_RWI_DATA3] then
    (true, { result with length := 2 })
  else if op ∈ [Opcodes.ADD_REG_MEM, Opcodes.ADD_MEM_REG, Opcodes.ADD_REG_DATA16,
      Opcodes.ADDB_REG_MEM, Opcodes.ADDB_MEM_REG, Opcodes.ADDB_REG_DATA8,
      Opcodes.ADDC_REG_MEM, Opcodes.ADDC_MEM_REG, Opcodes.ADDC_REG_DATA16,
      Opcodes.ADDCB_REG_MEM, Opcodes.ADDCB_MEM_REG, Opcodes.ADDCB_REG_DATA8,
      Opcodes.AND_REG_MEM, Opcodes.AND_MEM_REG, Opcodes.AND_REG_DATA16,
      Opcodes.ANDB_REG_MEM, Opcodes.ANDB_MEM_REG, Opcodes.ANDB_REG_DATA8,
      Opcodes.BAND, Opcodes.BCMP, Opcodes.BFLDH,
      Opcodes.BFLDL, Opcodes.BMOV, Opcodes.BMOVN,
      Opcodes.BOR, Opcodes.BXOR, Opcodes.CMP_REG_MEM,
      Opcodes.CMP_REG_DATA16, Opcodes.CMPB_REG_MEM, Opcodes.CMPB_REG_DATA8,
      Opcodes.CMPD1_RWN_MEM, Opcodes.CMPD1_RWN_DATA16, Opcodes.CMPD2_RWN_MEM,
      Opcodes.CMPD2_RWN_DATA16, Opcodes.CMPI1_RWN_MEM, Opcodes.CMPI1_RWN_DATA16,
      Opcodes.CMPI2_RWN_MEM, Opcodes.CMPI2_RWN_DATA16, Opcodes.DISWDT,
      Opcodes.EINIT, Opcodes.EXTPRS_PAG_SEG_COUNT, Opcodes.IDLE,
      Opcodes.MOV_REG_DATA16, Opcodes.MOV_RWN_REF_RWM_DATA16, Opcodes.MOV_REF_RWM_DATA16_RWN,
      Opcodes.MOV_REF_RWN_MEM, Opcodes.MOV_MEM_REF_RWN, Opcodes.MOV_REG_MEM,
      Opcodes.MOV_MEM_REG, Opcodes.MOVB_REG_DATA8, Opcodes.MOVB_RBN_REF_RWM_DATA16,
      Opcodes.MOVB_REF_RWM_DATA16_RBN, Opcodes.MOVB_REF_RWN_MEM, Opcodes.MOVB_MEM_REF_RWN,
      Opcodes.MOVB_REG_MEM, Opcodes.MOVB_MEM_REG, Opcodes.MOVBS_REG_MEM,
      Opcodes.MOVBS_MEM_REG, Opcodes.MOVBZ_REG_MEM, Opcodes.MOVBZ_MEM_REG,
      Opcodes.OR_REG_DATA16, Opcodes.OR_REG_MEM, Opcodes.OR_MEM_REG,
      Opcodes.ORB_REG_DATA8, Opcodes.ORB_REG_MEM, Opcodes.ORB_MEM_REG,
      Opcodes.PWRDN, Opcodes.ROL_RWN_RWM, Opcodes.ROL_RWN_DATA4,
      Opcodes.ROR_RWN_RWM, Opcodes.ROR_RWN_DATA4, Opcodes.SCXT_REG_DATA16,
      Opcodes.SCXT_REG_MEM, Opcodes.SRST, Opcodes.SRVWDT,
      Opcodes.SUB_REG_DATA16, Opcodes.SUB_REG_MEM, Opcodes.SUB_MEM_REG,
      Opcodes.SUBB_REG_DATA8, Opcodes.SUBB_REG_MEM, Opcodes.SUBB_MEM_REG,
      Opcodes.SUBC_REG_DATA16, Opcodes.SUBC_REG_MEM, Opcodes.SUBC_MEM_REG,
      Opcodes.SUBCB_REG_DATA8, Opcodes.SUBCB_REG_MEM, Opcodes.SUBCB_MEM_REG,
      Opcodes.XOR_REG_DATA16, Opcodes.XOR_REG_MEM, Opcodes.XOR_MEM_REG,
      Opcodes.XORB_REG_DATA8, Opcodes.XORB_REG_MEM, Opcodes.XORB_MEM_REG] then
    (true, { result with length := 4 })
  else if op = Opcodes.CALLA then
    Calla.Info data addr result
  else if op = Opcodes.CALLI then
    Calli.Info data addr result
  else if op = Opcodes.CALLR then
    Callr.Info data addr result
  else if op = Opcodes.CALLS then
    Calls.Info data addr result
  else if op = Opcodes.JB then
    Jb.Info data addr result
  else if op = Opcodes.JBC then
    Jbc.Info data addr result
  else if op = Opcodes.JMPI then
    Jmpi.Info data addr result
  else if op = Opcodes.JMPA then
    Jmpa.Info data addr result
  else if op ∈ [Opcodes.JMPR_UC, Opcodes.JMPR_NET, Opcodes.JMPR_Z,
      Opcodes.JMPR_NZ, Opcodes.JMPR_V, Opcodes.JMPR_NV,
      Opcodes.JMPR_N, Opcodes.JMPR_NN, Opcodes.JMPR_ULT,
      Opcodes.JMPR_SGT, Opcodes.JMPR_UGE, Opcodes.JMPR_SLE,
      Opcodes.JMPR_SLT, Opcodes.JMPR_SGE, Opcodes.JMPR_UGT,
      Opcodes.JMPR_ULE] then
    Jmpr.Info data addr result
  else if op = Opcodes.JMPS then
    Jmps.Info data addr result
  else if op = Opcodes.JNB then
    Jnb.Info data addr result
  else if op = Opcodes.JNBS then
    Jnbs.Info data addr result
  else if op = Opcodes.PCALL then
    (false, result)
  else if op ∈ [Opcodes.RET, Opcodes.RETP, Opcodes.RETS,
      Opcodes.RETI] then
    (true, { (result.AddBranch BranchType.FunctionReturn 0) with length := 2 })
  else if op = Opcodes.TRAP then
    Trap.Info data addr result
  else (false, result)

/-- The function `C166Architecture::GetInstructionInfo`: its return value and `result`
afterwards, for the opcode `raw & 0xFF` of the first word `raw`. -/
def GetInstructionInfo (data : List Nat) (addr : Nat) (result : InstructionInfo) :
    Bool × InstructionInfo :=
  let raw := wordAt data 0
  GetInstructionInfo.switch (raw &&& 0xFF) data addr result

/-! ## lift.cpp and architecture.cpp: the lifter

Only what the lifter returns, what it writes to `len` and what it does to the
globals is embedded here; the IL it appends to `il` follows in the next
section, for the routines whose IL is reasoned about.  No call on `il`
feeds back into these three, except `il.GetLabelForAddress`, whose result is
the parameter `labels`.  A routine that ignores `data` or the incoming `len`
does not take them. -/

/-- What a lifting routine leaves behind: its return value, the value of the
reference parameter `len`, and the globals. -/
structure LiftResult where
  ok : Bool
  len : Nat
  g : Globals
deriving DecidableEq, Repr

/-- The return value of `Instruction::LiftOpRnRm`. -/
def LiftOpRnRm : Bool := true

/-- The return value of `Instruction::LiftOpRnRwiData3`, a `switch` on the
two-bit field `scode`. -/
def LiftOpRnRwiData3 (data : List Nat) : Bool :=
  let scode := ((byteAt data 1 &&& 0xC) >>> 2) % 256
  if scode = 0b11 ∨ scode = 0b10 then true
  else if scode = 0b00 ∨ scode = 0b01 then true
  else false

/-- The return value of `Instruction::LiftOpRegData`, a `switch` on `width`. -/
def LiftOpRegData (width : Nat) : Bool :=
  if width = 1 then true else if width = 2 then true else false

/-- The return value of `Instruction::LiftOpRegMem`. -/
def LiftOpRegMem : Bool := true

/-- The return value of `Instruction::LiftOpMemReg`. -/
def LiftOpMemReg : Bool := true

/-- The return value of `Instruction::JumpDirect`. -/
def JumpDirect : Bool := true

/-- The return value of `Instruction::JumpIndirect`. -/
def JumpIndirect : Bool := true


/-- The function `Add::Lift`: its return value, `len` and the globals afterwards. -/
def Add.Lift (op : Nat) (data : List Nat) (_addr len : Nat) (g : Globals) : LiftResult :=
  if op = Opcodes.ADD_RWN_RWM then ⟨LiftOpRnRm, 2, g⟩
  else if op = Opcodes.ADD_RWN_RWI_DATA3 then ⟨LiftOpRnRwiData3 data, 2, g⟩
  else if op = Opcodes.ADD_REG_DATA16 then ⟨LiftOpRegData 2, 4, g⟩
  else if op = Opcodes.ADD_REG_MEM then ⟨LiftOpRegMem, 4, g⟩
  else if op = Opcodes.ADD_MEM_REG then ⟨LiftOpMemReg, 4, g⟩
  else ⟨false, len, g⟩

/-- The function `Addb::Lift`: its return value, `len` and the globals afterwards. -/
def Addb.Lift (op : Nat) (data : List Nat) (_addr len : Nat) (g : Globals) : LiftResult :=
  if op = Opcodes.ADDB_RBN_RBM then ⟨LiftOpRnRm, 2, g⟩
  else if op = Opcodes.ADDB_RBN_RWI_DATA3 then ⟨LiftOpRnRwiData3 data, 2, g⟩
  else if op = Opcodes.ADDB_REG_DATA8 then ⟨LiftOpRegData 1, 4, g⟩
  else if op = Opcodes.ADDB_REG_MEM then ⟨LiftOpRegMem, 4, g⟩
  else if op = Opcodes.ADDB_MEM_REG then ⟨LiftOpMemReg, 4, g⟩
  else ⟨false, len, g⟩

/-- The function `Addc::Lift`: its return value, `len` and the globals afterwards. -/
def Addc.Lift (op : Nat) (data : List Nat) (_addr len : Nat) (g : Globals) : LiftResult :=
  if op = Opcodes.ADDC_RWN_RWM then ⟨LiftOpRnRm, 2, g⟩
  else if op = Opcodes.ADDC_RWN_RWI_DATA3 then ⟨LiftOpRnRwiData3 data, 2, g⟩
  else if op = Opcodes.ADDC_REG_DATA16 then ⟨LiftOpRegData 2, 4, g⟩
  else if op = Opcodes.ADDC_REG_MEM then ⟨LiftOpRegMem, 4, g⟩
  else if op = Opcodes.ADDC_MEM_REG then ⟨LiftOpMemReg, 4, g⟩
  else ⟨false, len, g⟩

/-- The function `Addcb::Lift`: its return value, `len` and the globals afterwards. -/
def Addcb.Lift (op : Nat) (data : List Nat) (_addr len : Nat) (g : Globals) : LiftResult :=
  if op = Opcodes.ADDCB_RBN_RBM then ⟨LiftOpRnRm, 2, g⟩
  else if op = Opcodes.ADDCB_RBN_RWI_DATA3 then ⟨LiftOpRnRwiData3 data, 2, g⟩
  else if op = Opcodes.ADDCB_REG_DATA8 then ⟨LiftOpRegData 1, 4, g⟩
  else if op = Opcodes.ADDCB_REG_MEM then ⟨LiftOpRegMem, 4, g⟩
  else if op = Opcodes.ADDCB_MEM_REG then ⟨LiftOpMemReg, 4, g⟩
  else ⟨false, len, g⟩

/-- The function `And::Lift`: its return value, `len` and the globals afterwards. -/
def And.Lift (op : Nat) (data : List Nat) (_addr len : Nat) (g : Globals) : LiftResult :=
  if op = Opcodes.AND_RWN_RWM then ⟨LiftOpRnRm, 2, g⟩
  else if op = Opcodes.AND_RWN_RWI_DATA3 then ⟨LiftOpRnRwiData3 data, 2, g⟩
  else if op = Opcodes.AND_REG_DATA16 then ⟨LiftOpRegData 2, 4, g⟩
  else if op = Opcodes.AND_REG_MEM then ⟨LiftOpRegMem, 4, g⟩
  else if op = Opcodes.AND_MEM_REG then ⟨LiftOpMemReg, 4, g⟩
  else ⟨false, len, g⟩

/-- The function `Andb::Lift`: its return value, `len` and the globals afterwards. -/
def Andb.Lift (op : Nat) (data : List Nat) (_addr len : Nat) (g : Globals) : LiftResult :=
  if op = Opcodes.ANDB_RBN_RBM then ⟨LiftOpRnRm, 2, g⟩
  else if op = Opcodes.ANDB_RBN_RWI_DATA3 then ⟨LiftOpRnRwiData3 data, 2, g⟩
  else if op = Opcodes.ANDB_REG_DATA8 then ⟨LiftOpRegData 1, 4, g⟩
  else if op = Opcodes.ANDB_REG_MEM then ⟨LiftOpRegMem, 4, g⟩
  else if op = Opcodes.ANDB_MEM_REG then ⟨LiftOpMemReg, 4, g⟩
  else ⟨false, len, g⟩

/-- The function `Ashr::LiftxAC`: its return value, `len` and the globals afterwards. -/
def Ashr.LiftxAC (addr : Nat) (g : Globals) : LiftResult :=
  ⟨true, Ashr.length, UpdateExtSequence g addr Ashr.length⟩

/-- The function `Ashr::LiftxBC`: its return value, `len` and the globals afterwards. -/
def Ashr.LiftxBC (addr : Nat) (g : Globals) : LiftResult :=
  ⟨true, Ashr.length, UpdateExtSequence g addr Ashr.length⟩

/-- The function `Band::Lift`: its return value, `len` and the globals afterwards. -/
def Band.Lift (addr : Nat) (g : Globals) : LiftResult :=
  ⟨true, Band.length, UpdateExtSequence g addr Band.length⟩

/-- The function `Bclr::Lift`: its return value, `len` and the globals afterwards. -/
def Bclr.Lift (addr : Nat) (g : Globals) : LiftResult :=
  ⟨true, Bclr.length, UpdateExtSequence g addr Bclr.length⟩

/-- The function `Bcmp::Lift`: its return value, `len` and the globals afterwards. -/
def Bcmp.Lift (addr : Nat) (g : Globals) : LiftResult :=
  ⟨true, Bcmp.length, UpdateExtSequence g addr Bcmp.length⟩

/-- The function `Bfldh::Lift`: its return value, `len` and the globals afterwards. -/
def Bfldh.Lift (addr : Nat) (g : Globals) : LiftResult :=
  ⟨true, Bfldh.length, UpdateExtSequence g addr Bfldh.length⟩

/-- The function `Bfldl::Lift`: its return value, `len` and the globals afterwards. -/
def Bfldl.Lift (addr : Nat) (g : Globals) : LiftResult :=
  ⟨true, Bfldl.length, UpdateExtSequence g addr Bfldl.length⟩

/-- The function `Bmov::Lift`: its return value, `len` and the globals afterwards. -/
def Bmov.Lift (addr : Nat) (g : Globals) : LiftResult :=
  ⟨true, Bmov.length, UpdateExtSequence g addr Bmov.length⟩

/-- The function `Bmovn::Lift`: its return value, `len` and the globals afterwards. -/
def Bmovn.Lift (addr : Nat) (g : Globals) : LiftResult :=
  ⟨true, Bmovn.length, UpdateExtSequence g addr Bmovn.length⟩

/-- The function `Bor::Lift`: its return value, `len` and the globals afterwards. -/
def Bor.Lift (addr : Nat) (g : Globals) : LiftResult :=
  ⟨true, Bor.length, UpdateExtSequence g addr Bor.length⟩

/-- The function `Bxor::Lift`: its return value, `len` and the globals afterwards. -/
def Bxor.Lift (addr : Nat) (g : Globals) : LiftResult :=
  ⟨true, Bxor.length, UpdateExtSequence g addr Bxor.length⟩

/-- The function `Bset::Lift`: its return value, `len` and the globals afterwards. -/
def Bset.Lift (addr : Nat) (g : Globals) : LiftResult :=
  ⟨true, Bset.length, UpdateExtSequence g addr Bset.length⟩

/-- The function `Cmp::Lift`: its return value, `len` and the globals afterwards. -/
def Cmp.Lift (op : Nat) (data : List Nat) (addr len : Nat) (g : Globals) : LiftResult :=
  if op = Opcodes.CMP_RWN_RWM then ⟨LiftOpRnRm, 2, (UpdateExtSequence g addr 2)⟩
  else if op = Opcodes.CMP_RWN_RWI_DATA3 then ⟨LiftOpRnRwiData3 data, 2, (UpdateExtSequence g addr 2)⟩
  else if op = Opcodes.CMP_REG_DATA16 then ⟨LiftOpRegData 2, 4, (UpdateExtSequence g addr 4)⟩
  else if op = Opcodes.CMP_REG_MEM then ⟨LiftOpRegMem, 4, (UpdateExtSequence g addr 4)⟩
  else ⟨false, len, g⟩

/-- The function `Cmpb::Lift`: its return value, `len` and the globals afterwards. -/
def Cmpb.Lift (op : Nat) (data : List Nat) (addr len : Nat) (g : Globals) : LiftResult :=
  if op = Opcodes.CMPB_RBN_RBM then ⟨LiftOpRnRm, 2, (UpdateExtSequence g addr 2)⟩
  else if op = Opcodes.CMPB_RBN_RWI_DATA3 then ⟨LiftOpRnRwiData3 data, 2, (UpdateExtSequence g addr 2)⟩
  else if op = Opcodes.CMPB_REG_DATA8 then ⟨LiftOpRegData 1, 4, (UpdateExtSequence g addr 4)⟩
  else if op = Opcodes.CMPB_REG_MEM then ⟨LiftOpRegMem, 4, (UpdateExtSequence g addr 4)⟩
  else ⟨false, len, g⟩

/-- The function `Cmpd1::LiftxA0`: its return value, `len` and the globals afterwards. -/
def Cmpd1.LiftxA0 (addr : Nat) (g : Globals) : LiftResult :=
  ⟨true, 2, UpdateExtSequence g addr 2⟩

/-- The function `Cmpd1::LiftxA2`: its return value, `len` and the globals afterwards. -/
def Cmpd1.LiftxA2 (addr : Nat) (g : Globals) : LiftResult :=
  ⟨true, 4, UpdateExtSequence g addr 4⟩

/-- The function `Cmpd1::LiftxA6`: its return value, `len` and the globals afterwards. -/
def Cmpd1.LiftxA6 (addr : Nat) (g : Globals) : LiftResult :=
  ⟨true, 4, UpdateExtSequence g addr 4⟩

/-- The function `Cmpd2::LiftxB0`: its return value, `len` and the globals afterwards. -/
def Cmpd2.LiftxB0 (addr : Nat) (g : Globals) : LiftResult :=
  ⟨true, 2, UpdateExtSequence g addr 2⟩

/-- The function `Cmpd2::LiftxB2`: its return value, `len` and the globals afterwards. -/
def Cmpd2.LiftxB2 (addr : Nat) (g : Globals) : LiftResult :=
  ⟨true, 4, UpdateExtSequence g addr 4⟩

/-- The function `Cmpd2::LiftxB6`: its return value, `len` and the globals afterwards. -/
def Cmpd2.LiftxB6 (addr : Nat) (g : Globals) : LiftResult :=
  ⟨true, 4, UpdateExtSequence g addr 4⟩

/-- The function `Cmpi1::Liftx80`: its return value, `len` and the globals afterwards. -/
def Cmpi1.Liftx80 (addr : Nat) (g : Globals) : LiftResult :=
  ⟨true, 2, UpdateExtSequence g addr 2⟩

/-- The function `Cmpi1::Liftx82`: its return value, `len` and the globals afterwards. -/
def Cmpi1.Liftx82 (addr : Nat) (g : Globals) : LiftResult :=
  ⟨true, 4, UpdateExtSequence g addr 4⟩

/-- The function `Cmpi1::Liftx86`: its return value, `len` and the globals afterwards. -/
def Cmpi1.Liftx86 (addr : Nat) (g : Globals) : LiftResult :=
  ⟨true, 4, UpdateExtSequence g addr 4⟩

/-- The function `Cmpi2::Liftx90`: its return value, `len` and the globals afterwards. -/
def Cmpi2.Liftx90 (addr : Nat) (g : Globals) : LiftResult :=
  ⟨true, 2, UpdateExtSequence g addr 2⟩

/-- The function `Cmpi2::Liftx92`: its return value, `len` and the globals afterwards. -/
def Cmpi2.Liftx92 (addr : Nat) (g : Globals) : LiftResult :=
  ⟨true, 4, UpdateExtSequence g addr 4⟩

/-- The function `Cmpi2::Liftx96`: its return value, `len` and the globals afterwards. -/
def Cmpi2.Liftx96 (addr : Nat) (g : Globals) : LiftResult :=
  ⟨true, 4, UpdateExtSequence g addr 4⟩

/-- The function `Cpl::Lift`: its return value, `len` and the globals afterwards. -/
def Cpl.Lift (addr : Nat) (g : Globals) : LiftResult :=
  ⟨true, Cpl.length, UpdateExtSequence g addr Cpl.length⟩

/-- The function `Cplb::Lift`: its return value, `len` and the globals afterwards. -/
def Cplb.Lift (addr : Nat) (g : Globals) : LiftResult :=
  ⟨true, Cplb.length, UpdateExtSequence g addr Cplb.length⟩

/-- The function `Diswdt::Lift`: its return value, `len` and the globals afterwards. -/
def Diswdt.Lift (addr : Nat) (g : Globals) : LiftResult :=
  ⟨true, Diswdt.length, UpdateExtSequence g addr Diswdt.length⟩

/-- The function `Div::Lift`: its return value, `len` and the globals afterwards. -/
def Div.Lift (addr : Nat) (g : Globals) : LiftResult :=
  ⟨true, Div.length, UpdateExtSequence g addr Div.length⟩

/-- The function `Divl::Lift`: its return value, `len` and the globals afterwards. -/
def Divl.Lift (addr : Nat) (g : Globals) : LiftResult :=
  ⟨true, Divl.length, UpdateExtSequence g addr Divl.length⟩

/-- The function `Divlu::Lift`: its return value, `len` and the globals afterwards. -/
def Divlu.Lift (addr : Nat) (g : Globals) : LiftResult :=
  ⟨true, Divlu.length, UpdateExtSequence g addr Divlu.length⟩

/-- The function `Divu::Lift`: its return value, `len` and the globals afterwards. -/
def Divu.Lift (addr : Nat) (g : Globals) : LiftResult :=
  ⟨true, Divu.length, UpdateExtSequence g addr Divu.length⟩

/-- The function `Einit::Lift`: its return value, `len` and the globals afterwards. -/
def Einit.Lift (addr : Nat) (g : Globals) : LiftResult :=
  ⟨true, Einit.length, UpdateExtSequence g addr Einit.length⟩

/-- The function `Idle::Lift`: its return value, `len` and the globals afterwards. -/
def Idle.Lift (addr : Nat) (g : Globals) : LiftResult :=
  ⟨true, Idle.length, UpdateExtSequence g addr Idle.length⟩

/-- The function `Mov::Liftx84`: its return value, `len` and the globals afterwards. -/
def Mov.Liftx84 (addr : Nat) (g : Globals) : LiftResult :=
  ⟨true, 4, UpdateExtSequence g addr 4⟩

/-- The function `Mov::Liftx88`: its return value, `len` and the globals afterwards. -/
def Mov.Liftx88 (addr : Nat) (g : Globals) : LiftResult :=
  ⟨true, 2, UpdateExtSequence g addr 2⟩

/-- The function `Mov::Liftx94`: its return value, `len` and the globals afterwards. -/
def Mov.Liftx94 (addr : Nat) (g : Globals) : LiftResult :=
  ⟨true, 4, UpdateExtSequence g addr 4⟩

/-- The function `Mov::Liftx98`: its return value, `len` and the globals afterwards. -/
def Mov.Liftx98 (addr : Nat) (g : Globals) : LiftResult :=
  ⟨true, 2, UpdateExtSequence g addr 2⟩

/-- The function `Mov::LiftxA8`: its return value, `len` and the globals afterwards. -/
def Mov.LiftxA8 (addr : Nat) (g : Globals) : LiftResult :=
  ⟨true, 2, UpdateExtSequence g addr 2⟩

/-- The function `Mov::LiftxB8`: its return value, `len` and the globals afterwards. -/
def Mov.LiftxB8 (addr : Nat) (g : Globals) : LiftResult :=
  ⟨true, 2, UpdateExtSequence g addr 2⟩

/-- The function `Mov::LiftxC4`: its return value, `len` and the globals afterwards. -/
def Mov.LiftxC4 (addr : Nat) (g : Globals) : LiftResult :=
  ⟨true, 4, UpdateExtSequence g addr 4⟩

/-- The function `Mov::LiftxC8`: its return value, `len` and the globals afterwards. -/
def Mov.LiftxC8 (addr : Nat) (g : Globals) : LiftResult :=
  ⟨true, 2, UpdateExtSequence g addr 2⟩

/-- The function `Mov::LiftxD4`: its return value, `len` and the globals afterwards. -/
def Mov.LiftxD4 (addr : Nat) (g : Globals) : LiftResult :=
  ⟨true, 4, UpdateExtSequence g addr 4⟩

/-- The function `Mov::LiftxD8`: its return value, `len` and the globals afterwards. -/
def Mov.LiftxD8 (addr : Nat) (g : Globals) : LiftResult :=
  ⟨true, 2, UpdateExtSequence g addr 2⟩

/-- The function `Mov::LiftxE0`: its return value, `len` and the globals afterwards. -/
def Mov.LiftxE0 (addr : Nat) (g : Globals) : LiftResult :=
  ⟨true, 2, UpdateExtSequence g addr 2⟩

/-- The function `Mov::LiftxE6`: its return value, `len` and the globals afterwards. -/
def Mov.LiftxE6 (addr : Nat) (g : Globals) : LiftResult :=
  ⟨true, 4, UpdateExtSequence g addr 4⟩

/-- The function `Mov::LiftxE8`: its return value, `len` and the globals afterwards. -/
def Mov.LiftxE8 (addr : Nat) (g : Globals) : LiftResult :=
  ⟨true, 2, UpdateExtSequence g addr 2⟩

/-- The function `Mov::LiftxF0`: its return value, `len` and the globals afterwards. -/
def Mov.LiftxF0 (addr : Nat) (g : Globals) : LiftResult :=
  ⟨true, 2, UpdateExtSequence g addr 2⟩

/-- The function `Mov::LiftxF2`: its return value, `len` and the globals afterwards. -/
def Mov.LiftxF2 (addr : Nat) (g : Globals) : LiftResult :=
  ⟨true, 4, UpdateExtSequence g addr 4⟩

/-- The function `Mov::LiftxF6`: its return value, `len` and the globals afterwards. -/
def Mov.LiftxF6 (addr : Nat) (g : Globals) : LiftResult :=
  ⟨true, 4, UpdateExtSequence g addr 4⟩

/-- The function `Movb::Liftx89`: its return value, `len` and the globals afterwards. -/
def Movb.Liftx89 (addr : Nat) (g : Globals) : LiftResult :=
  ⟨true, 2, UpdateExtSequence g addr 2⟩

/-- The function `Movb::Liftx99`: its return value, `len` and the globals afterwards. -/
def Movb.Liftx99 (addr : Nat) (g : Globals) : LiftResult :=
  ⟨true, 2, UpdateExtSequence g addr 2⟩

/-- The function `Movb::LiftxA4`: its return value, `len` and the globals afterwards. -/
def Movb.LiftxA4 (addr : Nat) (g : Globals) : LiftResult :=
  ⟨true, 4, UpdateExtSequence g addr 4⟩

/-- The function `Movb::LiftxB4`: its return value, `len` and the globals afterwards. -/
def Movb.LiftxB4 (addr : Nat) (g : Globals) : LiftResult :=
  ⟨true, 4, UpdateExtSequence g addr 4⟩

/-- The function `Movb::LiftxA9`: its return value, `len` and the globals afterwards. -/
def Movb.LiftxA9 (addr : Nat) (g : Globals) : LiftResult :=
  ⟨true, 2, UpdateExtSequence g addr 2⟩

/-- The function `Movb::LiftxB9`: its return value, `len` and the globals afterwards. -/
def Movb.LiftxB9 (addr : Nat) (g : Globals) : LiftResult :=
  ⟨true, 2, UpdateExtSequence g addr 2⟩

/-- The function `Movb::LiftxC9`: its return value, `len` and the globals afterwards. -/
def Movb.LiftxC9 (addr : Nat) (g : Globals) : LiftResult :=
  ⟨true, 2, UpdateExtSequence g addr 2⟩

/-- The function `Movb::LiftxD9`: its return value, `len` and the globals afterwards. -/
def Movb.LiftxD9 (addr : Nat) (g : Globals) : LiftResult :=
  ⟨true, 2, UpdateExtSequence g addr 2⟩

/-- The function `Movb::LiftxE4`: its return value, `len` and the globals afterwards. -/
def Movb.LiftxE4 (addr : Nat) (g : Globals) : LiftResult :=
  ⟨true, 4, UpdateExtSequence g addr 4⟩

/-- The function `Movb::LiftxE9`: its return value, `len` and the globals afterwards. -/
def Movb.LiftxE9 (addr : Nat) (g : Globals) : LiftResult :=
  ⟨true, 2, UpdateExtSequence g addr 2⟩

/-- The function `Movb::LiftxE1`: its return value, `len` and the globals afterwards. -/
def Movb.LiftxE1 (addr : Nat) (g : Globals) : LiftResult :=
  ⟨true, 2, UpdateExtSequence g addr 2⟩

/-- The function `Movb::LiftxE7`: its return value, `len` and the globals afterwards. -/
def Movb.LiftxE7 (addr : Nat) (g : Globals) : LiftResult :=
  ⟨true, 4, UpdateExtSequence g addr 4⟩

/-- The function `Movb::LiftxF1`: its return value, `len` and the globals afterwards. -/
def Movb.LiftxF1 (addr : Nat) (g : Globals) : LiftResult :=
  ⟨true, 2, UpdateExtSequence g addr 2⟩

/-- The function `Movb::LiftxF3`: its return value, `len` and the globals afterwards. -/
def Movb.LiftxF3 (addr : Nat) (g : Globals) : LiftResult :=
  ⟨true, 4, UpdateExtSequence g addr 4⟩

/-- The function `Movb::LiftxF4`: its return value, `len` and the globals afterwards. -/
def Movb.LiftxF4 (addr : Nat) (g : Globals) : LiftResult :=
  ⟨true, 4, UpdateExtSequence g addr 4⟩

/-- The function `Movb::LiftxF7`: its return value, `len` and the globals afterwards. -/
def Movb.LiftxF7 (addr : Nat) (g : Globals) : LiftResult :=
  ⟨true, 4, UpdateExtSequence g addr 4⟩

/-- The function `Movbs::LiftxD0`: its return value, `len` and the globals afterwards. -/
def Movbs.LiftxD0 (addr : Nat) (g : Globals) : LiftResult :=
  ⟨true, 2, UpdateExtSequence g addr 2⟩

/-- The function `Movbs::LiftxD2`: its return value, `len` and the globals afterwards. -/
def Movbs.LiftxD2 (addr : Nat) (g : Globals) : LiftResult :=
  ⟨true, 4, UpdateExtSequence g addr 4⟩

/-- The function `Movbs::LiftxD5`: its return value, `len` and the globals afterwards. -/
def Movbs.LiftxD5 (addr : Nat) (g : Globals) : LiftResult :=
  ⟨true, 4, UpdateExtSequence g addr 4⟩

/-- The function `Movbz::LiftxC0`: its return value, `len` and the globals afterwards. -/
def Movbz.LiftxC0 (addr : Nat) (g : Globals) : LiftResult :=
  ⟨true, 2, UpdateExtSequence g addr 2⟩

/-- The function `Movbz::LiftxC2`: its return value, `len` and the globals afterwards. -/
def Movbz.LiftxC2 (addr : Nat) (g : Globals) : LiftResult :=
  ⟨true, 4, UpdateExtSequence g addr 4⟩

/-- The function `Movbz::LiftxC5`: its return value, `len` and the globals afterwards. -/
def Movbz.LiftxC5 (addr : Nat) (g : Globals) : LiftResult :=
  ⟨true, 4, UpdateExtSequence g addr 4⟩

/-- The function `Mul::Lift`: its return value, `len` and the globals afterwards. -/
def Mul.Lift (addr : Nat) (g : Globals) : LiftResult :=
  ⟨true, Mul.length, UpdateExtSequence g addr Mul.length⟩

/-- The function `Mulu::Lift`: its return value, `len` and the globals afterwards. -/
def Mulu.Lift (addr : Nat) (g : Globals) : LiftResult :=
  ⟨true, Mulu.length, UpdateExtSequence g addr Mulu.length⟩

/-- The function `Neg::Lift`: its return value, `len` and the globals afterwards. -/
def Neg.Lift (addr : Nat) (g : Globals) : LiftResult :=
  ⟨true, Neg.length, UpdateExtSequence g addr Neg.length⟩

/-- The function `Negb::Lift`: its return value, `len` and the globals afterwards. -/
def Negb.Lift (addr : Nat) (g : Globals) : LiftResult :=
  ⟨true, Negb.length, UpdateExtSequence g addr Negb.length⟩

/-- The function `Nop::Lift`: its return value, `len` and the globals afterwards. -/
def Nop.Lift (addr : Nat) (g : Globals) : LiftResult :=
  ⟨true, Nop.length, UpdateExtSequence g addr Nop.length⟩

/-- The function `Or::Lift`: its return value, `len` and the globals afterwards. -/
def Or.Lift (op : Nat) (data : List Nat) (addr len : Nat) (g : Globals) : LiftResult :=
  if op = Opcodes.OR_RWN_RWM then ⟨LiftOpRnRm, 2, (UpdateExtSequence g addr 2)⟩
  else if op = Opcodes.OR_RWN_RWI_DATA3 then ⟨LiftOpRnRwiData3 data, 2, (UpdateExtSequence g addr 2)⟩
  else if op = Opcodes.OR_REG_DATA16 then ⟨LiftOpRegData 2, 4, (UpdateExtSequence g addr 4)⟩
  else if op = Opcodes.OR_REG_MEM then ⟨LiftOpRegMem, 4, (UpdateExtSequence g addr 4)⟩
  else if op = Opcodes.OR_MEM_REG then ⟨LiftOpMemReg, 4, (UpdateExtSequence g addr 4)⟩
  else ⟨false, len, g⟩

/-- The function `Orb::Lift`: its return value, `len` and the globals afterwards. -/
def Orb.Lift (op : Nat) (data : List Nat) (addr len : Nat) (g : Globals) : LiftResult :=
  if op = Opcodes.ORB_RBN_RBM then ⟨LiftOpRnRm, 2, (UpdateExtSequence g addr 2)⟩
  else if op = Opcodes.ORB_RBN_RWI_DATA3 then ⟨LiftOpRnRwiData3 data, 2, (UpdateExtSequence g addr 2)⟩
  else if op = Opcodes.ORB_REG_DATA8 then ⟨LiftOpRegData 1, 4, (UpdateExtSequence g addr 4)⟩
  else if op = Opcodes.ORB_REG_MEM then ⟨LiftOpRegMem, 4, (UpdateExtSequence g addr 4)⟩
  else if op = Opcodes.ORB_MEM_REG then ⟨LiftOpMemReg, 4, (UpdateExtSequence g addr 4)⟩
  else ⟨false, len, g⟩

/-- The function `Pop::Lift`: its return value, `len` and the globals afterwards. -/
def Pop.Lift (addr : Nat) (g : Globals) : LiftResult :=
  ⟨true, Pop.length, UpdateExtSequence g addr Pop.length⟩

/-- The function `Push::Lift`: its return value, `len` and the globals afterwards. -/
def Push.Lift (addr : Nat) (g : Globals) : LiftResult :=
  ⟨true, Push.length, UpdateExtSequence g addr Push.length⟩

/-- The function `Prior::Lift`: its return value, `len` and the globals afterwards. -/
def Prior.Lift (addr : Nat) (g : Globals) : LiftResult :=
  ⟨true, Prior.length, UpdateExtSequence g addr Prior.length⟩

/-- The function `Pwrdn::Lift`: its return value, `len` and the globals afterwards. -/
def Pwrdn.Lift (addr : Nat) (g : Globals) : LiftResult :=
  ⟨true, Pwrdn.length, UpdateExtSequence g addr Pwrdn.length⟩

/-- The function `Ret::Lift`: its return value, `len` and the globals afterwards. -/
def Ret.Lift (addr : Nat) (g : Globals) : LiftResult :=
  ⟨true, Ret.length, UpdateExtSequence g addr Ret.length⟩

/-- The function `Reti::Lift`: its return value, `len` and the globals afterwards. -/
def Reti.Lift (addr : Nat) (g : Globals) : LiftResult :=
  ⟨true, Reti.length, UpdateExtSequence g addr Reti.length⟩

/-- The function `Retp::Lift`: its return value, `len` and the globals afterwards. -/
def Retp.Lift (addr : Nat) (g : Globals) : LiftResult :=
  ⟨true, Retp.length, UpdateExtSequence g addr Retp.length⟩

/-- The function `Rets::Lift`: its return value, `len` and the globals afterwards. -/
def Rets.Lift (addr : Nat) (g : Globals) : LiftResult :=
  ⟨true, Rets.length, UpdateExtSequence g addr Rets.length⟩

/-- The function `Rol::Liftx0C`: its return value, `len` and the globals afterwards. -/
def Rol.Liftx0C (addr : Nat) (g : Globals) : LiftResult :=
  ⟨true, Rol.length, UpdateExtSequence g addr Rol.length⟩

/-- The function `Rol::Liftx1C`: its return value, `len` and the globals afterwards. -/
def Rol.Liftx1C (addr : Nat) (g : Globals) : LiftResult :=
  ⟨true, Rol.length, UpdateExtSequence g addr Rol.length⟩

/-- The function `Ror::Liftx2C`: its return value, `len` and the globals afterwards. -/
def Ror.Liftx2C (addr : Nat) (g : Globals) : LiftResult :=
  ⟨true, Ror.length, UpdateExtSequence g addr Ror.length⟩

/-- The function `Ror::Liftx3C`: its return value, `len` and the globals afterwards. -/
def Ror.Liftx3C (addr : Nat) (g : Globals) : LiftResult :=
  ⟨true, Ror.length, UpdateExtSequence g addr Ror.length⟩

/-- The function `Scxt::LiftxC6`: its return value, `len` and the globals afterwards. -/
def Scxt.LiftxC6 (addr : Nat) (g : Globals) : LiftResult :=
  ⟨true, Scxt.length, UpdateExtSequence g addr Scxt.length⟩

/-- The function `Scxt::LiftxD6`: its return value, `len` and the globals afterwards. -/
def Scxt.LiftxD6 (addr : Nat) (g : Globals) : LiftResult :=
  ⟨true, Scxt.length, UpdateExtSequence g addr Scxt.length⟩

/-- The function `Shl::Liftx4C`: its return value, `len` and the globals afterwards. -/
def Shl.Liftx4C (addr : Nat) (g : Globals) : LiftResult :=
  ⟨true, Shl.length, UpdateExtSequence g addr Shl.length⟩

/-- The function `Shl::Liftx5C`: its return value, `len` and the globals afterwards. -/
def Shl.Liftx5C (addr : Nat) (g : Globals) : LiftResult :=
  ⟨true, Shl.length, UpdateExtSequence g addr Shl.length⟩

/-- The function `Shr::Liftx6C`: its return value, `len` and the globals afterwards. -/
def Shr.Liftx6C (addr : Nat) (g : Globals) : LiftResult :=
  ⟨true, Shr.length, UpdateExtSequence g addr Shr.length⟩

/-- The function `Shr::Liftx7C`: its return value, `len` and the globals afterwards. -/
def Shr.Liftx7C (addr : Nat) (g : Globals) : LiftResult :=
  ⟨true, Shr.length, UpdateExtSequence g addr Shr.length⟩

/-- The function `Srst::Lift`: its return value, `len` and the globals afterwards. -/
def Srst.Lift (addr : Nat) (g : Globals) : LiftResult :=
  ⟨true, Srst.length, UpdateExtSequence g addr Srst.length⟩

/-- The function `Srvwdt::Lift`: its return value, `len` and the globals afterwards. -/
def Srvwdt.Lift (addr : Nat) (g : Globals) : LiftResult :=
  ⟨true, Srvwdt.length, UpdateExtSequence g addr Srvwdt.length⟩

/-- The function `Sub::Lift`: its return value, `len` and the globals afterwards. -/
def Sub.Lift (op : Nat) (data : List Nat) (addr len : Nat) (g : Globals) : LiftResult :=
  if op = Opcodes.SUB_RWN_RWM then ⟨LiftOpRnRm, 2, (UpdateExtSequence g addr 2)⟩
  else if op = Opcodes.SUB_RWN_RWI_DATA3 then ⟨LiftOpRnRwiData3 data, 2, (UpdateExtSequence g addr 2)⟩
  else if op = Opcodes.SUB_REG_DATA16 then ⟨LiftOpRegData 2, 4, (UpdateExtSequence g addr 4)⟩
  else if op = Opcodes.SUB_REG_MEM then ⟨LiftOpRegMem, 4, (UpdateExtSequence g addr 4)⟩
  else if op = Opcodes.SUB_MEM_REG then ⟨LiftOpMemReg, 4, (UpdateExtSequence g addr 4)⟩
  else ⟨false, len, g⟩

/-- The function `Subb::Lift`: its return value, `len` and the globals afterwards. -/
def Subb.Lift (op : Nat) (data : List Nat) (addr len : Nat) (g : Globals) : LiftResult :=
  if op = Opcodes.SUBB_RBN_RBM then ⟨LiftOpRnRm, 2, (UpdateExtSequence g addr 2)⟩
  else if op = Opcodes.SUBB_RBN_RWI_DATA3 then ⟨LiftOpRnRwiData3 data, 2, (UpdateExtSequence g addr 2)⟩
  else if op = Opcodes.SUBB_REG_DATA8 then ⟨LiftOpRegData 1, 4, (UpdateExtSequence g addr 4)⟩
  else if op = Opcodes.SUBB_REG_MEM then ⟨LiftOpRegMem, 4, (UpdateExtSequence g addr 4)⟩
  else if op = Opcodes.SUBB_MEM_REG then ⟨LiftOpMemReg, 4, (UpdateExtSequence g addr 4)⟩
  else ⟨false, len, g⟩

/-- The function `Subc::Lift`: its return value, `len` and the globals afterwards. -/
def Subc.Lift (op : Nat) (data : List Nat) (addr len : Nat) (g : Globals) : LiftResult :=
  if op = Opcodes.SUBC_RWN_RWM then ⟨LiftOpRnRm, 2, (UpdateExtSequence g addr 2)⟩
  else if op = Opcodes.SUBC_RWN_RWI_DATA3 then ⟨LiftOpRnRwiData3 data, 2, (UpdateExtSequence g addr 2)⟩
  else if op = Opcodes.SUBC_REG_DATA16 then ⟨LiftOpRegData 2, 4, (UpdateExtSequence g addr 4)⟩
  else if op = Opcodes.SUBC_REG_MEM then ⟨LiftOpRegMem, 4, (UpdateExtSequence g addr 4)⟩
  else if op = Opcodes.SUBC_MEM_REG then ⟨LiftOpMemReg, 4, (UpdateExtSequence g addr 4)⟩
  else ⟨false, len, g⟩

/-- The function `Subcb::Lift`: its return value, `len` and the globals afterwards. -/
def Subcb.Lift (op : Nat) (data : List Nat) (addr len : Nat) (g : Globals) : LiftResult :=
  if op = Opcodes.SUBCB_RBN_RBM then ⟨LiftOpRnRm, 2, (UpdateExtSequence g addr 2)⟩
  else if op = Opcodes.SUBCB_RBN_RWI_DATA3 then ⟨LiftOpRnRwiData3 data, 2, (UpdateExtSequence g addr 2)⟩
  else if op = Opcodes.SUBCB_REG_DATA8 then ⟨LiftOpRegData 1, 4, (UpdateExtSequence g addr 4)⟩
  else if op = Opcodes.SUBCB_REG_MEM then ⟨LiftOpRegMem, 4, (UpdateExtSequence g addr 4)⟩
  else if op = Opcodes.SUBCB_MEM_REG then ⟨LiftOpMemReg, 4, (UpdateExtSequence g addr 4)⟩
  else ⟨false, len, g⟩

/-- The function `Trap::Lift`: its return value, `len` and the globals afterwards. -/
def Trap.Lift (addr : Nat) (g : Globals) : LiftResult :=
  ⟨true, Trap.length, UpdateExtSequence g addr Trap.length⟩

/-- The function `Xor::Lift`: its return value, `len` and the globals afterwards. -/
def Xor.Lift (op : Nat) (data : List Nat) (addr len : Nat) (g : Globals) : LiftResult :=
  if op = Opcodes.XOR_RWN_RWM then ⟨LiftOpRnRm, 2, (UpdateExtSequence g addr 2)⟩
  else if op = Opcodes.XOR_RWN_RWI_DATA3 then ⟨LiftOpRnRwiData3 data, 2, (UpdateExtSequence g addr 2)⟩
  else if op = Opcodes.XOR_REG_DATA16 then ⟨LiftOpRegData 2, 4, (UpdateExtSequence g addr 4)⟩
  else if op = Opcodes.XOR_REG_MEM then ⟨LiftOpRegMem, 4, (UpdateExtSequence g addr 4)⟩
  else if op = Opcodes.XOR_MEM_REG then ⟨LiftOpMemReg, 4, (UpdateExtSequence g addr 4)⟩
  else ⟨false, len, g⟩

/-- The function `Xorb::Lift`: its return value, `len` and the globals afterwards. -/
def Xorb.Lift (op : Nat) (data : List Nat) (addr len : Nat) (g : Globals) : LiftResult :=
  if op = Opcodes.XORB_RBN_RBM then ⟨LiftOpRnRm, 2, (UpdateExtSequence g addr 2)⟩
  else if op = Opcodes.XORB_RBN_RWI_DATA3 then ⟨LiftOpRnRwiData3 data, 2, (UpdateExtSequence g addr 2)⟩
  else if op = Opcodes.XORB_REG_DATA8 then ⟨LiftOpRegData 1, 4, (UpdateExtSequence g addr 4)⟩
  else if op = Opcodes.XORB_REG_MEM then ⟨LiftOpRegMem, 4, (UpdateExtSequence g addr 4)⟩
  else if op = Opcodes.XORB_MEM_REG then ⟨LiftOpMemReg, 4, (UpdateExtSequence g addr 4)⟩
  else ⟨false, len, g⟩


/-- The function `Calla::Lift`. -/
def Calla.Lift (labels : Nat → Bool) (data : List Nat) (addr len : Nat) (g : Globals) :
    LiftResult :=
  let code := Calla.GetConditionCode data
  let target := Calla.GetTarget data addr
  if code = Conditions.CC_UC then
    ⟨true, Calla.length, UpdateExtSequence g addr Calla.length⟩
  else
    let t := labels target
    let f := labels ((addr + Calla.length) % 18446744073709551616)
    if !t || !f then ⟨false, len, g⟩
    else ⟨true, Calla.length, UpdateExtSequence g addr Calla.length⟩

/-- The function `Calli::Lift`. -/
def Calli.Lift (_labels : Nat → Bool) (_data : List Nat) (addr _len : Nat) (g : Globals) :
    LiftResult :=
  ⟨true, Calli.length, UpdateExtSequence g addr Calli.length⟩

/-- The function `Callr::Lift`. -/
def Callr.Lift (_labels : Nat → Bool) (_data : List Nat) (addr _len : Nat) (g : Globals) :
    LiftResult :=
  ⟨true, Callr.length, UpdateExtSequence g addr Callr.length⟩

/-- The function `Calls::Lift`. -/
def Calls.Lift (_labels : Nat → Bool) (_data : List Nat) (addr _len : Nat) (g : Globals) :
    LiftResult :=
  ⟨true, Calls.length, UpdateExtSequence g addr Calls.length⟩

/-- The function `ExtrAtomic::Lift`. -/
def ExtrAtomic.Lift (data : List Nat) (addr _len : Nat) (g : Globals) : LiftResult :=
  let num_insns := (((byteAt data 1 &&& 0b00110000) >>> 4) + 1) % 256
  ⟨true, ExtrAtomic.length,
    SetExtr g ((addr + ExtrAtomic.length) % 18446744073709551616) (num_insns - 1)⟩

/-- The function `Extprs::LiftxD7`. -/
def Extprs.LiftxD7 (data : List Nat) (addr _len : Nat) (g : Globals) : LiftResult :=
  let num_insns := (((byteAt data 1 &&& 0b00110000) >>> 4) + 1) % 256
  if byteAt data 1 &&& 0b11000000 = 0b00000000 then
    let seg8 := byteAt data 2
    ⟨true, 4, SetExtsSeg8 g ((addr + 4) % 18446744073709551616) seg8 (num_insns - 1)⟩
  else if byteAt data 1 &&& 0b11000000 = 0b01000000 then
    let pag10 := (((byteAt data 3 &&& 0b11) <<< 8) ||| byteAt data 2) % 65536
    ⟨true, 4, SetExtpPag10 g ((addr + 4) % 18446744073709551616) pag10 (num_insns - 1)⟩
  else if byteAt data 1 &&& 0b11000000 = 0b10000000 then
    ⟨true, 4, g⟩
  else
    ⟨true, 4, g⟩

/-- The function `Extprs::LiftxDC`. -/
def Extprs.LiftxDC (_data : List Nat) (_addr _len : Nat) (g : Globals) : LiftResult :=
  ⟨true, 2, g⟩

/-- The function `Jb::Lift`. -/
def Jb.Lift (labels : Nat → Bool) (data : List Nat) (addr len : Nat) (g : Globals) :
    LiftResult :=
  let target := Jb.GetTarget data addr
  let t := labels target
  let f := labels ((addr + Jb.length) % 18446744073709551616)
  if !t || !f then ⟨false, len, g⟩
  else ⟨true, Jb.length, UpdateExtSequence g addr Jb.length⟩

/-- The function `Jbc::Lift`. -/
def Jbc.Lift (labels : Nat → Bool) (data : List Nat) (addr len : Nat) (g : Globals) :
    LiftResult :=
  let target := Jbc.GetTarget data addr
  let t := labels target
  let f := labels ((addr + Jbc.length) % 18446744073709551616)
  if !t || !f then ⟨false, len, g⟩
  else ⟨true, Jbc.length, UpdateExtSequence g addr Jbc.length⟩

/-- The function `Jmpa::Lift`. -/
def Jmpa.Lift (labels : Nat → Bool) (data : List Nat) (addr len : Nat) (g : Globals) :
    LiftResult :=
  let code := Jmpa.GetConditionCode data
  let target := Jmpa.GetTarget data addr
  if code = Conditions.CC_UC then
    ⟨JumpDirect, Jmpa.length, UpdateExtSequence g addr Jmpa.length⟩
  else
    let t := labels target
    let f := labels ((addr + Jmpa.length) % 18446744073709551616)
    if !t || !f then ⟨false, len, g⟩
    else ⟨true, Jmpa.length, UpdateExtSequence g addr Jmpa.length⟩

/-- The function `Jmpi::Lift`. -/
def Jmpi.Lift (_labels : Nat → Bool) (data : List Nat) (addr len : Nat) (g : Globals) :
    LiftResult :=
  let code := GetData4High data Jmpi.length
  if code = Conditions.CC_UC then
    ⟨JumpIndirect, Jmpi.length, UpdateExtSequence g addr Jmpi.length⟩
  else ⟨false, len, g⟩

/-- The function `Jmpr::Lift`. -/
def Jmpr.Lift (labels : Nat → Bool) (data : List Nat) (addr len : Nat) (g : Globals) :
    LiftResult :=
  let code := Jmpr.GetConditionCode data
  let target := Jmpr.GetTarget data addr
  if code = Conditions.CC_UC then
    ⟨JumpDirect, Jmpr.length, UpdateExtSequence g addr Jmpr.length⟩
  else
    let t := labels target
    let f := labels ((addr + Jmpr.length) % 18446744073709551616)
    if !t || !f then ⟨false, len, g⟩
    else ⟨true, Jmpr.length, UpdateExtSequence g addr Jmpr.length⟩

/-- The function `Jmps::Lift`. -/
def Jmps.Lift (_labels : Nat → Bool) (_data : List Nat) (addr _len : Nat) (g : Globals) :
    LiftResult :=
  ⟨JumpDirect, Jmps.length, UpdateExtSequence g addr Jmps.length⟩

/-- The function `Jnb::Lift`. -/
def Jnb.Lift (labels : Nat → Bool) (data : List Nat) (addr len : Nat) (g : Globals) :
    LiftResult :=
  let target := Jnb.GetTarget data addr
  let t := labels target
  let f := labels ((addr + Jnb.length) % 18446744073709551616)
  if !t || !f then ⟨false, len, g⟩
  else ⟨true, Jnb.length, UpdateExtSequence g addr Jnb.length⟩

/-- The function `Jnbs::Lift`. -/
def Jnbs.Lift (labels : Nat → Bool) (data : List Nat) (addr len : Nat) (g : Globals) :
    LiftResult :=
  let target := Jnbs.GetTarget data addr
  let t := labels target
  let f := labels ((addr + Jnbs.length) % 18446744073709551616)
  if !t || !f then ⟨false, len, g⟩
  else ⟨true, Jnbs.length, UpdateExtSequence g addr Jnbs.length⟩


set_option maxRecDepth 8192 in
/-- The `switch` statement of `C166Architecture::GetInstructionLowLevelIL` on the opcode `op`;
`labels a` tells whether the host has a label for address `a`. -/
def GetInstructionLowLevelIL.switch (op : Nat) (labels : Nat → Bool) (data : List Nat)
    (addr len : Nat) (g : Globals) : LiftResult :=
  if op ∈ [Opcodes.ADD_RWN_RWM, Opcodes.ADD_RWN_RWI_DATA3] then
    Add.Lift op data addr len g
  else if op ∈ [Opcodes.ADDB_RBN_RBM, Opcodes.ADDB_RBN_RWI_DATA3] then
    Addb.Lift op data addr len g
  else if op ∈ [Opcodes.ADDC_RWN_RWM, Opcodes.ADDC_RWN_RWI_DATA3] then
    Addc.Lift op data addr len g
  else if op ∈ [Opcodes.ADDCB_RBN_RBM, Opcodes.ADDCB_RBN_RWI_DATA3] then
    Addcb.Lift op data addr len g
  else if op ∈ [Opcodes.AND_RWN_RWM, Opcodes.AND_RWN_RWI_DATA3] then
    And.Lift op data addr len g
  else if op ∈ [Opcodes.ANDB_RBN_RBM, Opcodes.ANDB_RBN_RWI_DATA3] then
    Andb.Lift op data addr len g
  else if op = Opcodes.ASHR_RWN_RWM then
    Ashr.LiftxAC addr g
  else if op = Opcodes.ASHR_RWN_DATA4 then
    Ashr.LiftxBC addr g
  else if op ∈ [Opcodes.BCLR_0, Opcodes.BCLR_1, Opcodes.BCLR_2,
      Opcodes.BCLR_3, Opcodes.BCLR_4, Opcodes.BCLR_5,
      Opcodes.BCLR_6, Opcodes.BCLR_7, Opcodes.BCLR_8,
      Opcodes.BCLR_9, Opcodes.BCLR_A, Opcodes.BCLR_B,
      Opcodes.BCLR_C, Opcodes.BCLR_D, Opcodes.BCLR_E,
      Opcodes.BCLR_F] then
    Bclr.Lift addr g
  else if op ∈ [Opcodes.BSET_0, Opcodes.BSET_1, Opcodes.BSET_2,
      Opcodes.BSET_3, Opcodes.BSET_4, Opcodes.BSET_5,
      Opcodes.BSET_6, Opcodes.BSET_7, Opcodes.BSET_8,
      Opcodes.BSET_9, Opcodes.BSET_A, Opcodes.BSET_B,
      Opcodes.BSET_C, Opcodes.BSET_D, Opcodes.BSET_E,
      Opcodes.BSET_F] then
    Bset.Lift addr g
  else if op ∈ [Opcodes.CMP_RWN_RWM, Opcodes.CMP_RWN_RWI_DATA3] then
    Cmp.Lift op data addr len g
  else if op ∈ [Opcodes.CMPB_RBN_RWI_DATA3, Opcodes.CMPB_RBN_RBM] then
    Cmpb.Lift op data addr len g
  else if op = Opcodes.CMPD1_RWN_DATA4 then
    Cmpd1.LiftxA0 addr g
  else if op = Opcodes.CMPD2_RWN_DATA4 then
    Cmpd2.LiftxB0 addr g
  else if op = Opcodes.CMPI1_RWN_DATA4 then
    Cmpi1.Liftx80 addr g
  else if op = Opcodes.CMPI2_RWN_DATA4 then
    Cmpi2.Liftx90 addr g
  else if op = Opcodes.CPL then
    Cpl.Lift addr g
  else if op = Opcodes.CPLB then
    Cplb.Lift addr g
  else if op = Opcodes.DIV then
    Div.Lift addr g
  else if op = Opcodes.DIVL then
    Divl.Lift addr g
  else if op = Opcodes.DIVLU then
    Divlu.Lift addr g
  else if op = Opcodes.DIVU then
    Divu.Lift addr g
  else if op = Opcodes.EXTPRS_RWM_COUNT then
    Extprs.LiftxDC data addr len g
  else if op = Opcodes.EXTR_ATOMIC then
    ExtrAtomic.Lift data addr len g
  else if op = Opcodes.MOV_RWN_RWM then
    Mov.LiftxF0 addr g
  else if op = Opcodes.MOV_RWN_DATA4 then
    Mov.LiftxE0 addr g
  else if op = Opcodes.MOV_RWN_REF_RWM then
    Mov.LiftxA8 addr g
  else if op = Opcodes.MOV_RWN_REF_POST_INC_RWM then
    Mov.Liftx98 addr g
  else if op = Opcodes.MOV_REF_RWM_RWN then
    Mov.LiftxB8 addr g
  else if op = Opcodes.MOV_REF_PRE_DEC_RWM_RWN then
    Mov.Liftx88 addr g
  else if op = Opcodes.MOV_REF_RWN_REF_RWM then
    Mov.LiftxC8 addr g
  else if op = Opcodes.MOV_REF_POST_INC_RWN_REF_RWM then
    Mov.LiftxD8 addr g
  else if op = Opcodes.MOV_REF_RWN_REF_POST_INC_RWM then
    Mov.LiftxE8 addr g
  else if op = Opcodes.MOVB_RBN_RBM then
    Movb.LiftxF1 addr g
  else if op = Opcodes.MOVB_RBN_DATA4 then
    Movb.LiftxE1 addr g
  else if op = Opcodes.MOVB_RBN_REF_RWM then
    Movb.LiftxA9 addr g
  else if op = Opcodes.MOVB_RBN_REF_POST_INC_RWM then
    Movb.Liftx99 addr g
  else if op = Opcodes.MOVB_REF_RWM_RBN then
    Movb.LiftxB9 addr g
  else if op = Opcodes.MOVB_REF_PRE_DEC_RWM_RBN then
    Movb.Liftx89 addr g
  else if op = Opcodes.MOVB_REF_RWN_REF_RWM then
    Movb.LiftxC9 addr g
  else if op = Opcodes.MOVB_REF_POST_INC_RWN_REF_RWM then
    Movb.LiftxD9 addr g
  else if op = Opcodes.MOVB_REF_RWN_REF_POST_INC_RWM then
    Movb.LiftxE9 addr g
  else if op = Opcodes.MOVBS_RWN_RBM then
    Movbs.LiftxD0 addr g
  else if op = Opcodes.MOVBZ_RWN_RBM then
    Movbz.LiftxC0 addr g
  else if op = Opcodes.MUL then
    Mul.Lift addr g
  else if op = Opcodes.MULU then
    Mulu.Lift addr g
  else if op = Opcodes.NEG then
    Neg.Lift addr g
  else if op = Opcodes.NEGB then
    Negb.Lift addr g
  else if op = Opcodes.NOP then
    Nop.Lift addr g
  else if op ∈ [Opcodes.OR_RWN_RWM, Opcodes.OR_RWN_RWI_DATA3] then
    Or.Lift op data addr len g
  else if op ∈ [Opcodes.ORB_RBN_RBM, Opcodes.ORB_RBN_RWI_DATA3] then
    Orb.Lift op data addr len g
  else if op = Opcodes.POP then
    Pop.Lift addr g
  else if op = Opcodes.PRIOR then
    Prior.Lift addr g
  else if op = Opcodes.PUSH then
    Push.Lift addr g
  else if op = Opcodes.SHL_RWN_RWM then
    Shl.Liftx4C addr g
  else if op = Opcodes.SHL_RWN_DATA4 then
    Shl.Liftx5C addr g
  else if op = Opcodes.SHR_RWN_RWM then
    Shr.Liftx6C addr g
  else if op = Opcodes.SHR_RWN_DATA4 then
    Shr.Liftx7C addr g
  else if op ∈ [Opcodes.SUB_RWN_RWM, Opcodes.SUB_RWN_RWI_DATA3] then
    Sub.Lift op data addr len g
  else if op ∈ [Opcodes.SUBB_RBN_RBM, Opcodes.SUBB_RBN_RWI_DATA3] then
    Subb.Lift op data addr len g
  else if op ∈ [Opcodes.SUBC_RWN_RWM, Opcodes.SUBC_RWN_RWI_DATA3] then
    Subc.Lift op data addr len g
  else if op ∈ [Opcodes.SUBCB_RBN_RBM, Opcodes.SUBCB_RBN_RWI_DATA3] then
    Subcb.Lift op data addr len g
  else if op ∈ [Opcodes.XOR_RWN_RWM, Opcodes.XOR_RWN_RWI_DATA3] then
    Xor.Lift op data addr len g
  else if op ∈ [Opcodes.XORB_RBN_RBM, Opcodes.XORB_RBN_RWI_DATA3] then
    Xorb.Lift op data addr len g
  else if op ∈ [Opcodes.ADD_REG_MEM, Opcodes.ADD_MEM_REG, Opcodes.ADD_REG_DATA16] then
    Add.Lift op data addr len g
  else if op ∈ [Opcodes.ADDB_REG_MEM, Opcodes.ADDB_MEM_REG, Opcodes.ADDB_REG_DATA8] then
    Addb.Lift op data addr len g
  else if op ∈ [Opcodes.ADDC_REG_MEM, Opcodes.ADDC_MEM_REG, Opcodes.ADDC_REG_DATA16] then
    Addc.Lift op data addr len g
  else if op ∈ [Opcodes.ADDCB_REG_MEM, Opcodes.ADDCB_MEM_REG, Opcodes.ADDCB_REG_DATA8] then
    Addcb.Lift op data addr len g
  else if op ∈ [Opcodes.AND_REG_MEM, Opcodes.AND_MEM_REG, Opcodes.AND_REG_DATA16] then
    And.Lift op data addr len g
  else if op ∈ [Opcodes.ANDB_REG_MEM, Opcodes.ANDB_MEM_REG, Opcodes.ANDB_REG_DATA8] then
    Andb.Lift op data addr len g
  else if op = Opcodes.BAND then
    Band.Lift addr g
  else if op = Opcodes.BCMP then
    Bcmp.Lift addr g
  else if op = Opcodes.BFLDH then
    Bfldh.Lift addr g
  else if op = Opcodes.BFLDL then
    Bfldl.Lift addr g
  else if op = Opcodes.BMOV then
    Bmov.Lift addr g
  else if op = Opcodes.BMOVN then
    Bmovn.Lift addr g
  else if op = Opcodes.BOR then
    Bor.Lift addr g
  else if op = Opcodes.BXOR then
    Bxor.Lift addr g
  else if op ∈ [Opcodes.CMP_REG_DATA16, Opcodes.CMP_REG_MEM] then
    Cmp.Lift op data addr len g
  else if op ∈ [Opcodes.CMPB_REG_DATA8, Opcodes.CMPB_REG_MEM] then
    Cmpb.Lift op data addr len g
  else if op = Opcodes.CMPD1_RWN_MEM then
    Cmpd1.LiftxA2 addr g
  else if op = Opcodes.CMPD1_RWN_DATA16 then
    Cmpd1.LiftxA6 addr g
  else if op = Opcodes.CMPD2_RWN_MEM then
    Cmpd2.LiftxB2 addr g
  else if op = Opcodes.CMPD2_RWN_DATA16 then
    Cmpd2.LiftxB6 addr g
  else if op = Opcodes.CMPI1_RWN_MEM then
    Cmpi1.Liftx82 addr g
  else if op = Opcodes.CMPI1_RWN_DATA16 then
    Cmpi1.Liftx86 addr g
  else if op = Opcodes.CMPI2_RWN_MEM then
    Cmpi2.Liftx92 addr g
  else if op = Opcodes.CMPI2_RWN_DATA16 then
    Cmpi2.Liftx96 addr g
  else if op = Opcodes.DISWDT then
    Diswdt.Lift addr g
  else if op = Opcodes.EINIT then
    Einit.Lift addr g
  else if op = Opcodes.EXTPRS_PAG_SEG_COUNT then
    Extprs.LiftxD7 data addr len g
  else if op = Opcodes.IDLE then
    Idle.Lift addr g
  else if op = Opcodes.MOV_REG_DATA16 then
    Mov.LiftxE6 addr g
  else if op = Opcodes.MOV_RWN_REF_RWM_DATA16 then
    Mov.LiftxD4 addr g
  else if op = Opcodes.MOV_REF_RWM_DATA16_RWN then
    Mov.LiftxC4 addr g
  else if op = Opcodes.MOV_REF_RWN_MEM then
    Mov.Liftx84 addr g
  else if op = Opcodes.MOV_MEM_REF_RWN then
    Mov.Liftx94 addr g
  else if op = Opcodes.MOV_REG_MEM then
    Mov.LiftxF2 addr g
  else if op = Opcodes.MOV_MEM_REG then
    Mov.LiftxF6 addr g
  else if op = Opcodes.MOVB_REG_DATA8 then
    Movb.LiftxE7 addr g
  else if op = Opcodes.MOVB_RBN_REF_RWM_DATA16 then
    Movb.LiftxF4 addr g
  else if op = Opcodes.MOVB_REF_RWM_DATA16_RBN then
    Movb.LiftxE4 addr g
  else if op = Opcodes.MOVB_REF_RWN_MEM then
    Movb.LiftxA4 addr g
  else if op = Opcodes.MOVB_MEM_REF_RWN then
    Movb.LiftxB4 addr g
  else if op = Opcodes.MOVB_REG_MEM then
    Movb.LiftxF3 addr g
  else if op = Opcodes.MOVB_MEM_REG then
    Movb.LiftxF7 addr g
  else if op = Opcodes.MOVBS_REG_MEM then
    Movbs.LiftxD2 addr g
  else if op = Opcodes.MOVBS_MEM_REG then
    Movbs.LiftxD5 addr g
  else if op = Opcodes.MOVBZ_REG_MEM then
    Movbz.LiftxC2 addr g
  else if op = Opcodes.MOVBZ_MEM_REG then
    Movbz.LiftxC5 addr g
  else if op ∈ [Opcodes.OR_REG_DATA16, Opcodes.OR_REG_MEM, Opcodes.OR_MEM_REG] then
    Or.Lift op data addr len g
  else if op ∈ [Opcodes.ORB_REG_DATA8, Opcodes.ORB_REG_MEM, Opcodes.ORB_MEM_REG] then
    Orb.Lift op data addr len g
  else if op = Opcodes.PWRDN then
    Pwrdn.Lift addr g
  else if op = Opcodes.ROL_RWN_RWM then
    Rol.Liftx0C addr g
  else if op = Opcodes.ROL_RWN_DATA4 then
    Rol.Liftx1C addr g
  else if op = Opcodes.ROR_RWN_RWM then
    Ror.Liftx2C addr g
  else if op = Opcodes.ROR_RWN_DATA4 then
    Ror.Liftx3C addr g
  else if op = Opcodes.SCXT_REG_DATA16 then
    Scxt.LiftxC6 addr g
  else if op = Opcodes.SCXT_REG_MEM then
    Scxt.LiftxD6 addr g
  else if op = Opcodes.SRST then
    Srst.Lift addr g
  else if op = Opcodes.SRVWDT then
    Srvwdt.Lift addr g
  else if op ∈ [Opcodes.SUB_REG_DATA16, Opcodes.SUB_REG_MEM, Opcodes.SUB_MEM_REG] then
    Sub.Lift op data addr len g
  else if op ∈ [Opcodes.SUBB_REG_DATA8, Opcodes.SUBB_REG_MEM, Opcodes.SUBB_MEM_REG] then
    Subb.Lift op data addr len g
  else if op ∈ [Opcodes.SUBC_REG_DATA16, Opcodes.SUBC_REG_MEM, Opcodes.SUBC_MEM_REG] then
    Subc.Lift op data addr len g
  else if op ∈ [Opcodes.SUBCB_REG_DATA8, Opcodes.SUBCB_REG_MEM, Opcodes.SUBCB_MEM_REG] then
    Subcb.Lift op data addr len g
  else if op ∈ [Opcodes.XOR_REG_DATA16, Opcodes.XOR_REG_MEM, Opcodes.XOR_MEM_REG] then
    Xor.Lift op data addr len g
  else if op ∈ [Opcodes.XORB_REG_DATA8, Opcodes.XORB_REG_MEM, Opcodes.XORB_MEM_REG] then
    Xorb.Lift op data addr len g
  else if op = Opcodes.CALLA then
    Calla.Lift labels data addr len g
  else if op = Opcodes.CALLI then
    Calli.Lift labels data addr len g
  else if op = Opcodes.CALLR then
    Callr.Lift labels data addr len g
  else if op = Opcodes.CALLS then
    Calls.Lift labels data addr len g
  else if op = Opcodes.JB then
    Jb.Lift labels data addr len g
  else if op = Opcodes.JBC then
    Jbc.Lift labels data addr len g
  else if op = Opcodes.JMPI then
    Jmpi.Lift labels data addr len g
  else if op = Opcodes.JMPA then
    Jmpa.Lift labels data addr len g
  else if op ∈ [Opcodes.JMPR_UC, Opcodes.JMPR_NET, Opcodes.JMPR_Z,
      Opcodes.JMPR_NZ, Opcodes.JMPR_V, Opcodes.JMPR_NV,
      Opcodes.JMPR_N, Opcodes.JMPR_NN, Opcodes.JMPR_ULT,
      Opcodes.JMPR_SGT, Opcodes.JMPR_UGE, Opcodes.JMPR_SLE,
      Opcodes.JMPR_SLT, Opcodes.JMPR_SGE, Opcodes.JMPR_UGT,
      Opcodes.JMPR_ULE] then
    Jmpr.Lift labels data addr len g
  else if op = Opcodes.JMPS then
    Jmps.Lift labels data addr len g
  else if op = Opcodes.JNB then
    Jnb.Lift labels data addr len g
  else if op = Opcodes.JNBS then
    Jnbs.Lift labels data addr len g
  else if op = Opcodes.PCALL then
    ⟨false, len, g⟩
  else if op = Opcodes.RET then
    Ret.Lift addr g
  else if op = Opcodes.RETP then
    Retp.Lift addr g
  else if op = Opcodes.RETS then
    Rets.Lift addr g
  else if op = Opcodes.RETI then
    Reti.Lift addr g
  else if op = Opcodes.TRAP then
    Trap.Lift addr g
  else ⟨false, len, g⟩

/-- The function `C166Architecture::GetInstructionLowLevelIL`: its return value, `len` and the
globals afterwards, for the opcode `*(const uint16_t*)data & 0xFF`. -/
def GetInstructionLowLevelIL (labels : Nat → Bool) (data : List Nat) (addr len : Nat) (g : Globals) :
    LiftResult :=
  GetInstructionLowLevelIL.switch (wordAt data 0 &&& 0xFF) labels data addr len g

/-! ## architecture.cpp: the case labels of the two switches

A `switch` reaches its `default:` exactly on the values that are none of its
`case` labels.  The labels of each `switch`, in the order of the source: -/

/-- The `case` labels of the `switch` of `C166Architecture::GetInstructionInfo`. -/
def GetInstructionInfo.caseLabels : List Nat :=
  [Opcodes.ADD_RWN_RWM, Opcodes.ADD_RWN_RWI_DATA3, Opcodes.ADDB_RBN_RBM,
   Opcodes.ADDB_RBN_RWI_DATA3, Opcodes.ADDC_RWN_RWM, Opcodes.ADDC_RWN_RWI_DATA3,
   Opcodes.ADDCB_RBN_RBM, Opcodes.ADDCB_RBN_RWI_DATA3, Opcodes.AND_RWN_RWM,
   Opcodes.AND_RWN_RWI_DATA3, Opcodes.ANDB_RBN_RBM, Opcodes.ANDB_RBN_RWI_DATA3,
   Opcodes.ASHR_RWN_RWM, Opcodes.ASHR_RWN_DATA4, Opcodes.BCLR_0, Opcodes.BCLR_1, Opcodes.BCLR_2,
   Opcodes.BCLR_3, Opcodes.BCLR_4, Opcodes.BCLR_5, Opcodes.BCLR_6, Opcodes.BCLR_7,
   Opcodes.BCLR_8, Opcodes.BCLR_9, Opcodes.BCLR_A, Opcodes.BCLR_B, Opcodes.BCLR_C,
   Opcodes.BCLR_D, Opcodes.BCLR_E, Opcodes.BCLR_F, Opcodes.BSET_0, Opcodes.BSET_1,
   Opcodes.BSET_2, Opcodes.BSET_3, Opcodes.BSET_4, Opcodes.BSET_5, Opcodes.BSET_6,
   Opcodes.BSET_7, Opcodes.BSET_8, Opcodes.BSET_9, Opcodes.BSET_A, Opcodes.BSET_B,
   Opcodes.BSET_C, Opcodes.BSET_D, Opcodes.BSET_E, Opcodes.BSET_F, Opcodes.CMP_RWN_RWM,
   Opcodes.CMP_RWN_RWI_DATA3, Opcodes.CMPB_RBN_RBM, Opcodes.CMPB_RBN_RWI_DATA3,
   Opcodes.CMPD1_RWN_DATA4, Opcodes.CMPD2_RWN_DATA4, Opcodes.CMPI1_RWN_DATA4,
   Opcodes.CMPI2_RWN_DATA4, Opcodes.CPL, Opcodes.CPLB, Opcodes.DIV, Opcodes.DIVL, Opcodes.DIVLU,
   Opcodes.DIVU, Opcodes.EXTPRS_RWM_COUNT, Opcodes.EXTR_ATOMIC, Opcodes.MOV_RWN_RWM,
   Opcodes.MOV_RWN_DATA4, Opcodes.MOV_RWN_REF_RWM, Opcodes.MOV_RWN_REF_POST_INC_RWM,
   Opcodes.MOV_REF_RWM_RWN, Opcodes.MOV_REF_PRE_DEC_RWM_RWN, Opcodes.MOV_REF_RWN_REF_RWM,
   Opcodes.MOV_REF_POST_INC_RWN_REF_RWM, Opcodes.MOV_REF_RWN_REF_POST_INC_RWM,
   Opcodes.MOVB_RBN_RBM, Opcodes.MOVB_RBN_DATA4, Opcodes.MOVB_RBN_REF_RWM,
   Opcodes.MOVB_RBN_REF_POST_INC_RWM, Opcodes.MOVB_REF_RWM_RBN, Opcodes.MOVB_REF_PRE_DEC_RWM_RBN,
   Opcodes.MOVB_REF_RWN_REF_RWM, Opcodes.MOVB_REF_POST_INC_RWN_REF_RWM,
   Opcodes.MOVB_REF_RWN_REF_POST_INC_RWM, Opcodes.MOVBS_RWN_RBM, Opcodes.MOVBZ_RWN_RBM,
   Opcodes.MUL, Opcodes.MULU, Opcodes.NEG, Opcodes.NEGB, Opcodes.NOP, Opcodes.OR_RWN_RWM,
   Opcodes.OR_RWN_RWI_DATA3, Opcodes.ORB_RBN_RBM, Opcodes.ORB_RBN_RWI_DATA3, Opcodes.POP,
   Opcodes.PRIOR, Opcodes.PUSH, Opcodes.SHL_RWN_RWM, Opcodes.SHL_RWN_DATA4, Opcodes.SHR_RWN_RWM,
   Opcodes.SHR_RWN_DATA4, Opcodes.SUB_RWN_RWM, Opcodes.SUB_RWN_RWI_DATA3, Opcodes.SUBB_RBN_RBM,
   Opcodes.SUBB_RBN_RWI_DATA3, Opcodes.SUBC_RWN_RWM, Opcodes.SUBC_RWN_RWI_DATA3,
   Opcodes.SUBCB_RBN_RBM, Opcodes.SUBCB_RBN_RWI_DATA3, Opcodes.XOR_RWN_RWM,
   Opcodes.XOR_RWN_RWI_DATA3, Opcodes.XORB_RBN_RBM, Opcodes.XORB_RBN_RWI_DATA3,
   Opcodes.ADD_REG_MEM, Opcodes.ADD_MEM_REG, Opcodes.ADD_REG_DATA16, Opcodes.ADDB_REG_MEM,
   Opcodes.ADDB_MEM_REG, Opcodes.ADDB_REG_DATA8, Opcodes.ADDC_REG_MEM, Opcodes.ADDC_MEM_REG,
   Opcodes.ADDC_REG_DATA16, Opcodes.ADDCB_REG_MEM, Opcodes.ADDCB_MEM_REG,
   Opcodes.ADDCB_REG_DATA8, Opcodes.AND_REG_MEM, Opcodes.AND_MEM_REG, Opcodes.AND_REG_DATA16,
   Opcodes.ANDB_REG_MEM, Opcodes.ANDB_MEM_REG, Opcodes.ANDB_REG_DATA8, Opcodes.BAND,
   Opcodes.BCMP, Opcodes.BFLDH, Opcodes.BFLDL, Opcodes.BMOV, Opcodes.BMOVN, Opcodes.BOR,
   Opcodes.BXOR, Opcodes.CMP_REG_MEM, Opcodes.CMP_REG_DATA16, Opcodes.CMPB_REG_MEM,
   Opcodes.CMPB_REG_DATA8, Opcodes.CMPD1_RWN_MEM, Opcodes.CMPD1_RWN_DATA16,
   Opcodes.CMPD2_RWN_MEM, Opcodes.CMPD2_RWN_DATA16, Opcodes.CMPI1_RWN_MEM,
   Opcodes.CMPI1_RWN_DATA16, Opcodes.CMPI2_RWN_MEM, Opcodes.CMPI2_RWN_DATA16, Opcodes.DISWDT,
   Opcodes.EINIT, Opcodes.EXTPRS_PAG_SEG_COUNT, Opcodes.IDLE, Opcodes.MOV_REG_DATA16,
   Opcodes.MOV_RWN_REF_RWM_DATA16, Opcodes.MOV_REF_RWM_DATA16_RWN, Opcodes.MOV_REF_RWN_MEM,
   Opcodes.MOV_MEM_REF_RWN, Opcodes.MOV_REG_MEM, Opcodes.MOV_MEM_REG, Opcodes.MOVB_REG_DATA8,
   Opcodes.MOVB_RBN_REF_RWM_DATA16, Opcodes.MOVB_REF_RWM_DATA16_RBN, Opcodes.MOVB_REF_RWN_MEM,
   Opcodes.MOVB_MEM_REF_RWN, Opcodes.MOVB_REG_MEM, Opcodes.MOVB_MEM_REG, Opcodes.MOVBS_REG_MEM,
   Opcodes.MOVBS_MEM_REG, Opcodes.MOVBZ_REG_MEM, Opcodes.MOVBZ_MEM_REG, Opcodes.OR_REG_DATA16,
   Opcodes.OR_REG_MEM, Opcodes.OR_MEM_REG, Opcodes.ORB_REG_DATA8, Opcodes.ORB_REG_MEM,
   Opcodes.ORB_MEM_REG, Opcodes.PWRDN, Opcodes.ROL_RWN_RWM, Opcodes.ROL_RWN_DATA4,
   Opcodes.ROR_RWN_RWM, Opcodes.ROR_RWN_DATA4, Opcodes.SCXT_REG_DATA16, Opcodes.SCXT_REG_MEM,
   Opcodes.SRST, Opcodes.SRVWDT, Opcodes.SUB_REG_DATA16, Opcodes.SUB_REG_MEM,
   Opcodes.SUB_MEM_REG, Opcodes.SUBB_REG_DATA8, Opcodes.SUBB_REG_MEM, Opcodes.SUBB_MEM_REG,
   Opcodes.SUBC_REG_DATA16, Opcodes.SUBC_REG_MEM, Opcodes.SUBC_MEM_REG, Opcodes.SUBCB_REG_DATA8,
   Opcodes.SUBCB_REG_MEM, Opcodes.SUBCB_MEM_REG, Opcodes.XOR_REG_DATA16, Opcodes.XOR_REG_MEM,
   Opcodes.XOR_MEM_REG, Opcodes.XORB_REG_DATA8, Opcodes.XORB_REG_MEM, Opcodes.XORB_MEM_REG,
   Opcodes.CALLA, Opcodes.CALLI, Opcodes.CALLR, Opcodes.CALLS, Opcodes.JB, Opcodes.JBC,
   Opcodes.JMPI, Opcodes.JMPA, Opcodes.JMPR_UC, Opcodes.JMPR_NET, Opcodes.JMPR_Z,
   Opcodes.JMPR_NZ, Opcodes.JMPR_V, Opcodes.JMPR_NV, Opcodes.JMPR_N, Opcodes.JMPR_NN,
   Opcodes.JMPR_ULT, Opcodes.JMPR_SGT, Opcodes.JMPR_UGE, Opcodes.JMPR_SLE, Opcodes.JMPR_SLT,
   Opcodes.JMPR_SGE, Opcodes.JMPR_UGT, Opcodes.JMPR_ULE, Opcodes.JMPS, Opcodes.JNB, Opcodes.JNBS,
   Opcodes.PCALL, Opcodes.RET, Opcodes.RETP, Opcodes.RETS, Opcodes.RETI, Opcodes.TRAP]

/-- The `case` labels of the `switch` of `C166Architecture::GetInstructionLowLevelIL`. -/
def GetInstructionLowLevelIL.caseLabels : List Nat :=
  [Opcodes.ADD_RWN_RWM, Opcodes.ADD_RWN_RWI_DATA3, Opcodes.ADDB_RBN_RBM,
   Opcodes.ADDB_RBN_RWI_DATA3, Opcodes.ADDC_RWN_RWM, Opcodes.ADDC_RWN_RWI_DATA3,
   Opcodes.ADDCB_RBN_RBM, Opcodes.ADDCB_RBN_RWI_DATA3, Opcodes.AND_RWN_RWM,
   Opcodes.AND_RWN_RWI_DATA3, Opcodes.ANDB_RBN_RBM, Opcodes.ANDB_RBN_RWI_DATA3,
   Opcodes.ASHR_RWN_RWM, Opcodes.ASHR_RWN_DATA4, Opcodes.BCLR_0, Opcodes.BCLR_1, Opcodes.BCLR_2,
   Opcodes.BCLR_3, Opcodes.BCLR_4, Opcodes.BCLR_5, Opcodes.BCLR_6, Opcodes.BCLR_7,
   Opcodes.BCLR_8, Opcodes.BCLR_9, Opcodes.BCLR_A, Opcodes.BCLR_B, Opcodes.BCLR_C,
   Opcodes.BCLR_D, Opcodes.BCLR_E, Opcodes.BCLR_F, Opcodes.BSET_0, Opcodes.BSET_1,
   Opcodes.BSET_2, Opcodes.BSET_3, Opcodes.BSET_4, Opcodes.BSET_5, Opcodes.BSET_6,
   Opcodes.BSET_7, Opcodes.BSET_8, Opcodes.BSET_9, Opcodes.BSET_A, Opcodes.BSET_B,
   Opcodes.BSET_C, Opcodes.BSET_D, Opcodes.BSET_E, Opcodes.BSET_F, Opcodes.CMP_RWN_RWM,
   Opcodes.CMP_RWN_RWI_DATA3, Opcodes.CMPB_RBN_RWI_DATA3, Opcodes.CMPB_RBN_RBM,
   Opcodes.CMPD1_RWN_DATA4, Opcodes.CMPD2_RWN_DATA4, Opcodes.CMPI1_RWN_DATA4,
   Opcodes.CMPI2_RWN_DATA4, Opcodes.CPL, Opcodes.CPLB, Opcodes.DIV, Opcodes.DIVL, Opcodes.DIVLU,
   Opcodes.DIVU, Opcodes.EXTPRS_RWM_COUNT, Opcodes.EXTR_ATOMIC, Opcodes.MOV_RWN_RWM,
   Opcodes.MOV_RWN_DATA4, Opcodes.MOV_RWN_REF_RWM, Opcodes.MOV_RWN_REF_POST_INC_RWM,
   Opcodes.MOV_REF_RWM_RWN, Opcodes.MOV_REF_PRE_DEC_RWM_RWN, Opcodes.MOV_REF_RWN_REF_RWM,
   Opcodes.MOV_REF_POST_INC_RWN_REF_RWM, Opcodes.MOV_REF_RWN_REF_POST_INC_RWM,
   Opcodes.MOVB_RBN_RBM, Opcodes.MOVB_RBN_DATA4, Opcodes.MOVB_RBN_REF_RWM,
   Opcodes.MOVB_RBN_REF_POST_INC_RWM, Opcodes.MOVB_REF_RWM_RBN, Opcodes.MOVB_REF_PRE_DEC_RWM_RBN,
   Opcodes.MOVB_REF_RWN_REF_RWM, Opcodes.MOVB_REF_POST_INC_RWN_REF_RWM,
   Opcodes.MOVB_REF_RWN_REF_POST_INC_RWM, Opcodes.MOVBS_RWN_RBM, Opcodes.MOVBZ_RWN_RBM,
   Opcodes.MUL, Opcodes.MULU, Opcodes.NEG, Opcodes.NEGB, Opcodes.NOP, Opcodes.OR_RWN_RWM,
   Opcodes.OR_RWN_RWI_DATA3, Opcodes.ORB_RBN_RBM, Opcodes.ORB_RBN_RWI_DATA3, Opcodes.POP,
   Opcodes.PRIOR, Opcodes.PUSH, Opcodes.SHL_RWN_RWM, Opcodes.SHL_RWN_DATA4, Opcodes.SHR_RWN_RWM,
   Opcodes.SHR_RWN_DATA4, Opcodes.SUB_RWN_RWM, Opcodes.SUB_RWN_RWI_DATA3, Opcodes.SUBB_RBN_RBM,
   Opcodes.SUBB_RBN_RWI_DATA3, Opcodes.SUBC_RWN_RWM, Opcodes.SUBC_RWN_RWI_DATA3,
   Opcodes.SUBCB_RBN_RBM, Opcodes.SUBCB_RBN_RWI_DATA3, Opcodes.XOR_RWN_RWM,
   Opcodes.XOR_RWN_RWI_DATA3, Opcodes.XORB_RBN_RBM, Opcodes.XORB_RBN_RWI_DATA3,
   Opcodes.ADD_REG_MEM, Opcodes.ADD_MEM_REG, Opcodes.ADD_REG_DATA16, Opcodes.ADDB_REG_MEM,
   Opcodes.ADDB_MEM_REG, Opcodes.ADDB_REG_DATA8, Opcodes.ADDC_REG_MEM, Opcodes.ADDC_MEM_REG,
   Opcodes.ADDC_REG_DATA16, Opcodes.ADDCB_REG_MEM, Opcodes.ADDCB_MEM_REG,
   Opcodes.ADDCB_REG_DATA8, Opcodes.AND_REG_MEM, Opcodes.AND_MEM_REG, Opcodes.AND_REG_DATA16,
   Opcodes.ANDB_REG_MEM, Opcodes.ANDB_MEM_REG, Opcodes.ANDB_REG_DATA8, Opcodes.BAND,
   Opcodes.BCMP, Opcodes.BFLDH, Opcodes.BFLDL, Opcodes.BMOV, Opcodes.BMOVN, Opcodes.BOR,
   Opcodes.BXOR, Opcodes.CMP_REG_DATA16, Opcodes.CMP_REG_MEM, Opcodes.CMPB_REG_DATA8,
   Opcodes.CMPB_REG_MEM, Opcodes.CMPD1_RWN_MEM, Opcodes.CMPD1_RWN_DATA16, Opcodes.CMPD2_RWN_MEM,
   Opcodes.CMPD2_RWN_DATA16, Opcodes.CMPI1_RWN_MEM, Opcodes.CMPI1_RWN_DATA16,
   Opcodes.CMPI2_RWN_MEM, Opcodes.CMPI2_RWN_DATA16, Opcodes.DISWDT, Opcodes.EINIT,
   Opcodes.EXTPRS_PAG_SEG_COUNT, Opcodes.IDLE, Opcodes.MOV_REG_DATA16,
   Opcodes.MOV_RWN_REF_RWM_DATA16, Opcodes.MOV_REF_RWM_DATA16_RWN, Opcodes.MOV_REF_RWN_MEM,
   Opcodes.MOV_MEM_REF_RWN, Opcodes.MOV_REG_MEM, Opcodes.MOV_MEM_REG, Opcodes.MOVB_REG_DATA8,
   Opcodes.MOVB_RBN_REF_RWM_DATA16, Opcodes.MOVB_REF_RWM_DATA16_RBN, Opcodes.MOVB_REF_RWN_MEM,
   Opcodes.MOVB_MEM_REF_RWN, Opcodes.MOVB_REG_MEM, Opcodes.MOVB_MEM_REG, Opcodes.MOVBS_REG_MEM,
   Opcodes.MOVBS_MEM_REG, Opcodes.MOVBZ_REG_MEM, Opcodes.MOVBZ_MEM_REG, Opcodes.OR_REG_DATA16,
   Opcodes.OR_REG_MEM, Opcodes.OR_MEM_REG, Opcodes.ORB_REG_DATA8, Opcodes.ORB_REG_MEM,
   Opcodes.ORB_MEM_REG, Opcodes.PWRDN, Opcodes.ROL_RWN_RWM, Opcodes.ROL_RWN_DATA4,
   Opcodes.ROR_RWN_RWM, Opcodes.ROR_RWN_DATA4, Opcodes.SCXT_REG_DATA16, Opcodes.SCXT_REG_MEM,
   Opcodes.SRST, Opcodes.SRVWDT, Opcodes.SUB_REG_DATA16, Opcodes.SUB_REG_MEM,
   Opcodes.SUB_MEM_REG, Opcodes.SUBB_REG_DATA8, Opcodes.SUBB_REG_MEM, Opcodes.SUBB_MEM_REG,
   Opcodes.SUBC_REG_DATA16, Opcodes.SUBC_REG_MEM, Opcodes.SUBC_MEM_REG, Opcodes.SUBCB_REG_DATA8,
   Opcodes.SUBCB_REG_MEM, Opcodes.SUBCB_MEM_REG, Opcodes.XOR_REG_DATA16, Opcodes.XOR_REG_MEM,
   Opcodes.XOR_MEM_REG, Opcodes.XORB_REG_DATA8, Opcodes.XORB_REG_MEM, Opcodes.XORB_MEM_REG,
   Opcodes.CALLA, Opcodes.CALLI, Opcodes.CALLR, Opcodes.CALLS, Opcodes.JB, Opcodes.JBC,
   Opcodes.JMPI, Opcodes.JMPA, Opcodes.JMPR_UC, Opcodes.JMPR_NET, Opcodes.JMPR_Z,
   Opcodes.JMPR_NZ, Opcodes.JMPR_V, Opcodes.JMPR_NV, Opcodes.JMPR_N, Opcodes.JMPR_NN,
   Opcodes.JMPR_ULT, Opcodes.JMPR_SGT, Opcodes.JMPR_UGE, Opcodes.JMPR_SLE, Opcodes.JMPR_SLT,
   Opcodes.JMPR_SGE, Opcodes.JMPR_UGT, Opcodes.JMPR_ULE, Opcodes.JMPS, Opcodes.JNB, Opcodes.JNBS,
   Opcodes.PCALL, Opcodes.RET, Opcodes.RETP, Opcodes.RETS, Opcodes.RETI, Opcodes.TRAP]

/-! ## architecture.cpp: which arm a `switch` takes

The two `switch` statements once more, with the arm that control takes made visible:
`some` of what the statements under a `case` label return, `none` where control reaches
`default:`. -/

/-- The `switch` statement of `C166Architecture::GetInstructionInfo` on the opcode `op`:
`some` of what the `case` for `op` returns, `none` when `op` reaches `default:`. -/
def GetInstructionInfo.switchArm (op : Nat) (data : List Nat) (addr : Nat) (result : InstructionInfo) :
    Option (Bool × InstructionInfo) :=
  if op ∈ [Opcodes.ADD_RWN_RWM, Opcodes.ADD_RWN_RWI_DATA3, Opcodes.ADDB_RBN_RBM,
      Opcodes.ADDB_RBN_RWI_DATA3, Opcodes.ADDC_RWN_RWM, Opcodes.ADDC_RWN_RWI_DATA3,
      Opcodes.ADDCB_RBN_RBM, Opcodes.ADDCB_RBN_RWI_DATA3, Opcodes.AND_RWN_RWM,
      Opcodes.AND_RWN_RWI_DATA3, Opcodes.ANDB_RBN_RBM, Opcodes.ANDB_RBN_RWI_DATA3,
      Opcodes.ASHR_RWN_RWM, Opcodes.ASHR_RWN_DATA4, Opcodes.BCLR_0,
      Opcodes.BCLR_1, Opcodes.BCLR_2, Opcodes.BCLR_3,
      Opcodes.BCLR_4, Opcodes.BCLR_5, Opcodes.BCLR_6,
      Opcodes.BCLR_7, Opcodes.BCLR_8, Opcodes.BCLR_9,
      Opcodes.BCLR_A, Opcodes.BCLR_B, Opcodes.BCLR_C,
      Opcodes.BCLR_D, Opcodes.BCLR_E, Opcodes.BCLR_F,
      Opcodes.BSET_0, Opcodes.BSET_1, Opcodes.BSET_2,
      Opcodes.BSET_3, Opcodes.BSET_4, Opcodes.BSET_5,
      Opcodes.BSET_6, Opcodes.BSET_7, Opcodes.BSET_8,
      Opcodes.BSET_9, Opcodes.BSET_A, Opcodes.BSET_B,
      Opcodes.BSET_C, Opcodes.BSET_D, Opcodes.BSET_E,
      Opcodes.BSET_F, Opcodes.CMP_RWN_RWM, Opcodes.CMP_RWN_RWI_DATA3,
      Opcodes.CMPB_RBN_RBM, Opcodes.CMPB_RBN_RWI_DATA3, Opcodes.CMPD1_RWN_DATA4,
      Opcodes.CMPD2_RWN_DATA4, Opcodes.CMPI1_RWN_DATA4, Opcodes.CMPI2_RWN_DATA4,
      Opcodes.CPL, Opcodes.CPLB, Opcodes.DIV,
      Opcodes.DIVL, Opcodes.DIVLU, Opcodes.DIVU,
      Opcodes.EXTPRS_RWM_COUNT, Opcodes.EXTR_ATOMIC, Opcodes.MOV_RWN_RWM,
      Opcodes.MOV_RWN_DATA4, Opcodes.MOV_RWN_REF_RWM, Opcodes.MOV_RWN_REF_POST_INC_RWM,
      Opcodes.MOV_REF_RWM_RWN, Opcodes.MOV_REF_PRE_DEC_RWM_RWN, Opcodes.MOV_REF_RWN_REF_RWM,
      Opcodes.MOV_REF_POST_INC_RWN_REF_RWM, Opcodes.MOV_REF_RWN_REF_POST_INC_RWM, Opcodes.MOVB_RBN_RBM,
      Opcodes.MOVB_RBN_DATA4, Opcodes.MOVB_RBN_REF_RWM, Opcodes.MOVB_RBN_REF_POST_INC_RWM,
      Opcodes.MOVB_REF_RWM_RBN, Opcodes.MOVB_REF_PRE_DEC_RWM_RBN, Opcodes.MOVB_REF_RWN_REF_RWM,
      Opcodes.MOVB_REF_POST_INC_RWN_REF_RWM, Opcodes.MOVB_REF_RWN_REF_POST_INC_RWM, Opcodes.MOVBS_RWN_RBM,
      Opcodes.MOVBZ_RWN_RBM, Opcodes.MUL, Opcodes.MULU,
      Opcodes.NEG, Opcodes.NEGB, Opcodes.NOP,
      Opcodes.OR_RWN_RWM, Opcodes.OR_RWN_RWI_DATA3, Opcodes.ORB_RBN_RBM,
      Opcodes.ORB_RBN_RWI_DATA3, Opcodes.POP, Opcodes.PRIOR,
      Opcodes.PUSH, Opcodes.SHL_RWN_RWM, Opcodes.SHL_RWN_DATA4,
      Opcodes.SHR_RWN_RWM, Opcodes.SHR_RWN_DATA4, Opcodes.SUB_RWN_RWM,
      Opcodes.SUB_RWN_RWI_DATA3, Opcodes.SUBB_RBN_RBM, Opcodes.SUBB_RBN_RWI_DATA3,
      Opcodes.SUBC_RWN_RWM, Opcodes.SUBC_RWN_RWI_DATA3, Opcodes.SUBCB_RBN_RBM,
      Opcodes.SUBCB_RBN_RWI_DATA3, Opcodes.XOR_RWN_RWM, Opcodes.XOR_RWN_RWI_DATA3,
      Opcodes.XORB_RBN_RBM, Opcodes.XORB_RBN_RWI_DATA3] then
    some (true, { result with length := 2 })
  else if op ∈ [Opcodes.ADD_REG_MEM, Opcodes.ADD_MEM_REG, Opcodes.ADD_REG_DATA16,
      Opcodes.ADDB_REG_MEM, Opcodes.ADDB_MEM_REG, Opcodes.ADDB_REG_DATA8,
      Opcodes.ADDC_REG_MEM, Opcodes.ADDC_MEM_REG, Opcodes.ADDC_REG_DATA16,
      Opcodes.ADDCB_REG_MEM, Opcodes.ADDCB_MEM_REG, Opcodes.ADDCB_REG_DATA8,
      Opcodes.AND_REG_MEM, Opcodes.AND_MEM_REG, Opcodes.AND_REG_DATA16,
      Opcodes.ANDB_REG_MEM, Opcodes.ANDB_MEM_REG, Opcodes.ANDB_REG_DATA8,
      Opcodes.BAND, Opcodes.BCMP, Opcodes.BFLDH,
      Opcodes.BFLDL, Opcodes.BMOV, Opcodes.BMOVN,
      Opcodes.BOR, Opcodes.BXOR, Opcodes.CMP_REG_MEM,
      Opcodes.CMP_REG_DATA16, Opcodes.CMPB_REG_MEM, Opcodes.CMPB_REG_DATA8,
      Opcodes.CMPD1_RWN_MEM, Opcodes.CMPD1_RWN_DATA16, Opcodes.CMPD2_RWN_MEM,
      Opcodes.CMPD2_RWN_DATA16, Opcodes.CMPI1_RWN_MEM, Opcodes.CMPI1_RWN_DATA16,
      Opcodes.CMPI2_RWN_MEM, Opcodes.CMPI2_RWN_DATA16, Opcodes.DISWDT,
      Opcodes.EINIT, Opcodes.EXTPRS_PAG_SEG_COUNT, Opcodes.IDLE,
      Opcodes.MOV_REG_DATA16, Opcodes.MOV_RWN_REF_RWM_DATA16, Opcodes.MOV_REF_RWM_DATA16_RWN,
      Opcodes.MOV_REF_RWN_MEM, Opcodes.MOV_MEM_REF_RWN, Opcodes.MOV_REG_MEM,
      Opcodes.MOV_MEM_REG, Opcodes.MOVB_REG_DATA8, Opcodes.MOVB_RBN_REF_RWM_DATA16,
      Opcodes.MOVB_REF_RWM_DATA16_RBN, Opcodes.MOVB_REF_RWN_MEM, Opcodes.MOVB_MEM_REF_RWN,
      Opcodes.MOVB_REG_MEM, Opcodes.MOVB_MEM_REG, Opcodes.MOVBS_REG_MEM,
      Opcodes.MOVBS_MEM_REG, Opcodes.MOVBZ_REG_MEM, Opcodes.MOVBZ_MEM_REG,
      Opcodes.OR_REG_DATA16, Opcodes.OR_REG_MEM, Opcodes.OR_MEM_REG,
      Opcodes.ORB_REG_DATA8, Opcodes.ORB_REG_MEM, Opcodes.ORB_MEM_REG,
      Opcodes.PWRDN, Opcodes.ROL_RWN_RWM, Opcodes.ROL_RWN_DATA4,
      Opcodes.ROR_RWN_RWM, Opcodes.ROR_RWN_DATA4, Opcodes.SCXT_REG_DATA16,
      Opcodes.SCXT_REG_MEM, Opcodes.SRST, Opcodes.SRVWDT,
      Opcodes.SUB_REG_DATA16, Opcodes.SUB_REG_MEM, Opcodes.SUB_MEM_REG,
      Opcodes.SUBB_REG_DATA8, Opcodes.SUBB_REG_MEM, Opcodes.SUBB_MEM_REG,
      Opcodes.SUBC_REG_DATA16, Opcodes.SUBC_REG_MEM, Opcodes.SUBC_MEM_REG,
      Opcodes.SUBCB_REG_DATA8, Opcodes.SUBCB_REG_MEM, Opcodes.SUBCB_MEM_REG,
      Opcodes.XOR_REG_DATA16, Opcodes.XOR_REG_MEM, Opcodes.XOR_MEM_REG,
      Opcodes.XORB_REG_DATA8, Opcodes.XORB_REG_MEM, Opcodes.XORB_MEM_REG] then
    some (true, { result with length := 4 })
  else if op = Opcodes.CALLA then
    some (Calla.Info data addr result)
  else if op = Opcodes.CALLI then
    some (Calli.Info data addr result)
  else if op = Opcodes.CALLR then
    some (Callr.Info data addr result)
  else if op = Opcodes.CALLS then
    some (Calls.Info data addr result)
  else if op = Opcodes.JB then
    some (Jb.Info data addr result)
  else if op = Opcodes.JBC then
    some (Jbc.Info data addr result)
  else if op = Opcodes.JMPI then
    some (Jmpi.Info data addr result)
  else if op = Opcodes.JMPA then
    some (Jmpa.Info data addr result)
  else if op ∈ [Opcodes.JMPR_UC, Opcodes.JMPR_NET, Opcodes.JMPR_Z,
      Opcodes.JMPR_NZ, Opcodes.JMPR_V, Opcodes.JMPR_NV,
      Opcodes.JMPR_N, Opcodes.JMPR_NN, Opcodes.JMPR_ULT,
      Opcodes.JMPR_SGT, Opcodes.JMPR_UGE, Opcodes.JMPR_SLE,
      Opcodes.JMPR_SLT, Opcodes.JMPR_SGE, Opcodes.JMPR_UGT,
      Opcodes.JMPR_ULE] then
    some (Jmpr.Info data addr result)
  else if op = Opcodes.JMPS then
    some (Jmps.Info data addr result)
  else if op = Opcodes.JNB then
    some (Jnb.Info data addr result)
  else if op = Opcodes.JNBS then
    some (Jnbs.Info data addr result)
  else if op = Opcodes.PCALL then
    some (false, result)
  else if op ∈ [Opcodes.RET, Opcodes.RETP, Opcodes.RETS,
      Opcodes.RETI] then
    some (true, { (result.AddBranch BranchType.FunctionReturn 0) with length := 2 })
  else if op = Opcodes.TRAP then
    some (Trap.Info data addr result)
  else none

set_option maxRecDepth 8192 in
/-- The `switch` statement of `C166Architecture::GetInstructionLowLevelIL` on the opcode
`op`: `some` of what the `case` for `op` returns, `none` when `op` reaches `default:`. -/
def GetInstructionLowLevelIL.switchArm (op : Nat) (labels : Nat → Bool) (data : List Nat)
    (addr len : Nat) (g : Globals) : Option LiftResult :=
  if op ∈ [Opcodes.ADD_RWN_RWM, Opcodes.ADD_RWN_RWI_DATA3] then
    some (Add.Lift op data addr len g)
  else if op ∈ [Opcodes.ADDB_RBN_RBM, Opcodes.ADDB_RBN_RWI_DATA3] then
    some (Addb.Lift op data addr len g)
  else if op ∈ [Opcodes.ADDC_RWN_RWM, Opcodes.ADDC_RWN_RWI_DATA3] then
    some (Addc.Lift op data addr len g)
  else if op ∈ [Opcodes.ADDCB_RBN_RBM, Opcodes.ADDCB_RBN_RWI_DATA3] then
    some (Addcb.Lift op data addr len g)
  else if op ∈ [Opcodes.AND_RWN_RWM, Opcodes.AND_RWN_RWI_DATA3] then
    some (And.Lift op data addr len g)
  else if op ∈ [Opcodes.ANDB_RBN_RBM, Opcodes.ANDB_RBN_RWI_DATA3] then
    some (Andb.Lift op data addr len g)
  else if op = Opcodes.ASHR_RWN_RWM then
    some (Ashr.LiftxAC addr g)
  else if op = Opcodes.ASHR_RWN_DATA4 then
    some (Ashr.LiftxBC addr g)
  else if op ∈ [Opcodes.BCLR_0, Opcodes.BCLR_1, Opcodes.BCLR_2,
      Opcodes.BCLR_3, Opcodes.BCLR_4, Opcodes.BCLR_5,
      Opcodes.BCLR_6, Opcodes.BCLR_7, Opcodes.BCLR_8,
      Opcodes.BCLR_9, Opcodes.BCLR_A, Opcodes.BCLR_B,
      Opcodes.BCLR_C, Opcodes.BCLR_D, Opcodes.BCLR_E,
      Opcodes.BCLR_F] then
    some (Bclr.Lift addr g)
  else if op ∈ [Opcodes.BSET_0, Opcodes.BSET_1, Opcodes.BSET_2,
      Opcodes.BSET_3, Opcodes.BSET_4, Opcodes.BSET_5,
      Opcodes.BSET_6, Opcodes.BSET_7, Opcodes.BSET_8,
      Opcodes.BSET_9, Opcodes.BSET_A, Opcodes.BSET_B,
      Opcodes.BSET_C, Opcodes.BSET_D, Opcodes.BSET_E,
      Opcodes.BSET_F] then
    some (Bset.Lift addr g)
  else if op ∈ [Opcodes.CMP_RWN_RWM, Opcodes.CMP_RWN_RWI_DATA3] then
    some (Cmp.Lift op data addr len g)
  else if op ∈ [Opcodes.CMPB_RBN_RWI_DATA3, Opcodes.CMPB_RBN_RBM] then
    some (Cmpb.Lift op data addr len g)
  else if op = Opcodes.CMPD1_RWN_DATA4 then
    some (Cmpd1.LiftxA0 addr g)
  else if op = Opcodes.CMPD2_RWN_DATA4 then
    some (Cmpd2.LiftxB0 addr g)
  else if op = Opcodes.CMPI1_RWN_DATA4 then
    some (Cmpi1.Liftx80 addr g)
  else if op = Opcodes.CMPI2_RWN_DATA4 then
    some (Cmpi2.Liftx90 addr g)
  else if op = Opcodes.CPL then
    some (Cpl.Lift addr g)
  else if op = Opcodes.CPLB then
    some (Cplb.Lift addr g)
  else if op = Opcodes.DIV then
    some (Div.Lift addr g)
  else if op = Opcodes.DIVL then
    some (Divl.Lift addr g)
  else if op = Opcodes.DIVLU then
    some (Divlu.Lift addr g)
  else if op = Opcodes.DIVU then
    some (Divu.Lift addr g)
  else if op = Opcodes.EXTPRS_RWM_COUNT then
    some (Extprs.LiftxDC data addr len g)
  else if op = Opcodes.EXTR_ATOMIC then
    some (ExtrAtomic.Lift data addr len g)
  else if op = Opcodes.MOV_RWN_RWM then
    some (Mov.LiftxF0 addr g)
  else if op = Opcodes.MOV_RWN_DATA4 then
    some (Mov.LiftxE0 addr g)
  else if op = Opcodes.MOV_RWN_REF_RWM then
    some (Mov.LiftxA8 addr g)
  else if op = Opcodes.MOV_RWN_REF_POST_INC_RWM then
    some (Mov.Liftx98 addr g)
  else if op = Opcodes.MOV_REF_RWM_RWN then
    some (Mov.LiftxB8 addr g)
  else if op = Opcodes.MOV_REF_PRE_DEC_RWM_RWN then
    some (Mov.Liftx88 addr g)
  else if op = Opcodes.MOV_REF_RWN_REF_RWM then
    some (Mov.LiftxC8 addr g)
  else if op = Opcodes.MOV_REF_POST_INC_RWN_REF_RWM then
    some (Mov.LiftxD8 addr g)
  else if op = Opcodes.MOV_REF_RWN_REF_POST_INC_RWM then
    some (Mov.LiftxE8 addr g)
  else if op = Opcodes.MOVB_RBN_RBM then
    some (Movb.LiftxF1 addr g)
  else if op = Opcodes.MOVB_RBN_DATA4 then
    some (Movb.LiftxE1 addr g)
  else if op = Opcodes.MOVB_RBN_REF_RWM then
    some (Movb.LiftxA9 addr g)
  else if op = Opcodes.MOVB_RBN_REF_POST_INC_RWM then
    some (Movb.Liftx99 addr g)
  else if op = Opcodes.MOVB_REF_RWM_RBN then
    some (Movb.LiftxB9 addr g)
  else if op = Opcodes.MOVB_REF_PRE_DEC_RWM_RBN then
    some (Movb.Liftx89 addr g)
  else if op = Opcodes.MOVB_REF_RWN_REF_RWM then
    some (Movb.LiftxC9 addr g)
  else if op = Opcodes.MOVB_REF_POST_INC_RWN_REF_RWM then
    some (Movb.LiftxD9 addr g)
  else if op = Opcodes.MOVB_REF_RWN_REF_POST_INC_RWM then
    some (Movb.LiftxE9 addr g)
  else if op = Opcodes.MOVBS_RWN_RBM then
    some (Movbs.LiftxD0 addr g)
  else if op = Opcodes.MOVBZ_RWN_RBM then
    some (Movbz.LiftxC0 addr g)
  else if op = Opcodes.MUL then
    some (Mul.Lift addr g)
  else if op = Opcodes.MULU then
    some (Mulu.Lift addr g)
  else if op = Opcodes.NEG then
    some (Neg.Lift addr g)
  else if op = Opcodes.NEGB then
    some (Negb.Lift addr g)
  else if op = Opcodes.NOP then
    some (Nop.Lift addr g)
  else if op ∈ [Opcodes.OR_RWN_RWM, Opcodes.OR_RWN_RWI_DATA3] then
    some (Or.Lift op data addr len g)
  else if op ∈ [Opcodes.ORB_RBN_RBM, Opcodes.ORB_RBN_RWI_DATA3] then
    some (Orb.Lift op data addr len g)
  else if op = Opcodes.POP then
    some (Pop.Lift addr g)
  else if op = Opcodes.PRIOR then
    some (Prior.Lift addr g)
  else if op = Opcodes.PUSH then
    some (Push.Lift addr g)
  else if op = Opcodes.SHL_RWN_RWM then
    some (Shl.Liftx4C addr g)
  else if op = Opcodes.SHL_RWN_DATA4 then
    some (Shl.Liftx5C addr g)
  else if op = Opcodes.SHR_RWN_RWM then
    some (Shr.Liftx6C addr g)
  else if op = Opcodes.SHR_RWN_DATA4 then
    some (Shr.Liftx7C addr g)
  else if op ∈ [Opcodes.SUB_RWN_RWM, Opcodes.SUB_RWN_RWI_DATA3] then
    some (Sub.Lift op data addr len g)
  else if op ∈ [Opcodes.SUBB_RBN_RBM, Opcodes.SUBB_RBN_RWI_DATA3] then
    some (Subb.Lift op data addr len g)
  else if op ∈ [Opcodes.SUBC_RWN_RWM, Opcodes.SUBC_RWN_RWI_DATA3] then
    some (Subc.Lift op data addr len g)
  else if op ∈ [Opcodes.SUBCB_RBN_RBM, Opcodes.SUBCB_RBN_RWI_DATA3] then
    some (Subcb.Lift op data addr len g)
  else if op ∈ [Opcodes.XOR_RWN_RWM, Opcodes.XOR_RWN_RWI_DATA3] then
    some (Xor.Lift op data addr len g)
  else if op ∈ [Opcodes.XORB_RBN_RBM, Opcodes.XORB_RBN_RWI_DATA3] then
    some (Xorb.Lift op data addr len g)
  else if op ∈ [Opcodes.ADD_REG_MEM, Opcodes.ADD_MEM_REG, Opcodes.ADD_REG_DATA16] then
    some (Add.Lift op data addr len g)
  else if op ∈ [Opcodes.ADDB_REG_MEM, Opcodes.ADDB_MEM_REG, Opcodes.ADDB_REG_DATA8] then
    some (Addb.Lift op data addr len g)
  else if op ∈ [Opcodes.ADDC_REG_MEM, Opcodes.ADDC_MEM_REG, Opcodes.ADDC_REG_DATA16] then
    some (Addc.Lift op data addr len g)
  else if op ∈ [Opcodes.ADDCB_REG_MEM, Opcodes.ADDCB_MEM_REG, Opcodes.ADDCB_REG_DATA8] then
    some (Addcb.Lift op data addr len g)
  else if op ∈ [Opcodes.AND_REG_MEM, Opcodes.AND_MEM_REG, Opcodes.AND_REG_DATA16] then
    some (And.Lift op data addr len g)
  else if op ∈ [Opcodes.ANDB_REG_MEM, Opcodes.ANDB_MEM_REG, Opcodes.ANDB_REG_DATA8] then
    some (Andb.Lift op data addr len g)
  else if op = Opcodes.BAND then
    some (Band.Lift addr g)
  else if op = Opcodes.BCMP then
    some (Bcmp.Lift addr g)
  else if op = Opcodes.BFLDH then
    some (Bfldh.Lift addr g)
  else if op = Opcodes.BFLDL then
    some (Bfldl.Lift addr g)
  else if op = Opcodes.BMOV then
    some (Bmov.Lift addr g)
  else if op = Opcodes.BMOVN then
    some (Bmovn.Lift addr g)
  else if op = Opcodes.BOR then
    some (Bor.Lift addr g)
  else if op = Opcodes.BXOR then
    some (Bxor.Lift addr g)
  else if op ∈ [Opcodes.CMP_REG_DATA16, Opcodes.CMP_REG_MEM] then
    some (Cmp.Lift op data addr len g)
  else if op ∈ [Opcodes.CMPB_REG_DATA8, Opcodes.CMPB_REG_MEM] then
    some (Cmpb.Lift op data addr len g)
  else if op = Opcodes.CMPD1_RWN_MEM then
    some (Cmpd1.LiftxA2 addr g)
  else if op = Opcodes.CMPD1_RWN_DATA16 then
    some (Cmpd1.LiftxA6 addr g)
  else if op = Opcodes.CMPD2_RWN_MEM then
    some (Cmpd2.LiftxB2 addr g)
  else if op = Opcodes.CMPD2_RWN_DATA16 then
    some (Cmpd2.LiftxB6 addr g)
  else if op = Opcodes.CMPI1_RWN_MEM then
    some (Cmpi1.Liftx82 addr g)
  else if op = Opcodes.CMPI1_RWN_DATA16 then
    some (Cmpi1.Liftx86 addr g)
  else if op = Opcodes.CMPI2_RWN_MEM then
    some (Cmpi2.Liftx92 addr g)
  else if op = Opcodes.CMPI2_RWN_DATA16 then
    some (Cmpi2.Liftx96 addr g)
  else if op = Opcodes.DISWDT then
    some (Diswdt.Lift addr g)
  else if op = Opcodes.EINIT then
    some (Einit.Lift addr g)
  else if op = Opcodes.EXTPRS_PAG_SEG_COUNT then
    some (Extprs.LiftxD7 data addr len g)
  else if op = Opcodes.IDLE then
    some (Idle.Lift addr g)
  else if op = Opcodes.MOV_REG_DATA16 then
    some (Mov.LiftxE6 addr g)
  else if op = Opcodes.MOV_RWN_REF_RWM_DATA16 then
    some (Mov.LiftxD4 addr g)
  else if op = Opcodes.MOV_REF_RWM_DATA16_RWN then
    some (Mov.LiftxC4 addr g)
  else if op = Opcodes.MOV_REF_RWN_MEM then
    some (Mov.Liftx84 addr g)
  else if op = Opcodes.MOV_MEM_REF_RWN then
    some (Mov.Liftx94 addr g)
  else if op = Opcodes.MOV_REG_MEM then
    some (Mov.LiftxF2 addr g)
  else if op = Opcodes.MOV_MEM_REG then
    some (Mov.LiftxF6 addr g)
  else if op = Opcodes.MOVB_REG_DATA8 then
    some (Movb.LiftxE7 addr g)
  else if op = Opcodes.MOVB_RBN_REF_RWM_DATA16 then
    some (Movb.LiftxF4 addr g)
  else if op = Opcodes.MOVB_REF_RWM_DATA16_RBN then
    some (Movb.LiftxE4 addr g)
  else if op = Opcodes.MOVB_REF_RWN_MEM then
    some (Movb.LiftxA4 addr g)
  else if op = Opcodes.MOVB_MEM_REF_RWN then
    some (Movb.LiftxB4 addr g)
  else if op = Opcodes.MOVB_REG_MEM then
    some (Movb.LiftxF3 addr g)
  else if op = Opcodes.MOVB_MEM_REG then
    some (Movb.LiftxF7 addr g)
  else if op = Opcodes.MOVBS_REG_MEM then
    some (Movbs.LiftxD2 addr g)
  else if op = Opcodes.MOVBS_MEM_REG then
    some (Movbs.LiftxD5 addr g)
  else if op = Opcodes.MOVBZ_REG_MEM then
    some (Movbz.LiftxC2 addr g)
  else if op = Opcodes.MOVBZ_MEM_REG then
    some (Movbz.LiftxC5 addr g)
  else if op ∈ [Opcodes.OR_REG_DATA16, Opcodes.OR_REG_MEM, Opcodes.OR_MEM_REG] then
    some (Or.Lift op data addr len g)
  else if op ∈ [Opcodes.ORB_REG_DATA8, Opcodes.ORB_REG_MEM, Opcodes.ORB_MEM_REG] then
    some (Orb.Lift op data addr len g)
  else if op = Opcodes.PWRDN then
    some (Pwrdn.Lift addr g)
  else if op = Opcodes.ROL_RWN_RWM then
    some (Rol.Liftx0C addr g)
  else if op = Opcodes.ROL_RWN_DATA4 then
    some (Rol.Liftx1C addr g)
  else if op = Opcodes.ROR_RWN_RWM then
    some (Ror.Liftx2C addr g)
  else if op = Opcodes.ROR_RWN_DATA4 then
    some (Ror.Liftx3C addr g)
  else if op = Opcodes.SCXT_REG_DATA16 then
    some (Scxt.LiftxC6 addr g)
  else if op = Opcodes.SCXT_REG_MEM then
    some (Scxt.LiftxD6 addr g)
  else if op = Opcodes.SRST then
    some (Srst.Lift addr g)
  else if op = Opcodes.SRVWDT then
    some (Srvwdt.Lift addr g)
  else if op ∈ [Opcodes.SUB_REG_DATA16, Opcodes.SUB_REG_MEM, Opcodes.SUB_MEM_REG] then
    some (Sub.Lift op data addr len g)
  else if op ∈ [Opcodes.SUBB_REG_DATA8, Opcodes.SUBB_REG_MEM, Opcodes.SUBB_MEM_REG] then
    some (Subb.Lift op data addr len g)
  else if op ∈ [Opcodes.SUBC_REG_DATA16, Opcodes.SUBC_REG_MEM, Opcodes.SUBC_MEM_REG] then
    some (Subc.Lift op data addr len g)
  else if op ∈ [Opcodes.SUBCB_REG_DATA8, Opcodes.SUBCB_REG_MEM, Opcodes.SUBCB_MEM_REG] then
    some (Subcb.Lift op data addr len g)
  else if op ∈ [Opcodes.XOR_REG_DATA16, Opcodes.XOR_REG_MEM, Opcodes.XOR_MEM_REG] then
    some (Xor.Lift op data addr len g)
  else if op ∈ [Opcodes.XORB_REG_DATA8, Opcodes.XORB_REG_MEM, Opcodes.XORB_MEM_REG] then
    some (Xorb.Lift op data addr len g)
  else if op = Opcodes.CALLA then
    some (Calla.Lift labels data addr len g)
  else if op = Opcodes.CALLI then
    some (Calli.Lift labels data addr len g)
  else if op = Opcodes.CALLR then
    some (Callr.Lift labels data addr len g)
  else if op = Opcodes.CALLS then
    some (Calls.Lift labels data addr len g)
  else if op = Opcodes.JB then
    some (Jb.Lift labels data addr len g)
  else if op = Opcodes.JBC then
    some (Jbc.Lift labels data addr len g)
  else if op = Opcodes.JMPI then
    some (Jmpi.Lift labels data addr len g)
  else if op = Opcodes.JMPA then
    some (Jmpa.Lift labels data addr len g)
  else if op ∈ [Opcodes.JMPR_UC, Opcodes.JMPR_NET, Opcodes.JMPR_Z,
      Opcodes.JMPR_NZ, Opcodes.JMPR_V, Opcodes.JMPR_NV,
      Opcodes.JMPR_N, Opcodes.JMPR_NN, Opcodes.JMPR_ULT,
      Opcodes.JMPR_SGT, Opcodes.JMPR_UGE, Opcodes.JMPR_SLE,
      Opcodes.JMPR_SLT, Opcodes.JMPR_SGE, Opcodes.JMPR_UGT,
      Opcodes.JMPR_ULE] then
    some (Jmpr.Lift labels data addr len g)
  else if op = Opcodes.JMPS then
    some (Jmps.Lift labels data addr len g)
  else if op = Opcodes.JNB then
    some (Jnb.Lift labels data addr len g)
  else if op = Opcodes.JNBS then
    some (Jnbs.Lift labels data addr len g)
  else if op = Opcodes.PCALL then
    some ⟨false, len, g⟩
  else if op = Opcodes.RET then
    some (Ret.Lift addr g)
  else if op = Opcodes.RETP then
    some (Retp.Lift addr g)
  else if op = Opcodes.RETS then
    some (Rets.Lift addr g)
  else if op = Opcodes.RETI then
    some (Reti.Lift addr g)
  else if op = Opcodes.TRAP then
    some (Trap.Lift addr g)
  else none

/-! ## A linear sweep

The lifter is called by the host, one instruction at a time.  A run of
instructions lifted in address order is the list of their buffers. -/

/-- The host's linear sweep over a run of instructions: the buffers `insns`
are lifted one after another by `GetInstructionLowLevelIL`, the first at
`addr`, each of the others at the address where the one before ended, on
`uint64_t`.  Gives the globals at the end and the address of every
instruction, or `none` when a lift fails. -/
def liftRun (labels : Nat → Bool) (g : Globals) (addr : Nat) :
    List (List Nat) → Option (Globals × List Nat)
  | [] => some (g, [])
  | data :: rest =>
    let r := GetInstructionLowLevelIL labels data addr data.length g
    if r.ok then
      match liftRun labels r.g ((addr + r.len) % 18446744073709551616) rest with
      | some (gf, sites) => some (gf, addr :: sites)
      | none => none
    else none

/-! ## util.cpp and lift.cpp: the IL that the lifter builds

A call `il.X(size, ...)` on the host's `LowLevelILFunction` builds an
expression and returns its id; the expression becomes an instruction of the
function only when `il.AddInstruction` is called with it.  The routines named
`.il` below give, for a lifting routine, the expressions it passes to
`il.AddInstruction`, in order. -/

/-- An expression of the host's low-level IL, as far as the routines below
build it: the call `il.X(size, ...)` is the term `ILExpr.X size ...`.  Where a
call leaves out its last argument `flags`, the term has the default 0. -/
inductive ILExpr where
  | Const (size value : Nat)
  | ConstPointer (size value : Nat)
  | Register (size reg : Nat)
  | SetRegister (size reg : Nat) (value : ILExpr) (flags : Nat)
  | Load (size : Nat) (addr : ILExpr)
  | Add (size : Nat) (a b : ILExpr)
  | And (size : Nat) (a b : ILExpr)
  | Or (size : Nat) (a b : ILExpr)
  | ShiftLeft (size : Nat) (a b : ILExpr)
  | LogicalShiftRight (size : Nat) (a b : ILExpr)
  | Unimplemented
  | UnimplementedMemoryRef (size : Nat) (addr : ILExpr)
  | Sub (size : Nat) (a b : ILExpr) (flags : Nat)
  | Store (size : Nat) (addr value : ILExpr) (flags : Nat)
deriving DecidableEq, Repr

/-- The value of an address expression for register contents `regs` and
memory contents `mem`: an operation of `size` bytes is taken modulo
`2 ^ (8 * size)`.  Instructions and markers have no value and are given 0. -/
def ILExpr.eval (regs : Nat → Nat) (mem : Nat → Nat) : ILExpr → Nat
  | .Const size value => value % 2 ^ (8 * size)
  | .ConstPointer size value => value % 2 ^ (8 * size)
  | .Register size reg => regs reg % 2 ^ (8 * size)
  | .SetRegister _ _ _ _ => 0
  | .Load size addr => mem (addr.eval regs mem) % 2 ^ (8 * size)
  | .Add size a b => (a.eval regs mem + b.eval regs mem) % 2 ^ (8 * size)
  | .And size a b => (a.eval regs mem &&& b.eval regs mem) % 2 ^ (8 * size)
  | .Or size a b => (a.eval regs mem ||| b.eval regs mem) % 2 ^ (8 * size)
  | .ShiftLeft size a b => (a.eval regs mem <<< b.eval regs mem) % 2 ^ (8 * size)
  | .LogicalShiftRight size a b => (a.eval regs mem >>> b.eval regs mem) % 2 ^ (8 * size)
  | .Unimplemented => 0
  | .UnimplementedMemoryRef _ _ => 0
  | .Sub size a b _ =>
    (a.eval regs mem + 2 ^ (8 * size) - b.eval regs mem % 2 ^ (8 * size)) % 2 ^ (8 * size)
  | .Store _ _ _ _ => 0

/-- The constant `Sfr::DPP0`. -/
def Sfr.DPP0 : Nat := 0xFE00

/-- The constant `Flags::WRITE_ALL`. -/
def Flags.WRITE_ALL : Nat := 0

/-- The constant `Flags::WRITE_Z`. -/
def Flags.WRITE_Z : Nat := 1

/-- The constant `Flags::WRITE_EZN`. -/
def Flags.WRITE_EZN : Nat := 2

/-- The constant `Mov::flags`. -/
def Mov.flags : Nat := Flags.WRITE_EZN

/-- The function `Instruction::GetData3`. -/
def GetData3 (data : List Nat) : Nat := byteAt data 1 &&& 0b111

/-- The function `Instruction::GetIndirectIndex`. -/
def GetIndirectIndex (data : List Nat) : Nat := byteAt data 1 &&& 0b11

/-- The function `Instruction::GetBitoffRamAddress`, of a `uint8_t`. -/
def GetBitoffRamAddress (value : Nat) : Nat := (0xFD00 + 2 * (value % 256)) % 4294967296

/-- The function `Instruction::GetBitoffSfrAddress`, of a `uint8_t`. -/
def GetBitoffSfrAddress (value : Nat) (extr : Bool) : Nat :=
  let base := if extr then 0xF100 else 0xFF00
  (base + 2 * ((value % 256) &&& 0x7F)) % 4294967296

/-- The function `Instruction::TranslateBitOff`. -/
def TranslateBitOff (g : Globals) (addr bitoff : Nat) : Nat :=
  if bitoff ≤ 0x7F then GetBitoffRamAddress bitoff
  else if bitoff ≤ 0xEF then GetBitoffSfrAddress bitoff (ShouldUseExtr g addr)
  else bitoff &&& 0xF

/-- The function `Instruction::GetIndAddrExpr_Exts_Rw`. -/
def GetIndAddrExpr_Exts_Rw (seg8 Rw : Nat) : ILExpr :=
  let IndAddrSeg8 := ILExpr.ShiftLeft 3 (ILExpr.Const 3 seg8) (ILExpr.Const 2 16)
  ILExpr.Or 3 IndAddrSeg8 (ILExpr.Register 2 Rw)

/-- The function `Instruction::GetIndAddrExpr_Exts_Rw_data16`. -/
def GetIndAddrExpr_Exts_Rw_data16 (seg8 Rw data16 : Nat) : ILExpr :=
  let IndAddrSeg8 := ILExpr.ShiftLeft 3 (ILExpr.Const 3 seg8) (ILExpr.Const 2 16)
  let IndAddrOff :=
    ILExpr.And 2 (ILExpr.Add 2 (ILExpr.Register 2 Rw) (ILExpr.Const 2 data16))
      (ILExpr.Const 2 0xFFFF)
  ILExpr.Or 3 IndAddrSeg8 IndAddrOff

/-- The function `Instruction::GetIndAddrExpr_Extp_Rw`. -/
def GetIndAddrExpr_Extp_Rw (pag10 Rw : Nat) : ILExpr :=
  let IndAddrPag10 := ILExpr.ShiftLeft 3 (ILExpr.Const 3 pag10) (ILExpr.Const 2 14)
  ILExpr.Or 3 IndAddrPag10 (ILExpr.And 2 (ILExpr.Register 2 Rw) (ILExpr.Const 2 0x3FFF))

/-- The function `Instruction::GetIndAddrExpr_Extp_Rw_data16`. -/
def GetIndAddrExpr_Extp_Rw_data16 (pag10 Rw data16 : Nat) : ILExpr :=
  let IndAddrPag10 := ILExpr.ShiftLeft 3 (ILExpr.Const 3 pag10) (ILExpr.Const 2 14)
  let IndAddrOff :=
    ILExpr.And 2 (ILExpr.Add 2 (ILExpr.Register 2 Rw) (ILExpr.Const 2 data16))
      (ILExpr.Const 2 0xFFFF)
  ILExpr.Or 3 IndAddrPag10 IndAddrOff

/-- The function `Instruction::GetIndAddrExpr_Rw`. -/
def GetIndAddrExpr_Rw (Rw : Nat) : ILExpr :=
  let Ind := ILExpr.Register 2 Rw
  let DppIndex :=
    ILExpr.LogicalShiftRight 2 (ILExpr.And 2 (ILExpr.Const 2 0xC000) Ind) (ILExpr.Const 2 14)
  let DppAddr :=
    ILExpr.Add 3 (ILExpr.ConstPointer 2 Sfr.DPP0) (ILExpr.ShiftLeft 2 DppIndex (ILExpr.Const 2 1))
  let IndAddrUpper := ILExpr.ShiftLeft 3 (ILExpr.Load 2 DppAddr) (ILExpr.Const 2 14)
  let IndAddrLower := ILExpr.And 2 Ind (ILExpr.Const 2 0x3FFF)
  ILExpr.Or 3 IndAddrUpper IndAddrLower

/-- The function `Instruction::GetIndAddrExpr_Rw_data16`. -/
def GetIndAddrExpr_Rw_data16 (Rw data16 : Nat) : ILExpr :=
  let Ind :=
    ILExpr.And 2 (ILExpr.Add 2 (ILExpr.Const 2 data16) (ILExpr.Register 2 Rw))
      (ILExpr.Const 2 0xFFFF)
  let DppIndex :=
    ILExpr.LogicalShiftRight 2 (ILExpr.And 2 (ILExpr.Const 2 0xC000) Ind) (ILExpr.Const 2 14)
  let DppAddr :=
    ILExpr.Add 3 (ILExpr.ConstPointer 2 0xFE00) (ILExpr.ShiftLeft 2 DppIndex (ILExpr.Const 2 1))
  let IndAddrUpper := ILExpr.ShiftLeft 3 (ILExpr.Load 2 DppAddr) (ILExpr.Const 2 14)
  let IndAddrLower := ILExpr.And 2 Ind (ILExpr.Const 2 0x3FFF)
  ILExpr.Or 3 IndAddrUpper IndAddrLower

/-- The instructions that `Instruction::LiftOpRnRwiData3` appends to `il`, in
order.  The callback `operation` is a parameter, without its source location;
`post` is the empty list where the source leaves it 0. -/
def LiftOpRnRwiData3.il (g : Globals) (addr : Nat) (data : List Nat) (width flags : Nat)
    (store : Bool) (operation : Nat → ILExpr → ILExpr → Nat → ILExpr) : List ILExpr :=
  let rn0 := GetData4High data 2
  let scode := ((byteAt data 1 &&& 0xC) >>> 2) % 256
  let rwi := GetIndirectIndex data
  let data3 := GetData3 data
  let rn := if width = 1 then rn0 + 16 else rn0
  let emit (src : ILExpr) (post : List ILExpr) : List ILExpr :=
    (if store then
      [ILExpr.SetRegister width rn (operation width (ILExpr.Register width rn) src flags) 0]
    else [operation width (ILExpr.Register width rn) src flags]) ++ post
  if scode = 0b11 ∨ scode = 0b10 then
    let post :=
      if scode = 0b11 then
        [ILExpr.SetRegister 2 rwi (ILExpr.Add 2 (ILExpr.Register 2 rwi) (ILExpr.Const 2 2)) 0]
      else []
    let SrcIndAddr :=
      match ShouldUseExts g addr with
      | some seg8 => GetIndAddrExpr_Exts_Rw seg8 rwi
      | none =>
        match ShouldUseExtp g addr with
        | some pag10 => GetIndAddrExpr_Extp_Rw pag10 rwi
        | none => GetIndAddrExpr_Rw rwi
    emit (ILExpr.Load width SrcIndAddr) post
  else if scode = 0b00 ∨ scode = 0b01 then emit (ILExpr.Const 1 data3) []
  else []

/-- The instructions that `Mov::LiftxA8` appends to `il`. -/
def Mov.LiftxA8.il (g : Globals) (data : List Nat) (addr : Nat) : List ILExpr :=
  let rwn := GetData4High data 2
  let rwm := GetData4Low data 2
  let SrcIndAddr :=
    match ShouldUseExts g addr with
    | some seg8 => GetIndAddrExpr_Exts_Rw seg8 rwm
    | none =>
      match ShouldUseExtp g addr with
      | some pag10 => GetIndAddrExpr_Extp_Rw pag10 rwm
      | none => GetIndAddrExpr_Rw rwm
  [ILExpr.SetRegister 2 rwn (ILExpr.Load 2 SrcIndAddr) Mov.flags]

/-- The instructions that `Bfldh::Lift` appends to `il`: none.  The marker is
built, by `il.Unimplemented()` or `il.UnimplementedMemoryRef(..)`, and the
routine has no call of `il.AddInstruction`. -/
def Bfldh.Lift.il (g : Globals) (data : List Nat) (addr : Nat) : List ILExpr :=
  let bitoff := TranslateBitOff g addr (byteAt data 1)
  let _built :=
    if bitoff < 0xF then ILExpr.Unimplemented
    else ILExpr.UnimplementedMemoryRef 1 (ILExpr.ConstPointer 3 ((bitoff + 1) % 4294967296))
  []

/-- The instructions that `Bfldl::Lift` appends to `il`: none, as in
`Bfldh::Lift`. -/
def Bfldl.Lift.il (g : Globals) (data : List Nat) (addr : Nat) : List ILExpr :=
  let bitoff := TranslateBitOff g addr (byteAt data 1)
  let _built :=
    if bitoff < 0xF then ILExpr.Unimplemented
    else ILExpr.UnimplementedMemoryRef 1 (ILExpr.ConstPointer 3 bitoff)
  []

/-- The instructions that the macro `UNIMPLEMENTED(length)` appends to `il`. -/
def UNIMPLEMENTED.il : List ILExpr := [ILExpr.Unimplemented]

/-- The instructions that `Einit::Lift` appends to `il`. -/
def Einit.Lift.il : List ILExpr := UNIMPLEMENTED.il

/-- The instructions that `ExtrAtomic::Lift` appends to `il`. -/
def ExtrAtomic.Lift.il : List ILExpr := UNIMPLEMENTED.il

/-- The instructions that `Extprs::LiftxD7` appends to `il`. -/
def Extprs.LiftxD7.il : List ILExpr := UNIMPLEMENTED.il

/-- The function `Instruction::GetData16`: the word `*(wdata + 1)`. -/
def GetData16 (data : List Nat) : Nat := wordAt data 1

/-- The function `Instruction::TranslateMem`. -/
def TranslateMem (mem : Nat) : Nat := mem

/-- The constant `Movb::flags`. -/
def Movb.flags : Nat := Flags.WRITE_EZN

/-- The constant `Cmpd1::flags`. -/
def Cmpd1.flags : Nat := Flags.WRITE_ALL

/-- The constant `Cmpd2::flags`. -/
def Cmpd2.flags : Nat := Flags.WRITE_ALL

/-- The constant `Cmpi1::flags`. -/
def Cmpi1.flags : Nat := Flags.WRITE_ALL

/-- The constant `Cmpi2::flags`. -/
def Cmpi2.flags : Nat := Flags.WRITE_ALL

/-- The instructions that `Cmpd1::LiftxA0` appends to `il`. -/
def Cmpd1.LiftxA0.il (data : List Nat) : List ILExpr :=
  let data4 := GetData4High data 2
  let rwn := GetData4Low data 2
  [ILExpr.Sub 2 (ILExpr.Register 2 rwn) (ILExpr.Const 2 data4) Cmpd1.flags,
   ILExpr.SetRegister 2 rwn (ILExpr.Sub 2 (ILExpr.Register 2 rwn) (ILExpr.Const 2 1) 0) 0]

/-- The instructions that `Cmpd1::LiftxA2` appends to `il`. -/
def Cmpd1.LiftxA2.il (g : Globals) (data : List Nat) (addr : Nat) : List ILExpr :=
  let mem := TranslateMem (GetMem g addr data)
  let rwn := GetData4Low data 2
  [ILExpr.Sub 2 (ILExpr.Register 2 rwn) (ILExpr.Load 2 (ILExpr.ConstPointer 3 mem)) Cmpd1.flags,
   ILExpr.SetRegister 2 rwn (ILExpr.Sub 2 (ILExpr.Register 2 rwn) (ILExpr.Const 2 1) 0) 0]

/-- The instructions that `Cmpd1::LiftxA6` appends to `il`. -/
def Cmpd1.LiftxA6.il (data : List Nat) : List ILExpr :=
  let data16 := GetData16 data
  let rwn := GetData4Low data 2
  [ILExpr.Sub 2 (ILExpr.Register 2 rwn) (ILExpr.Const 2 data16) Cmpd1.flags,
   ILExpr.SetRegister 2 rwn (ILExpr.Sub 2 (ILExpr.Register 2 rwn) (ILExpr.Const 2 1) 0) 0]

/-- The instructions that `Cmpd2::LiftxB0` appends to `il`. -/
def Cmpd2.LiftxB0.il (data : List Nat) : List ILExpr :=
  let data4 := GetData4High data 2
  let rwn := GetData4Low data 2
  [ILExpr.Sub 2 (ILExpr.Register 2 rwn) (ILExpr.Const 2 data4) Cmpd2.flags,
   ILExpr.SetRegister 2 rwn (ILExpr.Sub 2 (ILExpr.Register 2 rwn) (ILExpr.Const 2 2) 0) 0]

/-- The instructions that `Cmpd2::LiftxB2` appends to `il`. -/
def Cmpd2.LiftxB2.il (g : Globals) (data : List Nat) (addr : Nat) : List ILExpr :=
  let mem := TranslateMem (GetMem g addr data)
  let rwn := GetData4Low data 2
  [ILExpr.Sub 2 (ILExpr.Register 2 rwn) (ILExpr.Load 2 (ILExpr.ConstPointer 3 mem)) Cmpd2.flags,
   ILExpr.SetRegister 2 rwn (ILExpr.Sub 2 (ILExpr.Register 2 rwn) (ILExpr.Const 2 1) 0) 0]

/-- The instructions that `Cmpd2::LiftxB6` appends to `il`. -/
def Cmpd2.LiftxB6.il (data : List Nat) : List ILExpr :=
  let data16 := GetData16 data
  let rwn := GetData4Low data 2
  [ILExpr.Sub 2 (ILExpr.Register 2 rwn) (ILExpr.Const 2 data16) Cmpd2.flags,
   ILExpr.SetRegister 2 rwn (ILExpr.Sub 2 (ILExpr.Register 2 rwn) (ILExpr.Const 2 2) 0) 0]

/-- The instructions that `Cmpi1::Liftx80` appends to `il`. -/
def Cmpi1.Liftx80.il (data : List Nat) : List ILExpr :=
  let data4 := GetData4High data 2
  let rwn := GetData4Low data 2
  [ILExpr.Sub 2 (ILExpr.Register 2 rwn) (ILExpr.Const 2 data4) Cmpi1.flags,
   ILExpr.SetRegister 2 rwn (ILExpr.Add 2 (ILExpr.Register 2 rwn) (ILExpr.Const 2 1)) 0]

/-- The instructions that `Cmpi1::Liftx82` appends to `il`. -/
def Cmpi1.Liftx82.il (g : Globals) (data : List Nat) (addr : Nat) : List ILExpr :=
  let mem := TranslateMem (GetMem g addr data)
  let rwn := GetData4Low data 2
  [ILExpr.Sub 2 (ILExpr.Register 2 rwn) (ILExpr.Load 2 (ILExpr.ConstPointer 3 mem)) Cmpi1.flags,
   ILExpr.SetRegister 2 rwn (ILExpr.Add 2 (ILExpr.Register 2 rwn) (ILExpr.Const 2 1)) 0]

/-- The instructions that `Cmpi1::Liftx86` appends to `il`. -/
def Cmpi1.Liftx86.il (data : List Nat) : List ILExpr :=
  let data16 := GetData16 data
  let rwn := GetData4Low data 2
  [ILExpr.Sub 2 (ILExpr.Register 2 rwn) (ILExpr.Const 2 data16) Cmpi1.flags,
   ILExpr.SetRegister 2 rwn (ILExpr.Add 2 (ILExpr.Register 2 rwn) (ILExpr.Const 2 1)) 0]

/-- The instructions that `Cmpi2::Liftx90` appends to `il`. -/
def Cmpi2.Liftx90.il (data : List Nat) : List ILExpr :=
  let data4 := GetData4High data 2
  let rwn := GetData4Low data 2
  [ILExpr.Sub 2 (ILExpr.Register 2 rwn) (ILExpr.Const 2 data4) Cmpi2.flags,
   ILExpr.SetRegister 2 rwn (ILExpr.Add 2 (ILExpr.Register 2 rwn) (ILExpr.Const 2 2)) 0]

/-- The instructions that `Cmpi2::Liftx92` appends to `il`. -/
def Cmpi2.Liftx92.il (g : Globals) (data : List Nat) (addr : Nat) : List ILExpr :=
  let mem := TranslateMem (GetMem g addr data)
  let rwn := GetData4Low data 2
  [ILExpr.Sub 2 (ILExpr.Register 2 rwn) (ILExpr.Load 2 (ILExpr.ConstPointer 3 mem)) Cmpi2.flags,
   ILExpr.SetRegister 2 rwn (ILExpr.Add 2 (ILExpr.Register 2 rwn) (ILExpr.Const 2 1)) 0]

/-- The instructions that `Cmpi2::Liftx96` appends to `il`. -/
def Cmpi2.Liftx96.il (data : List Nat) : List ILExpr :=
  let data16 := GetData16 data
  let rwn := GetData4Low data 2
  [ILExpr.Sub 2 (ILExpr.Register 2 rwn) (ILExpr.Const 2 data16) Cmpi2.flags,
   ILExpr.SetRegister 2 rwn (ILExpr.Add 2 (ILExpr.Register 2 rwn) (ILExpr.Const 2 2)) 0]

/-- The instructions that `Mov::LiftxD4` appends to `il`: one `il.Store`,
whose arguments are, in the order of the call, the size, the register
expression, the address expression and the flags. -/
def Mov.LiftxD4.il (g : Globals) (data : List Nat) (addr : Nat) : List ILExpr :=
  let rwn := GetData4High data 2
  let rwm := GetData4Low data 2
  let data16 := GetData16 data
  let SrcIndAddr :=
    match ShouldUseExts g addr with
    | some seg8 => GetIndAddrExpr_Exts_Rw_data16 seg8 rwm data16
    | none =>
      match ShouldUseExtp g addr with
      | some pag10 => GetIndAddrExpr_Extp_Rw_data16 pag10 rwm data16
      | none => GetIndAddrExpr_Rw_data16 rwm data16
  [ILExpr.Store 2 (ILExpr.Register 2 rwn) SrcIndAddr Mov.flags]

/-- The instructions that `Movb::LiftxF4` appends to `il`. -/
def Movb.LiftxF4.il (g : Globals) (data : List Nat) (addr : Nat) : List ILExpr :=
  let rbn := (GetData4High data 2 + 16) % 4294967296
  let rwm := GetData4Low data 2
  let data16 := GetData16 data
  let SrcIndAddr :=
    match ShouldUseExts g addr with
    | some seg8 => GetIndAddrExpr_Exts_Rw_data16 seg8 rwm data16
    | none =>
      match ShouldUseExtp g addr with
      | some pag10 => GetIndAddrExpr_Extp_Rw_data16 pag10 rwm data16
      | none => GetIndAddrExpr_Rw_data16 rwm data16
  [ILExpr.SetRegister 1 rbn (ILExpr.Load 1 SrcIndAddr) Movb.flags]

/-! ## Well-formed stores

The ranges that the C++ types give for free, stated for the embedding. -/

/-- Every field of the state is in the range of its C++ type. -/
def StateValid (s : InstructionState) : Prop :=
  s.ext_state < 256 ∧ s.num_insns < 256 ∧ s.pag10 < 4294967296 ∧ s.seg8 < 4294967296 ∧
    s.dpp.d0 < 4294967296 ∧ s.dpp.d1 < 4294967296 ∧ s.dpp.d2 < 4294967296 ∧
    s.dpp.d3 < 4294967296

instance (s : InstructionState) : Decidable (StateValid s) := by
  unfold StateValid; infer_instance

/-- The list is a table: no key occurs twice, every key is a `uint64_t` and
every state is in range. -/
def MapValid (m : List (Nat × InstructionState)) : Prop :=
  (m.map Prod.fst).Nodup ∧ ∀ p ∈ m, p.1 < 18446744073709551616 ∧ StateValid p.2

instance (m : List (Nat × InstructionState)) : Decidable (MapValid m) := by
  unfold MapValid; infer_instance

/-- The entry at `a` is what the loop body of `SetDppsRange` leaves at an
address it has visited with the vector `d`: kind CustomDpp only, vector `d`. -/
def Visited (g : Globals) (d : Dpp) (a : Nat) : Prop :=
  ∃ st, mapFind g.StateMap a = some st ∧ st.ext_state = ExtNoneCustomDpps ∧ st.dpp = d

/-! ## Concrete stores for the witnesses and counterexamples -/

/-- A table with a page override at 0x2004 and a register-bank override at 5,
the first with a `uint32_t` value above 16 bits. -/
def roundtripExample : Globals :=
  ⟨[(0x2004, ⟨ExtPage, 1, 0x12345678, 0, ⟨1, 2, 3, 4⟩⟩), (5, ⟨ExtRegister, 2, 0, 0, ⟨0, 0, 0, 0⟩⟩)],
   ⟨9, 9, 9, 9⟩⟩

/-- A store with Page, Segment and CustomDpp together at 0x1000 and Segment
with CustomDpp at 0x1002. -/
def precedenceExample : Globals :=
  ⟨[(0x1000, ⟨ExtPage ||| ExtSegment ||| ExtNoneCustomDpps, 0, 3, 5, ⟨1, 2, 3, 4⟩⟩),
    (0x1002, ⟨ExtSegment ||| ExtNoneCustomDpps, 0, 0, 5, ⟨1, 2, 3, 4⟩⟩)],
   ⟨6, 7, 8, 9⟩⟩

/-- A store whose only entry is a page override at 0x1000, page 3, one more
instruction to cover. -/
def pageOverride : Globals :=
  ⟨[(0x1000, ⟨ExtPage, 1, 3, 0, ⟨0, 0, 0, 0⟩⟩)], ⟨0, 0, 0, 0⟩⟩

/-- A store whose only entry is a segment override at 0x1000, segment 7,
exhausted. -/
def segmentOverride : Globals :=
  ⟨[(0x1000, ⟨ExtSegment, 0, 0, 7, ⟨0, 0, 0, 0⟩⟩)], ⟨0, 0, 0, 0⟩⟩

/-- A host that has a label for every address. -/
def allLabels : Nat → Bool := fun _ => true

/-- A store whose only entry, at 0x1000, has the RegisterBank kind and nothing
else; the default DPP vector is the reset value. -/
def registerBankOnly : Globals :=
  ⟨[(0x1000, ⟨ExtRegister, 1, 0, 0, ⟨0, 0, 0, 0⟩⟩)], ⟨0, 0, 0, 0⟩⟩

/-- A store with a page override at 0x1000 and a segment override at 0x2000,
and a default DPP vector that differs from the reset value. -/
def mixedStore : Globals :=
  ⟨[(0x1000, ⟨ExtPage, 1, 3, 0, ⟨0, 0, 0, 0⟩⟩), (0x2000, ⟨ExtSegment, 2, 0, 7, ⟨0, 0, 0, 0⟩⟩)],
   ⟨4, 5, 6, 7⟩⟩

/-- A store whose only entry, at 0x1000, has the Segment and the Page kind
together, segment 5, page 3, two more instructions to cover. -/
def pageAndSegment : Globals :=
  ⟨[(0x1000, ⟨ExtSegment ||| ExtPage, 2, 3, 5, ⟨0, 0, 0, 0⟩⟩)], ⟨0, 0, 0, 0⟩⟩

/-- A store whose only entry, at 0x1000, is a page override whose `pag10` field, a
`uint32_t`, holds 0x12345678, with two more instructions to cover. -/
def widePage : Globals :=
  ⟨[(0x1000, ⟨ExtPage, 2, 0x12345678, 0, ⟨0, 0, 0, 0⟩⟩)], ⟨0, 0, 0, 0⟩⟩

/-- A store whose only entry, at 0x1000, has the Segment and the Page kind together, page 3
and a `seg8` field, a `uint32_t`, that holds 0x12345678, with two more instructions to
cover. -/
def wideSegmentAndPage : Globals :=
  ⟨[(0x1000, ⟨ExtSegment ||| ExtPage, 2, 3, 0x12345678, ⟨0, 0, 0, 0⟩⟩)], ⟨0, 0, 0, 0⟩⟩

/-- A blob of three records: address 0x10 with kind Page, address 0x20 with
kind Segment, and address 0x10 again with kind RegisterBank. -/
def threeRecords : List Nat :=
  u64le 0x10 ++ InstructionState.bytes 0 0 ⟨ExtPage, 1, 3, 0, ⟨0, 0, 0, 0⟩⟩ ++
  u64le 0x20 ++ InstructionState.bytes 0 0 ⟨ExtSegment, 2, 0, 7, ⟨0, 0, 0, 0⟩⟩ ++
  u64le 0x10 ++ InstructionState.bytes 0 0 ⟨ExtRegister, 0, 0, 0, ⟨1, 2, 3, 4⟩⟩

/-! # Theorems -/

/-! ## The table -/

theorem mapFind_mapAssign_same (m : List (Nat × InstructionState)) (a : Nat)
    (v : InstructionState) : mapFind (mapAssign m a v) a = some v := by
  induction m with
  | nil => simp [mapAssign, mapFind]
  | cons p rest ih =>
    obtain ⟨k, w⟩ := p
    by_cases h : k = a
    · simp [mapAssign, mapFind, h]
    · simp [mapAssign, mapFind, h, ih]

theorem mapFind_mapAssign_ne (m : List (Nat × InstructionState)) (a b : Nat)
    (v : InstructionState) (hab : a ≠ b) : mapFind (mapAssign m a v) b = mapFind m b := by
  induction m with
  | nil => simp [mapAssign, mapFind, hab]
  | cons p rest ih =>
    obtain ⟨k, w⟩ := p
    by_cases h : k = a
    · subst h; simp [mapAssign, mapFind, hab]
    · simp [mapAssign, mapFind, h, ih]

theorem mapFind_eq_none_of_not_mem (m : List (Nat × InstructionState)) (a : Nat)
    (h : a ∉ m.map Prod.fst) : mapFind m a = none := by
  induction m with
  | nil => simp [mapFind]
  | cons p rest ih =>
    obtain ⟨k, w⟩ := p
    simp at h
    have hk : k ≠ a := fun e => h.1 e.symm
    simp [mapFind, hk]
    exact ih (by simpa using h.2)

theorem mapFind_foldl_assign (es : List (Nat × InstructionState))
    (hn : (es.map Prod.fst).Nodup) (a : Nat) :
    ∀ m : List (Nat × InstructionState),
      mapFind (es.foldl (fun acc p => mapAssign acc p.1 p.2) m) a
        = (mapFind es a).orElse (fun _ => mapFind m a) := by
  induction es with
  | nil => intro m; simp [mapFind]
  | cons p rest ih =>
    intro m
    obtain ⟨k, v⟩ := p
    simp only [List.map_cons, List.nodup_cons] at hn
    simp only [List.foldl_cons]
    rw [ih hn.2]
    by_cases h : k = a
    · subst h
      simp [mapFind, mapFind_eq_none_of_not_mem rest k hn.1, mapFind_mapAssign_same]
    · simp [mapFind, h, mapFind_mapAssign_ne m k a v h]

/-! ## The persisted form -/

theorem record_decode (k : Nat) (v : InstructionState) (p0 p1 : Nat) (rest : List Nat)
    (hk : k < 18446744073709551616) (hv : StateValid v) :
    readU64 (u64le k ++ v.bytes p0 p1 ++ rest) 0 = k ∧
    InstructionState.ofBytes (u64le k ++ v.bytes p0 p1 ++ rest) 8 = v ∧
    (u64le k ++ v.bytes p0 p1 ++ rest).drop recordSize = rest ∧
    0 < (u64le k ++ v.bytes p0 p1 ++ rest).length := by
  obtain ⟨h1, h2, h3, h4, h5, h6, h7, h8⟩ := hv
  refine ⟨?_, ?_, ?_, ?_⟩
  · simp [readU64, readU32, u64le, byteAt]
    omega
  · obtain ⟨e, n, p, s, ⟨d0, d1, d2, d3⟩⟩ := v
    simp only at h1 h2 h3 h4 h5 h6 h7 h8
    simp [InstructionState.ofBytes, InstructionState.bytes, readU32, u64le, u32le, byteAt]
    refine ⟨by omega, by omega, by omega, by omega, by omega, by omega, by omega, by omega⟩
  · simp [u64le, InstructionState.bytes, u32le, recordSize, sizeofInstructionState]
  · simp [u64le]

theorem serializeLoop_length (pad : Nat → Nat) (off : Nat) (es : List (Nat × InstructionState)) :
    (SerializeLoop pad off es).length = es.length * recordSize := by
  induction es generalizing off with
  | nil => simp [SerializeLoop]
  | cons p rest ih =>
    obtain ⟨k, v⟩ := p
    simp [SerializeLoop, ih, u64le, InstructionState.bytes, u32le, recordSize,
      sizeofInstructionState]
    omega

theorem deserializeLoop_serializeLoop (pad : Nat → Nat) (es : List (Nat × InstructionState))
    (hv : ∀ p ∈ es, p.1 < 18446744073709551616 ∧ StateValid p.2) :
    ∀ (off fuel : Nat) (m : List (Nat × InstructionState)), es.length ≤ fuel →
      DeserializeLoop fuel (SerializeLoop pad off es) m
        = es.foldl (fun acc p => mapAssign acc p.1 p.2) m := by
  induction es with
  | nil =>
    intro off fuel m _
    cases fuel <;> simp [DeserializeLoop, SerializeLoop]
  | cons p rest ih =>
    intro off fuel m hf
    obtain ⟨k, v⟩ := p
    have hkv := hv (k, v) (by simp)
    have hrest : ∀ p ∈ rest, p.1 < 18446744073709551616 ∧ StateValid p.2 :=
      fun p hp => hv p (by simp [hp])
    cases fuel with
    | zero => simp at hf
    | succ fuel =>
      obtain ⟨r1, r2, r3, r4⟩ := record_decode k v (pad (off + 10)) (pad (off + 11))
        (SerializeLoop pad (off + recordSize) rest) hkv.1 hkv.2
      simp only [SerializeLoop, DeserializeLoop, r1, r2, r3, r4, if_true, List.foldl_cons]
      exact ih hrest (off + recordSize) fuel _ (by simpa using hf)

/-- C1. Serializing a well-formed table into a buffer of at least
`SizeOfStateMap()` bytes and deserializing the bytes written, into any
globals `g0` and whatever the padding bytes hold, succeeds; afterwards
`GetInstructionState(a)` is the entry of the serialized table at every
address that has one, and the default-constructed state at every other
address. -/
theorem serialize_deserialize_roundtrip (g g0 : Globals) (pad : Nat → Nat) (size : Nat)
    (hv : MapValid g.StateMap) (hsize : SizeOfStateMap g ≤ size) :
    (DeserializeStateMap g0 (SerializeStateMap pad g size).2).1 = true ∧
    ∀ a : Nat,
      GetInstructionState (DeserializeStateMap g0 (SerializeStateMap pad g size).2).2 a
        = match mapFind g.StateMap a with
          | some st => st
          | none => InstructionState.new g0.default_dpp := by
  have hs : ¬ size < g.StateMap.length * recordSize := by
    simpa [SizeOfStateMap] using hsize
  have hlen := serializeLoop_length pad 0 g.StateMap
  have hmod : (SerializeLoop pad 0 g.StateMap).length % recordSize = 0 := by
    rw [hlen]; exact Nat.mul_mod_left _ _
  have hloop := deserializeLoop_serializeLoop pad g.StateMap hv.2 0
    (SerializeLoop pad 0 g.StateMap).length []
    (by rw [hlen]; simp only [recordSize, sizeofInstructionState]; omega)
  simp only [SerializeStateMap, hs, if_false, DeserializeStateMap, hmod, ne_eq,
    not_true_eq_false, true_and]
  intro a
  simp only [GetInstructionState, hloop, mapFind_foldl_assign g.StateMap hv.1 a []]
  cases h : mapFind g.StateMap a <;> simp [mapFind]

/-- Witness for C1: the round trip of `roundtripExample` through a 100-byte
buffer, read back at a stored and at an absent address. -/
theorem serialize_deserialize_roundtrip_witness :
    MapValid roundtripExample.StateMap ∧ SizeOfStateMap roundtripExample ≤ 100 ∧
    (DeserializeStateMap Globals.initial
      (SerializeStateMap (fun _ => 0xAA) roundtripExample 100).2).1 = true ∧
    GetInstructionState (DeserializeStateMap Globals.initial
      (SerializeStateMap (fun _ => 0xAA) roundtripExample 100).2).2 0x2004
        = ⟨ExtPage, 1, 0x12345678, 0, ⟨1, 2, 3, 4⟩⟩ ∧
    GetInstructionState (DeserializeStateMap Globals.initial
      (SerializeStateMap (fun _ => 0xAA) roundtripExample 100).2).2 0x2006
        = InstructionState.new ⟨0, 0, 0, 0⟩ :=
  have h := serialize_deserialize_roundtrip roundtripExample Globals.initial (fun _ => 0xAA) 100
    (by decide) (by decide)
  ⟨by decide, by decide, h.1, h.2 0x2004, h.2 0x2006⟩

/-- C2. A blob whose length is not a multiple of the record size is
rejected: `DeserializeStateMap` returns false and the globals, the table
included, are exactly what they were. -/
theorem deserialize_rejects_unaligned (g : Globals) (buf : List Nat)
    (h : buf.length % recordSize ≠ 0) : DeserializeStateMap g buf = (false, g) := by
  simp [DeserializeStateMap, h]

/-- Witness for C2: a 37-byte blob offered to `roundtripExample`. -/
theorem deserialize_rejects_unaligned_witness :
    (List.replicate 37 0).length % recordSize ≠ 0 ∧
    DeserializeStateMap roundtripExample (List.replicate 37 0) = (false, roundtripExample) :=
  ⟨by decide, deserialize_rejects_unaligned roundtripExample (List.replicate 37 0) (by decide)⟩

/-! ## The resolver -/

theorem land_ffff (m : Nat) (hm : m < 65536) : m &&& 0xFFFF = m := by
  have h := Nat.and_pow_two_sub_one_eq_mod m 16
  norm_num at h
  rw [h]; omega

theorem dpp_index_eq (m : Nat) (hm : m < 65536) : (m &&& 0xC000) >>> 14 = m >>> 14 := by
  apply Nat.eq_of_testBit_eq
  intro i
  rw [Nat.testBit_shiftRight, Nat.testBit_shiftRight, Nat.testBit_and]
  by_cases hi : i < 2
  · have : (0xC000 : Nat).testBit (14 + i) = true := by
      interval_cases i <;> decide
    simp [this]
  · have hlt : m < 2 ^ (14 + i) := by
      have : 2 ^ 16 ≤ 2 ^ (14 + i) := Nat.pow_le_pow_right (by norm_num) (by omega)
      omega
    simp [Nat.testBit_lt_two_pow hlt]

theorem wordAt_field (b0 b1 m : Nat) (hm : m < 65536) :
    wordAt [b0, b1, m % 256, m / 256] 1 = m := by
  simp [wordAt, byteAt]
  omega

theorem GetMem_field (g : Globals) (addr b0 b1 m : Nat) (hm : m < 65536) :
    GetMem g addr [b0, b1, m % 256, m / 256] =
      match mapFind g.StateMap addr with
      | some st =>
        if st.ext_state &&& ExtPage ≠ 0 then
          ((st.pag10 <<< 14) % 4294967296) ||| (m &&& 0x3FFF)
        else if st.ext_state &&& ExtSegment ≠ 0 then
          ((st.seg8 <<< 16) % 4294967296) ||| m
        else if st.ext_state &&& ExtNoneCustomDpps ≠ 0 then
          ((st.dpp.get (m >>> 14) <<< 14) % 4294967296) ||| (m &&& 0x3FFF)
        else ((g.default_dpp.get (m >>> 14) <<< 14) % 4294967296) ||| (m &&& 0x3FFF)
      | none => ((g.default_dpp.get (m >>> 14) <<< 14) % 4294967296) ||| (m &&& 0x3FFF) := by
  simp only [GetMem, wordAt_field b0 b1 m hm, land_ffff m hm, dpp_index_eq m hm]

/-- C3. For a 16-bit operand field `m` (bytes 2 and 3 of the instruction),
`GetMem` returns, on `uint32_t`: the page form `(pag10 << 14) | (m & 0x3FFF)`
when the entry has the Page bit; otherwise the segment form `(seg8 << 16) | m`
when it has the Segment bit; otherwise `(dpp[m >> 14] << 14) | (m & 0x3FFF)`
with the entry's own vector when it has the CustomDpp bit; otherwise, also
without an entry, the same with the default vector.  In particular Page,
Segment and CustomDpp together give the page form, and Segment with CustomDpp
the segment form. -/
theorem GetMem_precedence (g : Globals) (addr b0 b1 m : Nat) (hm : m < 65536) :
    (∀ st, mapFind g.StateMap addr = some st → st.ext_state &&& ExtPage ≠ 0 →
      GetMem g addr [b0, b1, m % 256, m / 256]
        = ((st.pag10 <<< 14) % 4294967296) ||| (m &&& 0x3FFF)) ∧
    (∀ st, mapFind g.StateMap addr = some st → st.ext_state &&& ExtPage = 0 →
      st.ext_state &&& ExtSegment ≠ 0 →
      GetMem g addr [b0, b1, m % 256, m / 256] = ((st.seg8 <<< 16) % 4294967296) ||| m) ∧
    (∀ st, mapFind g.StateMap addr = some st → st.ext_state &&& ExtPage = 0 →
      st.ext_state &&& ExtSegment = 0 → st.ext_state &&& ExtNoneCustomDpps ≠ 0 →
      GetMem g addr [b0, b1, m % 256, m / 256]
        = ((st.dpp.get (m >>> 14) <<< 14) % 4294967296) ||| (m &&& 0x3FFF)) ∧
    ((mapFind g.StateMap addr = none ∨
        ∃ st, mapFind g.StateMap addr = some st ∧ st.ext_state &&& ExtPage = 0 ∧
          st.ext_state &&& ExtSegment = 0 ∧ st.ext_state &&& ExtNoneCustomDpps = 0) →
      GetMem g addr [b0, b1, m % 256, m / 256]
        = ((g.default_dpp.get (m >>> 14) <<< 14) % 4294967296) ||| (m &&& 0x3FFF)) ∧
    (∀ st, mapFind g.StateMap addr = some st →
      st.ext_state = ExtPage ||| ExtSegment ||| ExtNoneCustomDpps →
      GetMem g addr [b0, b1, m % 256, m / 256]
        = ((st.pag10 <<< 14) % 4294967296) ||| (m &&& 0x3FFF)) ∧
    (∀ st, mapFind g.StateMap addr = some st →
      st.ext_state = ExtSegment ||| ExtNoneCustomDpps →
      GetMem g addr [b0, b1, m % 256, m / 256] = ((st.seg8 <<< 16) % 4294967296) ||| m) := by
  rw [GetMem_field g addr b0 b1 m hm]
  refine ⟨?_, ?_, ?_, ?_, ?_, ?_⟩
  · intro st h hp; simp [h, hp]
  · intro st h hp hs; simp [h, hp, hs]
  · intro st h hp hs hc; simp [h, hp, hs, hc]
  · rintro (h | ⟨st, h, hp, hs, hc⟩)
    · simp [h]
    · simp [h, hp, hs, hc]
  · intro st h he
    have : st.ext_state &&& ExtPage ≠ 0 := by rw [he]; decide
    simp [h, this]
  · intro st h he
    have h1 : st.ext_state &&& ExtPage = 0 := by rw [he]; decide
    have h2 : st.ext_state &&& ExtSegment ≠ 0 := by rw [he]; decide
    simp [h, h1, h2]

/-- Witness for C3: the two stores of the claim's last sentence, with the
field 0x4567. -/
theorem GetMem_precedence_witness :
    (0x4567 : Nat) < 65536 ∧
    GetMem precedenceExample 0x1000 [0xF2, 0xF0, 0x67, 0x45]
      = ((3 <<< 14) % 4294967296) ||| (0x4567 &&& 0x3FFF) ∧
    GetMem precedenceExample 0x1002 [0xF2, 0xF0, 0x67, 0x45]
      = ((5 <<< 16) % 4294967296) ||| 0x4567 :=
  ⟨by decide,
   (GetMem_precedence precedenceExample 0x1000 0xF2 0xF0 0x4567 (by decide)).2.2.2.2.1
     ⟨ExtPage ||| ExtSegment ||| ExtNoneCustomDpps, 0, 3, 5, ⟨1, 2, 3, 4⟩⟩ rfl rfl,
   (GetMem_precedence precedenceExample 0x1002 0xF2 0xF0 0x4567 (by decide)).2.2.2.2.2
     ⟨ExtSegment ||| ExtNoneCustomDpps, 0, 0, 5, ⟨1, 2, 3, 4⟩⟩ rfl rfl⟩


theorem or_land_disjoint (x b c : Nat) (h : b &&& c = 0) : (x ||| b) &&& c = x &&& c := by
  apply Nat.eq_of_testBit_eq
  intro i
  have hi : (b &&& c).testBit i = false := by rw [h]; simp
  rw [Nat.testBit_and] at hi
  simp only [Nat.testBit_and, Nat.testBit_or]
  cases hx : x.testBit i <;> cases hb : b.testBit i <;> cases hc : c.testBit i <;> simp_all

theorem or_land_self (x b : Nat) : (x ||| b) &&& b = b := by
  apply Nat.eq_of_testBit_eq
  intro i
  simp only [Nat.testBit_and, Nat.testBit_or]
  cases x.testBit i <;> cases b.testBit i <;> rfl

theorem land_of_land_seven (e k b : Nat) (h : e &&& 7 = k) (hb : 7 &&& b = b) :
    e &&& b = k &&& b := by
  rw [← h, Nat.and_assoc, hb]

/-! ## The setters and the propagation rule -/

theorem SetExtpPag10_default_dpp (g : Globals) (a v n : Nat) :
    (SetExtpPag10 g a v n).default_dpp = g.default_dpp := by
  unfold SetExtpPag10; cases mapFind g.StateMap a <;> rfl

theorem SetExtpPag10_find_ne (g : Globals) (a b v n : Nat) (h : a ≠ b) :
    mapFind (SetExtpPag10 g a v n).StateMap b = mapFind g.StateMap b := by
  unfold SetExtpPag10; cases mapFind g.StateMap a <;> simp [mapFind_mapAssign_ne _ _ _ _ h]

theorem SetExtpPag10_find_some (g : Globals) (a v n : Nat) (st : InstructionState)
    (h : mapFind g.StateMap a = some st) :
    mapFind (SetExtpPag10 g a v n).StateMap a
      = some { st with ext_state := st.ext_state ||| ExtPage, pag10 := v % 65536,
                       num_insns := n % 256 } := by
  unfold SetExtpPag10; simp [h, mapFind_mapAssign_same]

theorem SetExtpPag10_find_none (g : Globals) (a v n : Nat)
    (h : mapFind g.StateMap a = none) :
    mapFind (SetExtpPag10 g a v n).StateMap a
      = some ⟨ExtPage, n % 256, v % 65536, 0, g.default_dpp⟩ := by
  unfold SetExtpPag10; simp [h, mapFind_mapAssign_same, InstructionState.new]

theorem UpdateExtSequence_seg (g : Globals) (a len : Nat) (st : InstructionState)
    (h : mapFind g.StateMap a = some st) (hs : st.ext_state &&& ExtSegment ≠ 0)
    (hn : 0 < st.num_insns) :
    UpdateExtSequence g a len
      = SetExtsSeg8 g ((a + len) % 18446744073709551616) st.seg8 (st.num_insns - 1) := by
  simp [UpdateExtSequence, ShouldUseExts, GetInstructionState, h, hs, hn]

theorem UpdateExtSequence_page (g : Globals) (a len : Nat) (st : InstructionState)
    (h : mapFind g.StateMap a = some st) (hs : st.ext_state &&& ExtSegment = 0)
    (hp : st.ext_state &&& ExtPage ≠ 0) (hn : 0 < st.num_insns) :
    UpdateExtSequence g a len
      = SetExtpPag10 g ((a + len) % 18446744073709551616) st.pag10 (st.num_insns - 1) := by
  simp [UpdateExtSequence, ShouldUseExts, ShouldUseExtp, GetInstructionState, h, hs, hp, hn]

theorem UpdateExtSequence_reg (g : Globals) (a len : Nat) (st : InstructionState)
    (h : mapFind g.StateMap a = some st) (hs : st.ext_state &&& ExtSegment = 0)
    (hp : st.ext_state &&& ExtPage = 0) (hr : st.ext_state &&& ExtRegister ≠ 0)
    (hn : 0 < st.num_insns) :
    UpdateExtSequence g a len
      = SetExtr g ((a + len) % 18446744073709551616) (st.num_insns - 1) := by
  simp only [UpdateExtSequence, ShouldUseExts, ShouldUseExtp, ShouldUseExtr, GetInstructionState,
    h, hs, hp, hr, hn, ne_eq, not_true_eq_false, not_false_eq_true, if_true, if_false,
    Option.isSome_none, Option.isSome_some, Bool.false_eq_true, gt_iff_lt]

theorem UpdateExtSequence_zero (g : Globals) (a len : Nat) (st : InstructionState)
    (h : mapFind g.StateMap a = some st) (hn : st.num_insns = 0) :
    UpdateExtSequence g a len = g := by
  simp only [UpdateExtSequence, ShouldUseExts, ShouldUseExtp, ShouldUseExtr, GetInstructionState,
    h, hn]
  split_ifs <;> simp_all

theorem UpdateExtSequence_none (g : Globals) (a len : Nat)
    (h : mapFind g.StateMap a = none) : UpdateExtSequence g a len = g := by
  simp [UpdateExtSequence, ShouldUseExts, ShouldUseExtp, ShouldUseExtr, h]


theorem SetExtsSeg8_default_dpp (g : Globals) (a v n : Nat) :
    (SetExtsSeg8 g a v n).default_dpp = g.default_dpp := by
  unfold SetExtsSeg8; cases mapFind g.StateMap a <;> rfl

theorem SetExtsSeg8_find_ne (g : Globals) (a b v n : Nat) (h : a ≠ b) :
    mapFind (SetExtsSeg8 g a v n).StateMap b = mapFind g.StateMap b := by
  unfold SetExtsSeg8; cases mapFind g.StateMap a <;> simp [mapFind_mapAssign_ne _ _ _ _ h]

theorem SetExtsSeg8_find_some (g : Globals) (a v n : Nat) (st : InstructionState)
    (h : mapFind g.StateMap a = some st) :
    mapFind (SetExtsSeg8 g a v n).StateMap a
      = some { st with ext_state := st.ext_state ||| ExtSegment, seg8 := v % 65536,
                       num_insns := n % 256 } := by
  unfold SetExtsSeg8; simp [h, mapFind_mapAssign_same]

theorem SetExtsSeg8_find_none (g : Globals) (a v n : Nat)
    (h : mapFind g.StateMap a = none) :
    mapFind (SetExtsSeg8 g a v n).StateMap a
      = some ⟨ExtSegment, n % 256, 0, v % 65536, g.default_dpp⟩ := by
  unfold SetExtsSeg8; simp [h, mapFind_mapAssign_same, InstructionState.new]

theorem SetExtr_default_dpp (g : Globals) (a n : Nat) :
    (SetExtr g a n).default_dpp = g.default_dpp := by
  unfold SetExtr; cases mapFind g.StateMap a <;> rfl

theorem SetExtr_find_ne (g : Globals) (a b n : Nat) (h : a ≠ b) :
    mapFind (SetExtr g a n).StateMap b = mapFind g.StateMap b := by
  unfold SetExtr; cases mapFind g.StateMap a <;> simp [mapFind_mapAssign_ne _ _ _ _ h]

theorem SetExtr_find_some (g : Globals) (a n : Nat) (st : InstructionState)
    (h : mapFind g.StateMap a = some st) :
    mapFind (SetExtr g a n).StateMap a
      = some { st with ext_state := st.ext_state ||| ExtRegister, num_insns := n % 256 } := by
  unfold SetExtr; simp [h, mapFind_mapAssign_same]

theorem SetExtr_find_none (g : Globals) (a n : Nat)
    (h : mapFind g.StateMap a = none) :
    mapFind (SetExtr g a n).StateMap a
      = some ⟨ExtRegister, n % 256, 0, 0, g.default_dpp⟩ := by
  unfold SetExtr; simp [h, mapFind_mapAssign_same, InstructionState.new]

theorem add_len_ne (a len : Nat) (hlen : len = 2 ∨ len = 4) :
    (a + len) % 18446744073709551616 ≠ a := by
  rcases hlen with h | h <;> subst h <;> omega

/-- C6, as stated, fails: the entry of `widePage` at 0x1000 has the Page kind alone, count
2 and `pag10` 0x12345678, a value of the `uint32_t` field that `DeserializeStateMap`
accepts; nothing is stored at 0x1002.  After `UpdateExtSequence(0x1000, 2)` the entry at
0x1002 has `pag10` 0x5678, not the same value: `SetExtpPag10` takes it as a `uint16_t`. -/
theorem propagation_cuts_value_to_16_bits :
    mapFind widePage.StateMap 0x1000 = some ⟨ExtPage, 2, 0x12345678, 0, ⟨0, 0, 0, 0⟩⟩ ∧
    mapFind widePage.StateMap 0x1002 = none ∧
    (DeserializeStateMap Globals.initial (SerializeStateMap (fun _ => 0) widePage 36).2)
      = (true, widePage) ∧
    ShouldUseExtp widePage 0x1000 = some 0x12345678 ∧
    ShouldUseExtp (UpdateExtSequence widePage 0x1000 2) 0x1002 = some 0x5678 ∧
    mapFind (UpdateExtSequence widePage 0x1000 2).StateMap 0x1002
      = some ⟨ExtPage, 1, 0x5678, 0, ⟨0, 0, 0, 0⟩⟩ ∧
    mapFind (UpdateExtSequence widePage 0x1000 2).StateMap 0x1000
      = some ⟨ExtPage, 2, 0x12345678, 0, ⟨0, 0, 0, 0⟩⟩ := by
  decide

/-- C6, amended. When the entry at `a` has exactly one of the kind bits Segment, Page,
RegisterBank (`k`) and a remaining count `n > 0`, and there is no entry at `a + len` (on
`uint64_t`), then after `UpdateExtSequence(a, len)` the entry at `a + len` is a fresh one
of kind `k` with the low 16 bits of `seg8` (Segment) or of `pag10` (Page) and remaining
count `n - 1`, and the entry at `a` is what it was.  When `seg8` and `pag10` are below
2^16 the value at `a + len` is the same value. -/
theorem UpdateExtSequence_propagates (g : Globals) (a len n k : Nat) (st : InstructionState)
    (hlen : len = 2 ∨ len = 4)
    (hst : mapFind g.StateMap a = some st)
    (hk : k = ExtSegment ∨ k = ExtPage ∨ k = ExtRegister)
    (hkind : st.ext_state &&& (ExtRegister ||| ExtSegment ||| ExtPage) = k)
    (hn : st.num_insns = n) (hpos : 0 < n) (hn8 : n < 256)
    (hnone : mapFind g.StateMap ((a + len) % 18446744073709551616) = none) :
    mapFind (UpdateExtSequence g a len).StateMap ((a + len) % 18446744073709551616)
      = some { ext_state := k, num_insns := n - 1,
               pag10 := if k = ExtPage then st.pag10 % 65536 else 0,
               seg8 := if k = ExtSegment then st.seg8 % 65536 else 0,
               dpp := g.default_dpp } ∧
    mapFind (UpdateExtSequence g a len).StateMap a = some st ∧
    (st.seg8 < 65536 → st.pag10 < 65536 →
      mapFind (UpdateExtSequence g a len).StateMap ((a + len) % 18446744073709551616)
        = some { ext_state := k, num_insns := n - 1,
                 pag10 := if k = ExtPage then st.pag10 else 0,
                 seg8 := if k = ExtSegment then st.seg8 else 0,
                 dpp := g.default_dpp }) := by
  have hne := add_len_ne a len hlen
  have hn1 : (st.num_insns - 1) % 256 = n - 1 := by omega
  have hpos1 : 0 < st.num_insns := by omega
  have hkind7 : st.ext_state &&& 7 = k := hkind
  have main : mapFind (UpdateExtSequence g a len).StateMap ((a + len) % 18446744073709551616)
      = some { ext_state := k, num_insns := n - 1,
               pag10 := if k = ExtPage then st.pag10 % 65536 else 0,
               seg8 := if k = ExtSegment then st.seg8 % 65536 else 0,
               dpp := g.default_dpp } ∧
      mapFind (UpdateExtSequence g a len).StateMap a = some st := by
    rcases hk with hk | hk | hk
    · have hs : st.ext_state &&& ExtSegment ≠ 0 := by
        rw [land_of_land_seven _ _ ExtSegment hkind7 (by decide), hk]; decide
      rw [UpdateExtSequence_seg g a len st hst hs hpos1]
      refine ⟨?_, ?_⟩
      · rw [SetExtsSeg8_find_none _ _ _ _ hnone, hn1, hk]; rfl
      · rw [SetExtsSeg8_find_ne _ _ _ _ _ hne, hst]
    · have hs : st.ext_state &&& ExtSegment = 0 := by
        rw [land_of_land_seven _ _ ExtSegment hkind7 (by decide), hk]; decide
      have hp : st.ext_state &&& ExtPage ≠ 0 := by
        rw [land_of_land_seven _ _ ExtPage hkind7 (by decide), hk]; decide
      rw [UpdateExtSequence_page g a len st hst hs hp hpos1]
      refine ⟨?_, ?_⟩
      · rw [SetExtpPag10_find_none _ _ _ _ hnone, hn1, hk]; rfl
      · rw [SetExtpPag10_find_ne _ _ _ _ _ hne, hst]
    · have hs : st.ext_state &&& ExtSegment = 0 := by
        rw [land_of_land_seven _ _ ExtSegment hkind7 (by decide), hk]; decide
      have hp : st.ext_state &&& ExtPage = 0 := by
        rw [land_of_land_seven _ _ ExtPage hkind7 (by decide), hk]; decide
      have hr : st.ext_state &&& ExtRegister ≠ 0 := by
        rw [land_of_land_seven _ _ ExtRegister hkind7 (by decide), hk]; decide
      rw [UpdateExtSequence_reg g a len st hst hs hp hr hpos1]
      refine ⟨?_, ?_⟩
      · rw [SetExtr_find_none _ _ _ hnone, hn1, hk]; rfl
      · rw [SetExtr_find_ne _ _ _ _ hne, hst]
  refine ⟨main.1, main.2, fun h1 h2 => ?_⟩
  rw [main.1, Nat.mod_eq_of_lt h1, Nat.mod_eq_of_lt h2]


/-- C10. `SetExtpPag10`, `SetExtsSeg8` and `SetExtr` at an address that has
an entry `st`: the entry becomes `st` with the new kind bit OR-ed in, the
value field of that kind set to the argument and the count set to `n`; `seg8`
and `dpp` (resp. `pag10` and `dpp`; `pag10`, `seg8` and `dpp`) keep their
values, so the queries for the other kinds answer what they answered before,
and the query for the kind set reports the argument; every other address
keeps its entry or absence of entry. -/
theorem setters_merge (g : Globals) (addr v n : Nat) (st : InstructionState)
    (hst : mapFind g.StateMap addr = some st) (hv : v < 65536) (hn : n < 256) :
    (GetInstructionState (SetExtpPag10 g addr v n) addr
        = { st with ext_state := st.ext_state ||| ExtPage, pag10 := v, num_insns := n } ∧
      ShouldUseExtp (SetExtpPag10 g addr v n) addr = some v ∧
      ShouldUseExts (SetExtpPag10 g addr v n) addr = ShouldUseExts g addr ∧
      ShouldUseExtr (SetExtpPag10 g addr v n) addr = ShouldUseExtr g addr ∧
      ShouldUseCustomDpps (SetExtpPag10 g addr v n) addr = ShouldUseCustomDpps g addr ∧
      ∀ b, b ≠ addr → mapFind (SetExtpPag10 g addr v n).StateMap b = mapFind g.StateMap b) ∧
    (GetInstructionState (SetExtsSeg8 g addr v n) addr
        = { st with ext_state := st.ext_state ||| ExtSegment, seg8 := v, num_insns := n } ∧
      ShouldUseExts (SetExtsSeg8 g addr v n) addr = some v ∧
      ShouldUseExtp (SetExtsSeg8 g addr v n) addr = ShouldUseExtp g addr ∧
      ShouldUseExtr (SetExtsSeg8 g addr v n) addr = ShouldUseExtr g addr ∧
      ShouldUseCustomDpps (SetExtsSeg8 g addr v n) addr = ShouldUseCustomDpps g addr ∧
      ∀ b, b ≠ addr → mapFind (SetExtsSeg8 g addr v n).StateMap b = mapFind g.StateMap b) ∧
    (GetInstructionState (SetExtr g addr n) addr
        = { st with ext_state := st.ext_state ||| ExtRegister, num_insns := n } ∧
      ShouldUseExtr (SetExtr g addr n) addr = true ∧
      ShouldUseExtp (SetExtr g addr n) addr = ShouldUseExtp g addr ∧
      ShouldUseExts (SetExtr g addr n) addr = ShouldUseExts g addr ∧
      ShouldUseCustomDpps (SetExtr g addr n) addr = ShouldUseCustomDpps g addr ∧
      ∀ b, b ≠ addr → mapFind (SetExtr g addr n).StateMap b = mapFind g.StateMap b) := by
  have hv1 : v % 65536 = v := Nat.mod_eq_of_lt hv
  have hn1 : n % 256 = n := Nat.mod_eq_of_lt hn
  have e1 := SetExtpPag10_find_some g addr v n st hst
  have e2 := SetExtsSeg8_find_some g addr v n st hst
  have e3 := SetExtr_find_some g addr n st hst
  rw [hv1, hn1] at e1 e2
  rw [hn1] at e3
  refine ⟨⟨?_, ?_, ?_, ?_, ?_, ?_⟩, ⟨?_, ?_, ?_, ?_, ?_, ?_⟩, ⟨?_, ?_, ?_, ?_, ?_, ?_⟩⟩
  · simp only [GetInstructionState, e1]
  · simp only [ShouldUseExtp, e1, or_land_self, ne_eq]; simp
  · simp only [ShouldUseExts, e1, hst, or_land_disjoint _ ExtPage ExtSegment (by decide)]
  · simp only [ShouldUseExtr, e1, hst, or_land_disjoint _ ExtPage ExtRegister (by decide)]
  · simp only [ShouldUseCustomDpps, e1, hst,
      or_land_disjoint _ ExtPage ExtNoneCustomDpps (by decide)]
  · intro b hb; exact SetExtpPag10_find_ne g addr b v n (Ne.symm hb)
  · simp only [GetInstructionState, e2]
  · simp only [ShouldUseExts, e2, or_land_self, ne_eq]; simp
  · simp only [ShouldUseExtp, e2, hst, or_land_disjoint _ ExtSegment ExtPage (by decide)]
  · simp only [ShouldUseExtr, e2, hst, or_land_disjoint _ ExtSegment ExtRegister (by decide)]
  · simp only [ShouldUseCustomDpps, e2, hst,
      or_land_disjoint _ ExtSegment ExtNoneCustomDpps (by decide)]
  · intro b hb; exact SetExtsSeg8_find_ne g addr b v n (Ne.symm hb)
  · simp only [GetInstructionState, e3]
  · simp only [ShouldUseExtr, e3, or_land_self, ne_eq]; simp
  · simp only [ShouldUseExtp, e3, hst, or_land_disjoint _ ExtRegister ExtPage (by decide)]
  · simp only [ShouldUseExts, e3, hst, or_land_disjoint _ ExtRegister ExtSegment (by decide)]
  · simp only [ShouldUseCustomDpps, e3, hst,
      or_land_disjoint _ ExtRegister ExtNoneCustomDpps (by decide)]
  · intro b hb; exact SetExtr_find_ne g addr b n (Ne.symm hb)


theorem ShouldUseExts_eq_none (g : Globals) (a : Nat) (st : InstructionState)
    (h : mapFind g.StateMap a = some st) (hs : ShouldUseExts g a = none) :
    st.ext_state &&& ExtSegment = 0 := by
  simp only [ShouldUseExts, h] at hs
  by_contra hc
  simp [hc] at hs

/-- C5, amended. On a store without entries at `A+2`, `A+4`, `A+6` and whose
entry at `A`, if there is one, has no Segment bit: after
`SetExtpPag10(A, p, 2)` and `UpdateExtSequence` at `A`, `A+2`, `A+4` (length
2 each), `ShouldUseExtp` reports `p` at `A`, `A+2` and `A+4` and nothing at
`A+6`. -/
theorem extp_span_two (g : Globals) (A p : Nat) (hA : A + 6 < 18446744073709551616)
    (hp : p < 65536)
    (h2 : mapFind g.StateMap (A + 2) = none) (h4 : mapFind g.StateMap (A + 4) = none)
    (h6 : mapFind g.StateMap (A + 6) = none) (hseg : ShouldUseExts g A = none) :
    ShouldUseExtp (UpdateExtSequence (UpdateExtSequence (UpdateExtSequence
        (SetExtpPag10 g A p 2) A 2) (A + 2) 2) (A + 4) 2) A = some p ∧
    ShouldUseExtp (UpdateExtSequence (UpdateExtSequence (UpdateExtSequence
        (SetExtpPag10 g A p 2) A 2) (A + 2) 2) (A + 4) 2) (A + 2) = some p ∧
    ShouldUseExtp (UpdateExtSequence (UpdateExtSequence (UpdateExtSequence
        (SetExtpPag10 g A p 2) A 2) (A + 2) 2) (A + 4) 2) (A + 4) = some p ∧
    ShouldUseExtp (UpdateExtSequence (UpdateExtSequence (UpdateExtSequence
        (SetExtpPag10 g A p 2) A 2) (A + 2) 2) (A + 4) 2) (A + 6) = none := by
  have hp1 : p % 65536 = p := Nat.mod_eq_of_lt hp
  have a2 : (A + 2) % 18446744073709551616 = A + 2 := by omega
  have a4 : (A + 2 + 2) % 18446744073709551616 = A + 4 := by omega
  -- the entry at A after the set
  obtain ⟨st1, hst1, hs1, hp1', hpag1, hn1⟩ :
      ∃ st1, mapFind (SetExtpPag10 g A p 2).StateMap A = some st1 ∧
        st1.ext_state &&& ExtSegment = 0 ∧ st1.ext_state &&& ExtPage ≠ 0 ∧
        st1.pag10 = p ∧ st1.num_insns = 2 := by
    cases hfa : mapFind g.StateMap A with
    | none =>
      exact ⟨_, SetExtpPag10_find_none g A p 2 hfa, by show (4 : Nat) &&& 2 = 0; decide,
        by show (4 : Nat) &&& 4 ≠ 0; decide, hp1, rfl⟩
    | some st =>
      refine ⟨_, SetExtpPag10_find_some g A p 2 st hfa, ?_, ?_, hp1, rfl⟩
      · show (st.ext_state ||| ExtPage) &&& ExtSegment = 0
        rw [or_land_disjoint _ ExtPage ExtSegment (by decide)]
        exact ShouldUseExts_eq_none g A st hfa hseg
      · show (st.ext_state ||| ExtPage) &&& ExtPage ≠ 0
        rw [or_land_self]; decide
  -- first propagation
  have e1 : UpdateExtSequence (SetExtpPag10 g A p 2) A 2
      = SetExtpPag10 (SetExtpPag10 g A p 2) (A + 2) p 1 := by
    rw [UpdateExtSequence_page _ A 2 st1 hst1 hs1 hp1' (by omega), a2, hpag1, hn1]
  have f12 : mapFind (SetExtpPag10 g A p 2).StateMap (A + 2) = none := by
    rw [SetExtpPag10_find_ne g A (A + 2) p 2 (by omega), h2]
  have f14 : mapFind (SetExtpPag10 g A p 2).StateMap (A + 4) = none := by
    rw [SetExtpPag10_find_ne g A (A + 4) p 2 (by omega), h4]
  have f16 : mapFind (SetExtpPag10 g A p 2).StateMap (A + 6) = none := by
    rw [SetExtpPag10_find_ne g A (A + 6) p 2 (by omega), h6]
  have hst2 := SetExtpPag10_find_none (SetExtpPag10 g A p 2) (A + 2) p 1 f12
  rw [hp1] at hst2
  -- second propagation
  have e2 : UpdateExtSequence (SetExtpPag10 (SetExtpPag10 g A p 2) (A + 2) p 1) (A + 2) 2
      = SetExtpPag10 (SetExtpPag10 (SetExtpPag10 g A p 2) (A + 2) p 1) (A + 4) p 0 := by
    rw [UpdateExtSequence_page _ (A + 2) 2 _ hst2 (by show (4 : Nat) &&& 2 = 0; decide)
      (by show (4 : Nat) &&& 4 ≠ 0; decide) (by show 0 < 1 % 256; decide), a4]
    rfl
  have f24 : mapFind (SetExtpPag10 (SetExtpPag10 g A p 2) (A + 2) p 1).StateMap (A + 4)
      = none := by
    rw [SetExtpPag10_find_ne _ (A + 2) (A + 4) p 1 (by omega), f14]
  have hst3 := SetExtpPag10_find_none _ (A + 4) p 0 f24
  rw [hp1] at hst3
  -- third propagation: the count is exhausted
  have e3 : UpdateExtSequence
      (SetExtpPag10 (SetExtpPag10 (SetExtpPag10 g A p 2) (A + 2) p 1) (A + 4) p 0) (A + 4) 2
      = SetExtpPag10 (SetExtpPag10 (SetExtpPag10 g A p 2) (A + 2) p 1) (A + 4) p 0 :=
    UpdateExtSequence_zero _ (A + 4) 2 _ hst3 rfl
  rw [e1, e2, e3]
  refine ⟨?_, ?_, ?_, ?_⟩
  · have : mapFind (SetExtpPag10 (SetExtpPag10 (SetExtpPag10 g A p 2) (A + 2) p 1)
        (A + 4) p 0).StateMap A = some st1 := by
      rw [SetExtpPag10_find_ne _ (A + 4) A p 0 (by omega),
        SetExtpPag10_find_ne _ (A + 2) A p 1 (by omega), hst1]
    simp only [ShouldUseExtp, this, hp1', hpag1, ne_eq, not_false_eq_true, if_true]
  · have := SetExtpPag10_find_ne (SetExtpPag10 (SetExtpPag10 g A p 2) (A + 2) p 1)
      (A + 4) (A + 2) p 0 (by omega)
    rw [hst2] at this
    simp [ShouldUseExtp, this]
  · simp [ShouldUseExtp, hst3]
  · have : mapFind (SetExtpPag10 (SetExtpPag10 (SetExtpPag10 g A p 2) (A + 2) p 1)
        (A + 4) p 0).StateMap (A + 6) = none := by
      rw [SetExtpPag10_find_ne _ (A + 4) (A + 6) p 0 (by omega),
        SetExtpPag10_find_ne _ (A + 2) (A + 6) p 1 (by omega), f16]
    simp [ShouldUseExtp, this]

/-- Witness for the amended C6: the page override of `pageOverride` moves from 0x1000 to
0x1002 with its page and with its count lowered from 1 to 0; that of `widePage` arrives
at 0x1002 with the low 16 bits of its page. -/
theorem UpdateExtSequence_propagates_witness :
    ((2 : Nat) = 2 ∨ (2 : Nat) = 4) ∧
    mapFind pageOverride.StateMap 0x1000 = some ⟨ExtPage, 1, 3, 0, ⟨0, 0, 0, 0⟩⟩ ∧
    mapFind pageOverride.StateMap ((0x1000 + 2) % 18446744073709551616) = none ∧
    mapFind (UpdateExtSequence pageOverride 0x1000 2).StateMap
        ((0x1000 + 2) % 18446744073709551616)
      = some ⟨ExtPage, 0, 3, 0, ⟨0, 0, 0, 0⟩⟩ ∧
    mapFind (UpdateExtSequence pageOverride 0x1000 2).StateMap 0x1000
      = some ⟨ExtPage, 1, 3, 0, ⟨0, 0, 0, 0⟩⟩ ∧
    mapFind (UpdateExtSequence widePage 0x1000 2).StateMap
        ((0x1000 + 2) % 18446744073709551616)
      = some ⟨ExtPage, 1, 0x5678, 0, ⟨0, 0, 0, 0⟩⟩ :=
  have h := UpdateExtSequence_propagates pageOverride 0x1000 2 1 ExtPage
    ⟨ExtPage, 1, 3, 0, ⟨0, 0, 0, 0⟩⟩ (Or.inl rfl) rfl (Or.inr (Or.inl rfl)) rfl rfl
    (by decide) (by decide) rfl
  have hw := UpdateExtSequence_propagates widePage 0x1000 2 2 ExtPage
    ⟨ExtPage, 2, 0x12345678, 0, ⟨0, 0, 0, 0⟩⟩ (Or.inl rfl) rfl (Or.inr (Or.inl rfl)) rfl rfl
    (by decide) (by decide) rfl
  ⟨Or.inl rfl, rfl, rfl, h.2.2 (by decide) (by decide), h.2.1, hw.1⟩

/-- Witness for C10: a page override and a register-bank override set on top
of the segment override of `segmentOverride`. -/
theorem setters_merge_witness :
    mapFind segmentOverride.StateMap 0x1000 = some ⟨ExtSegment, 0, 0, 7, ⟨0, 0, 0, 0⟩⟩ ∧
    (3 : Nat) < 65536 ∧ (1 : Nat) < 256 ∧
    GetInstructionState (SetExtpPag10 segmentOverride 0x1000 3 1) 0x1000
      = ⟨ExtSegment ||| ExtPage, 1, 3, 7, ⟨0, 0, 0, 0⟩⟩ ∧
    ShouldUseExts (SetExtpPag10 segmentOverride 0x1000 3 1) 0x1000
      = ShouldUseExts segmentOverride 0x1000 ∧
    GetInstructionState (SetExtr segmentOverride 0x1000 1) 0x1000
      = ⟨ExtSegment ||| ExtRegister, 1, 0, 7, ⟨0, 0, 0, 0⟩⟩ :=
  have h := setters_merge segmentOverride 0x1000 3 1 ⟨ExtSegment, 0, 0, 7, ⟨0, 0, 0, 0⟩⟩ rfl
    (by decide) (by decide)
  ⟨rfl, by decide, by decide, h.1.1, h.1.2.2.1, h.2.2.1⟩

/-- C5, as stated, fails: the store `segmentOverride` has no entry at 0x1002,
0x1004 and 0x1006, yet after `SetExtpPag10(0x1000, 5, 2)` and the three
propagation steps `ShouldUseExtp` does not report page 5 at 0x1002.  The
entry at 0x1000 carries a Segment bit, and `UpdateExtSequence` propagates the
segment override only. -/
theorem segment_at_A_blocks_page_span :
    mapFind segmentOverride.StateMap 0x1002 = none ∧
    mapFind segmentOverride.StateMap 0x1004 = none ∧
    mapFind segmentOverride.StateMap 0x1006 = none ∧
    ShouldUseExtp (UpdateExtSequence (UpdateExtSequence (UpdateExtSequence
      (SetExtpPag10 segmentOverride 0x1000 5 2) 0x1000 2) 0x1002 2) 0x1004 2) 0x1002 ≠ some 5 := by
  decide

/-- Witness for C5, amended: page 5 set at 0x1000 on `pageOverride`. -/
theorem extp_span_two_witness :
    0x1000 + 6 < 18446744073709551616 ∧ 5 < 65536 ∧
    mapFind pageOverride.StateMap (0x1000 + 2) = none ∧
    mapFind pageOverride.StateMap (0x1000 + 4) = none ∧
    mapFind pageOverride.StateMap (0x1000 + 6) = none ∧
    ShouldUseExts pageOverride 0x1000 = none ∧
    ShouldUseExtp (UpdateExtSequence (UpdateExtSequence (UpdateExtSequence
        (SetExtpPag10 pageOverride 0x1000 5 2) 0x1000 2) (0x1000 + 2) 2) (0x1000 + 4) 2)
      (0x1000 + 4) = some 5 ∧
    ShouldUseExtp (UpdateExtSequence (UpdateExtSequence (UpdateExtSequence
        (SetExtpPag10 pageOverride 0x1000 5 2) 0x1000 2) (0x1000 + 2) 2) (0x1000 + 4) 2)
      (0x1000 + 6) = none :=
  have h := extp_span_two pageOverride 0x1000 5 (by decide) (by decide) (by decide) (by decide)
    (by decide) (by decide)
  ⟨by decide, by decide, by decide, by decide, by decide, by decide, h.2.2.1, h.2.2.2⟩

/-! ## The classifier and the lifter -/

theorem opcode_of_cons (op : Nat) (rest : List Nat) (h : op < 256) :
    wordAt (op :: rest) 0 &&& 0xFF = op := by
  have h8 := Nat.and_pow_two_sub_one_eq_mod (wordAt (op :: rest) 0) 8
  norm_num at h8
  rw [h8]
  simp only [wordAt, byteAt, Nat.mul_zero, List.getD_cons_zero]
  omega

theorem lift_D7 (labels : Nat → Bool) (rest : List Nat) (addr len0 : Nat) (g : Globals) :
    GetInstructionLowLevelIL labels (0xD7 :: rest) addr len0 g
      = Extprs.LiftxD7 (0xD7 :: rest) addr len0 g := by
  have h0 := opcode_of_cons 0xD7 rest (by decide)
  unfold GetInstructionLowLevelIL
  rw [h0]
  rfl

theorem lift_rotate (labels : Nat → Bool) (rest : List Nat) (addr len0 : Nat) (g : Globals) :
    GetInstructionLowLevelIL labels (0x0C :: rest) addr len0 g = Rol.Liftx0C addr g ∧
    GetInstructionLowLevelIL labels (0x1C :: rest) addr len0 g = Rol.Liftx1C addr g ∧
    GetInstructionLowLevelIL labels (0x2C :: rest) addr len0 g = Ror.Liftx2C addr g ∧
    GetInstructionLowLevelIL labels (0x3C :: rest) addr len0 g = Ror.Liftx3C addr g := by
  have h0 := opcode_of_cons 0x0C rest (by decide)
  have h1 := opcode_of_cons 0x1C rest (by decide)
  have h2 := opcode_of_cons 0x2C rest (by decide)
  have h3 := opcode_of_cons 0x3C rest (by decide)
  refine ⟨?_, ?_, ?_, ?_⟩ <;>
  · unfold GetInstructionLowLevelIL
    simp only [h0, h1, h2, h3]
    rfl

theorem classify_rotate (rest : List Nat) (addr : Nat) (r : InstructionInfo) :
    GetInstructionInfo (0x0C :: rest) addr r = (true, { r with length := 4 }) ∧
    GetInstructionInfo (0x1C :: rest) addr r = (true, { r with length := 4 }) ∧
    GetInstructionInfo (0x2C :: rest) addr r = (true, { r with length := 4 }) ∧
    GetInstructionInfo (0x3C :: rest) addr r = (true, { r with length := 4 }) := by
  have h0 := opcode_of_cons 0x0C rest (by decide)
  have h1 := opcode_of_cons 0x1C rest (by decide)
  have h2 := opcode_of_cons 0x2C rest (by decide)
  have h3 := opcode_of_cons 0x3C rest (by decide)
  refine ⟨?_, ?_, ?_, ?_⟩ <;>
  · unfold GetInstructionInfo
    simp only [h0, h1, h2, h3]
    rfl

/-- The lifter of ADD Rwn, Rwm (0x00) succeeds with length 2 and leaves the
globals as they are, whatever they hold at the instruction's address. -/
theorem lift_add (labels : Nat → Bool) (rest : List Nat) (addr len0 : Nat) (g : Globals) :
    GetInstructionLowLevelIL labels (0x00 :: rest) addr len0 g = ⟨true, 2, g⟩ := by
  have h0 := opcode_of_cons 0x00 rest (by decide)
  unfold GetInstructionLowLevelIL
  rw [h0]
  rfl

/-- C4, as stated, fails: after lifting EXTP #3, #1 (D7 40 03 00) at 0x2000
into the start-up globals, the memory operand 0x4000 of an instruction at
0x2002 does not resolve to 0xC000.  The instruction is four bytes long and
the override is stored at 0x2004. -/
theorem no_page_override_at_0x2002 :
    GetMem (GetInstructionLowLevelIL allLabels [0xD7, 0x40, 0x03, 0x00] 0x2000 0
      Globals.initial).g 0x2002 [0xF2, 0xF0, 0x00, 0x40] ≠ 0xC000 := by
  decide

/-- C4, amended. Starting from an empty table, whatever the default DPP
vector: lifting EXTP #3, #1 (D7 40 03 00) at 0x2000 succeeds with length 4,
the classifier gives the same length, and the memory operand with raw field
0x4000 of an instruction located at 0x2004 resolves to
`(0x3 << 14) | (0x4000 & 0x3FFF) = 0xC000`. -/
theorem extp_scenario (labels : Nat → Bool) (d : Dpp) (len0 b0 b1 : Nat) :
    (GetInstructionLowLevelIL labels [0xD7, 0x40, 0x03, 0x00] 0x2000 len0 ⟨[], d⟩).ok = true ∧
    (GetInstructionLowLevelIL labels [0xD7, 0x40, 0x03, 0x00] 0x2000 len0 ⟨[], d⟩).len = 4 ∧
    GetInstructionInfo [0xD7, 0x40, 0x03, 0x00] 0x2000 InstructionInfo.empty = (true, ⟨4, []⟩) ∧
    GetMem (GetInstructionLowLevelIL labels [0xD7, 0x40, 0x03, 0x00] 0x2000 len0 ⟨[], d⟩).g
      0x2004 [b0, b1, 0x00, 0x40] = 0xC000 := by
  rw [lift_D7]
  have hl : Extprs.LiftxD7 [0xD7, 0x40, 0x03, 0x00] 0x2000 len0 ⟨[], d⟩
      = ⟨true, 4, ⟨[(0x2004, ⟨ExtPage, 0, 3, 0, d⟩)], d⟩⟩ := rfl
  rw [hl]
  refine ⟨rfl, rfl, by decide, ?_⟩
  show GetMem ⟨[(0x2004, ⟨ExtPage, 0, 3, 0, d⟩)], d⟩ 0x2004 [b0, b1, 0x4000 % 256, 0x4000 / 256]
    = 0xC000
  rw [GetMem_field _ _ _ _ _ (by decide)]
  simp [mapFind]
  decide

/-- C7, the code at the failing input. With a page override (page 3, one more
instruction to cover) at 0x1000, lifting ADD Rw1, Rw2 (00 12) at 0x1000
succeeds with length 2 and leaves the globals untouched: no page override at
0x1002.  Lifting OR Rw1, Rw2 (70 12) at the same place does run the rule: page
3 at 0x1002, count 0. -/
theorem add_lift_skips_propagation :
    ShouldUseExtp pageOverride 0x1000 = some 3 ∧
    (GetInstructionState pageOverride 0x1000).num_insns = 1 ∧
    GetInstructionLowLevelIL allLabels [0x00, 0x12] 0x1000 0 pageOverride
      = ⟨true, 2, pageOverride⟩ ∧
    ShouldUseExtp (GetInstructionLowLevelIL allLabels [0x00, 0x12] 0x1000 0 pageOverride).g
      0x1002 = none ∧
    ShouldUseExtp (GetInstructionLowLevelIL allLabels [0x70, 0x12] 0x1000 0 pageOverride).g
      0x1002 = some 3 ∧
    (GetInstructionState
      (GetInstructionLowLevelIL allLabels [0x70, 0x12] 0x1000 0 pageOverride).g 0x1002).num_insns
      = 0 := by
  decide

/-- The opcodes whose lifter succeeds on `pageOverride` at 0x1000 without
leaving a page override behind it: the ADD, ADDB, ADDC, ADDCB, AND, ANDB
families and the extension instructions 0xD1, 0xD7, 0xDC. -/
theorem lifters_without_propagation :
    (List.range 256).filter (fun op =>
      (GetInstructionLowLevelIL allLabels [op, 0x00, 0x00, 0x00] 0x1000 0 pageOverride).ok &&
      (ShouldUseExtp (GetInstructionLowLevelIL allLabels [op, 0x00, 0x00, 0x00] 0x1000 0
        pageOverride).g
        (0x1000 + (GetInstructionLowLevelIL allLabels [op, 0x00, 0x00, 0x00] 0x1000 0
          pageOverride).len)).isNone)
      = [0x00, 0x01, 0x02, 0x03, 0x04, 0x05, 0x06, 0x07, 0x08, 0x09,
         0x10, 0x11, 0x12, 0x13, 0x14, 0x15, 0x16, 0x17, 0x18, 0x19,
         0x60, 0x61, 0x62, 0x63, 0x64, 0x65, 0x66, 0x67, 0x68, 0x69,
         0xD1, 0xD7, 0xDC] := by
  decide

/-- C8, the code at the failing inputs. For every buffer that starts with a
rotate opcode (ROL 0x0C, 0x1C; ROR 0x2C, 0x3C), at every address, the
classifier succeeds with length 4 and the lifter succeeds with length 2. -/
theorem rotate_length_mismatch (labels : Nat → Bool) (rest : List Nat) (addr len0 : Nat)
    (g : Globals) :
    (GetInstructionInfo (0x0C :: rest) addr InstructionInfo.empty = (true, ⟨4, []⟩) ∧
      (GetInstructionLowLevelIL labels (0x0C :: rest) addr len0 g).ok = true ∧
      (GetInstructionLowLevelIL labels (0x0C :: rest) addr len0 g).len = 2) ∧
    (GetInstructionInfo (0x1C :: rest) addr InstructionInfo.empty = (true, ⟨4, []⟩) ∧
      (GetInstructionLowLevelIL labels (0x1C :: rest) addr len0 g).ok = true ∧
      (GetInstructionLowLevelIL labels (0x1C :: rest) addr len0 g).len = 2) ∧
    (GetInstructionInfo (0x2C :: rest) addr InstructionInfo.empty = (true, ⟨4, []⟩) ∧
      (GetInstructionLowLevelIL labels (0x2C :: rest) addr len0 g).ok = true ∧
      (GetInstructionLowLevelIL labels (0x2C :: rest) addr len0 g).len = 2) ∧
    (GetInstructionInfo (0x3C :: rest) addr InstructionInfo.empty = (true, ⟨4, []⟩) ∧
      (GetInstructionLowLevelIL labels (0x3C :: rest) addr len0 g).ok = true ∧
      (GetInstructionLowLevelIL labels (0x3C :: rest) addr len0 g).len = 2) := by
  obtain ⟨c0, c1, c2, c3⟩ := classify_rotate rest addr InstructionInfo.empty
  obtain ⟨l0, l1, l2, l3⟩ := lift_rotate labels rest addr len0 g
  rw [c0, c1, c2, c3, l0, l1, l2, l3]
  exact ⟨⟨rfl, rfl, rfl⟩, ⟨rfl, rfl, rfl⟩, ⟨rfl, rfl, rfl⟩, ⟨rfl, rfl, rfl⟩⟩

/-- An entry with an extension kind is not kept by the loop body of
`SetDppsRange`: it is replaced by a fresh state of kind CustomDpp only. -/
theorem SetDppsRangeBody_replaces (g : Globals) (addr d0 d1 d2 d3 : Nat) (st : InstructionState)
    (h : mapFind g.StateMap addr = some st) (h1 : st.ext_state ≠ ExtNoneCustomDpps)
    (h0 : st.ext_state ≠ ExtNone) :
    mapFind (SetDppsRangeBody g addr d0 d1 d2 d3).StateMap addr
      = some ⟨ExtNoneCustomDpps, 0, 0, 0, ⟨d0 % 65536, d1 % 65536, d2 % 65536, d3 % 65536⟩⟩ := by
  simp [SetDppsRangeBody, h, h1, h0, mapFind_mapAssign_same, InstructionState.new]

/-- C9, the code at the failing input. `SetDppsRange(0x1000, 0x1000, 1, 2, 3,
4)` on `pageOverride` terminates and replaces the page override at 0x1000 by a
state of kind CustomDpp only, page and count cleared: the state read back
differs from the one before the call. -/
theorem SetDppsRange_replaces_page_override :
    ShouldUseExtp pageOverride 0x1000 = some 3 ∧
    SetDppsRange 2 pageOverride 0x1000 0x1000 1 2 3 4
      = some ⟨[(0x1000, ⟨ExtNoneCustomDpps, 0, 0, 0, ⟨1, 2, 3, 4⟩⟩)], ⟨0, 0, 0, 0⟩⟩ ∧
    GetInstructionState ⟨[(0x1000, ⟨ExtNoneCustomDpps, 0, 0, 0, ⟨1, 2, 3, 4⟩⟩)], ⟨0, 0, 0, 0⟩⟩ 0x1000
      ≠ GetInstructionState pageOverride 0x1000 := by
  decide

/-! ## Every opcode: where classifier and lifter agree, and which lifters run the rule -/


theorem Calla_Lift_ok (labels : Nat → Bool) (data : List Nat) (addr len0 : Nat) (g : Globals)
    (h : (Calla.Lift labels data addr len0 g).ok = true) :
    (Calla.Lift labels data addr len0 g).len = 4 ∧
    (Calla.Lift labels data addr len0 g).g = UpdateExtSequence g addr 4 := by
  unfold Calla.Lift at h ⊢
  simp only at h ⊢
  split_ifs at h ⊢
  all_goals simp_all

theorem Jb_Lift_ok (labels : Nat → Bool) (data : List Nat) (addr len0 : Nat) (g : Globals)
    (h : (Jb.Lift labels data addr len0 g).ok = true) :
    (Jb.Lift labels data addr len0 g).len = 4 ∧
    (Jb.Lift labels data addr len0 g).g = UpdateExtSequence g addr 4 := by
  unfold Jb.Lift at h ⊢
  simp only at h ⊢
  split_ifs at h ⊢
  all_goals simp_all

theorem Jbc_Lift_ok (labels : Nat → Bool) (data : List Nat) (addr len0 : Nat) (g : Globals)
    (h : (Jbc.Lift labels data addr len0 g).ok = true) :
    (Jbc.Lift labels data addr len0 g).len = 4 ∧
    (Jbc.Lift labels data addr len0 g).g = UpdateExtSequence g addr 4 := by
  unfold Jbc.Lift at h ⊢
  simp only at h ⊢
  split_ifs at h ⊢
  all_goals simp_all

theorem Jmpa_Lift_ok (labels : Nat → Bool) (data : List Nat) (addr len0 : Nat) (g : Globals)
    (h : (Jmpa.Lift labels data addr len0 g).ok = true) :
    (Jmpa.Lift labels data addr len0 g).len = 4 ∧
    (Jmpa.Lift labels data addr len0 g).g = UpdateExtSequence g addr 4 := by
  unfold Jmpa.Lift at h ⊢
  simp only at h ⊢
  split_ifs at h ⊢
  all_goals simp_all

theorem Jmpi_Lift_ok (labels : Nat → Bool) (data : List Nat) (addr len0 : Nat) (g : Globals)
    (h : (Jmpi.Lift labels data addr len0 g).ok = true) :
    (Jmpi.Lift labels data addr len0 g).len = 2 ∧
    (Jmpi.Lift labels data addr len0 g).g = UpdateExtSequence g addr 2 := by
  unfold Jmpi.Lift at h ⊢
  simp only at h ⊢
  split_ifs at h ⊢
  all_goals simp_all

theorem Jnb_Lift_ok (labels : Nat → Bool) (data : List Nat) (addr len0 : Nat) (g : Globals)
    (h : (Jnb.Lift labels data addr len0 g).ok = true) :
    (Jnb.Lift labels data addr len0 g).len = 4 ∧
    (Jnb.Lift labels data addr len0 g).g = UpdateExtSequence g addr 4 := by
  unfold Jnb.Lift at h ⊢
  simp only at h ⊢
  split_ifs at h ⊢
  all_goals simp_all

theorem Jnbs_Lift_ok (labels : Nat → Bool) (data : List Nat) (addr len0 : Nat) (g : Globals)
    (h : (Jnbs.Lift labels data addr len0 g).ok = true) :
    (Jnbs.Lift labels data addr len0 g).len = 4 ∧
    (Jnbs.Lift labels data addr len0 g).g = UpdateExtSequence g addr 4 := by
  unfold Jnbs.Lift at h ⊢
  simp only at h ⊢
  split_ifs at h ⊢
  all_goals simp_all

theorem Jmpr_Lift_ok (labels : Nat → Bool) (data : List Nat) (addr len0 : Nat) (g : Globals)
    (h : (Jmpr.Lift labels data addr len0 g).ok = true) :
    (Jmpr.Lift labels data addr len0 g).len = 2 ∧
    (Jmpr.Lift labels data addr len0 g).g = UpdateExtSequence g addr 2 := by
  unfold Jmpr.Lift at h ⊢
  simp only at h ⊢
  split_ifs at h ⊢
  all_goals simp_all

theorem LiftxD7_ok (data : List Nat) (addr len0 : Nat) (g : Globals) :
    (Extprs.LiftxD7 data addr len0 g).ok = true ∧ (Extprs.LiftxD7 data addr len0 g).len = 4 := by
  unfold Extprs.LiftxD7
  simp only
  split_ifs
  all_goals exact ⟨rfl, rfl⟩

theorem Jmpi_Info_ok (data : List Nat) (addr : Nat) (r : InstructionInfo)
    (h : (Jmpi.Info data addr r).1 = true) : (Jmpi.Info data addr r).2.length = 2 := by
  unfold Jmpi.Info at h ⊢
  split_ifs at h ⊢
  rfl

theorem Calli_Info_ok (data : List Nat) (addr : Nat) (r : InstructionInfo)
    (h : (Calli.Info data addr r).1 = true) : (Calli.Info data addr r).2.length = 2 := by
  unfold Calli.Info at h ⊢
  split_ifs at h ⊢
  rfl

set_option maxRecDepth 8192 in
set_option maxHeartbeats 4000000 in
/-- On every opcode other than the four rotate opcodes, a classifier `switch` and a lifter
`switch` that both succeed report the same length. -/
theorem lengths_agree_switch (op : Nat) (hop : op < 256)
    (hrot : op ∉ [0x0C, 0x1C, 0x2C, 0x3C])
    (labels : Nat → Bool) (data : List Nat) (addr len0 : Nat) (g : Globals) (r : InstructionInfo)
    (h1 : (GetInstructionInfo.switch op data addr r).1 = true)
    (h2 : (GetInstructionLowLevelIL.switch op labels data addr len0 g).ok = true) :
    (GetInstructionLowLevelIL.switch op labels data addr len0 g).len
      = (GetInstructionInfo.switch op data addr r).2.length := by
  by_cases hb : op ∈ [0xCA, 0x8A, 0xAA, 0xEA, 0x9C, 0x9A, 0xBA, 0xAB, 0xD7, 0x0D, 0x1D, 0x2D, 0x3D, 0x4D, 0x5D, 0x6D, 0x7D, 0x8D, 0x9D, 0xAD, 0xBD, 0xCD, 0xDD, 0xED, 0xFD]
  · simp only [List.mem_cons, List.mem_singleton, List.not_mem_nil, or_false] at hb
    rcases hb with rfl | rfl | rfl | rfl | rfl | rfl | rfl | rfl | rfl | rfl | rfl | rfl | rfl | rfl | rfl | rfl | rfl | rfl | rfl | rfl | rfl | rfl | rfl | rfl | rfl
    · exact (Calla_Lift_ok labels data addr len0 g h2).1
    · exact (Jb_Lift_ok labels data addr len0 g h2).1
    · exact (Jbc_Lift_ok labels data addr len0 g h2).1
    · exact (Jmpa_Lift_ok labels data addr len0 g h2).1
    · exact ((Jmpi_Lift_ok labels data addr len0 g h2).1).trans (Jmpi_Info_ok data addr r h1).symm
    · exact (Jnb_Lift_ok labels data addr len0 g h2).1
    · exact (Jnbs_Lift_ok labels data addr len0 g h2).1
    · exact (Calli_Info_ok data addr r h1).symm
    · exact (LiftxD7_ok data addr len0 g).2
    · exact (Jmpr_Lift_ok labels data addr len0 g h2).1
    · exact (Jmpr_Lift_ok labels data addr len0 g h2).1
    · exact (Jmpr_Lift_ok labels data addr len0 g h2).1
    · exact (Jmpr_Lift_ok labels data addr len0 g h2).1
    · exact (Jmpr_Lift_ok labels data addr len0 g h2).1
    · exact (Jmpr_Lift_ok labels data addr len0 g h2).1
    · exact (Jmpr_Lift_ok labels data addr len0 g h2).1
    · exact (Jmpr_Lift_ok labels data addr len0 g h2).1
    · exact (Jmpr_Lift_ok labels data addr len0 g h2).1
    · exact (Jmpr_Lift_ok labels data addr len0 g h2).1
    · exact (Jmpr_Lift_ok labels data addr len0 g h2).1
    · exact (Jmpr_Lift_ok labels data addr len0 g h2).1
    · exact (Jmpr_Lift_ok labels data addr len0 g h2).1
    · exact (Jmpr_Lift_ok labels data addr len0 g h2).1
    · exact (Jmpr_Lift_ok labels data addr len0 g h2).1
    · exact (Jmpr_Lift_ok labels data addr len0 g h2).1
  · interval_cases op <;>
      first
      | exact absurd (by decide) hb
      | rfl
      | exact absurd (by decide) hrot
      | exact Bool.noConfusion h1

set_option maxRecDepth 8192 in
set_option maxHeartbeats 4000000 in
/-- On every opcode outside the ADD, ADDB, ADDC, ADDCB, AND, ANDB families and the extension
opcodes 0xD1, 0xD7, 0xDC, a lifter `switch` that succeeds leaves the globals that
`UpdateExtSequence(addr, len)` gives. -/
theorem lifter_runs_propagation_switch (op : Nat) (hop : op < 256)
    (hskip : op ∉ [0x00, 0x01, 0x02, 0x03, 0x04, 0x05, 0x06, 0x07, 0x08, 0x09, 0x10, 0x11, 0x12, 0x13, 0x14, 0x15, 0x16, 0x17, 0x18, 0x19, 0x60, 0x61, 0x62, 0x63, 0x64, 0x65, 0x66, 0x67, 0x68, 0x69, 0xD1, 0xD7, 0xDC])
    (labels : Nat → Bool) (data : List Nat) (addr len0 : Nat) (g : Globals)
    (h2 : (GetInstructionLowLevelIL.switch op labels data addr len0 g).ok = true) :
    (GetInstructionLowLevelIL.switch op labels data addr len0 g).g
      = UpdateExtSequence g addr (GetInstructionLowLevelIL.switch op labels data addr len0 g).len := by
  by_cases hb : op ∈ [0xCA, 0x8A, 0xAA, 0xEA, 0x9C, 0x9A, 0xBA, 0x0D, 0x1D, 0x2D, 0x3D, 0x4D, 0x5D, 0x6D, 0x7D, 0x8D, 0x9D, 0xAD, 0xBD, 0xCD, 0xDD, 0xED, 0xFD]
  · simp only [List.mem_cons, List.mem_singleton, List.not_mem_nil, or_false] at hb
    rcases hb with rfl | rfl | rfl | rfl | rfl | rfl | rfl | rfl | rfl | rfl | rfl | rfl | rfl | rfl | rfl | rfl | rfl | rfl | rfl | rfl | rfl | rfl | rfl
    · exact ((Calla_Lift_ok labels data addr len0 g h2).2).trans
        (congrArg (UpdateExtSequence g addr) (Calla_Lift_ok labels data addr len0 g h2).1).symm
    · exact ((Jb_Lift_ok labels data addr len0 g h2).2).trans
        (congrArg (UpdateExtSequence g addr) (Jb_Lift_ok labels data addr len0 g h2).1).symm
    · exact ((Jbc_Lift_ok labels data addr len0 g h2).2).trans
        (congrArg (UpdateExtSequence g addr) (Jbc_Lift_ok labels data addr len0 g h2).1).symm
    · exact ((Jmpa_Lift_ok labels data addr len0 g h2).2).trans
        (congrArg (UpdateExtSequence g addr) (Jmpa_Lift_ok labels data addr len0 g h2).1).symm
    · exact ((Jmpi_Lift_ok labels data addr len0 g h2).2).trans
        (congrArg (UpdateExtSequence g addr) (Jmpi_Lift_ok labels data addr len0 g h2).1).symm
    · exact ((Jnb_Lift_ok labels data addr len0 g h2).2).trans
        (congrArg (UpdateExtSequence g addr) (Jnb_Lift_ok labels data addr len0 g h2).1).symm
    · exact ((Jnbs_Lift_ok labels data addr len0 g h2).2).trans
        (congrArg (UpdateExtSequence g addr) (Jnbs_Lift_ok labels data addr len0 g h2).1).symm
    · exact ((Jmpr_Lift_ok labels data addr len0 g h2).2).trans
        (congrArg (UpdateExtSequence g addr) (Jmpr_Lift_ok labels data addr len0 g h2).1).symm
    · exact ((Jmpr_Lift_ok labels data addr len0 g h2).2).trans
        (congrArg (UpdateExtSequence g addr) (Jmpr_Lift_ok labels data addr len0 g h2).1).symm
    · exact ((Jmpr_Lift_ok labels data addr len0 g h2).2).trans
        (congrArg (UpdateExtSequence g addr) (Jmpr_Lift_ok labels data addr len0 g h2).1).symm
    · exact ((Jmpr_Lift_ok labels data addr len0 g h2).2).trans
        (congrArg (UpdateExtSequence g addr) (Jmpr_Lift_ok labels data addr len0 g h2).1).symm
    · exact ((Jmpr_Lift_ok labels data addr len0 g h2).2).trans
        (congrArg (UpdateExtSequence g addr) (Jmpr_Lift_ok labels data addr len0 g h2).1).symm
    · exact ((Jmpr_Lift_ok labels data addr len0 g h2).2).trans
        (congrArg (UpdateExtSequence g addr) (Jmpr_Lift_ok labels data addr len0 g h2).1).symm
    · exact ((Jmpr_Lift_ok labels data addr len0 g h2).2).trans
        (congrArg (UpdateExtSequence g addr) (Jmpr_Lift_ok labels data addr len0 g h2).1).symm
    · exact ((Jmpr_Lift_ok labels data addr len0 g h2).2).trans
        (congrArg (UpdateExtSequence g addr) (Jmpr_Lift_ok labels data addr len0 g h2).1).symm
    · exact ((Jmpr_Lift_ok labels data addr len0 g h2).2).trans
        (congrArg (UpdateExtSequence g addr) (Jmpr_Lift_ok labels data addr len0 g h2).1).symm
    · exact ((Jmpr_Lift_ok labels data addr len0 g h2).2).trans
        (congrArg (UpdateExtSequence g addr) (Jmpr_Lift_ok labels data addr len0 g h2).1).symm
    · exact ((Jmpr_Lift_ok labels data addr len0 g h2).2).trans
        (congrArg (UpdateExtSequence g addr) (Jmpr_Lift_ok labels data addr len0 g h2).1).symm
    · exact ((Jmpr_Lift_ok labels data addr len0 g h2).2).trans
        (congrArg (UpdateExtSequence g addr) (Jmpr_Lift_ok labels data addr len0 g h2).1).symm
    · exact ((Jmpr_Lift_ok labels data addr len0 g h2).2).trans
        (congrArg (UpdateExtSequence g addr) (Jmpr_Lift_ok labels data addr len0 g h2).1).symm
    · exact ((Jmpr_Lift_ok labels data addr len0 g h2).2).trans
        (congrArg (UpdateExtSequence g addr) (Jmpr_Lift_ok labels data addr len0 g h2).1).symm
    · exact ((Jmpr_Lift_ok labels data addr len0 g h2).2).trans
        (congrArg (UpdateExtSequence g addr) (Jmpr_Lift_ok labels data addr len0 g h2).1).symm
    · exact ((Jmpr_Lift_ok labels data addr len0 g h2).2).trans
        (congrArg (UpdateExtSequence g addr) (Jmpr_Lift_ok labels data addr len0 g h2).1).symm
  · interval_cases op <;>
      first
      | exact absurd (by decide) hb
      | exact absurd (by decide) hskip
      | rfl
      | exact Bool.noConfusion h2

theorem opcode_lt (data : List Nat) : wordAt data 0 &&& 0xFF < 256 :=
  Nat.and_lt_two_pow _ (by decide : (0xFF : Nat) < 2 ^ 8)

/-- Whenever classifier and lifter both succeed on a buffer whose opcode is not a rotate
opcode, the lifter writes to `len` the length the classifier reports. -/
theorem lengths_agree (labels : Nat → Bool) (data : List Nat) (addr len0 : Nat) (g : Globals)
    (r : InstructionInfo) (hrot : wordAt data 0 &&& 0xFF ∉ [0x0C, 0x1C, 0x2C, 0x3C])
    (h1 : (GetInstructionInfo data addr r).1 = true)
    (h2 : (GetInstructionLowLevelIL labels data addr len0 g).ok = true) :
    (GetInstructionLowLevelIL labels data addr len0 g).len
      = (GetInstructionInfo data addr r).2.length :=
  lengths_agree_switch _ (opcode_lt data) hrot labels data addr len0 g r h1 h2

/-- Whenever the lifter succeeds on a buffer whose opcode is outside the ADD, ADDB, ADDC,
ADDCB, AND, ANDB families and the extension opcodes, the globals afterwards are those that
`UpdateExtSequence(addr, len)` gives for the globals before. -/
theorem lifter_runs_propagation (labels : Nat → Bool) (data : List Nat) (addr len0 : Nat)
    (g : Globals)
    (hskip : wordAt data 0 &&& 0xFF ∉
      [0x00, 0x01, 0x02, 0x03, 0x04, 0x05, 0x06, 0x07, 0x08, 0x09,
       0x10, 0x11, 0x12, 0x13, 0x14, 0x15, 0x16, 0x17, 0x18, 0x19,
       0x60, 0x61, 0x62, 0x63, 0x64, 0x65, 0x66, 0x67, 0x68, 0x69, 0xD1, 0xD7, 0xDC])
    (h2 : (GetInstructionLowLevelIL labels data addr len0 g).ok = true) :
    (GetInstructionLowLevelIL labels data addr len0 g).g
      = UpdateExtSequence g addr (GetInstructionLowLevelIL labels data addr len0 g).len :=
  lifter_runs_propagation_switch _ (opcode_lt data) hskip labels data addr len0 g h2

/-! ## The DPP vector of an address and the default vector -/

/-- C11. After `SetDpps(addr, d0, d1, d2, d3)` with 16-bit values, whatever the
table held at `addr`: the entry at `addr` has exactly the kind CustomDpp, so
`ShouldUseExtp`, `ShouldUseExts` and `ShouldUseExtr` report no override there,
and `ShouldUseCustomDpps` reports the vector `[d0, d1, d2, d3]`; the lookup at
every other address, and the default vector, are what they were. -/
theorem SetDpps_replaces (g : Globals) (addr d0 d1 d2 d3 : Nat)
    (h0 : d0 < 65536) (h1 : d1 < 65536) (h2 : d2 < 65536) (h3 : d3 < 65536) :
    (∃ st, mapFind (SetDpps g addr d0 d1 d2 d3).StateMap addr = some st ∧
      st.ext_state = ExtNoneCustomDpps) ∧
    ShouldUseExtp (SetDpps g addr d0 d1 d2 d3) addr = none ∧
    ShouldUseExts (SetDpps g addr d0 d1 d2 d3) addr = none ∧
    ShouldUseExtr (SetDpps g addr d0 d1 d2 d3) addr = false ∧
    ShouldUseCustomDpps (SetDpps g addr d0 d1 d2 d3) addr = some ⟨d0, d1, d2, d3⟩ ∧
    (∀ a, a ≠ addr →
      mapFind (SetDpps g addr d0 d1 d2 d3).StateMap a = mapFind g.StateMap a) ∧
    (SetDpps g addr d0 d1 d2 d3).default_dpp = g.default_dpp := by
  have e0 := Nat.mod_eq_of_lt h0
  have e1 := Nat.mod_eq_of_lt h1
  have e2 := Nat.mod_eq_of_lt h2
  have e3 := Nat.mod_eq_of_lt h3
  have hne : ∀ a, a ≠ addr →
      mapFind (SetDpps g addr d0 d1 d2 d3).StateMap a = mapFind g.StateMap a := by
    intro a ha
    unfold SetDpps
    cases h : mapFind g.StateMap addr <;>
      exact mapFind_mapAssign_ne _ _ _ _ (Ne.symm ha)
  have hat : ∃ st, mapFind (SetDpps g addr d0 d1 d2 d3).StateMap addr = some st ∧
      st.ext_state = ExtNoneCustomDpps ∧ st.dpp = ⟨d0, d1, d2, d3⟩ := by
    unfold SetDpps
    cases h : mapFind g.StateMap addr
    · exact ⟨_, mapFind_mapAssign_same _ _ _, rfl, by simp only [e0, e1, e2, e3]⟩
    · exact ⟨_, mapFind_mapAssign_same _ _ _, rfl, by simp only [e0, e1, e2, e3]⟩
  have hdd : (SetDpps g addr d0 d1 d2 d3).default_dpp = g.default_dpp := by
    unfold SetDpps
    cases h : mapFind g.StateMap addr <;> rfl
  obtain ⟨st, hst, hk, hd⟩ := hat
  refine ⟨⟨st, hst, hk⟩, ?_, ?_, ?_, ?_, hne, hdd⟩
  · simp only [ShouldUseExtp, hst, hk]; rfl
  · simp only [ShouldUseExts, hst, hk]; rfl
  · simp only [ShouldUseExtr, hst, hk]; rfl
  · simp only [ShouldUseCustomDpps, hst, hk, hd]; rfl

/-- Witness for C11: `SetDpps(0x1000, 1, 2, 3, 4)` on `mixedStore`, whose
entry at 0x1000 is a page override; the segment override at 0x2000 stays. -/
theorem SetDpps_replaces_witness :
    ShouldUseExtp mixedStore 0x1000 = some 3 ∧
    ShouldUseExtp (SetDpps mixedStore 0x1000 1 2 3 4) 0x1000 = none ∧
    ShouldUseCustomDpps (SetDpps mixedStore 0x1000 1 2 3 4) 0x1000 = some ⟨1, 2, 3, 4⟩ ∧
    mapFind (SetDpps mixedStore 0x1000 1 2 3 4).StateMap 0x2000
      = some ⟨ExtSegment, 2, 0, 7, ⟨0, 0, 0, 0⟩⟩ :=
  have h := SetDpps_replaces mixedStore 0x1000 1 2 3 4 (by decide) (by decide) (by decide)
    (by decide)
  ⟨by decide, h.2.1, h.2.2.2.2.1, (h.2.2.2.2.2.1 0x2000 (by decide)).trans (by decide)⟩

/-- C12, as stated, fails: `registerBankOnly` has a stored entry at 0x1000,
of kind RegisterBank only, and the operand field 0x0010 of an instruction at
0x1000 resolves to 0x10 before `SetDefaultDpps(1, 1, 1, 1)` and to 0x4010
after it. -/
theorem default_dpps_reach_register_bank_entry :
    mapFind registerBankOnly.StateMap 0x1000 = some ⟨ExtRegister, 1, 0, 0, ⟨0, 0, 0, 0⟩⟩ ∧
    GetMem registerBankOnly 0x1000 [0xF2, 0xF0, 0x10, 0x00] = 0x10 ∧
    GetMem (SetDefaultDpps registerBankOnly 1 1 1 1) 0x1000 [0xF2, 0xF0, 0x10, 0x00]
      = 0x4010 := by
  decide

/-- C12, amended. At an address whose stored entry has the Page, the Segment
or the CustomDpp kind bit, `GetMem` returns the same physical address before
and after `SetDefaultDpps`, for every instruction buffer and every new default
vector.  At an address whose stored entry has none of the three bits (an
entry of kind RegisterBank only, for one), `GetMem` after `SetDefaultDpps`
uses the new default vector, as it does at an address without entry. -/
theorem SetDefaultDpps_frame (g : Globals) (addr n0 n1 n2 n3 : Nat) (data : List Nat)
    (st : InstructionState) (h : mapFind g.StateMap addr = some st) :
    (st.ext_state &&& ExtPage ≠ 0 ∨ st.ext_state &&& ExtSegment ≠ 0 ∨
        st.ext_state &&& ExtNoneCustomDpps ≠ 0 →
      GetMem (SetDefaultDpps g n0 n1 n2 n3) addr data = GetMem g addr data) ∧
    (st.ext_state &&& ExtPage = 0 → st.ext_state &&& ExtSegment = 0 →
        st.ext_state &&& ExtNoneCustomDpps = 0 →
      GetMem (SetDefaultDpps g n0 n1 n2 n3) addr data
        = (((Dpp.mk (n0 % 65536) (n1 % 65536) (n2 % 65536) (n3 % 65536)).get
              (((wordAt data 1 &&& 0xFFFF) &&& 0xC000) >>> 14) <<< 14) % 4294967296)
            ||| ((wordAt data 1 &&& 0xFFFF) &&& 0x3FFF)) := by
  have hm : mapFind (SetDefaultDpps g n0 n1 n2 n3).StateMap addr = some st := h
  constructor
  · intro hk
    by_cases hp : st.ext_state &&& ExtPage = 0
    · by_cases hs : st.ext_state &&& ExtSegment = 0
      · have hc : st.ext_state &&& ExtNoneCustomDpps ≠ 0 := by
          rcases hk with hk | hk | hk
          · exact absurd hp hk
          · exact absurd hs hk
          · exact hk
        simp only [GetMem, hm, h, hp, hs, hc, ne_eq, not_true_eq_false, not_false_eq_true,
          if_true, if_false]
      · simp only [GetMem, hm, h, hp, hs, ne_eq, not_true_eq_false, not_false_eq_true,
          if_true, if_false]
    · simp only [GetMem, hm, h, hp, ne_eq, not_false_eq_true, if_true]
  · intro hp hs hc
    simp only [GetMem, hm, hp, hs, hc, ne_eq, not_true_eq_false, if_false]
    rfl

/-- Witness for the amended C12: the page override of `mixedStore` at 0x1000
keeps its resolution, the RegisterBank entry of `registerBankOnly` follows
the new default vector. -/
theorem SetDefaultDpps_frame_witness :
    GetMem (SetDefaultDpps mixedStore 1 1 1 1) 0x1000 [0xF2, 0xF0, 0x10, 0x00]
      = GetMem mixedStore 0x1000 [0xF2, 0xF0, 0x10, 0x00] ∧
    GetMem (SetDefaultDpps registerBankOnly 1 1 1 1) 0x1000 [0xF2, 0xF0, 0x10, 0x00] = 0x4010 :=
  ⟨(SetDefaultDpps_frame mixedStore 0x1000 1 1 1 1 [0xF2, 0xF0, 0x10, 0x00]
      ⟨ExtPage, 1, 3, 0, ⟨0, 0, 0, 0⟩⟩ rfl).1 (Or.inl (by decide)),
   ((SetDefaultDpps_frame registerBankOnly 0x1000 1 1 1 1 [0xF2, 0xF0, 0x10, 0x00]
      ⟨ExtRegister, 1, 0, 0, ⟨0, 0, 0, 0⟩⟩ rfl).2 (by decide) (by decide) (by decide)).trans
      (by decide)⟩

/-! ## Register short codes -/

/-- C13. For every address and every short code `c`: `TranslateReg` returns
`c & 0xF` when `c > 0xEF`; otherwise it returns `0xF000 + 2 * c` when
`ShouldUseExtr` reports a RegisterBank override at the address, and
`0xFE00 + 2 * c` when it does not.  Neither the conversion of `c` to
`uint8_t` nor the `uint32_t` sum loses anything. -/
theorem TranslateReg_short_code (g : Globals) (addr c : Nat) :
    (0xEF < c → TranslateReg g addr c = c &&& 0xF) ∧
    (c ≤ 0xEF → ShouldUseExtr g addr = true → TranslateReg g addr c = 0xF000 + 2 * c) ∧
    (c ≤ 0xEF → ShouldUseExtr g addr = false → TranslateReg g addr c = 0xFE00 + 2 * c) := by
  refine ⟨?_, ?_, ?_⟩
  · intro hc
    have : ¬ c ≤ 0xEF := by omega
    simp [TranslateReg, this]
  · intro hc he
    simp only [TranslateReg, hc, GetRegSfrAddress, he, if_true]
    omega
  · intro hc he
    simp only [TranslateReg, hc, GetRegSfrAddress, he, if_true]
    simp
    omega

/-- Witness for C13: short code 0xF3, and short code 0x08 with and without the
RegisterBank override of `registerBankOnly`. -/
theorem TranslateReg_short_code_witness :
    TranslateReg registerBankOnly 0x1000 0xF3 = 3 ∧
    TranslateReg registerBankOnly 0x1000 0x08 = 0xF010 ∧
    TranslateReg registerBankOnly 0x1002 0x08 = 0xFE10 :=
  ⟨(TranslateReg_short_code registerBankOnly 0x1000 0xF3).1 (by decide),
   (TranslateReg_short_code registerBankOnly 0x1000 0x08).2.1 (by decide) (by decide),
   (TranslateReg_short_code registerBankOnly 0x1002 0x08).2.2 (by decide) (by decide)⟩

/-- C14, as stated, fails: with an empty table, so without a RegisterBank
override at 0x1000, `TranslateReg` maps the short code 0x10 to 0xFE20, which
is not a register id in 0..15. -/
theorem short_code_0x10_is_not_a_gpr :
    ShouldUseExtr Globals.initial 0x1000 = false ∧
    TranslateReg Globals.initial 0x1000 0x10 = 0xFE20 ∧
    ¬ TranslateReg Globals.initial 0x1000 0x10 < 16 := by
  decide

/-- C14, amended. For the short code 0x10, `TranslateReg` yields a
special-function-register address with and without a RegisterBank override
at the address: 0xF020, on the alternate base 0xF000, with the override, and
the different value 0xFE20, on the default base 0xFE00, without it.  A direct
register id comes out of a short code above 0xEF: 0xF0 gives 0 at every
address of every store. -/
theorem TranslateReg_0x10 (g : Globals) (addr : Nat) :
    TranslateReg g addr 0x10 = (if ShouldUseExtr g addr then 0xF020 else 0xFE20) ∧
    TranslateReg g addr 0xF0 = 0 := by
  constructor
  · simp only [TranslateReg, GetRegSfrAddress]
    cases ShouldUseExtr g addr <;> rfl
  · rfl

/-! ## Branch shapes -/

theorem byteAt_lt (data : List Nat) (i : Nat) : byteAt data i < 256 :=
  Nat.mod_lt _ (by decide)

/-- The opcode that both `switch` statements dispatch on is the first byte of
the buffer. -/
theorem opcode_eq_byte (data : List Nat) : wordAt data 0 &&& 0xFF = byteAt data 0 := by
  have h8 := Nat.and_pow_two_sub_one_eq_mod (wordAt data 0) 8
  norm_num at h8
  rw [h8]
  have h0 := byteAt_lt data 0
  simp only [wordAt, Nat.mul_zero, Nat.zero_add]
  omega

theorem classify_byte (data : List Nat) (addr : Nat) (r : InstructionInfo) :
    GetInstructionInfo data addr r = GetInstructionInfo.switch (byteAt data 0) data addr r := by
  simp only [GetInstructionInfo, opcode_eq_byte]

theorem lift_byte (labels : Nat → Bool) (data : List Nat) (addr len0 : Nat) (g : Globals) :
    GetInstructionLowLevelIL labels data addr len0 g
      = GetInstructionLowLevelIL.switch (byteAt data 0) labels data addr len0 g := by
  simp only [GetInstructionLowLevelIL, opcode_eq_byte]

set_option maxRecDepth 100000 in
/-- On a byte, `SignExtend` is the two's-complement reading. -/
theorem SignExtend_byte :
    ∀ d < 256, SignExtend d = if d < 128 then (d : Int) else (d : Int) - 256 := by
  decide

set_option maxRecDepth 100000 in
theorem high_nibble_byte : ∀ b < 256, (b &&& 0xF0) >>> 4 = b / 16 := by
  decide

theorem shiftRight_land (x m i : Nat) : (x &&& m) >>> i = (x >>> i) &&& (m >>> i) := by
  apply Nat.eq_of_testBit_eq
  intro j
  simp only [Nat.testBit_shiftRight, Nat.testBit_and]

/-- For a two-byte instruction `GetData4High` is the high nibble of byte 1. -/
theorem GetData4High_two (data : List Nat) : GetData4High data 2 = byteAt data 1 / 16 := by
  have h0 := byteAt_lt data 0
  have h1 := byteAt_lt data 1
  have e : (0xF <<< (4 * 2 + 4) : Nat) = 0xF000 := by decide
  have e2 : (0xF000 : Nat) >>> 12 = 2 ^ 4 - 1 := by decide
  simp only [GetData4High, if_true, e, wordAt, Nat.mul_zero, Nat.zero_add]
  show ((byteAt data 0 + 256 * byteAt data 1) &&& 0xF000) >>> 12 % 256 = byteAt data 1 / 16
  rw [shiftRight_land, e2, Nat.and_pow_two_sub_one_eq_mod, Nat.shiftRight_eq_div_pow]
  omega

/-- The two reductions of `relativeTarget`, to `uint64_t` and then to
`uint32_t`, amount to one reduction modulo 2^32. -/
theorem relativeTarget_eq (a : Nat) (s : Int) (k : Nat) :
    relativeTarget a s k = (((a : Int) + 2 * s + (k : Int)) % 4294967296).toNat := by
  unfold relativeTarget
  congr 1
  omega

/-- C15. For every address `a`, every displacement byte `d` and whatever
follows in the buffer, classifying the bytes `0D d` succeeds with length 2 and
adds exactly one branch, an unconditional branch to `a + 2 * sext8(d) + 2`
reduced modulo 2^32; for `d = 0xFE` at `a = 0x1000` the target is 0x0FFE. -/
theorem Jmpr_unconditional (a d : Nat) (rest : List Nat) (r : InstructionInfo) (hd : d < 256) :
    GetInstructionInfo (0x0D :: d :: rest) a r
      = (true, ⟨2, r.branches ++ [(BranchType.UnconditionalBranch,
          (((a : Int) + 2 * (if d < 128 then (d : Int) else (d : Int) - 256) + 2)
            % 4294967296).toNat)]⟩) ∧
    GetInstructionInfo [0x0D, 0xFE] 0x1000 InstructionInfo.empty
      = (true, ⟨2, [(BranchType.UnconditionalBranch, 0x0FFE)]⟩) := by
  refine ⟨?_, by decide⟩
  have h0 := opcode_of_cons 0x0D (d :: rest) (by decide)
  have hs : GetInstructionInfo.switch 0x0D (0x0D :: d :: rest) a r
      = Jmpr.Info (0x0D :: d :: rest) a r := rfl
  have hcc : Jmpr.GetConditionCode (0x0D :: d :: rest) = Conditions.CC_UC := by
    simp only [Jmpr.GetConditionCode, byteAt, List.getD_cons_zero]
    decide
  have hoff : Jmpr.GetRelativeOffset (0x0D :: d :: rest) = d := by
    have h8 := Nat.and_pow_two_sub_one_eq_mod d 8
    norm_num at h8
    simp only [Jmpr.GetRelativeOffset, byteAt, List.getD_cons_succ, List.getD_cons_zero]
    rw [Nat.mod_eq_of_lt hd, h8]
    exact Nat.mod_eq_of_lt hd
  have ht : Jmpr.GetTarget (0x0D :: d :: rest) a
      = (((a : Int) + 2 * (if d < 128 then (d : Int) else (d : Int) - 256) + 2)
            % 4294967296).toNat := by
    simp only [Jmpr.GetTarget, hoff, relativeTarget_eq, SignExtend_byte d hd]
    rfl
  simp only [GetInstructionInfo, h0, hs, Jmpr.Info, hcc, if_true, ht,
    InstructionInfo.AddBranch]

/-- Witness for C15: displacement 0x80, that is -128, at 0x1000. -/
theorem Jmpr_unconditional_witness :
    (0x80 : Nat) < 256 ∧
    GetInstructionInfo [0x0D, 0x80] 0x1000 InstructionInfo.empty
      = (true, ⟨2, [(BranchType.UnconditionalBranch, 0x0F02)]⟩) :=
  ⟨by decide, ((Jmpr_unconditional 0x1000 0x80 [] InstructionInfo.empty (by decide)).1).trans
    (by decide)⟩

set_option maxRecDepth 100000 in
theorem jmpr_opcodes : ∀ b < 256, b &&& 0x0F = 0x0D →
    b ∈ [0x0D, 0x1D, 0x2D, 0x3D, 0x4D, 0x5D, 0x6D, 0x7D, 0x8D, 0x9D, 0xAD, 0xBD, 0xCD,
      0xDD, 0xED, 0xFD] := by
  decide

/-- A first byte with low nibble 0xD is one of the sixteen JMPR opcodes, and
the classifier hands the buffer to `Jmpr::Info`. -/
theorem classify_Jmpr (data : List Nat) (addr : Nat) (r : InstructionInfo)
    (h : byteAt data 0 &&& 0x0F = 0x0D) :
    GetInstructionInfo data addr r = Jmpr.Info data addr r := by
  have hb := jmpr_opcodes _ (byteAt_lt data 0) h
  simp only [GetInstructionInfo, opcode_eq_byte]
  generalize byteAt data 0 = b at hb
  simp only [List.mem_cons, List.mem_singleton, List.not_mem_nil, or_false] at hb
  rcases hb with rfl | rfl | rfl | rfl | rfl | rfl | rfl | rfl | rfl | rfl | rfl | rfl | rfl |
    rfl | rfl | rfl <;> rfl

/-- C16. Classification of JMPR (first byte with low nibble 0xD) and of JMPA
(0xEA) with a condition code other than `CC_UC`, and of JB (0x8A), JBC
(0xAA), JNB (0x9A), JNBS (0xBA) with any operands, succeeds and adds exactly
two branches: a true branch to the target the instruction decodes and a false
branch to `addr + length` on `uint64_t`, with length 2 for JMPR and 4 for
the others.  JMPR and JMPA with the code `CC_UC` add exactly one branch, an
unconditional one to the decoded target. -/
theorem conditional_branch_shapes (data : List Nat) (addr : Nat) (r : InstructionInfo) :
    (byteAt data 0 &&& 0x0F = 0x0D → Jmpr.GetConditionCode data ≠ Conditions.CC_UC →
      GetInstructionInfo data addr r = (true, ⟨2, r.branches ++
        [(BranchType.TrueBranch, Jmpr.GetTarget data addr),
         (BranchType.FalseBranch, (addr + 2) % 18446744073709551616)]⟩)) ∧
    (byteAt data 0 = 0xEA → Jmpa.GetConditionCode data ≠ Conditions.CC_UC →
      GetInstructionInfo data addr r = (true, ⟨4, r.branches ++
        [(BranchType.TrueBranch, Jmpa.GetTarget data addr),
         (BranchType.FalseBranch, (addr + 4) % 18446744073709551616)]⟩)) ∧
    (byteAt data 0 = 0x8A →
      GetInstructionInfo data addr r = (true, ⟨4, r.branches ++
        [(BranchType.TrueBranch, Jb.GetTarget data addr),
         (BranchType.FalseBranch, (addr + 4) % 18446744073709551616)]⟩)) ∧
    (byteAt data 0 = 0xAA →
      GetInstructionInfo data addr r = (true, ⟨4, r.branches ++
        [(BranchType.TrueBranch, Jbc.GetTarget data addr),
         (BranchType.FalseBranch, (addr + 4) % 18446744073709551616)]⟩)) ∧
    (byteAt data 0 = 0x9A →
      GetInstructionInfo data addr r = (true, ⟨4, r.branches ++
        [(BranchType.TrueBranch, Jnb.GetTarget data addr),
         (BranchType.FalseBranch, (addr + 4) % 18446744073709551616)]⟩)) ∧
    (byteAt data 0 = 0xBA →
      GetInstructionInfo data addr r = (true, ⟨4, r.branches ++
        [(BranchType.TrueBranch, Jnbs.GetTarget data addr),
         (BranchType.FalseBranch, (addr + 4) % 18446744073709551616)]⟩)) ∧
    (byteAt data 0 &&& 0x0F = 0x0D → Jmpr.GetConditionCode data = Conditions.CC_UC →
      GetInstructionInfo data addr r = (true, ⟨2, r.branches ++
        [(BranchType.UnconditionalBranch, Jmpr.GetTarget data addr)]⟩)) ∧
    (byteAt data 0 = 0xEA → Jmpa.GetConditionCode data = Conditions.CC_UC →
      GetInstructionInfo data addr r = (true, ⟨4, r.branches ++
        [(BranchType.UnconditionalBranch, Jmpa.GetTarget data addr)]⟩)) := by
  refine ⟨?_, ?_, ?_, ?_, ?_, ?_, ?_, ?_⟩
  · intro h hc
    rw [classify_Jmpr data addr r h]
    simp [Jmpr.Info, hc, InstructionInfo.AddBranch]
  · intro h hc
    rw [classify_byte, h]
    show Jmpa.Info data addr r = _
    simp [Jmpa.Info, hc, InstructionInfo.AddBranch]
  · intro h
    rw [classify_byte, h]
    show Jb.Info data addr r = _
    simp [Jb.Info, InstructionInfo.AddBranch]
  · intro h
    rw [classify_byte, h]
    show Jbc.Info data addr r = _
    simp [Jbc.Info, InstructionInfo.AddBranch]
  · intro h
    rw [classify_byte, h]
    show Jnb.Info data addr r = _
    simp [Jnb.Info, InstructionInfo.AddBranch]
  · intro h
    rw [classify_byte, h]
    show Jnbs.Info data addr r = _
    simp [Jnbs.Info, InstructionInfo.AddBranch]
  · intro h hc
    rw [classify_Jmpr data addr r h]
    simp [Jmpr.Info, hc, InstructionInfo.AddBranch]
  · intro h hc
    rw [classify_byte, h]
    show Jmpa.Info data addr r = _
    simp [Jmpa.Info, hc, InstructionInfo.AddBranch]

/-- Witness for C16, one buffer for each case, all at 0x1000: JMPR with
condition code 2 and displacement -2; JMPA with condition code 2 to 0x1234;
JB, JBC, JNB, JNBS with displacement 3; JMPR with condition code 0 and
displacement -2; JMPA with condition code 0 to 0x1234. -/
theorem conditional_branch_shapes_witness :
    GetInstructionInfo [0x2D, 0xFE] 0x1000 InstructionInfo.empty
      = (true, ⟨2, [(BranchType.TrueBranch, 0x0FFE), (BranchType.FalseBranch, 0x1002)]⟩) ∧
    GetInstructionInfo [0xEA, 0x20, 0x34, 0x12] 0x1000 InstructionInfo.empty
      = (true, ⟨4, [(BranchType.TrueBranch, 0x1234), (BranchType.FalseBranch, 0x1004)]⟩) ∧
    GetInstructionInfo [0x8A, 0x00, 0x03, 0x00] 0x1000 InstructionInfo.empty
      = (true, ⟨4, [(BranchType.TrueBranch, 0x100A), (BranchType.FalseBranch, 0x1004)]⟩) ∧
    GetInstructionInfo [0xAA, 0x00, 0x03, 0x00] 0x1000 InstructionInfo.empty
      = (true, ⟨4, [(BranchType.TrueBranch, 0x100A), (BranchType.FalseBranch, 0x1004)]⟩) ∧
    GetInstructionInfo [0x9A, 0x00, 0x03, 0x00] 0x1000 InstructionInfo.empty
      = (true, ⟨4, [(BranchType.TrueBranch, 0x100A), (BranchType.FalseBranch, 0x1004)]⟩) ∧
    GetInstructionInfo [0xBA, 0x00, 0x03, 0x00] 0x1000 InstructionInfo.empty
      = (true, ⟨4, [(BranchType.TrueBranch, 0x100A), (BranchType.FalseBranch, 0x1004)]⟩) ∧
    GetInstructionInfo [0x0D, 0xFE] 0x1000 InstructionInfo.empty
      = (true, ⟨2, [(BranchType.UnconditionalBranch, 0x0FFE)]⟩) ∧
    GetInstructionInfo [0xEA, 0x00, 0x34, 0x12] 0x1000 InstructionInfo.empty
      = (true, ⟨4, [(BranchType.UnconditionalBranch, 0x1234)]⟩) :=
  ⟨((conditional_branch_shapes [0x2D, 0xFE] 0x1000 InstructionInfo.empty).1
      (by decide) (by decide)).trans (by decide),
   ((conditional_branch_shapes [0xEA, 0x20, 0x34, 0x12] 0x1000 InstructionInfo.empty).2.1
      (by decide) (by decide)).trans (by decide),
   ((conditional_branch_shapes [0x8A, 0x00, 0x03, 0x00] 0x1000 InstructionInfo.empty).2.2.1
      (by decide)).trans (by decide),
   ((conditional_branch_shapes [0xAA, 0x00, 0x03, 0x00] 0x1000 InstructionInfo.empty).2.2.2.1
      (by decide)).trans (by decide),
   ((conditional_branch_shapes [0x9A, 0x00, 0x03, 0x00] 0x1000 InstructionInfo.empty).2.2.2.2.1
      (by decide)).trans (by decide),
   ((conditional_branch_shapes [0xBA, 0x00, 0x03, 0x00] 0x1000
      InstructionInfo.empty).2.2.2.2.2.1 (by decide)).trans (by decide),
   ((conditional_branch_shapes [0x0D, 0xFE] 0x1000
      InstructionInfo.empty).2.2.2.2.2.2.1 (by decide) (by decide)).trans (by decide),
   ((conditional_branch_shapes [0xEA, 0x00, 0x34, 0x12] 0x1000
      InstructionInfo.empty).2.2.2.2.2.2.2 (by decide) (by decide)).trans (by decide)⟩

/-! ## Unsupported variants -/

/-- C17. `GetInstructionInfo` returns false and leaves `result` as it was, so
reports no branch, for CALLI (0xAB) and JMPI (0x9C) whenever the high nibble
of byte 1 is not 0, and for PCALL (0xE2) whatever the operand bytes.  With
the high nibble of byte 1 equal to 0, CALLI and JMPI succeed with length 2
and add exactly one branch, an unresolved one. -/
theorem unsupported_classification (data : List Nat) (addr : Nat) (r : InstructionInfo) :
    (byteAt data 0 = 0xAB → byteAt data 1 / 16 ≠ 0 →
      GetInstructionInfo data addr r = (false, r)) ∧
    (byteAt data 0 = 0x9C → byteAt data 1 / 16 ≠ 0 →
      GetInstructionInfo data addr r = (false, r)) ∧
    (byteAt data 0 = 0xE2 → GetInstructionInfo data addr r = (false, r)) ∧
    (byteAt data 0 = 0xAB → byteAt data 1 / 16 = 0 →
      GetInstructionInfo data addr r
        = (true, ⟨2, r.branches ++ [(BranchType.UnresolvedBranch, 0)]⟩)) ∧
    (byteAt data 0 = 0x9C → byteAt data 1 / 16 = 0 →
      GetInstructionInfo data addr r
        = (true, ⟨2, r.branches ++ [(BranchType.UnresolvedBranch, 0)]⟩)) := by
  have hcalli : Calli.GetConditionCode data = byteAt data 1 / 16 :=
    high_nibble_byte _ (byteAt_lt data 1)
  have hjmpi := GetData4High_two data
  refine ⟨?_, ?_, ?_, ?_, ?_⟩
  · intro h hc
    rw [classify_byte, h]
    show Calli.Info data addr r = _
    simp [Calli.Info, hcalli, hc]
  · intro h hc
    rw [classify_byte, h]
    show Jmpi.Info data addr r = _
    simp [Jmpi.Info, hjmpi, hc]
  · intro h
    rw [classify_byte, h]
    rfl
  · intro h hc
    rw [classify_byte, h]
    show Calli.Info data addr r = _
    simp [Calli.Info, hcalli, hc, InstructionInfo.AddBranch]
  · intro h hc
    rw [classify_byte, h]
    show Jmpi.Info data addr r = _
    simp [Jmpi.Info, hjmpi, hc, InstructionInfo.AddBranch]

/-- Witness for C17, at 0x1000: CALLI and JMPI with condition code 1, PCALL,
and CALLI and JMPI with condition code 0. -/
theorem unsupported_classification_witness :
    GetInstructionInfo [0xAB, 0x10] 0x1000 InstructionInfo.empty
      = (false, InstructionInfo.empty) ∧
    GetInstructionInfo [0x9C, 0x10] 0x1000 InstructionInfo.empty
      = (false, InstructionInfo.empty) ∧
    GetInstructionInfo [0xE2, 0xF0, 0x00, 0x20] 0x1000 InstructionInfo.empty
      = (false, InstructionInfo.empty) ∧
    GetInstructionInfo [0xAB, 0x03] 0x1000 InstructionInfo.empty
      = (true, ⟨2, [(BranchType.UnresolvedBranch, 0)]⟩) ∧
    GetInstructionInfo [0x9C, 0x03] 0x1000 InstructionInfo.empty
      = (true, ⟨2, [(BranchType.UnresolvedBranch, 0)]⟩) :=
  ⟨(unsupported_classification [0xAB, 0x10] 0x1000 InstructionInfo.empty).1
      (by decide) (by decide),
   (unsupported_classification [0x9C, 0x10] 0x1000 InstructionInfo.empty).2.1
      (by decide) (by decide),
   (unsupported_classification [0xE2, 0xF0, 0x00, 0x20] 0x1000 InstructionInfo.empty).2.2.1
      (by decide),
   ((unsupported_classification [0xAB, 0x03] 0x1000 InstructionInfo.empty).2.2.2.1
      (by decide) (by decide)).trans (by decide),
   ((unsupported_classification [0x9C, 0x03] 0x1000 InstructionInfo.empty).2.2.2.2
      (by decide) (by decide)).trans (by decide)⟩

/-- C18, the code at the failing inputs. For JMPI (0x9C) with a condition
code other than `CC_UC` the lifter returns false and touches nothing.  For
CALLI (0xAB) it returns true with length 2 and runs the propagation rule
whatever the condition code, also when the classifier refuses the same bytes
because the condition code is not `CC_UC`. -/
theorem calli_lift_accepts_conditional (labels : Nat → Bool) (data : List Nat)
    (addr len0 : Nat) (g : Globals) :
    (byteAt data 0 = 0x9C → byteAt data 1 / 16 ≠ 0 →
      GetInstructionLowLevelIL labels data addr len0 g = ⟨false, len0, g⟩) ∧
    (byteAt data 0 = 0xAB →
      GetInstructionLowLevelIL labels data addr len0 g
        = ⟨true, 2, UpdateExtSequence g addr 2⟩) ∧
    (byteAt data 0 = 0xAB → byteAt data 1 / 16 ≠ 0 →
      GetInstructionInfo data addr InstructionInfo.empty = (false, InstructionInfo.empty)) := by
  have hjmpi := GetData4High_two data
  have hcalli : Calli.GetConditionCode data = byteAt data 1 / 16 :=
    high_nibble_byte _ (byteAt_lt data 1)
  refine ⟨?_, ?_, ?_⟩
  · intro h hc
    rw [lift_byte, h]
    show Jmpi.Lift labels data addr len0 g = _
    simp [Jmpi.Lift, hjmpi, hc]
  · intro h
    rw [lift_byte, h]
    rfl
  · intro h hc
    rw [classify_byte, h]
    show Calli.Info data addr InstructionInfo.empty = _
    simp [Calli.Info, hcalli, hc]

/-- Witness for C18: CALLI with condition code 1 (AB 10) and JMPI with
condition code 1 (9C 10) at 0x1000, into the start-up globals. -/
theorem calli_lift_accepts_conditional_witness :
    GetInstructionLowLevelIL allLabels [0xAB, 0x10] 0x1000 0 Globals.initial
      = ⟨true, 2, Globals.initial⟩ ∧
    GetInstructionLowLevelIL allLabels [0x9C, 0x10] 0x1000 0 Globals.initial
      = ⟨false, 0, Globals.initial⟩ ∧
    GetInstructionInfo [0xAB, 0x10] 0x1000 InstructionInfo.empty
      = (false, InstructionInfo.empty) :=
  ⟨((calli_lift_accepts_conditional allLabels [0xAB, 0x10] 0x1000 0 Globals.initial).2.1
      (by decide)).trans (by decide),
   (calli_lift_accepts_conditional allLabels [0x9C, 0x10] 0x1000 0 Globals.initial).1
      (by decide) (by decide),
   (calli_lift_accepts_conditional allLabels [0xAB, 0x10] 0x1000 0 Globals.initial).2.2
      (by decide) (by decide)⟩

/-! ## The length is a property of the opcode -/

set_option maxRecDepth 8192 in
set_option maxHeartbeats 4000000 in
/-- Every opcode has one length, 2 or 4, that the classifier `switch` reports
whenever it succeeds on that opcode. -/
theorem info_switch_length (op : Nat) (hop : op < 256) :
    ∃ L, (L = 2 ∨ L = 4) ∧ ∀ (data : List Nat) (addr : Nat) (r : InstructionInfo),
      (GetInstructionInfo.switch op data addr r).1 = true →
      (GetInstructionInfo.switch op data addr r).2.length = L := by
  by_cases hb : op ∈ [0xAB, 0x9C]
  · simp only [List.mem_cons, List.mem_singleton, List.not_mem_nil, or_false] at hb
    rcases hb with rfl | rfl
    · exact ⟨2, Or.inl rfl, fun data addr r h => Calli_Info_ok data addr r h⟩
    · exact ⟨2, Or.inl rfl, fun data addr r h => Jmpi_Info_ok data addr r h⟩
  · interval_cases op <;>
      first
      | exact absurd (by decide) hb
      | exact ⟨2, Or.inl rfl, fun _ _ _ _ => rfl⟩
      | exact ⟨4, Or.inr rfl, fun _ _ _ _ => rfl⟩
      | exact ⟨2, Or.inl rfl, fun _ _ _ h => Bool.noConfusion h⟩

set_option maxRecDepth 100000 in
/-- The twenty byte values that `opcodes.h` gives no name. -/
theorem opcodes_outside_table : ∀ op < 256, op ∉ Opcodes.table →
    op ∈ [0x3B, 0x44, 0x45, 0x83, 0x85, 0x8B, 0x8C, 0x93, 0x95, 0xA3, 0xB3, 0xC1, 0xC3, 0xC7,
      0xD3, 0xE3, 0xE5, 0xF5, 0xF8, 0xF9] := by
  decide

theorem info_switch_unknown (op : Nat) (hop : op < 256) (h : op ∉ Opcodes.table)
    (data : List Nat) (addr : Nat) (r : InstructionInfo) :
    GetInstructionInfo.switch op data addr r = (false, r) := by
  have hb := opcodes_outside_table op hop h
  simp only [List.mem_cons, List.mem_singleton, List.not_mem_nil, or_false] at hb
  rcases hb with rfl | rfl | rfl | rfl | rfl | rfl | rfl | rfl | rfl | rfl | rfl | rfl | rfl |
    rfl | rfl | rfl | rfl | rfl | rfl | rfl <;> rfl

/-- C19. Whenever `GetInstructionInfo` succeeds the length it reports is 2 or
4; two buffers with the same first byte that both classify, at any two
addresses, classify to the same length; and on a buffer whose first byte is
not a constant of `opcodes.h` it returns false and leaves `result` alone. -/
theorem classifier_length_by_opcode (data1 data2 : List Nat) (addr1 addr2 : Nat)
    (r1 r2 : InstructionInfo) :
    ((GetInstructionInfo data1 addr1 r1).1 = true →
      (GetInstructionInfo data1 addr1 r1).2.length = 2 ∨
      (GetInstructionInfo data1 addr1 r1).2.length = 4) ∧
    (byteAt data1 0 = byteAt data2 0 →
      (GetInstructionInfo data1 addr1 r1).1 = true →
      (GetInstructionInfo data2 addr2 r2).1 = true →
      (GetInstructionInfo data1 addr1 r1).2.length
        = (GetInstructionInfo data2 addr2 r2).2.length) ∧
    (byteAt data1 0 ∉ Opcodes.table → GetInstructionInfo data1 addr1 r1 = (false, r1)) := by
  obtain ⟨L, hL, hlen⟩ := info_switch_length (byteAt data1 0) (byteAt_lt data1 0)
  refine ⟨?_, ?_, ?_⟩
  · intro h
    rw [classify_byte] at h ⊢
    rw [hlen data1 addr1 r1 h]
    exact hL
  · intro hb h1 h2
    rw [classify_byte] at h1 h2 ⊢
    rw [classify_byte]
    rw [← hb] at h2 ⊢
    rw [hlen data1 addr1 r1 h1, hlen data2 addr2 r2 h2]
  · intro h
    rw [classify_byte]
    exact info_switch_unknown _ (byteAt_lt data1 0) h data1 addr1 r1

/-- Witness for C19: JMPA with two different condition codes and targets at
two addresses, and the unnamed byte 0x3B. -/
theorem classifier_length_by_opcode_witness :
    (GetInstructionInfo [0xEA, 0x20, 0x00, 0x10] 0x1000 InstructionInfo.empty).2.length
      = (GetInstructionInfo [0xEA, 0x00, 0x34, 0x12] 0x2000 InstructionInfo.empty).2.length ∧
    ((GetInstructionInfo [0xEA, 0x20, 0x00, 0x10] 0x1000 InstructionInfo.empty).2.length = 2 ∨
      (GetInstructionInfo [0xEA, 0x20, 0x00, 0x10] 0x1000 InstructionInfo.empty).2.length = 4) ∧
    GetInstructionInfo [0x3B, 0x00] 0x1000 InstructionInfo.empty
      = (false, InstructionInfo.empty) :=
  ⟨(classifier_length_by_opcode [0xEA, 0x20, 0x00, 0x10] [0xEA, 0x00, 0x34, 0x12] 0x1000 0x2000
      InstructionInfo.empty InstructionInfo.empty).2.1 (by decide) (by decide) (by decide),
   (classifier_length_by_opcode [0xEA, 0x20, 0x00, 0x10] [] 0x1000 0
      InstructionInfo.empty InstructionInfo.empty).1 (by decide),
   (classifier_length_by_opcode [0x3B, 0x00] [] 0x1000 0 InstructionInfo.empty
      InstructionInfo.empty).2.2 (by decide)⟩

/-! ## Deserialization replaces the table -/

theorem byteAt_drop (l : List Nat) (k i : Nat) : byteAt (l.drop k) i = byteAt l (k + i) := by
  simp only [byteAt, List.getD_eq_getElem?_getD, List.getElem?_drop]

theorem recordAddr_drop (buf : List Nat) (i : Nat) :
    recordAddr (buf.drop recordSize) i = recordAddr buf (i + 1) := by
  simp only [recordAddr, readU64, readU32, byteAt_drop, recordSize, sizeofInstructionState]
  ring_nf

theorem recordState_drop (buf : List Nat) (i : Nat) :
    recordState (buf.drop recordSize) i = recordState buf (i + 1) := by
  simp only [recordState, InstructionState.ofBytes, readU32, byteAt_drop, recordSize,
    sizeofInstructionState]
  ring_nf

/-- On a buffer of `n` records and with enough fuel, the loop of
`DeserializeStateMap` assigns record 0, then record 1, and so on up to record
`n - 1`. -/
theorem deserializeLoop_eq_foldl :
    ∀ (n : Nat) (head : List Nat) (m : List (Nat × InstructionState)) (fuel : Nat),
      head.length = n * recordSize → n ≤ fuel →
      DeserializeLoop fuel head m
        = (List.range n).foldl
            (fun acc i => mapAssign acc (recordAddr head i) (recordState head i)) m := by
  intro n
  induction n with
  | zero =>
    intro head m fuel hl _
    have hl0 : head.length = 0 := by simpa using hl
    cases fuel <;> simp [DeserializeLoop, hl0]
  | succ n ih =>
    intro head m fuel hl hf
    cases fuel with
    | zero => omega
    | succ fuel =>
      have hpos : 0 < head.length := by
        rw [hl]; simp only [recordSize, sizeofInstructionState]; omega
      have hdrop : (head.drop recordSize).length = n * recordSize := by
        rw [List.length_drop, hl]; simp only [recordSize, sizeofInstructionState]; omega
      have h0 : readU64 head 0 = recordAddr head 0 := by simp [recordAddr]
      have h8 : InstructionState.ofBytes head 8 = recordState head 0 := by simp [recordState]
      simp only [DeserializeLoop, hpos, if_true]
      rw [ih (head.drop recordSize) _ fuel hdrop (by omega)]
      simp only [recordAddr_drop, recordState_drop, List.range_succ_eq_map, List.foldl_cons,
        List.foldl_map, h0, h8]

/-- Assigning `K 0, K 1, ..., K (n - 1)` in this order: a key that is none of
them keeps the lookup of the table before, and a key that is one of them
finds the value of its last occurrence. -/
theorem mapFind_foldl_range (K : Nat → Nat) (V : Nat → InstructionState) (a : Nat)
    (m : List (Nat × InstructionState)) :
    ∀ n : Nat,
      ((∀ i, i < n → K i ≠ a) →
        mapFind ((List.range n).foldl (fun acc i => mapAssign acc (K i) (V i)) m) a
          = mapFind m a) ∧
      (∀ i, i < n → K i = a → (∀ j, i < j → j < n → K j ≠ a) →
        mapFind ((List.range n).foldl (fun acc i => mapAssign acc (K i) (V i)) m) a
          = some (V i)) := by
  intro n
  induction n with
  | zero =>
    exact ⟨fun _ => rfl, fun i hi => absurd hi (Nat.not_lt_zero i)⟩
  | succ n ih =>
    constructor
    · intro h
      rw [List.range_succ, List.foldl_append, List.foldl_cons, List.foldl_nil,
        mapFind_mapAssign_ne _ _ _ _ (h n (Nat.lt_succ_self n))]
      exact ih.1 (fun i hi => h i (Nat.lt_succ_of_lt hi))
    · intro i hi hk hlast
      rw [List.range_succ, List.foldl_append, List.foldl_cons, List.foldl_nil]
      by_cases hin : i = n
      · subst hin
        rw [hk]
        exact mapFind_mapAssign_same _ _ _
      · have hlt : i < n := by omega
        rw [mapFind_mapAssign_ne _ _ _ _ (hlast n hlt (Nat.lt_succ_self n))]
        exact ih.2 i hlt hk (fun j h1 h2 => hlast j h1 (Nat.lt_succ_of_lt h2))

/-- C20. On a blob whose length is a multiple of the record size, whatever
the table held before, `DeserializeStateMap` returns true, and afterwards: an
address that no record of the blob carries has no entry, so no entry of the
old table outside the blob survives; an address that some record carries is
mapped to the state of the last record carrying it. -/
theorem deserialize_replaces (g : Globals) (buf : List Nat)
    (h : buf.length % recordSize = 0) :
    (DeserializeStateMap g buf).1 = true ∧
    (∀ a, (∀ i, i < buf.length / recordSize → recordAddr buf i ≠ a) →
      mapFind (DeserializeStateMap g buf).2.StateMap a = none) ∧
    (∀ a i, i < buf.length / recordSize → recordAddr buf i = a →
      (∀ j, i < j → j < buf.length / recordSize → recordAddr buf j ≠ a) →
      mapFind (DeserializeStateMap g buf).2.StateMap a = some (recordState buf i)) := by
  have hlen : buf.length = buf.length / recordSize * recordSize :=
    (Nat.div_mul_cancel (Nat.dvd_of_mod_eq_zero h)).symm
  have hfuel : buf.length / recordSize ≤ buf.length := Nat.div_le_self _ _
  have hloop := deserializeLoop_eq_foldl (buf.length / recordSize) buf [] buf.length hlen hfuel
  have hD : DeserializeStateMap g buf
      = (true, { g with StateMap := DeserializeLoop buf.length buf [] }) := by
    simp [DeserializeStateMap, h]
  rw [hD, hloop]
  refine ⟨rfl, ?_, ?_⟩
  · intro a hnone
    exact ((mapFind_foldl_range (recordAddr buf) (recordState buf) a []
      (buf.length / recordSize)).1 hnone).trans rfl
  · intro a i hi hk hlast
    exact (mapFind_foldl_range (recordAddr buf) (recordState buf) a []
      (buf.length / recordSize)).2 i hi hk hlast

/-- Witness for C20: `threeRecords` read into `mixedStore`.  The old entry at
0x1000 is gone, 0x10 has the state of the third record, not of the first,
and 0x20 the state of the second. -/
theorem deserialize_replaces_witness :
    threeRecords.length % recordSize = 0 ∧
    mapFind mixedStore.StateMap 0x1000 = some ⟨ExtPage, 1, 3, 0, ⟨0, 0, 0, 0⟩⟩ ∧
    mapFind (DeserializeStateMap mixedStore threeRecords).2.StateMap 0x1000 = none ∧
    mapFind (DeserializeStateMap mixedStore threeRecords).2.StateMap 0x10
      = some ⟨ExtRegister, 0, 0, 0, ⟨1, 2, 3, 4⟩⟩ ∧
    mapFind (DeserializeStateMap mixedStore threeRecords).2.StateMap 0x20
      = some ⟨ExtSegment, 2, 0, 7, ⟨0, 0, 0, 0⟩⟩ :=
  have h := deserialize_replaces mixedStore threeRecords (by decide)
  have hn : threeRecords.length / recordSize = 3 := by decide
  ⟨by decide, by decide,
   h.2.1 0x1000 (by decide),
   (h.2.2 0x10 2 (by decide) (by decide) (fun j h1 h2 => by omega)).trans (by decide),
   (h.2.2 0x20 1 (by decide) (by decide)
      (fun j h1 h2 => by
        have hj : j = 2 := by omega
        subst hj
        decide)).trans (by decide)⟩

/-! ## What the propagation rule and the queries leave alone -/

/-- C21. `UpdateExtSequence(a, len)` returns the globals as they are when the
table has no entry at `a`, when the entry at `a` has none of the kind bits
Segment, Page, RegisterBank, and when its remaining count is 0.  In every
case the lookup at every address other than `a + len` (on `uint64_t`), and
the default vector, are what they were. -/
theorem UpdateExtSequence_frame (g : Globals) (a len : Nat) :
    (mapFind g.StateMap a = none → UpdateExtSequence g a len = g) ∧
    (∀ st, mapFind g.StateMap a = some st → st.ext_state &&& ExtSegment = 0 →
      st.ext_state &&& ExtPage = 0 → st.ext_state &&& ExtRegister = 0 →
      UpdateExtSequence g a len = g) ∧
    (∀ st, mapFind g.StateMap a = some st → st.num_insns = 0 →
      UpdateExtSequence g a len = g) ∧
    (∀ x, x ≠ (a + len) % 18446744073709551616 →
      mapFind (UpdateExtSequence g a len).StateMap x = mapFind g.StateMap x) ∧
    (UpdateExtSequence g a len).default_dpp = g.default_dpp := by
  refine ⟨UpdateExtSequence_none g a len, ?_,
    fun st h hn => UpdateExtSequence_zero g a len st h hn, ?_, ?_⟩
  · intro st h hs hp hr
    simp [UpdateExtSequence, ShouldUseExts, ShouldUseExtp, ShouldUseExtr, h, hs, hp, hr]
  · intro x hx
    unfold UpdateExtSequence
    dsimp only
    split_ifs
    all_goals first
      | rfl
      | exact SetExtsSeg8_find_ne _ _ _ _ _ (Ne.symm hx)
      | exact SetExtpPag10_find_ne _ _ _ _ _ (Ne.symm hx)
      | exact SetExtr_find_ne _ _ _ _ (Ne.symm hx)
  · unfold UpdateExtSequence
    dsimp only
    split_ifs
    all_goals first
      | rfl
      | exact SetExtsSeg8_default_dpp _ _ _ _
      | exact SetExtpPag10_default_dpp _ _ _ _
      | exact SetExtr_default_dpp _ _ _

/-- Witness for C21: no entry at 0x2000 of `pageOverride`; an entry of kind
CustomDpp only; the exhausted segment override of `segmentOverride`; and the
page override of `pageOverride`, which is propagated to 0x1002 and stays
what it was at 0x1000. -/
theorem UpdateExtSequence_frame_witness :
    UpdateExtSequence pageOverride 0x2000 2 = pageOverride ∧
    UpdateExtSequence (SetDpps pageOverride 0x1000 1 2 3 4) 0x1000 2
      = SetDpps pageOverride 0x1000 1 2 3 4 ∧
    UpdateExtSequence segmentOverride 0x1000 2 = segmentOverride ∧
    mapFind (UpdateExtSequence pageOverride 0x1000 2).StateMap 0x1000
      = some ⟨ExtPage, 1, 3, 0, ⟨0, 0, 0, 0⟩⟩ :=
  ⟨(UpdateExtSequence_frame pageOverride 0x2000 2).1 (by decide),
   (UpdateExtSequence_frame (SetDpps pageOverride 0x1000 1 2 3 4) 0x1000 2).2.1
     ⟨ExtNoneCustomDpps, 1, 3, 0, ⟨1, 2, 3, 4⟩⟩ (by decide) (by decide) (by decide) (by decide),
   (UpdateExtSequence_frame segmentOverride 0x1000 2).2.2.1
     ⟨ExtSegment, 0, 0, 7, ⟨0, 0, 0, 0⟩⟩ (by decide) (by decide),
   ((UpdateExtSequence_frame pageOverride 0x1000 2).2.2.2.1 0x1000 (by decide)).trans
     (by decide)⟩

theorem mapSubscript_some (g : Globals) (addr : Nat) (st : InstructionState)
    (h : mapFind g.StateMap addr = some st) : mapSubscript g addr = (st, g) := by
  simp [mapSubscript, h]

/-- C22. `ShouldUseExtp`, `ShouldUseExts`, `ShouldUseExtr` and
`ShouldUseCustomDpps` leave the globals exactly as they were, so no entry is
created for the queried address.  At an address without entry each reports no
override; at an address with an entry each reports an override exactly when
its kind bit is set, and then returns the stored `pag10`, `seg8` or vector. -/
theorem queries_read_only (g : Globals) (addr : Nat) :
    ShouldUseExtp.stateful g addr = (ShouldUseExtp g addr, g) ∧
    ShouldUseExts.stateful g addr = (ShouldUseExts g addr, g) ∧
    ShouldUseExtr.stateful g addr = (ShouldUseExtr g addr, g) ∧
    ShouldUseCustomDpps.stateful g addr = (ShouldUseCustomDpps g addr, g) ∧
    (mapFind g.StateMap addr = none →
      ShouldUseExtp g addr = none ∧ ShouldUseExts g addr = none ∧
      ShouldUseExtr g addr = false ∧ ShouldUseCustomDpps g addr = none) ∧
    (∀ st, mapFind g.StateMap addr = some st →
      (ShouldUseExtp g addr = if st.ext_state &&& ExtPage ≠ 0 then some st.pag10 else none) ∧
      (ShouldUseExts g addr = if st.ext_state &&& ExtSegment ≠ 0 then some st.seg8 else none) ∧
      (ShouldUseExtr g addr = if st.ext_state &&& ExtRegister ≠ 0 then true else false) ∧
      (ShouldUseCustomDpps g addr
        = if st.ext_state &&& ExtNoneCustomDpps ≠ 0 then some st.dpp else none)) := by
  refine ⟨?_, ?_, ?_, ?_, ?_, ?_⟩
  · cases h : mapFind g.StateMap addr with
    | none => simp [ShouldUseExtp.stateful, ShouldUseExtp, h]
    | some st =>
      simp only [ShouldUseExtp.stateful, ShouldUseExtp, h, mapSubscript_some g addr st h]
      split_ifs <;> rfl
  · cases h : mapFind g.StateMap addr with
    | none => simp [ShouldUseExts.stateful, ShouldUseExts, h]
    | some st =>
      simp only [ShouldUseExts.stateful, ShouldUseExts, h, mapSubscript_some g addr st h]
      split_ifs <;> rfl
  · cases h : mapFind g.StateMap addr with
    | none => simp [ShouldUseExtr.stateful, ShouldUseExtr, h]
    | some st =>
      simp only [ShouldUseExtr.stateful, ShouldUseExtr, h, mapSubscript_some g addr st h]
      split_ifs <;> rfl
  · cases h : mapFind g.StateMap addr with
    | none => simp [ShouldUseCustomDpps.stateful, ShouldUseCustomDpps, h]
    | some st =>
      simp only [ShouldUseCustomDpps.stateful, ShouldUseCustomDpps, h,
        mapSubscript_some g addr st h]
      split_ifs <;> rfl
  · intro h
    simp [ShouldUseExtp, ShouldUseExts, ShouldUseExtr, ShouldUseCustomDpps, h]
  · intro st h
    simp [ShouldUseExtp, ShouldUseExts, ShouldUseExtr, ShouldUseCustomDpps, h]

/-- Witness for C22: `precedenceExample` queried at 0x1004, where it has no
entry, and at 0x1002, where the entry has the kinds Segment and CustomDpp. -/
theorem queries_read_only_witness :
    (ShouldUseExtp precedenceExample 0x1004 = none ∧
      ShouldUseExts precedenceExample 0x1004 = none ∧
      ShouldUseExtr precedenceExample 0x1004 = false ∧
      ShouldUseCustomDpps precedenceExample 0x1004 = none) ∧
    ShouldUseExtp precedenceExample 0x1002 = none ∧
    ShouldUseExts precedenceExample 0x1002 = some 5 ∧
    ShouldUseExtr precedenceExample 0x1002 = false ∧
    ShouldUseCustomDpps precedenceExample 0x1002 = some ⟨1, 2, 3, 4⟩ :=
  have h := (queries_read_only precedenceExample 0x1002).2.2.2.2.2
    ⟨ExtSegment ||| ExtNoneCustomDpps, 0, 0, 5, ⟨1, 2, 3, 4⟩⟩ (by decide)
  ⟨(queries_read_only precedenceExample 0x1004).2.2.2.2.1 (by decide),
   h.1.trans (by decide), h.2.1.trans (by decide), h.2.2.1.trans (by decide),
   h.2.2.2.trans (by decide)⟩

/-- C23. `GetInstructionState(addr)` leaves the globals exactly as they were,
so it adds no entry; it returns the stored state when the table has one at
`addr`, and otherwise the state with kind None, `pag10` 0, `seg8` 0,
remaining count 0 and the current default DPP vector. -/
theorem GetInstructionState_copy (g : Globals) (addr : Nat) :
    GetInstructionState.stateful g addr = (GetInstructionState g addr, g) ∧
    (∀ st, mapFind g.StateMap addr = some st → GetInstructionState g addr = st) ∧
    (mapFind g.StateMap addr = none →
      GetInstructionState g addr = ⟨ExtNone, 0, 0, 0, g.default_dpp⟩) := by
  refine ⟨?_, ?_, ?_⟩
  · cases h : mapFind g.StateMap addr with
    | none => simp [GetInstructionState.stateful, GetInstructionState, h]
    | some st =>
      simp [GetInstructionState.stateful, GetInstructionState, h, mapSubscript_some g addr st h]
  · intro st h
    simp [GetInstructionState, h]
  · intro h
    simp [GetInstructionState, h, InstructionState.new]

/-- Witness for C23: `mixedStore` read at 0x2000, where it has a segment
override, and at 0x3000, where it has nothing. -/
theorem GetInstructionState_copy_witness :
    GetInstructionState mixedStore 0x2000 = ⟨ExtSegment, 2, 0, 7, ⟨0, 0, 0, 0⟩⟩ ∧
    GetInstructionState mixedStore 0x3000 = ⟨ExtNone, 0, 0, 0, ⟨4, 5, 6, 7⟩⟩ :=
  ⟨(GetInstructionState_copy mixedStore 0x2000).2.1 _ (by decide),
   (GetInstructionState_copy mixedStore 0x3000).2.2 (by decide)⟩

/-! ## Applying a set operation twice -/

theorem mapAssign_mapAssign (m : List (Nat × InstructionState)) (a : Nat)
    (v w : InstructionState) : mapAssign (mapAssign m a v) a w = mapAssign m a w := by
  induction m with
  | nil => simp [mapAssign]
  | cons p rest ih =>
    obtain ⟨k, u⟩ := p
    by_cases h : k = a
    · simp [mapAssign, h]
    · simp [mapAssign, h, ih]

theorem mapAssign_same (m : List (Nat × InstructionState)) (a : Nat) (v : InstructionState)
    (h : mapFind m a = some v) : mapAssign m a v = m := by
  induction m with
  | nil => simp [mapFind] at h
  | cons p rest ih =>
    obtain ⟨k, u⟩ := p
    by_cases hk : k = a
    · simp only [mapFind, hk, if_true, Option.some.injEq] at h
      simp [mapAssign, hk, h]
    · simp only [mapFind, hk, if_false] at h
      simp [mapAssign, hk, ih h]

theorem lor_idem (x b : Nat) : (x ||| b) ||| b = x ||| b := by
  rw [Nat.or_assoc, Nat.or_self]

theorem SetExtpPag10_twice (g : Globals) (a v n : Nat) :
    SetExtpPag10 (SetExtpPag10 g a v n) a v n = SetExtpPag10 g a v n := by
  cases h : mapFind g.StateMap a with
  | none =>
    simp only [SetExtpPag10, h, mapFind_mapAssign_same, mapAssign_mapAssign, InstructionState.new,
      Nat.or_self, Nat.mod_mod]
  | some st =>
    simp only [SetExtpPag10, h, mapFind_mapAssign_same, mapAssign_mapAssign, lor_idem]

theorem SetExtsSeg8_twice (g : Globals) (a v n : Nat) :
    SetExtsSeg8 (SetExtsSeg8 g a v n) a v n = SetExtsSeg8 g a v n := by
  cases h : mapFind g.StateMap a with
  | none =>
    simp only [SetExtsSeg8, h, mapFind_mapAssign_same, mapAssign_mapAssign, InstructionState.new,
      Nat.or_self, Nat.mod_mod]
  | some st =>
    simp only [SetExtsSeg8, h, mapFind_mapAssign_same, mapAssign_mapAssign, lor_idem]

theorem SetExtr_twice (g : Globals) (a n : Nat) :
    SetExtr (SetExtr g a n) a n = SetExtr g a n := by
  cases h : mapFind g.StateMap a with
  | none =>
    simp only [SetExtr, h, mapFind_mapAssign_same, mapAssign_mapAssign, InstructionState.new,
      Nat.or_self, Nat.mod_mod]
  | some st =>
    simp only [SetExtr, h, mapFind_mapAssign_same, mapAssign_mapAssign, lor_idem]

theorem SetDpps_twice (g : Globals) (a d0 d1 d2 d3 : Nat) :
    SetDpps (SetDpps g a d0 d1 d2 d3) a d0 d1 d2 d3 = SetDpps g a d0 d1 d2 d3 := by
  cases h : mapFind g.StateMap a with
  | none =>
    simp only [SetDpps, h, mapFind_mapAssign_same, mapAssign_mapAssign, InstructionState.new]
  | some st =>
    simp only [SetDpps, h, mapFind_mapAssign_same, mapAssign_mapAssign]

theorem SetDppsRangeBody_find_ne (g : Globals) (a b d0 d1 d2 d3 : Nat) (h : a ≠ b) :
    mapFind (SetDppsRangeBody g a d0 d1 d2 d3).StateMap b = mapFind g.StateMap b := by
  unfold SetDppsRangeBody
  cases hf : mapFind g.StateMap a with
  | none => simp [mapFind_mapAssign_ne _ _ _ _ h]
  | some st =>
    simp only
    split_ifs <;> simp [mapFind_mapAssign_ne _ _ _ _ h]

theorem SetDppsRangeBody_visited (g : Globals) (a d0 d1 d2 d3 : Nat) :
    Visited (SetDppsRangeBody g a d0 d1 d2 d3)
      ⟨d0 % 65536, d1 % 65536, d2 % 65536, d3 % 65536⟩ a := by
  unfold SetDppsRangeBody Visited
  cases hf : mapFind g.StateMap a with
  | none => exact ⟨_, mapFind_mapAssign_same _ _ _, rfl, rfl⟩
  | some st =>
    simp only
    split_ifs
    · exact ⟨_, mapFind_mapAssign_same _ _ _, rfl, rfl⟩
    · exact ⟨_, mapFind_mapAssign_same _ _ _, rfl, rfl⟩

theorem SetDppsRangeBody_keeps (g : Globals) (a b d0 d1 d2 d3 : Nat)
    (h : Visited g ⟨d0 % 65536, d1 % 65536, d2 % 65536, d3 % 65536⟩ b) :
    Visited (SetDppsRangeBody g a d0 d1 d2 d3)
      ⟨d0 % 65536, d1 % 65536, d2 % 65536, d3 % 65536⟩ b := by
  by_cases hab : a = b
  · subst hab
    exact SetDppsRangeBody_visited g a d0 d1 d2 d3
  · obtain ⟨st, h1, h2, h3⟩ := h
    exact ⟨st, (SetDppsRangeBody_find_ne g a b d0 d1 d2 d3 hab).trans h1, h2, h3⟩

theorem SetDppsRangeBody_fixed (g : Globals) (a d0 d1 d2 d3 : Nat)
    (h : Visited g ⟨d0 % 65536, d1 % 65536, d2 % 65536, d3 % 65536⟩ a) :
    SetDppsRangeBody g a d0 d1 d2 d3 = g := by
  obtain ⟨st, h1, h2, h3⟩ := h
  obtain ⟨e, n, p, s, d⟩ := st
  simp only at h2 h3
  subst h2 h3
  simp only [SetDppsRangeBody, h1, true_or, if_true]
  rw [mapAssign_same _ _ _ h1]

/-- The loop of `SetDppsRange` from `addr`, when `end_ + 2` does not wrap:
with fuel for every test it returns, what it returns has every address of
the range visited, keeps what was visited, and a store with the range
already visited is returned as it is. -/
theorem SetDppsRangeLoop_spec (end_ d0 d1 d2 d3 : Nat) (hend : end_ + 2 < 18446744073709551616) :
    ∀ (fuel : Nat) (g : Globals) (addr : Nat), (end_ + 2 - addr) / 2 + 1 ≤ fuel →
      ∃ g1, SetDppsRangeLoop fuel g addr end_ d0 d1 d2 d3 = some g1 ∧
        (∀ b, Visited g ⟨d0 % 65536, d1 % 65536, d2 % 65536, d3 % 65536⟩ b →
          Visited g1 ⟨d0 % 65536, d1 % 65536, d2 % 65536, d3 % 65536⟩ b) ∧
        (∀ k, addr + 2 * k ≤ end_ →
          Visited g1 ⟨d0 % 65536, d1 % 65536, d2 % 65536, d3 % 65536⟩ (addr + 2 * k)) ∧
        ((∀ k, addr + 2 * k ≤ end_ →
            Visited g ⟨d0 % 65536, d1 % 65536, d2 % 65536, d3 % 65536⟩ (addr + 2 * k)) →
          g1 = g) := by
  intro fuel
  induction fuel with
  | zero => intro g addr hf; omega
  | succ fuel ih =>
    intro g addr hf
    by_cases hle : addr ≤ end_
    · have hnext : (addr + 2) % 18446744073709551616 = addr + 2 := by omega
      have hfuel : (end_ + 2 - (addr + 2)) / 2 + 1 ≤ fuel := by omega
      obtain ⟨g1, hrun, hkeep, hall, hfix⟩ :=
        ih (SetDppsRangeBody g addr d0 d1 d2 d3) (addr + 2) hfuel
      refine ⟨g1, ?_, ?_, ?_, ?_⟩
      · simp only [SetDppsRangeLoop, hle, if_true, hnext]
        exact hrun
      · intro b hb
        exact hkeep b (SetDppsRangeBody_keeps g addr b d0 d1 d2 d3 hb)
      · intro k hk
        cases k with
        | zero =>
          exact hkeep _ (SetDppsRangeBody_visited g addr d0 d1 d2 d3)
        | succ k =>
          have := hall k (by omega)
          have e : addr + 2 * (k + 1) = addr + 2 + 2 * k := by ring
          rw [e]
          exact this
      · intro hv
        have h0 : SetDppsRangeBody g addr d0 d1 d2 d3 = g :=
          SetDppsRangeBody_fixed g addr d0 d1 d2 d3 (hv 0 (by omega))
        rw [h0] at hfix
        apply hfix
        intro k hk
        have e : addr + 2 + 2 * k = addr + 2 * (k + 1) := by ring
        rw [e]
        exact hv (k + 1) (by omega)
    · refine ⟨g, ?_, fun b hb => hb, ?_, fun _ => rfl⟩
      · simp only [SetDppsRangeLoop, hle, if_false]
      · intro k hk
        omega

/-- C24. Applying `SetExtpPag10`, `SetExtsSeg8`, `SetExtr` or `SetDpps` a
second time with the same arguments gives exactly the globals of the first
application, for every initial store.  So does `SetDppsRange`, on every range
whose `end + 2` does not wrap on `uint64_t`: with fuel for every test of the
loop the first call returns, and the second call on its result returns that
same result. -/
theorem setters_idempotent (g : Globals) (a v n d0 d1 d2 d3 : Nat) :
    SetExtpPag10 (SetExtpPag10 g a v n) a v n = SetExtpPag10 g a v n ∧
    SetExtsSeg8 (SetExtsSeg8 g a v n) a v n = SetExtsSeg8 g a v n ∧
    SetExtr (SetExtr g a n) a n = SetExtr g a n ∧
    SetDpps (SetDpps g a d0 d1 d2 d3) a d0 d1 d2 d3 = SetDpps g a d0 d1 d2 d3 ∧
    (∀ start end_ fuel, end_ + 2 < 18446744073709551616 → (end_ + 2 - start) / 2 + 1 ≤ fuel →
      ∃ g1, SetDppsRange fuel g start end_ d0 d1 d2 d3 = some g1 ∧
        SetDppsRange fuel g1 start end_ d0 d1 d2 d3 = some g1) := by
  refine ⟨SetExtpPag10_twice g a v n, SetExtsSeg8_twice g a v n, SetExtr_twice g a n,
    SetDpps_twice g a d0 d1 d2 d3, ?_⟩
  intro start end_ fuel hend hf
  obtain ⟨g1, hrun, _, hall, _⟩ := SetDppsRangeLoop_spec end_ d0 d1 d2 d3 hend fuel g start hf
  obtain ⟨g2, hrun2, _, _, hfix⟩ := SetDppsRangeLoop_spec end_ d0 d1 d2 d3 hend fuel g1 start hf
  refine ⟨g1, hrun, ?_⟩
  have : g2 = g1 := hfix hall
  rw [this] at hrun2
  exact hrun2

/-- Witness for C24: `SetDppsRange(0x1000, 0x1004, 1, 2, 3, 4)` on
`pageOverride`, once and twice. -/
theorem setters_idempotent_witness :
    SetDppsRange 4 pageOverride 0x1000 0x1004 1 2 3 4
      = some (⟨[(0x1000, ⟨ExtNoneCustomDpps, 0, 0, 0, ⟨1, 2, 3, 4⟩⟩),
                (0x1002, ⟨ExtNoneCustomDpps, 0, 0, 0, ⟨1, 2, 3, 4⟩⟩),
                (0x1004, ⟨ExtNoneCustomDpps, 0, 0, 0, ⟨1, 2, 3, 4⟩⟩)], ⟨0, 0, 0, 0⟩⟩) ∧
    ∃ g1, SetDppsRange 4 pageOverride 0x1000 0x1004 1 2 3 4 = some g1 ∧
      SetDppsRange 4 g1 0x1000 0x1004 1 2 3 4 = some g1 :=
  ⟨by decide,
   (setters_idempotent pageOverride 0 0 0 1 2 3 4).2.2.2.2 0x1000 0x1004 4 (by decide)
     (by decide)⟩

/-! ## Two kinds at one site -/

/-- C29, as stated, fails: the entry of `pageAndSegment` at 0x1000 has the
Segment and the Page kind, count 2, and nothing is stored at 0x1002; after
`UpdateExtSequence(0x1000, 2)` the entry at 0x1002 has the Segment kind only,
segment 5, page 0, count 1: `ShouldUseExtp` reports no page there.  Nor is `seg8` always
the same: the entry of `wideSegmentAndPage`, which `DeserializeStateMap` accepts, has
`seg8` 0x12345678, and the entry at 0x1002 gets 0x5678, what fits the `uint16_t`
parameter of `SetExtsSeg8`. -/
theorem page_dropped_when_segment_propagates :
    ShouldUseExts pageAndSegment 0x1000 = some 5 ∧
    ShouldUseExtp pageAndSegment 0x1000 = some 3 ∧
    (GetInstructionState pageAndSegment 0x1000).num_insns = 2 ∧
    mapFind pageAndSegment.StateMap 0x1002 = none ∧
    ShouldUseExts (UpdateExtSequence pageAndSegment 0x1000 2) 0x1002 = some 5 ∧
    ShouldUseExtp (UpdateExtSequence pageAndSegment 0x1000 2) 0x1002 = none ∧
    GetInstructionState (UpdateExtSequence pageAndSegment 0x1000 2) 0x1002
      = ⟨ExtSegment, 1, 0, 5, ⟨0, 0, 0, 0⟩⟩ ∧
    (DeserializeStateMap Globals.initial (SerializeStateMap (fun _ => 0) wideSegmentAndPage 36).2)
      = (true, wideSegmentAndPage) ∧
    ShouldUseExts wideSegmentAndPage 0x1000 = some 0x12345678 ∧
    mapFind wideSegmentAndPage.StateMap 0x1002 = none ∧
    ShouldUseExts (UpdateExtSequence wideSegmentAndPage 0x1000 2) 0x1002 = some 0x5678 := by
  decide

/-- C29, amended. When the entry at `a` has the Segment kind bit (with or
without the Page bit) and a remaining count `n` with `0 < n < 256`, and there is no
entry at `a + len` (on `uint64_t`), then after `UpdateExtSequence(a, len)` the entry at
`a + len` is a fresh one of kind Segment only, with the low 16 bits of `seg8`, `pag10` 0
and remaining count `n - 1`: the segment override is visible there and no page override
is.  When `seg8` is below 2^16 it is the same `seg8`. -/
theorem UpdateExtSequence_segment_first (g : Globals) (a len : Nat) (st : InstructionState)
    (h : mapFind g.StateMap a = some st) (hs : st.ext_state &&& ExtSegment ≠ 0)
    (hn : 0 < st.num_insns) (hn8 : st.num_insns < 256)
    (hfree : mapFind g.StateMap ((a + len) % 18446744073709551616) = none) :
    mapFind (UpdateExtSequence g a len).StateMap ((a + len) % 18446744073709551616)
      = some ⟨ExtSegment, st.num_insns - 1, 0, st.seg8 % 65536, g.default_dpp⟩ ∧
    ShouldUseExts (UpdateExtSequence g a len) ((a + len) % 18446744073709551616)
      = some (st.seg8 % 65536) ∧
    ShouldUseExtp (UpdateExtSequence g a len) ((a + len) % 18446744073709551616) = none ∧
    (st.seg8 < 65536 →
      mapFind (UpdateExtSequence g a len).StateMap ((a + len) % 18446744073709551616)
        = some ⟨ExtSegment, st.num_insns - 1, 0, st.seg8, g.default_dpp⟩ ∧
      ShouldUseExts (UpdateExtSequence g a len) ((a + len) % 18446744073709551616)
        = some st.seg8) := by
  have hu := UpdateExtSequence_seg g a len st h hs hn
  have hf := SetExtsSeg8_find_none g ((a + len) % 18446744073709551616) st.seg8
    (st.num_insns - 1) hfree
  have e1 : (st.num_insns - 1) % 256 = st.num_insns - 1 := by omega
  rw [e1] at hf
  rw [hu]
  have h2 : ShouldUseExts (SetExtsSeg8 g ((a + len) % 18446744073709551616) st.seg8
      (st.num_insns - 1)) ((a + len) % 18446744073709551616) = some (st.seg8 % 65536) := by
    simp only [ShouldUseExts, hf]; rfl
  refine ⟨hf, h2, ?_, fun hv => ?_⟩
  · simp only [ShouldUseExtp, hf]; rfl
  · rw [hf, h2, Nat.mod_eq_of_lt hv]
    exact ⟨rfl, rfl⟩

/-- Witness for the amended C29: `pageAndSegment` and `wideSegmentAndPage` at 0x1000,
length 2. -/
theorem UpdateExtSequence_segment_first_witness :
    mapFind (UpdateExtSequence pageAndSegment 0x1000 2).StateMap 0x1002
      = some ⟨ExtSegment, 1, 0, 5, ⟨0, 0, 0, 0⟩⟩ ∧
    ShouldUseExtp (UpdateExtSequence pageAndSegment 0x1000 2) 0x1002 = none ∧
    ShouldUseExts (UpdateExtSequence wideSegmentAndPage 0x1000 2) 0x1002 = some 0x5678 :=
  ⟨((UpdateExtSequence_segment_first pageAndSegment 0x1000 2
      ⟨ExtSegment ||| ExtPage, 2, 3, 5, ⟨0, 0, 0, 0⟩⟩ rfl (by decide) (by decide) (by decide)
      rfl).2.2.2 (by decide)).1,
   (UpdateExtSequence_segment_first pageAndSegment 0x1000 2
      ⟨ExtSegment ||| ExtPage, 2, 3, 5, ⟨0, 0, 0, 0⟩⟩ rfl (by decide) (by decide) (by decide)
      rfl).2.2.1,
   (UpdateExtSequence_segment_first wideSegmentAndPage 0x1000 2
      ⟨ExtSegment ||| ExtPage, 2, 3, 0x12345678, ⟨0, 0, 0, 0⟩⟩ rfl (by decide) (by decide)
      (by decide) rfl).2.1⟩

/-! ## Register-indirect addressing under an override -/

/-- The page form of the address of `[Rw]`, evaluated. -/
theorem GetIndAddrExpr_Extp_Rw_eval (regs mem : Nat → Nat) (pag10 Rw : Nat) (h : pag10 < 1024) :
    (GetIndAddrExpr_Extp_Rw pag10 Rw).eval regs mem
      = (pag10 <<< 14) ||| ((regs Rw % 65536) &&& 0x3FFF) := by
  simp only [GetIndAddrExpr_Extp_Rw, ILExpr.eval]
  have h1 : pag10 % 2 ^ (8 * 3) = pag10 := Nat.mod_eq_of_lt (by omega)
  have h2 : pag10 <<< 14 < 2 ^ 24 := by rw [Nat.shiftLeft_eq]; omega
  have h4 : (regs Rw % 2 ^ (8 * 2)) &&& (0x3FFF % 2 ^ (8 * 2)) < 2 ^ 14 :=
    Nat.and_lt_two_pow _ (by decide)
  have h5 : ((regs Rw % 2 ^ (8 * 2)) &&& (0x3FFF % 2 ^ (8 * 2))) % 2 ^ (8 * 2)
      = (regs Rw % 65536) &&& 0x3FFF := Nat.mod_eq_of_lt (by omega)
  have h3 : (regs Rw % 65536) &&& 0x3FFF < 2 ^ 24 := by
    have : (regs Rw % 65536) &&& 0x3FFF < 2 ^ 14 := Nat.and_lt_two_pow _ (by decide)
    omega
  rw [h1, show (14 % 2 ^ (8 * 2)) = 14 from rfl, Nat.mod_eq_of_lt (a := pag10 <<< 14) h2, h5,
    Nat.mod_eq_of_lt (Nat.or_lt_two_pow h2 h3)]

/-- The page form of the address of `[Rw + #data16]`, evaluated. -/
theorem GetIndAddrExpr_Extp_Rw_data16_eval (regs mem : Nat → Nat) (pag10 Rw data16 : Nat)
    (h : pag10 < 1024) :
    (GetIndAddrExpr_Extp_Rw_data16 pag10 Rw data16).eval regs mem
      = (pag10 <<< 14) ||| ((regs Rw % 65536 + data16 % 65536) % 65536) := by
  simp only [GetIndAddrExpr_Extp_Rw_data16, ILExpr.eval]
  have h1 : pag10 % 2 ^ (8 * 3) = pag10 := Nat.mod_eq_of_lt (by omega)
  have h2 : pag10 <<< 14 < 2 ^ 24 := by rw [Nat.shiftLeft_eq]; omega
  have h5 : (((regs Rw % 2 ^ (8 * 2) + data16 % 2 ^ (8 * 2)) % 2 ^ (8 * 2)) &&&
      (0xFFFF % 2 ^ (8 * 2))) % 2 ^ (8 * 2)
      = (regs Rw % 65536 + data16 % 65536) % 65536 := by
    rw [show (0xFFFF % 2 ^ (8 * 2)) = 2 ^ 16 - 1 from rfl, Nat.and_pow_two_sub_one_eq_mod]
    omega
  have h3 : (regs Rw % 65536 + data16 % 65536) % 65536 < 2 ^ 24 := by omega
  rw [h1, show (14 % 2 ^ (8 * 2)) = 14 from rfl, Nat.mod_eq_of_lt (a := pag10 <<< 14) h2, h5,
    Nat.mod_eq_of_lt (Nat.or_lt_two_pow h2 h3)]


/-- C30. The address expression for `[Rw]` under a page override evaluates to
`(pag10 << 14) | (Rw & 0x3FFF)`, the formula of `GetMem`; the one for
`[Rw + #data16]` evaluates to `(pag10 << 14) | ((Rw + data16) & 0xFFFF)`: its
offset keeps all 16 bits, where the claim has the low 14.  With page 1, a
register holding 0x8000 and displacement 0 the code gives 0xC000 and the
claimed formula 0x4000. -/
theorem extp_data16_offset_not_masked (regs mem : Nat → Nat) (pag10 Rw data16 : Nat)
    (h : pag10 < 1024) :
    (GetIndAddrExpr_Extp_Rw pag10 Rw).eval regs mem
      = (pag10 <<< 14) ||| ((regs Rw % 65536) &&& 0x3FFF) ∧
    (GetIndAddrExpr_Extp_Rw_data16 pag10 Rw data16).eval regs mem
      = (pag10 <<< 14) ||| ((regs Rw + data16) % 65536) ∧
    (GetIndAddrExpr_Extp_Rw_data16 1 0 0).eval (fun _ => 0x8000) (fun _ => 0) = 0xC000 ∧
    (1 <<< 14) ||| ((0x8000 + 0) &&& 0x3FFF) = 0x4000 := by
  refine ⟨GetIndAddrExpr_Extp_Rw_eval regs mem pag10 Rw h, ?_, by decide, by decide⟩
  rw [GetIndAddrExpr_Extp_Rw_data16_eval regs mem pag10 Rw data16 h]
  congr 1
  omega

/-- Witness for C30: page 3, register 2 holding 0x9234, displacement 0x10. -/
theorem extp_data16_offset_not_masked_witness :
    (GetIndAddrExpr_Extp_Rw 3 2).eval (fun _ => 0x9234) (fun _ => 0) = 0xD234 ∧
    (GetIndAddrExpr_Extp_Rw_data16 3 2 0x10).eval (fun _ => 0x9234) (fun _ => 0) = 0xD244 ∧
    (3 <<< 14) ||| ((0x9234 + 0x10) &&& 0x3FFF) = 0xD244 ∧
    (GetIndAddrExpr_Extp_Rw_data16 3 2 0x10).eval (fun _ => 0xA234) (fun _ => 0) = 0xE244 ∧
    (3 <<< 14) ||| ((0xA234 + 0x10) &&& 0x3FFF) = 0xE244 :=
  ⟨(extp_data16_offset_not_masked (fun _ => 0x9234) (fun _ => 0) 3 2 0x10 (by decide)).1,
   (extp_data16_offset_not_masked (fun _ => 0x9234) (fun _ => 0) 3 2 0x10 (by decide)).2.1,
   by decide, by decide, by decide⟩

/-- C26. On BFLDH (0x1A) and BFLDL (0x0A) the lifter succeeds with length 4,
and the routine appends nothing to the instruction sequence: the marker it
builds is never passed to `il.AddInstruction`, as the macro `UNIMPLEMENTED`
of the same file does for the other unmodelled instructions. -/
theorem bfld_lift_appends_nothing (labels : Nat → Bool) (rest : List Nat) (addr len0 : Nat)
    (g : Globals) :
    GetInstructionLowLevelIL labels (0x1A :: rest) addr len0 g
      = ⟨true, 4, UpdateExtSequence g addr 4⟩ ∧
    GetInstructionLowLevelIL labels (0x1A :: rest) addr len0 g = Bfldh.Lift addr g ∧
    Bfldh.Lift.il g (0x1A :: rest) addr = [] ∧
    GetInstructionLowLevelIL labels (0x0A :: rest) addr len0 g
      = ⟨true, 4, UpdateExtSequence g addr 4⟩ ∧
    GetInstructionLowLevelIL labels (0x0A :: rest) addr len0 g = Bfldl.Lift addr g ∧
    Bfldl.Lift.il g (0x0A :: rest) addr = [] ∧
    Einit.Lift.il = [ILExpr.Unimplemented] ∧
    ExtrAtomic.Lift.il = [ILExpr.Unimplemented] := by
  refine ⟨?_, ?_, rfl, ?_, ?_, rfl, rfl, rfl⟩
  · rw [lift_byte]; rfl
  · rw [lift_byte]; rfl
  · rw [lift_byte]; rfl
  · rw [lift_byte]; rfl

/-! ## The window of an EXTS or EXTP instruction -/

set_option maxRecDepth 8192 in
set_option maxHeartbeats 4000000 in
/-- On every opcode outside the ADD, ADDB, ADDC, ADDCB, AND, ANDB families and the extension
opcodes, a lifter `switch` that succeeds writes 2 or 4 to `len`. -/
theorem lift_len_switch (op : Nat) (hop : op < 256)
    (hskip : op ∉ [0x00, 0x01, 0x02, 0x03, 0x04, 0x05, 0x06, 0x07, 0x08, 0x09, 0x10, 0x11, 0x12, 0x13, 0x14, 0x15, 0x16, 0x17, 0x18, 0x19, 0x60, 0x61, 0x62, 0x63, 0x64, 0x65, 0x66, 0x67, 0x68, 0x69, 0xD1, 0xD7, 0xDC])
    (labels : Nat → Bool) (data : List Nat) (addr len0 : Nat) (g : Globals)
    (h2 : (GetInstructionLowLevelIL.switch op labels data addr len0 g).ok = true) :
    (GetInstructionLowLevelIL.switch op labels data addr len0 g).len = 2 ∨
    (GetInstructionLowLevelIL.switch op labels data addr len0 g).len = 4 := by
  by_cases hb : op ∈ [0xCA, 0x8A, 0xAA, 0xEA, 0x9C, 0x9A, 0xBA, 0x0D, 0x1D, 0x2D, 0x3D, 0x4D, 0x5D, 0x6D, 0x7D, 0x8D, 0x9D, 0xAD, 0xBD, 0xCD, 0xDD, 0xED, 0xFD]
  · simp only [List.mem_cons, List.mem_singleton, List.not_mem_nil, or_false] at hb
    rcases hb with rfl | rfl | rfl | rfl | rfl | rfl | rfl | rfl | rfl | rfl | rfl | rfl | rfl | rfl | rfl | rfl | rfl | rfl | rfl | rfl | rfl | rfl | rfl
    · exact Or.inr (Calla_Lift_ok labels data addr len0 g h2).1
    · exact Or.inr (Jb_Lift_ok labels data addr len0 g h2).1
    · exact Or.inr (Jbc_Lift_ok labels data addr len0 g h2).1
    · exact Or.inr (Jmpa_Lift_ok labels data addr len0 g h2).1
    · exact Or.inl (Jmpi_Lift_ok labels data addr len0 g h2).1
    · exact Or.inr (Jnb_Lift_ok labels data addr len0 g h2).1
    · exact Or.inr (Jnbs_Lift_ok labels data addr len0 g h2).1
    · exact Or.inl (Jmpr_Lift_ok labels data addr len0 g h2).1
    · exact Or.inl (Jmpr_Lift_ok labels data addr len0 g h2).1
    · exact Or.inl (Jmpr_Lift_ok labels data addr len0 g h2).1
    · exact Or.inl (Jmpr_Lift_ok labels data addr len0 g h2).1
    · exact Or.inl (Jmpr_Lift_ok labels data addr len0 g h2).1
    · exact Or.inl (Jmpr_Lift_ok labels data addr len0 g h2).1
    · exact Or.inl (Jmpr_Lift_ok labels data addr len0 g h2).1
    · exact Or.inl (Jmpr_Lift_ok labels data addr len0 g h2).1
    · exact Or.inl (Jmpr_Lift_ok labels data addr len0 g h2).1
    · exact Or.inl (Jmpr_Lift_ok labels data addr len0 g h2).1
    · exact Or.inl (Jmpr_Lift_ok labels data addr len0 g h2).1
    · exact Or.inl (Jmpr_Lift_ok labels data addr len0 g h2).1
    · exact Or.inl (Jmpr_Lift_ok labels data addr len0 g h2).1
    · exact Or.inl (Jmpr_Lift_ok labels data addr len0 g h2).1
    · exact Or.inl (Jmpr_Lift_ok labels data addr len0 g h2).1
    · exact Or.inl (Jmpr_Lift_ok labels data addr len0 g h2).1
  · interval_cases op <;>
      first
      | exact absurd (by decide) hb
      | exact absurd (by decide) hskip
      | exact Or.inl rfl
      | exact Or.inr rfl
      | exact Bool.noConfusion h2

/-- A lifter that succeeds on a buffer whose opcode is outside the skipped families writes 2
or 4 to `len`. -/
theorem lift_len (labels : Nat → Bool) (data : List Nat) (addr len0 : Nat) (g : Globals)
    (hskip : byteAt data 0 ∉
      [0x00, 0x01, 0x02, 0x03, 0x04, 0x05, 0x06, 0x07, 0x08, 0x09,
       0x10, 0x11, 0x12, 0x13, 0x14, 0x15, 0x16, 0x17, 0x18, 0x19,
       0x60, 0x61, 0x62, 0x63, 0x64, 0x65, 0x66, 0x67, 0x68, 0x69, 0xD1, 0xD7, 0xDC])
    (h2 : (GetInstructionLowLevelIL labels data addr len0 g).ok = true) :
    (GetInstructionLowLevelIL labels data addr len0 g).len = 2 ∨
    (GetInstructionLowLevelIL labels data addr len0 g).len = 4 := by
  rw [lift_byte] at h2 ⊢
  exact lift_len_switch _ (byteAt_lt data 0) hskip labels data addr len0 g h2

/-- One step of the sweep, when the lift succeeds. -/
theorem liftRun_cons (labels : Nat → Bool) (g : Globals) (a : Nat) (d : List Nat)
    (rest : List (List Nat))
    (hok : (GetInstructionLowLevelIL labels d a d.length g).ok = true) :
    liftRun labels g a (d :: rest)
      = (liftRun labels (GetInstructionLowLevelIL labels d a d.length g).g
          ((a + (GetInstructionLowLevelIL labels d a d.length g).len) % 18446744073709551616)
          rest).map (fun p => (p.1, a :: p.2)) := by
  simp only [liftRun, hok, if_true]
  cases liftRun labels (GetInstructionLowLevelIL labels d a d.length g).g
      ((a + (GetInstructionLowLevelIL labels d a d.length g).len) % 18446744073709551616) rest
    <;> rfl

/-- A sweep that starts at an address with no entry at or above it changes nothing. -/
theorem liftRun_quiet (labels : Nat → Bool) :
    ∀ (insns : List (List Nat)) (g : Globals) (a : Nat),
      (∀ x, a ≤ x → mapFind g.StateMap x = none) →
      a + 4 * insns.length < 18446744073709551616 →
      (∀ d ∈ insns, byteAt d 0 ∉
        [0x00, 0x01, 0x02, 0x03, 0x04, 0x05, 0x06, 0x07, 0x08, 0x09,
         0x10, 0x11, 0x12, 0x13, 0x14, 0x15, 0x16, 0x17, 0x18, 0x19,
         0x60, 0x61, 0x62, 0x63, 0x64, 0x65, 0x66, 0x67, 0x68, 0x69, 0xD1, 0xD7, 0xDC]) →
      (∀ d ∈ insns, ∀ a1 g1, (GetInstructionLowLevelIL labels d a1 d.length g1).ok = true) →
      ∃ sites, liftRun labels g a insns = some (g, sites) ∧ sites.length = insns.length ∧
        (∀ s, sites[0]? = some s → s = a) ∧ ∀ s ∈ sites, a ≤ s := by
  intro insns
  induction insns with
  | nil =>
    intro g a _ _ _ _
    exact ⟨[], rfl, rfl, fun s h => by simp at h, fun s h => by simp at h⟩
  | cons d rest ih =>
    intro g a hfree hbound hfam hok
    have hok1 := hok d (List.mem_cons_self _ _) a g
    have hsk := hfam d (List.mem_cons_self _ _)
    have hprop := lifter_runs_propagation labels d a d.length g
      (by rw [opcode_eq_byte]; exact hsk) hok1
    have hlen := lift_len labels d a d.length g hsk hok1
    have hg : (GetInstructionLowLevelIL labels d a d.length g).g = g :=
      hprop.trans (UpdateExtSequence_none g a _ (hfree a (Nat.le_refl a)))
    simp only [List.length_cons] at hbound
    have ha : (a + (GetInstructionLowLevelIL labels d a d.length g).len) % 18446744073709551616
        = a + (GetInstructionLowLevelIL labels d a d.length g).len :=
      Nat.mod_eq_of_lt (by omega)
    obtain ⟨sites, hrun, hl, _, hs⟩ :=
      ih g (a + (GetInstructionLowLevelIL labels d a d.length g).len)
        (fun x hx => hfree x (by omega)) (by omega)
        (fun x hx => hfam x (List.mem_cons_of_mem _ hx))
        (fun x hx => hok x (List.mem_cons_of_mem _ hx))
    refine ⟨a :: sites, ?_, by simp [hl], fun s h => by simpa using h.symm, ?_⟩
    · rw [liftRun_cons labels g a d rest hok1, hg, ha, hrun]; rfl
    · intro s h
      rcases List.mem_cons.mp h with rfl | h
      · exact Nat.le_refl _
      · have := hs s h
        omega

/-- The window of an override.  The sweep starts at an address whose entry `st` has the
Segment kind alone or the Page kind alone, with count `st.num_insns`, and no entry lies
above it.  Then the sweep succeeds, the instruction at position `i` of the sweep has the
entry `st` with count `st.num_insns - i` as long as `i ≤ st.num_insns`, and no entry
afterwards; entries at or below the start are untouched. -/
theorem liftRun_window (labels : Nat → Bool) :
    ∀ (insns : List (List Nat)) (g : Globals) (a : Nat) (st : InstructionState),
      mapFind g.StateMap a = some st →
      (st.ext_state = ExtSegment ∧ st.pag10 = 0 ∨ st.ext_state = ExtPage ∧ st.seg8 = 0) →
      st.dpp = g.default_dpp → st.seg8 < 65536 → st.pag10 < 65536 → st.num_insns < 256 →
      (∀ x, a < x → mapFind g.StateMap x = none) →
      a + 4 * insns.length < 18446744073709551616 →
      (∀ d ∈ insns, byteAt d 0 ∉
        [0x00, 0x01, 0x02, 0x03, 0x04, 0x05, 0x06, 0x07, 0x08, 0x09,
         0x10, 0x11, 0x12, 0x13, 0x14, 0x15, 0x16, 0x17, 0x18, 0x19,
         0x60, 0x61, 0x62, 0x63, 0x64, 0x65, 0x66, 0x67, 0x68, 0x69, 0xD1, 0xD7, 0xDC]) →
      (∀ d ∈ insns, ∀ a1 g1, (GetInstructionLowLevelIL labels d a1 d.length g1).ok = true) →
      ∃ gf sites, liftRun labels g a insns = some (gf, sites) ∧
        sites.length = insns.length ∧
        (∀ s, sites[0]? = some s → s = a) ∧
        (∀ x, x ≤ a → mapFind gf.StateMap x = mapFind g.StateMap x) ∧
        ∀ i s, sites[i]? = some s →
          a ≤ s ∧
          (i ≤ st.num_insns →
            mapFind gf.StateMap s = some { st with num_insns := st.num_insns - i }) ∧
          (st.num_insns < i → mapFind gf.StateMap s = none) := by
  intro insns
  induction insns with
  | nil =>
    intro g a st _ _ _ _ _ _ _ _ _ _
    exact ⟨g, [], rfl, rfl, fun s h => by simp at h, fun _ _ => rfl, fun i s h => by simp at h⟩
  | cons d rest ih =>
    intro g a st h hk hd hv hp hc hfree hbound hfam hok
    have hok1 := hok d (List.mem_cons_self _ _) a g
    have hsk := hfam d (List.mem_cons_self _ _)
    have hprop := lifter_runs_propagation labels d a d.length g
      (by rw [opcode_eq_byte]; exact hsk) hok1
    have hlen := lift_len labels d a d.length g hsk hok1
    simp only [List.length_cons] at hbound
    have ha : (a + (GetInstructionLowLevelIL labels d a d.length g).len) % 18446744073709551616
        = a + (GetInstructionLowLevelIL labels d a d.length g).len :=
      Nat.mod_eq_of_lt (by omega)
    rw [liftRun_cons labels g a d rest hok1, hprop]
    generalize (GetInstructionLowLevelIL labels d a d.length g).len = len at hlen ha
    rw [ha]
    have hrest_fam : ∀ x ∈ rest, byteAt x 0 ∉
        [0x00, 0x01, 0x02, 0x03, 0x04, 0x05, 0x06, 0x07, 0x08, 0x09,
         0x10, 0x11, 0x12, 0x13, 0x14, 0x15, 0x16, 0x17, 0x18, 0x19,
         0x60, 0x61, 0x62, 0x63, 0x64, 0x65, 0x66, 0x67, 0x68, 0x69, 0xD1, 0xD7, 0xDC] :=
      fun x hx => hfam x (List.mem_cons_of_mem _ hx)
    have hrest_ok : ∀ x ∈ rest, ∀ a1 g1,
        (GetInstructionLowLevelIL labels x a1 x.length g1).ok = true :=
      fun x hx => hok x (List.mem_cons_of_mem _ hx)
    have hst0 : ({ st with num_insns := st.num_insns - 0 } : InstructionState) = st := by
      cases st; rfl
    by_cases hz : st.num_insns = 0
    · rw [UpdateExtSequence_zero g a len st h hz]
      obtain ⟨sites, hrun, hl, _, hs⟩ :=
        liftRun_quiet labels rest g (a + len) (fun x hx => hfree x (by omega)) (by omega)
          hrest_fam hrest_ok
      refine ⟨g, a :: sites, by rw [hrun]; rfl, by simp [hl], fun s h => by simpa using h.symm,
        fun _ _ => rfl, ?_⟩
      intro i s hi
      cases i with
      | zero =>
        have hsa : s = a := by simpa using hi.symm
        subst hsa
        exact ⟨Nat.le_refl _, fun _ => by rw [h, hst0], fun hlt => absurd hlt (Nat.not_lt_zero _)⟩
      | succ k =>
        have hmem : s ∈ sites := List.getElem?_mem (by simpa using hi)
        have hle := hs s hmem
        exact ⟨by omega, fun hk1 => by omega, fun _ => hfree s (by omega)⟩
    · have hpos : 0 < st.num_insns := Nat.pos_of_ne_zero hz
      have hnone : mapFind g.StateMap (a + len) = none := hfree _ (by omega)
      obtain ⟨g1, hg1eq, hg1at, hg1dd, hg1ne⟩ : ∃ g1, UpdateExtSequence g a len = g1 ∧
          mapFind g1.StateMap (a + len) = some { st with num_insns := st.num_insns - 1 } ∧
          g1.default_dpp = g.default_dpp ∧
          ∀ x, x ≠ a + len → mapFind g1.StateMap x = mapFind g.StateMap x := by
        rcases hk with ⟨hks, hkp⟩ | ⟨hkp, hks⟩
        · have hs : st.ext_state &&& ExtSegment ≠ 0 := by rw [hks]; decide
          refine ⟨_, by rw [UpdateExtSequence_seg g a len st h hs hpos, ha], ?_,
            SetExtsSeg8_default_dpp _ _ _ _,
            fun x hx => SetExtsSeg8_find_ne _ _ _ _ _ (Ne.symm hx)⟩
          rw [SetExtsSeg8_find_none g (a + len) _ _ hnone]
          cases st
          simp only at hks hkp hd hv hc ⊢
          subst hks hkp hd
          rw [Nat.mod_eq_of_lt hv, Nat.mod_eq_of_lt (by omega)]
        · have hs : st.ext_state &&& ExtSegment = 0 := by rw [hkp]; decide
          have hpg : st.ext_state &&& ExtPage ≠ 0 := by rw [hkp]; decide
          refine ⟨_, by rw [UpdateExtSequence_page g a len st h hs hpg hpos, ha], ?_,
            SetExtpPag10_default_dpp _ _ _ _,
            fun x hx => SetExtpPag10_find_ne _ _ _ _ _ (Ne.symm hx)⟩
          rw [SetExtpPag10_find_none g (a + len) _ _ hnone]
          cases st
          simp only at hks hkp hd hp hc ⊢
          subst hks hkp hd
          rw [Nat.mod_eq_of_lt hp, Nat.mod_eq_of_lt (by omega)]
      rw [hg1eq]
      obtain ⟨gf, sites, hrun, hl, _, hframe, hsites⟩ :=
        ih g1 (a + len) { st with num_insns := st.num_insns - 1 } hg1at hk (hd.trans hg1dd.symm)
          hv hp (by show st.num_insns - 1 < 256; omega)
          (fun x hx => (hg1ne x (by omega)).trans (hfree x (by omega))) (by omega)
          hrest_fam hrest_ok
      have hfr : ∀ x, x ≤ a → mapFind gf.StateMap x = mapFind g.StateMap x :=
        fun x hx => (hframe x (by omega)).trans (hg1ne x (by omega))
      refine ⟨gf, a :: sites, by rw [hrun]; rfl, by simp [hl], fun s h => by simpa using h.symm,
        hfr, ?_⟩
      intro i s hi
      cases i with
      | zero =>
        have hsa : s = a := by simpa using hi.symm
        subst hsa
        exact ⟨Nat.le_refl _, fun _ => by rw [hfr s (Nat.le_refl _), h, hst0],
          fun hlt => absurd hlt (Nat.not_lt_zero _)⟩
      | succ k =>
        obtain ⟨hle, hin, hout⟩ := hsites k s (by simpa using hi)
        refine ⟨by omega, fun hk1 => ?_, fun hk1 => hout (by show st.num_insns - 1 < k; omega)⟩
        rw [hin (by show k ≤ st.num_insns - 1; omega)]
        show some ({ st with num_insns := st.num_insns - 1 - k } : InstructionState) = _
        rw [show st.num_insns - 1 - k = st.num_insns - (k + 1) by omega]

set_option maxRecDepth 100000 in
/-- The count that `Extprs::LiftxD7` stores, as the two-bit field of byte 1. -/
theorem LiftxD7_count :
    ∀ b < 256, (((b &&& 0b00110000) >>> 4) + 1) % 256 - 1 = (b >>> 4) &&& 3 := by
  decide

/-- The EXTS branch of `Extprs::LiftxD7` on a 4-byte buffer. -/
theorem LiftxD7_exts (A b1 b2 b3 : Nat) (g : Globals) (hb1 : b1 < 256) (hb2 : b2 < 256)
    (hk : b1 &&& 0xC0 = 0x00) :
    Extprs.LiftxD7 [0xD7, b1, b2, b3] A 4 g
      = ⟨true, 4, SetExtsSeg8 g ((A + 4) % 18446744073709551616) b2 ((b1 >>> 4) &&& 3)⟩ := by
  have h1 : byteAt [0xD7, b1, b2, b3] 1 = b1 := by simp [byteAt, Nat.mod_eq_of_lt hb1]
  have h2 : byteAt [0xD7, b1, b2, b3] 2 = b2 := by simp [byteAt, Nat.mod_eq_of_lt hb2]
  simp only [Extprs.LiftxD7, h1, h2, hk, if_true, LiftxD7_count b1 hb1]

/-- The EXTP branch of `Extprs::LiftxD7` on a 4-byte buffer. -/
theorem LiftxD7_extp (A b1 b2 b3 : Nat) (g : Globals) (hb1 : b1 < 256) (hb2 : b2 < 256)
    (hb3 : b3 < 256) (hk : b1 &&& 0xC0 = 0x40) :
    Extprs.LiftxD7 [0xD7, b1, b2, b3] A 4 g
      = ⟨true, 4, SetExtpPag10 g ((A + 4) % 18446744073709551616)
          (((b3 &&& 3) <<< 8) ||| b2) ((b1 >>> 4) &&& 3)⟩ := by
  have h1 : byteAt [0xD7, b1, b2, b3] 1 = b1 := by simp [byteAt, Nat.mod_eq_of_lt hb1]
  have h2 : byteAt [0xD7, b1, b2, b3] 2 = b2 := by simp [byteAt, Nat.mod_eq_of_lt hb2]
  have h3 : byteAt [0xD7, b1, b2, b3] 3 = b3 := by simp [byteAt, Nat.mod_eq_of_lt hb3]
  have hlt : ((b3 &&& 3) <<< 8) ||| b2 < 65536 := by
    have ha : b3 &&& 3 < 2 ^ 2 := Nat.and_lt_two_pow _ (by decide)
    have hs : (b3 &&& 3) <<< 8 < 2 ^ 16 := by rw [Nat.shiftLeft_eq]; omega
    exact Nat.or_lt_two_pow hs (by omega)
  have hne : ¬ (0x40 : Nat) = 0x00 := by decide
  simp only [Extprs.LiftxD7, h1, h2, h3, hk, hne, if_true, if_false, LiftxD7_count b1 hb1,
    Nat.mod_eq_of_lt hlt]

/-- The two branches of `Extprs::LiftxD7` that are left to do. -/
theorem LiftxD7_other (A b1 b2 b3 : Nat) (g : Globals) (hb1 : b1 < 256)
    (hs : b1 &&& 0xC0 ≠ 0x00) (hp : b1 &&& 0xC0 ≠ 0x40) :
    Extprs.LiftxD7 [0xD7, b1, b2, b3] A 4 g = ⟨true, 4, g⟩ := by
  have h1 : byteAt [0xD7, b1, b2, b3] 1 = b1 := by simp [byteAt, Nat.mod_eq_of_lt hb1]
  simp only [Extprs.LiftxD7, h1, hs, hp, if_false]
  split_ifs <;> rfl

/-- C28. From an empty store, the sweep over the 4-byte instruction `D7 b1 b2 b3` at `A`
and a run of instructions after it, each of a family whose lifter runs the propagation
rule and each one lifting, succeeds.  With `N = ((b1 >> 4) & 3) + 1`: the first
instruction after it is at `A + 4`; for EXTS (bits 7 and 6 of `b1` are 00) the
instructions at positions `i < N` of the run have the segment override `b2` and no page
override; for EXTP (bits 01) they have the page override `((b3 & 3) << 8) | b2` and no
segment override; the instructions at positions `i ≥ N` have no entry, and neither
has `A`. -/
theorem ext_window (labels : Nat → Bool) (dflt : Dpp) (A b1 b2 b3 : Nat)
    (insns : List (List Nat)) (hb1 : b1 < 256) (hb2 : b2 < 256) (hb3 : b3 < 256)
    (hA : A + 4 + 4 * insns.length < 18446744073709551616)
    (hfam : ∀ d ∈ insns, byteAt d 0 ∉
      [0x00, 0x01, 0x02, 0x03, 0x04, 0x05, 0x06, 0x07, 0x08, 0x09,
       0x10, 0x11, 0x12, 0x13, 0x14, 0x15, 0x16, 0x17, 0x18, 0x19,
       0x60, 0x61, 0x62, 0x63, 0x64, 0x65, 0x66, 0x67, 0x68, 0x69, 0xD1, 0xD7, 0xDC])
    (hok : ∀ d ∈ insns, ∀ a g, (GetInstructionLowLevelIL labels d a d.length g).ok = true) :
    ∃ gf sites,
      liftRun labels ⟨[], dflt⟩ A ([0xD7, b1, b2, b3] :: insns) = some (gf, A :: sites) ∧
      sites.length = insns.length ∧
      (∀ s, sites[0]? = some s → s = A + 4) ∧
      mapFind gf.StateMap A = none ∧
      ∀ i s, sites[i]? = some s →
        (i < ((b1 >>> 4) &&& 3) + 1 →
          (b1 &&& 0xC0 = 0x00 → ShouldUseExts gf s = some b2 ∧ ShouldUseExtp gf s = none) ∧
          (b1 &&& 0xC0 = 0x40 →
            ShouldUseExtp gf s = some (((b3 &&& 3) <<< 8) ||| b2) ∧
            ShouldUseExts gf s = none)) ∧
        (((b1 >>> 4) &&& 3) + 1 ≤ i → mapFind gf.StateMap s = none) := by
  have hR : GetInstructionLowLevelIL labels [0xD7, b1, b2, b3] A [0xD7, b1, b2, b3].length
      ⟨[], dflt⟩ = Extprs.LiftxD7 [0xD7, b1, b2, b3] A 4 ⟨[], dflt⟩ := by
    rw [lift_byte]; rfl
  have hok7 : (GetInstructionLowLevelIL labels [0xD7, b1, b2, b3] A [0xD7, b1, b2, b3].length
      ⟨[], dflt⟩).ok = true := by rw [hR]; exact (LiftxD7_ok _ _ _ _).1
  have hA4 : (A + 4) % 18446744073709551616 = A + 4 := Nat.mod_eq_of_lt (by omega)
  have hc : (b1 >>> 4) &&& 3 < 4 := Nat.and_lt_two_pow _ (by decide : (3 : Nat) < 2 ^ 2)
  have hv : ((b3 &&& 3) <<< 8) ||| b2 < 65536 := by
    have ha : b3 &&& 3 < 2 ^ 2 := Nat.and_lt_two_pow _ (by decide)
    have hs : (b3 &&& 3) <<< 8 < 2 ^ 16 := by rw [Nat.shiftLeft_eq]; omega
    exact Nat.or_lt_two_pow hs (by omega)
  rw [liftRun_cons labels ⟨[], dflt⟩ A [0xD7, b1, b2, b3] insns hok7, hR]
  by_cases hs : b1 &&& 0xC0 = 0x00
  · rw [LiftxD7_exts A b1 b2 b3 _ hb1 hb2 hs]
    simp only [hA4]
    have hat : mapFind (SetExtsSeg8 ⟨[], dflt⟩ (A + 4) b2 ((b1 >>> 4) &&& 3)).StateMap (A + 4)
        = some ⟨ExtSegment, (b1 >>> 4) &&& 3, 0, b2, dflt⟩ := by
      rw [SetExtsSeg8_find_none ⟨[], dflt⟩ (A + 4) _ _ rfl,
        Nat.mod_eq_of_lt (by omega : b2 < 65536),
        Nat.mod_eq_of_lt (by omega : (b1 >>> 4) &&& 3 < 256)]
    have hdd : dflt = (SetExtsSeg8 ⟨[], dflt⟩ (A + 4) b2 ((b1 >>> 4) &&& 3)).default_dpp :=
      (SetExtsSeg8_default_dpp ⟨[], dflt⟩ _ _ _).symm
    have hfree : ∀ x, A + 4 < x →
        mapFind (SetExtsSeg8 ⟨[], dflt⟩ (A + 4) b2 ((b1 >>> 4) &&& 3)).StateMap x = none :=
      fun x hx => (SetExtsSeg8_find_ne _ _ _ _ _ (by omega)).trans rfl
    obtain ⟨gf, sites, hrun, hl, h0, hframe, hsites⟩ :=
      liftRun_window labels insns
        (SetExtsSeg8 ⟨[], dflt⟩ (A + 4) b2 ((b1 >>> 4) &&& 3)) (A + 4)
        ⟨ExtSegment, (b1 >>> 4) &&& 3, 0, b2, dflt⟩ hat (Or.inl ⟨rfl, rfl⟩) hdd
        (show b2 < 65536 by omega) (show (0 : Nat) < 65536 by decide)
        (show (b1 >>> 4) &&& 3 < 256 by omega) hfree (by omega) hfam hok
    refine ⟨gf, sites, by rw [hrun]; rfl, hl, h0, ?_, ?_⟩
    · rw [hframe A (by omega), SetExtsSeg8_find_ne _ _ _ _ _ (by omega)]; rfl
    · intro i s hi
      obtain ⟨_, hin, hout⟩ := hsites i s hi
      refine ⟨fun hlt => ⟨fun _ => ?_, fun hp => absurd (hs.symm.trans hp) (by decide)⟩,
        fun hge => hout (by show (b1 >>> 4) &&& 3 < i; omega)⟩
      have he := hin (by show i ≤ (b1 >>> 4) &&& 3; omega)
      constructor
      · simp only [ShouldUseExts, he]; rfl
      · simp only [ShouldUseExtp, he]; rfl
  · by_cases hp : b1 &&& 0xC0 = 0x40
    · rw [LiftxD7_extp A b1 b2 b3 _ hb1 hb2 hb3 hp]
      simp only [hA4]
      have hat : mapFind (SetExtpPag10 ⟨[], dflt⟩ (A + 4) (((b3 &&& 3) <<< 8) ||| b2)
          ((b1 >>> 4) &&& 3)).StateMap (A + 4)
          = some ⟨ExtPage, (b1 >>> 4) &&& 3, ((b3 &&& 3) <<< 8) ||| b2, 0, dflt⟩ := by
        rw [SetExtpPag10_find_none ⟨[], dflt⟩ (A + 4) _ _ rfl, Nat.mod_eq_of_lt hv,
          Nat.mod_eq_of_lt (by omega : (b1 >>> 4) &&& 3 < 256)]
      have hdd : dflt = (SetExtpPag10 ⟨[], dflt⟩ (A + 4) (((b3 &&& 3) <<< 8) ||| b2)
          ((b1 >>> 4) &&& 3)).default_dpp :=
        (SetExtpPag10_default_dpp ⟨[], dflt⟩ _ _ _).symm
      have hfree : ∀ x, A + 4 < x →
          mapFind (SetExtpPag10 ⟨[], dflt⟩ (A + 4) (((b3 &&& 3) <<< 8) ||| b2)
            ((b1 >>> 4) &&& 3)).StateMap x = none :=
        fun x hx => (SetExtpPag10_find_ne _ _ _ _ _ (by omega)).trans rfl
      obtain ⟨gf, sites, hrun, hl, h0, hframe, hsites⟩ :=
        liftRun_window labels insns
          (SetExtpPag10 ⟨[], dflt⟩ (A + 4) (((b3 &&& 3) <<< 8) ||| b2) ((b1 >>> 4) &&& 3))
          (A + 4) ⟨ExtPage, (b1 >>> 4) &&& 3, ((b3 &&& 3) <<< 8) ||| b2, 0, dflt⟩ hat
          (Or.inr ⟨rfl, rfl⟩) hdd (show (0 : Nat) < 65536 by decide) hv
          (show (b1 >>> 4) &&& 3 < 256 by omega) hfree (by omega) hfam hok
      refine ⟨gf, sites, by rw [hrun]; rfl, hl, h0, ?_, ?_⟩
      · rw [hframe A (by omega), SetExtpPag10_find_ne _ _ _ _ _ (by omega)]; rfl
      · intro i s hi
        obtain ⟨_, hin, hout⟩ := hsites i s hi
        refine ⟨fun hlt => ⟨fun h0 => absurd h0 hs, fun _ => ?_⟩,
          fun hge => hout (by show (b1 >>> 4) &&& 3 < i; omega)⟩
        have he := hin (by show i ≤ (b1 >>> 4) &&& 3; omega)
        constructor
        · simp only [ShouldUseExtp, he]; rfl
        · simp only [ShouldUseExts, he]; rfl
    · rw [LiftxD7_other A b1 b2 b3 _ hb1 hs hp]
      simp only [hA4]
      obtain ⟨sites, hrun, hl, h0, hge⟩ :=
        liftRun_quiet labels insns ⟨[], dflt⟩ (A + 4) (fun _ _ => rfl) (by omega) hfam hok
      exact ⟨⟨[], dflt⟩, sites, by rw [hrun]; rfl, hl, h0, rfl,
        fun i s _ => ⟨fun _ => ⟨fun h0 => absurd h0 hs, fun h1 => absurd h1 hp⟩, fun _ => rfl⟩⟩

/-- Witness for C28: EXTS with segment 5 for two instructions at 0x2000, then `NOP`,
`MOV R1, [R2]`, `NOP`.  The sweep visits 0x2000, 0x2004, 0x2006, 0x2008; the segment
override is in force at 0x2004 and 0x2006 only. -/
theorem ext_window_witness :
    (∃ gf sites,
      liftRun allLabels ⟨[], ⟨0, 0, 0, 0⟩⟩ 0x2000
        ([0xD7, 0x10, 0x05, 0x00] :: [[0xCC, 0x00], [0xA8, 0x12], [0xCC, 0x00]])
        = some (gf, 0x2000 :: sites) ∧
      sites.length = [[0xCC, 0x00], [0xA8, 0x12], [0xCC, 0x00]].length ∧
      (∀ s, sites[0]? = some s → s = 0x2000 + 4) ∧
      mapFind gf.StateMap 0x2000 = none ∧
      ∀ i s, sites[i]? = some s →
        (i < ((0x10 >>> 4) &&& 3) + 1 →
          (0x10 &&& 0xC0 = 0x00 → ShouldUseExts gf s = some 0x05 ∧ ShouldUseExtp gf s = none) ∧
          (0x10 &&& 0xC0 = 0x40 →
            ShouldUseExtp gf s = some (((0x00 &&& 3) <<< 8) ||| 0x05) ∧
            ShouldUseExts gf s = none)) ∧
        (((0x10 >>> 4) &&& 3) + 1 ≤ i → mapFind gf.StateMap s = none)) ∧
    (liftRun allLabels ⟨[], ⟨0, 0, 0, 0⟩⟩ 0x2000
        [[0xD7, 0x10, 0x05, 0x00], [0xCC, 0x00], [0xA8, 0x12], [0xCC, 0x00]]).map
      (fun p => (p.2, p.2.map (ShouldUseExts p.1)))
      = some ([0x2000, 0x2004, 0x2006, 0x2008], [none, some 5, some 5, none]) :=
  ⟨ext_window allLabels ⟨0, 0, 0, 0⟩ 0x2000 0x10 0x05 0x00
    [[0xCC, 0x00], [0xA8, 0x12], [0xCC, 0x00]] (by decide) (by decide) (by decide) (by decide)
    (by decide)
    (fun d hd a g => by
      simp only [List.mem_cons, List.mem_singleton, List.not_mem_nil, or_false] at hd
      rcases hd with rfl | rfl | rfl <;> rfl),
   by decide⟩

/-! ## The two switches have the same case labels -/

set_option maxRecDepth 100000 in
/-- Both switches have a case label for exactly the constants of `opcodes.h`. -/
theorem caseLabels_table : ∀ op < 256,
    (op ∈ GetInstructionInfo.caseLabels ↔ op ∈ Opcodes.table) ∧
    (op ∈ GetInstructionLowLevelIL.caseLabels ↔ op ∈ Opcodes.table) := by
  decide

/-- On a value that is no constant of `opcodes.h` the lifter's `switch` takes its `default`:
it returns false and leaves `len` and the globals alone. -/
theorem lift_switch_unknown (op : Nat) (hop : op < 256) (h : op ∉ Opcodes.table)
    (labels : Nat → Bool) (data : List Nat) (addr len0 : Nat) (g : Globals) :
    GetInstructionLowLevelIL.switch op labels data addr len0 g = ⟨false, len0, g⟩ := by
  have hb := opcodes_outside_table op hop h
  simp only [List.mem_cons, List.mem_singleton, List.not_mem_nil, or_false] at hb
  rcases hb with rfl | rfl | rfl | rfl | rfl | rfl | rfl | rfl | rfl | rfl | rfl | rfl | rfl |
    rfl | rfl | rfl | rfl | rfl | rfl | rfl <;> rfl

set_option maxRecDepth 100000 in
set_option maxHeartbeats 4000000 in
/-- Each `switch` reaches `default:` exactly on the values that are none of its `case`
labels, whatever the other arguments. -/
theorem switchArm_isNone (op : Nat) (hop : op < 256) (labels : Nat → Bool)
    (data data2 : List Nat) (addr addr2 len0 : Nat) (r : InstructionInfo) (g : Globals) :
    (GetInstructionInfo.switchArm op data addr r).isNone
      = decide (op ∉ GetInstructionInfo.caseLabels) ∧
    (GetInstructionLowLevelIL.switchArm op labels data2 addr2 len0 g).isNone
      = decide (op ∉ GetInstructionLowLevelIL.caseLabels) := by
  interval_cases op <;> exact ⟨rfl, rfl⟩

set_option maxRecDepth 100000 in
set_option maxHeartbeats 4000000 in
/-- The classifier's `switch` returns what the arm taken returns, and what `default:`
returns when no arm is taken. -/
theorem info_switch_eq_arm (op : Nat) (hop : op < 256) (data : List Nat) (addr : Nat)
    (r : InstructionInfo) :
    GetInstructionInfo.switch op data addr r
      = (GetInstructionInfo.switchArm op data addr r).getD (false, r) := by
  interval_cases op <;> rfl

set_option maxRecDepth 100000 in
set_option maxHeartbeats 4000000 in
/-- The lifter's `switch` returns what the arm taken returns, and what `default:`
returns when no arm is taken. -/
theorem lift_switch_eq_arm (op : Nat) (hop : op < 256) (labels : Nat → Bool) (data : List Nat)
    (addr len0 : Nat) (g : Globals) :
    GetInstructionLowLevelIL.switch op labels data addr len0 g
      = (GetInstructionLowLevelIL.switchArm op labels data addr len0 g).getD ⟨false, len0, g⟩ := by
  interval_cases op <;> rfl

set_option maxRecDepth 100000 in
/-- On the buffer `op 00 00 00` the classifier and the lifter return true for every
labelled opcode but PCALL, whose `case` is `return false`, and false for every other byte. -/
theorem accept_zero_operands : ∀ op < 256,
    (GetInstructionInfo.switch op [op, 0, 0, 0] 0 InstructionInfo.empty).1
      = decide (op ∈ GetInstructionInfo.caseLabels ∧ op ≠ Opcodes.PCALL) ∧
    (GetInstructionLowLevelIL.switch op allLabels [op, 0, 0, 0] 0 0 Globals.initial).ok
      = decide (op ∈ GetInstructionLowLevelIL.caseLabels ∧ op ≠ Opcodes.PCALL) := by
  decide

/-- C31. For every value `op` of the first byte, `GetInstructionInfo` reaches the
`default:` of its `switch` if and only if `GetInstructionLowLevelIL` reaches the
`default:` of its own, whatever the other arguments; each does so exactly when `op` is
none of its `case` labels, and the two sets of labels are the same.  What each `switch`
and each function returns is what the arm taken returns, and false with nothing changed
when control reaches `default:`.  On the buffer `op 00 00 00` each returns true exactly
for the labelled opcodes other than PCALL, whose `case` in both is `return false`. -/
theorem switches_recognise_same_opcodes (op : Nat) (hop : op < 256) :
    (op ∉ GetInstructionInfo.caseLabels ↔ op ∉ GetInstructionLowLevelIL.caseLabels) ∧
    (op ∉ GetInstructionInfo.caseLabels → ∀ data addr r,
      GetInstructionInfo.switch op data addr r = (false, r) ∧
      (byteAt data 0 = op → GetInstructionInfo data addr r = (false, r))) ∧
    (op ∉ GetInstructionLowLevelIL.caseLabels → ∀ labels data addr len0 g,
      GetInstructionLowLevelIL.switch op labels data addr len0 g = ⟨false, len0, g⟩ ∧
      (byteAt data 0 = op →
        GetInstructionLowLevelIL labels data addr len0 g = ⟨false, len0, g⟩)) ∧
    (∀ (labels : Nat → Bool) (data data2 : List Nat) (addr addr2 len0 : Nat)
        (r : InstructionInfo) (g : Globals),
      (GetInstructionInfo.switchArm op data addr r = none ↔
        GetInstructionLowLevelIL.switchArm op labels data2 addr2 len0 g = none) ∧
      (GetInstructionInfo.switchArm op data addr r = none ↔
        op ∉ GetInstructionInfo.caseLabels) ∧
      (GetInstructionLowLevelIL.switchArm op labels data2 addr2 len0 g = none ↔
        op ∉ GetInstructionLowLevelIL.caseLabels) ∧
      GetInstructionInfo.switch op data addr r
        = (GetInstructionInfo.switchArm op data addr r).getD (false, r) ∧
      GetInstructionLowLevelIL.switch op labels data2 addr2 len0 g
        = (GetInstructionLowLevelIL.switchArm op labels data2 addr2 len0 g).getD
            ⟨false, len0, g⟩ ∧
      (byteAt data 0 = op → GetInstructionInfo data addr r
        = (GetInstructionInfo.switchArm op data addr r).getD (false, r)) ∧
      (byteAt data2 0 = op → GetInstructionLowLevelIL labels data2 addr2 len0 g
        = (GetInstructionLowLevelIL.switchArm op labels data2 addr2 len0 g).getD
            ⟨false, len0, g⟩)) ∧
    ((GetInstructionInfo.switch op [op, 0, 0, 0] 0 InstructionInfo.empty).1 = true ↔
      op ∈ GetInstructionInfo.caseLabels ∧ op ≠ Opcodes.PCALL) ∧
    ((GetInstructionLowLevelIL.switch op allLabels [op, 0, 0, 0] 0 0 Globals.initial).ok = true ↔
      op ∈ GetInstructionLowLevelIL.caseLabels ∧ op ≠ Opcodes.PCALL) := by
  obtain ⟨hi, hl⟩ := caseLabels_table op hop
  obtain ⟨ha1, ha2⟩ := accept_zero_operands op hop
  refine ⟨by rw [hi, hl], ?_, ?_, ?_, ?_, ?_⟩
  · intro h data addr r
    have ht : op ∉ Opcodes.table := fun hm => h (hi.mpr hm)
    refine ⟨info_switch_unknown op hop ht data addr r, fun hb => ?_⟩
    rw [classify_byte, hb]
    exact info_switch_unknown op hop ht data addr r
  · intro h labels data addr len0 g
    have ht : op ∉ Opcodes.table := fun hm => h (hl.mpr hm)
    refine ⟨lift_switch_unknown op hop ht labels data addr len0 g, fun hb => ?_⟩
    rw [lift_byte, hb]
    exact lift_switch_unknown op hop ht labels data addr len0 g
  · intro labels data data2 addr addr2 len0 r g
    obtain ⟨h1, h2⟩ := switchArm_isNone op hop labels data data2 addr addr2 len0 r g
    have e1 : GetInstructionInfo.switchArm op data addr r = none ↔
        op ∉ GetInstructionInfo.caseLabels := by
      rw [← Option.isNone_iff_eq_none, h1, decide_eq_true_iff]
    have e2 : GetInstructionLowLevelIL.switchArm op labels data2 addr2 len0 g = none ↔
        op ∉ GetInstructionLowLevelIL.caseLabels := by
      rw [← Option.isNone_iff_eq_none, h2, decide_eq_true_iff]
    refine ⟨by rw [e1, e2, hi, hl], e1, e2, info_switch_eq_arm op hop data addr r,
      lift_switch_eq_arm op hop labels data2 addr2 len0 g, fun hb => ?_, fun hb => ?_⟩
    · rw [classify_byte, hb]
      exact info_switch_eq_arm op hop data addr r
    · rw [lift_byte, hb]
      exact lift_switch_eq_arm op hop labels data2 addr2 len0 g
  · rw [ha1, decide_eq_true_iff]
  · rw [ha2, decide_eq_true_iff]

/-- Witness for C31: the byte 0x3B, which has no `case` label in either `switch`, the
byte 0xCB (RET), which has one in both and is accepted by both, and the byte 0xE2
(PCALL), which has one in both and is refused by both without reaching `default:`. -/
theorem switches_recognise_same_opcodes_witness :
    (0x3B ∉ GetInstructionInfo.caseLabels ↔ 0x3B ∉ GetInstructionLowLevelIL.caseLabels) ∧
    GetInstructionInfo [0x3B, 0x00] 0x1000 InstructionInfo.empty
      = (false, InstructionInfo.empty) ∧
    GetInstructionLowLevelIL allLabels [0x3B, 0x00] 0x1000 2 registerBankOnly
      = ⟨false, 2, registerBankOnly⟩ ∧
    (GetInstructionInfo.switchArm 0x3B [0x3B, 0x00] 0x1000 InstructionInfo.empty = none ↔
      GetInstructionLowLevelIL.switchArm 0x3B allLabels [0x3B, 0x00] 0x1000 2 registerBankOnly
        = none) ∧
    GetInstructionInfo.switchArm 0x3B [0x3B, 0x00] 0x1000 InstructionInfo.empty = none ∧
    (GetInstructionInfo.switchArm 0xCB [0xCB, 0x00] 0x1000 InstructionInfo.empty = none ↔
      GetInstructionLowLevelIL.switchArm 0xCB allLabels [0xCB, 0x00] 0x1000 2 registerBankOnly
        = none) ∧
    GetInstructionInfo.switchArm 0xCB [0xCB, 0x00] 0x1000 InstructionInfo.empty
      = some (true, ⟨2, [(BranchType.FunctionReturn, 0)]⟩) ∧
    GetInstructionInfo [0xCB, 0x00] 0x1000 InstructionInfo.empty
      = (true, ⟨2, [(BranchType.FunctionReturn, 0)]⟩) ∧
    GetInstructionLowLevelIL allLabels [0xCB, 0x00] 0x1000 2 registerBankOnly
      = ⟨true, 2, UpdateExtSequence registerBankOnly 0x1000 2⟩ ∧
    (GetInstructionInfo.switchArm Opcodes.PCALL [0xE2, 0xF0, 0x00, 0x10] 0x1000
        InstructionInfo.empty = none ↔
      GetInstructionLowLevelIL.switchArm Opcodes.PCALL allLabels [0xE2, 0xF0, 0x00, 0x10] 0x1000
        2 registerBankOnly = none) ∧
    GetInstructionInfo.switchArm Opcodes.PCALL [0xE2, 0xF0, 0x00, 0x10] 0x1000
      InstructionInfo.empty = some (false, InstructionInfo.empty) :=
  have hu := switches_recognise_same_opcodes 0x3B (by decide)
  have hr := (switches_recognise_same_opcodes 0xCB (by decide)).2.2.2.1
    allLabels [0xCB, 0x00] [0xCB, 0x00] 0x1000 0x1000 2 InstructionInfo.empty registerBankOnly
  have hp := (switches_recognise_same_opcodes Opcodes.PCALL (by decide)).2.2.2.1
    allLabels [0xE2, 0xF0, 0x00, 0x10] [0xE2, 0xF0, 0x00, 0x10] 0x1000 0x1000 2
    InstructionInfo.empty registerBankOnly
  have hu4 := hu.2.2.2.1 allLabels [0x3B, 0x00] [0x3B, 0x00] 0x1000 0x1000 2
    InstructionInfo.empty registerBankOnly
  ⟨hu.1,
   ((hu.2.1 (by decide)) [0x3B, 0x00] 0x1000 InstructionInfo.empty).2 (by decide),
   ((hu.2.2.1 (by decide)) allLabels [0x3B, 0x00] 0x1000 2 registerBankOnly).2 (by decide),
   hu4.1, hu4.2.1.mpr (by decide),
   hr.1, rfl,
   (hr.2.2.2.2.2.1 (by decide)).trans rfl,
   (hr.2.2.2.2.2.2 (by decide)).trans rfl,
   hp.1, rfl⟩

/-! ## Register short codes and bit offsets -/

/-- C32. For every short code `c`, address and store, `TranslateReg` returns a value
`<= 0xF` if and only if `c > 0xEF`, and `TranslateBitOff` returns a value `<= 0xF` if and
only if the bit offset is `> 0xEF`: the SFR and RAM addresses they return otherwise are
all above 0xF. -/
theorem translated_index_iff (g : Globals) (addr c : Nat) :
    (TranslateReg g addr c ≤ 0xF ↔ 0xEF < c) ∧
    (TranslateBitOff g addr c ≤ 0xF ↔ 0xEF < c) := by
  constructor
  · unfold TranslateReg GetRegSfrAddress
    by_cases h : c ≤ 0xEF
    · simp only [h, if_true]
      have hc : c % 256 = c := Nat.mod_eq_of_lt (by omega)
      rw [hc]
      cases ShouldUseExtr g addr <;> simp <;> omega
    · simp only [h, if_false]
      have := Nat.and_le_right (n := c) (m := 0xF)
      constructor
      · intro _; omega
      · intro _; exact this
  · unfold TranslateBitOff GetBitoffRamAddress GetBitoffSfrAddress
    by_cases h1 : c ≤ 0x7F
    · simp only [h1, if_true]
      have hc : c % 256 = c := Nat.mod_eq_of_lt (by omega)
      rw [hc]
      omega
    · by_cases h2 : c ≤ 0xEF
      · simp only [h1, h2, if_true, if_false]
        have hc : c % 256 = c := Nat.mod_eq_of_lt (by omega)
        have ha : c &&& 0x7F ≤ 0x7F := Nat.and_le_right
        rw [hc]
        cases ShouldUseExtr g addr <;> simp <;> omega
      · simp only [h1, h2, if_false]
        have := Nat.and_le_right (n := c) (m := 0xF)
        constructor
        · intro _; omega
        · intro _; exact this

/-- Witness for C32: the short codes 0x10 (an SFR) and 0xF3 (register 3), at a site with and
without a register-bank override. -/
theorem translated_index_iff_witness :
    ¬ TranslateReg registerBankOnly 0x1000 0x10 ≤ 0xF ∧
    TranslateReg registerBankOnly 0x2000 0xF3 ≤ 0xF ∧
    ¬ TranslateBitOff registerBankOnly 0x1000 0xEF ≤ 0xF ∧
    TranslateBitOff registerBankOnly 0x2000 0xF0 ≤ 0xF :=
  ⟨fun h => absurd ((translated_index_iff registerBankOnly 0x1000 0x10).1.mp h) (by decide),
   (translated_index_iff registerBankOnly 0x2000 0xF3).1.mpr (by decide),
   fun h => absurd ((translated_index_iff registerBankOnly 0x1000 0xEF).2.mp h) (by decide),
   (translated_index_iff registerBankOnly 0x2000 0xF0).2.mpr (by decide)⟩

/-- C33. For a bit offset `b` of 8 bits, `TranslateBitOff` returns `0xFD00 + 2*b` when
`b <= 0x7F`; `base + 2*(b & 0x7F)` when `0x80 <= b <= 0xEF`, with base 0xF100 when
`ShouldUseExtr` holds at the address, that is when the entry there has the RegisterBank
bit, and 0xFF00 otherwise; and `b & 0xF` when `b >= 0xF0`. -/
theorem TranslateBitOff_ranges (g : Globals) (addr b : Nat) (hb : b < 256) :
    (b ≤ 0x7F → TranslateBitOff g addr b = 0xFD00 + 2 * b) ∧
    (0x80 ≤ b → b ≤ 0xEF →
      TranslateBitOff g addr b
        = (if ShouldUseExtr g addr then 0xF100 else 0xFF00) + 2 * (b &&& 0x7F)) ∧
    (0xF0 ≤ b → TranslateBitOff g addr b = b &&& 0xF) ∧
    (ShouldUseExtr g addr = true ↔
      ∃ st, mapFind g.StateMap addr = some st ∧ st.ext_state &&& ExtRegister ≠ 0) := by
  have hc : b % 256 = b := Nat.mod_eq_of_lt hb
  refine ⟨?_, ?_, ?_, ?_⟩
  · intro h
    simp only [TranslateBitOff, GetBitoffRamAddress, h, if_true, hc]
    omega
  · intro h1 h2
    have hn : ¬ b ≤ 0x7F := by omega
    have ha : b &&& 0x7F ≤ 0x7F := Nat.and_le_right
    simp only [TranslateBitOff, GetBitoffSfrAddress, hn, h2, if_true, if_false, hc]
    cases ShouldUseExtr g addr <;> simp <;> omega
  · intro h
    have hn1 : ¬ b ≤ 0x7F := by omega
    have hn2 : ¬ b ≤ 0xEF := by omega
    simp only [TranslateBitOff, hn1, hn2, if_false]
  · unfold ShouldUseExtr
    cases hf : mapFind g.StateMap addr with
    | none => simp
    | some st =>
      by_cases hr : st.ext_state &&& ExtRegister ≠ 0
      · simp [hr]
      · simp [hr]

/-- Witness for C33: offsets 0x12, 0x92 and 0xF5 at 0x1000, where the store has a
register-bank override, and 0x92 at 0x2000, where it has none. -/
theorem TranslateBitOff_ranges_witness :
    TranslateBitOff registerBankOnly 0x1000 0x12 = 0xFD00 + 2 * 0x12 ∧
    TranslateBitOff registerBankOnly 0x1000 0x92
      = (if ShouldUseExtr registerBankOnly 0x1000 then 0xF100 else 0xFF00) + 2 * (0x92 &&& 0x7F) ∧
    TranslateBitOff registerBankOnly 0x1000 0x92 = 0xF124 ∧
    TranslateBitOff registerBankOnly 0x2000 0x92 = 0xFF24 ∧
    TranslateBitOff registerBankOnly 0x1000 0xF5 = 0xF5 &&& 0xF :=
  ⟨(TranslateBitOff_ranges registerBankOnly 0x1000 0x12 (by decide)).1 (by decide),
   (TranslateBitOff_ranges registerBankOnly 0x1000 0x92 (by decide)).2.1 (by decide) (by decide),
   by decide, by decide,
   (TranslateBitOff_ranges registerBankOnly 0x1000 0xF5 (by decide)).2.2.1 (by decide)⟩

/-! ## The resolver stays inside the address space -/

theorem mapFind_mem (m : List (Nat × InstructionState)) (a : Nat) (st : InstructionState)
    (h : mapFind m a = some st) : (a, st) ∈ m := by
  induction m with
  | nil => simp [mapFind] at h
  | cons p rest ih =>
    obtain ⟨k, w⟩ := p
    by_cases hk : k = a
    · simp only [mapFind, hk, if_true, Option.some.injEq] at h
      subst hk h
      exact List.mem_cons_self _ _
    · simp only [mapFind, hk, if_false] at h
      exact List.mem_cons_of_mem _ (ih h)

/-- An element of a DPP vector whose four values are below `2^10` is below `2^10`. -/
theorem Dpp_get_lt (v : Dpp) (i : Nat) (h : v.d0 < 1024 ∧ v.d1 < 1024 ∧ v.d2 < 1024 ∧ v.d3 < 1024) :
    v.get i < 1024 := by
  unfold Dpp.get
  split_ifs
  · exact h.1
  · exact h.2.1
  · exact h.2.2.1
  · exact h.2.2.2

/-- The page form of an address with a 10-bit page is below `2^24`. -/
theorem page_form_lt (x off : Nat) (hx : x < 1024) :
    ((x <<< 14) % 4294967296) ||| (off &&& 0x3FFF) < 16777216 := by
  have h1 : x <<< 14 < 2 ^ 24 := by rw [Nat.shiftLeft_eq]; omega
  have h2 : off &&& 0x3FFF < 2 ^ 14 := Nat.and_lt_two_pow _ (by decide)
  rw [Nat.mod_eq_of_lt (by omega)]
  exact Nat.or_lt_two_pow h1 (by omega)

/-- C34. In a store whose every entry has `pag10 < 2^10`, `seg8 < 2^8` and DPP values
`< 2^10`, with default DPP values `< 2^10`, `GetMem` returns an address below `2^24` at
every address and for every buffer.  The values that `Extprs::LiftxD7` decodes from a
buffer are in these ranges. -/
theorem GetMem_lt_16MiB (g : Globals) (addr : Nat) (data : List Nat)
    (hst : ∀ p ∈ g.StateMap, p.2.pag10 < 1024 ∧ p.2.seg8 < 256 ∧
      (p.2.dpp.d0 < 1024 ∧ p.2.dpp.d1 < 1024 ∧ p.2.dpp.d2 < 1024 ∧ p.2.dpp.d3 < 1024))
    (hd : g.default_dpp.d0 < 1024 ∧ g.default_dpp.d1 < 1024 ∧ g.default_dpp.d2 < 1024 ∧
      g.default_dpp.d3 < 1024) :
    GetMem g addr data < 16777216 ∧
    ((((byteAt data 3 &&& 0b11) <<< 8) ||| byteAt data 2) % 65536 < 1024 ∧
      byteAt data 2 < 256) := by
  constructor
  · have hm : wordAt data 1 &&& 0xFFFF < 2 ^ 16 := Nat.and_lt_two_pow _ (by decide)
    unfold GetMem
    simp only
    cases hf : mapFind g.StateMap addr with
    | none => exact page_form_lt _ _ (Dpp_get_lt _ _ hd)
    | some st =>
      obtain ⟨hp, hs, hdp⟩ := hst (addr, st) (mapFind_mem _ _ _ hf)
      simp only at hp hs hdp ⊢
      split_ifs
      · exact page_form_lt _ _ hp
      · have h1 : st.seg8 <<< 16 < 2 ^ 24 := by rw [Nat.shiftLeft_eq]; omega
        rw [Nat.mod_eq_of_lt (by omega)]
        exact Nat.or_lt_two_pow h1 (by omega)
      · exact page_form_lt _ _ (Dpp_get_lt _ _ hdp)
      · exact page_form_lt _ _ (Dpp_get_lt _ _ hd)
  · have h2 := byteAt_lt data 2
    have ha : byteAt data 3 &&& 0b11 < 2 ^ 2 := Nat.and_lt_two_pow _ (by decide)
    have hs : (byteAt data 3 &&& 0b11) <<< 8 < 2 ^ 10 := by rw [Nat.shiftLeft_eq]; omega
    have ho : ((byteAt data 3 &&& 0b11) <<< 8) ||| byteAt data 2 < 2 ^ 10 :=
      Nat.or_lt_two_pow hs (by omega)
    exact ⟨by omega, h2⟩

/-- Witness for C34: the store with a page override (page 3) at 0x1000 and a segment
override (segment 7) at 0x2000, default vector 4, 5, 6, 7, and the field 0xFFFF. -/
theorem GetMem_lt_16MiB_witness :
    GetMem mixedStore 0x1000 [0xF2, 0xF0, 0xFF, 0xFF] < 16777216 ∧
    GetMem mixedStore 0x2000 [0xF2, 0xF0, 0xFF, 0xFF] < 16777216 ∧
    GetMem mixedStore 0x3000 [0xF2, 0xF0, 0xFF, 0xFF] < 16777216 :=
  ⟨(GetMem_lt_16MiB mixedStore 0x1000 [0xF2, 0xF0, 0xFF, 0xFF] (by decide) (by decide)).1,
   (GetMem_lt_16MiB mixedStore 0x2000 [0xF2, 0xF0, 0xFF, 0xFF] (by decide) (by decide)).1,
   (GetMem_lt_16MiB mixedStore 0x3000 [0xF2, 0xF0, 0xFF, 0xFF] (by decide) (by decide)).1⟩

/-! ## What serialization writes -/

theorem record_length (pad0 pad1 k : Nat) (v : InstructionState) :
    (u64le k ++ v.bytes pad0 pad1).length = recordSize := by
  simp [u64le, InstructionState.bytes, u32le, recordSize, sizeofInstructionState]

/-- Record `i` of what the loop of `SerializeStateMap` writes is the address of element
`i` followed by its state. -/
theorem SerializeLoop_record (pad : Nat → Nat) :
    ∀ (es : List (Nat × InstructionState)) (off i k : Nat) (v : InstructionState),
      es[i]? = some (k, v) →
      ((SerializeLoop pad off es).drop (i * recordSize)).take recordSize
        = u64le k ++ v.bytes (pad (off + i * recordSize + 10)) (pad (off + i * recordSize + 11)) := by
  intro es
  induction es with
  | nil => intro off i k v h; simp at h
  | cons p rest ih =>
    intro off i k v h
    obtain ⟨k0, v0⟩ := p
    have hlen := record_length (pad (off + 10)) (pad (off + 11)) k0 v0
    have hs : SerializeLoop pad off ((k0, v0) :: rest)
        = (u64le k0 ++ v0.bytes (pad (off + 10)) (pad (off + 11)))
          ++ SerializeLoop pad (off + recordSize) rest := by
      simp only [SerializeLoop, List.append_assoc]
    cases i with
    | zero =>
      simp only [List.getElem?_cons_zero, Option.some.injEq, Prod.mk.injEq] at h
      obtain ⟨rfl, rfl⟩ := h
      rw [hs, Nat.zero_mul, List.drop_zero, Nat.add_zero, ← hlen, List.take_left]
    | succ j =>
      simp only [List.getElem?_cons_succ] at h
      have e : (j + 1) * recordSize
          = (u64le k0 ++ v0.bytes (pad (off + 10)) (pad (off + 11))).length + j * recordSize := by
        rw [hlen]; ring
      rw [hs, e, List.drop_append, ih (off + recordSize) j k v h]
      have e2 : off + recordSize + j * recordSize = off + (recordSize + j * recordSize) := by ring
      rw [e2, ← hlen]

/-- C35. `SerializeStateMap` returns 0 and writes nothing when `size` is below the number of
entries times the size of a record; otherwise it returns that product, which is
`SizeOfStateMap()`, and writes that many bytes: record `i` is the 8 bytes of the address
of entry `i` followed by the 28 bytes of its state.  It leaves the globals as they are. -/
theorem SerializeStateMap_writes_records (pad : Nat → Nat) (g : Globals) (size : Nat) :
    (size < g.StateMap.length * recordSize → SerializeStateMap pad g size = (0, [])) ∧
    (g.StateMap.length * recordSize ≤ size →
      (SerializeStateMap pad g size).1 = g.StateMap.length * recordSize ∧
      (SerializeStateMap pad g size).1 = SizeOfStateMap g ∧
      (SerializeStateMap pad g size).2.length = g.StateMap.length * recordSize ∧
      ∀ i k v, g.StateMap[i]? = some (k, v) →
        (((SerializeStateMap pad g size).2.drop (i * recordSize)).take 8 = u64le k ∧
         (((SerializeStateMap pad g size).2.drop (i * recordSize)).take recordSize).drop 8
           = v.bytes (pad (i * recordSize + 10)) (pad (i * recordSize + 11)))) ∧
    (SerializeStateMap.stateful pad g size).2 = g := by
  refine ⟨fun h => by simp [SerializeStateMap, h], fun h => ?_, rfl⟩
  have hn : ¬ size < g.StateMap.length * recordSize := by omega
  have hout : SerializeStateMap pad g size
      = ((SerializeLoop pad 0 g.StateMap).length, SerializeLoop pad 0 g.StateMap) := by
    simp only [SerializeStateMap, hn, if_false]
  rw [hout]
  refine ⟨serializeLoop_length pad 0 _, ?_, serializeLoop_length pad 0 _, ?_⟩
  · simp only [SizeOfStateMap]
    exact serializeLoop_length pad 0 _
  · intro i k v hi
    have hr := SerializeLoop_record pad g.StateMap 0 i k v hi
    simp only [Nat.zero_add] at hr
    have h8 : (u64le k).length = 8 := by simp [u64le]
    constructor
    · have : ((SerializeLoop pad 0 g.StateMap).drop (i * recordSize)).take 8
          = (((SerializeLoop pad 0 g.StateMap).drop (i * recordSize)).take recordSize).take 8 := by
        rw [List.take_take]; simp [recordSize, sizeofInstructionState]
      rw [this, hr, ← h8, List.take_left]
    · show (List.take recordSize (List.drop (i * recordSize) (SerializeLoop pad 0 g.StateMap))).drop 8 = _
      rw [hr, ← h8, List.drop_left]

/-- Witness for C35: the store with two entries, a buffer of 72 bytes and one of 71. -/
theorem SerializeStateMap_writes_records_witness :
    SerializeStateMap (fun _ => 0) mixedStore 71 = (0, []) ∧
    (SerializeStateMap (fun _ => 0) mixedStore 72).1 = 72 ∧
    (((SerializeStateMap (fun _ => 0) mixedStore 72).2.drop (1 * recordSize)).take 8
      = u64le 0x2000) :=
  ⟨(SerializeStateMap_writes_records (fun _ => 0) mixedStore 71).1 (by decide),
   ((SerializeStateMap_writes_records (fun _ => 0) mixedStore 72).2.1 (by decide)).1,
   ((((SerializeStateMap_writes_records (fun _ => 0) mixedStore 72).2.1 (by decide)).2.2.2)
      1 0x2000 ⟨ExtSegment, 2, 0, 7, ⟨0, 0, 0, 0⟩⟩ rfl).1⟩

/-! ## The range that `SetDppsRange` touches -/

theorem SetDppsRangeBody_default_dpp (g : Globals) (a d0 d1 d2 d3 : Nat) :
    (SetDppsRangeBody g a d0 d1 d2 d3).default_dpp = g.default_dpp := by
  unfold SetDppsRangeBody
  cases mapFind g.StateMap a with
  | none => rfl
  | some st =>
    simp only
    split_ifs <;> rfl

/-- The loop of `SetDppsRange` from `addr`, when `end_ + 2` does not wrap, leaves every
address that is not `addr + 2 * k` for a `k` with `addr + 2 * k ≤ end_` as it was. -/
theorem SetDppsRangeLoop_frame (end_ d0 d1 d2 d3 : Nat) (hend : end_ + 2 < 18446744073709551616) :
    ∀ (fuel : Nat) (g : Globals) (addr : Nat), (end_ + 2 - addr) / 2 + 1 ≤ fuel →
      ∃ g1, SetDppsRangeLoop fuel g addr end_ d0 d1 d2 d3 = some g1 ∧
        (∀ x, (∀ k, addr + 2 * k ≤ end_ → x ≠ addr + 2 * k) →
          mapFind g1.StateMap x = mapFind g.StateMap x) ∧
        g1.default_dpp = g.default_dpp ∧
        (end_ < addr → g1 = g) := by
  intro fuel
  induction fuel with
  | zero => intro g addr hf; omega
  | succ fuel ih =>
    intro g addr hf
    by_cases hle : addr ≤ end_
    · have hnext : (addr + 2) % 18446744073709551616 = addr + 2 := by omega
      have hfuel : (end_ + 2 - (addr + 2)) / 2 + 1 ≤ fuel := by omega
      obtain ⟨g1, hrun, hfr, hdd, _⟩ :=
        ih (SetDppsRangeBody g addr d0 d1 d2 d3) (addr + 2) hfuel
      refine ⟨g1, ?_, ?_, hdd.trans (SetDppsRangeBody_default_dpp g addr d0 d1 d2 d3),
        fun h => by omega⟩
      · simp only [SetDppsRangeLoop, hle, if_true, hnext]
        exact hrun
      · intro x hx
        have h0 : x ≠ addr := by
          have := hx 0 (by omega)
          simpa using this
        rw [hfr x (fun k hk => by
          have := hx (k + 1) (by omega)
          omega)]
        exact SetDppsRangeBody_find_ne g addr x d0 d1 d2 d3 (Ne.symm h0)
    · refine ⟨g, ?_, fun _ _ => rfl, rfl, fun _ => rfl⟩
      simp only [SetDppsRangeLoop, hle, if_false]

/-- C36. For every `start` and every `end` with `end <= 2^64 - 3`, `SetDppsRange` returns
(with fuel for every test of its loop).  In the store it returns, every address
`start + 2 * k <= end` has been visited: its entry has the kind CustomDpp alone and the
vector given; every other address has the entry, or the absence of one, that it had; with
`start > end` the store is the same; the default vector is untouched. -/
theorem SetDppsRange_touches_range (g : Globals) (start end_ d0 d1 d2 d3 fuel : Nat)
    (hend : end_ ≤ 18446744073709551616 - 3)
    (hfuel : (end_ + 2 - start) / 2 + 1 ≤ fuel) :
    ∃ g1, SetDppsRange fuel g start end_ d0 d1 d2 d3 = some g1 ∧
      (∀ k, start + 2 * k ≤ end_ →
        Visited g1 ⟨d0 % 65536, d1 % 65536, d2 % 65536, d3 % 65536⟩ (start + 2 * k)) ∧
      (∀ x, (∀ k, start + 2 * k ≤ end_ → x ≠ start + 2 * k) →
        mapFind g1.StateMap x = mapFind g.StateMap x) ∧
      (end_ < start → g1 = g) ∧
      g1.default_dpp = g.default_dpp := by
  have he : end_ + 2 < 18446744073709551616 := by omega
  obtain ⟨g1, hrun, _, hall, _⟩ := SetDppsRangeLoop_spec end_ d0 d1 d2 d3 he fuel g start hfuel
  obtain ⟨g2, hrun2, hfr, hdd, hempty⟩ :=
    SetDppsRangeLoop_frame end_ d0 d1 d2 d3 he fuel g start hfuel
  have e : g2 = g1 := by
    rw [hrun] at hrun2
    exact (Option.some.inj hrun2).symm
  subst e
  exact ⟨g2, hrun, hall, hfr, hempty, hdd⟩

/-- Witness for C36: the range 0x1000..0x1004 on the store with a segment override at
0x2000, and the empty range 0x1004..0x1000. -/
theorem SetDppsRange_touches_range_witness :
    (∃ g1, SetDppsRange 4 mixedStore 0x1000 0x1004 1 2 3 4 = some g1 ∧
      (∀ k, 0x1000 + 2 * k ≤ 0x1004 →
        Visited g1 ⟨1 % 65536, 2 % 65536, 3 % 65536, 4 % 65536⟩ (0x1000 + 2 * k)) ∧
      (∀ x, (∀ k, 0x1000 + 2 * k ≤ 0x1004 → x ≠ 0x1000 + 2 * k) →
        mapFind g1.StateMap x = mapFind mixedStore.StateMap x) ∧
      (0x1004 < 0x1000 → g1 = mixedStore) ∧
      g1.default_dpp = mixedStore.default_dpp) ∧
    (SetDppsRange 4 mixedStore 0x1000 0x1004 1 2 3 4).map
        (fun g1 => [0x0FFE, 0x1000, 0x1002, 0x1004, 0x1006, 0x2000].map
          (fun a => (mapFind g1.StateMap a).map (fun st => (st.ext_state, st.dpp))))
      = some [none, some (ExtNoneCustomDpps, ⟨1, 2, 3, 4⟩), some (ExtNoneCustomDpps, ⟨1, 2, 3, 4⟩),
          some (ExtNoneCustomDpps, ⟨1, 2, 3, 4⟩), none, some (ExtSegment, ⟨0, 0, 0, 0⟩)] ∧
    SetDppsRange 1 mixedStore 0x1004 0x1000 1 2 3 4 = some mixedStore :=
  ⟨SetDppsRange_touches_range mixedStore 0x1000 0x1004 1 2 3 4 4 (by decide) (by decide),
   by decide, by decide⟩

/-! ## Compare and step -/

/-- C37. The `mem` forms of CMPD2 (0xB2) and CMPI2 (0x92) step the register by 1, where
their two sibling forms, `#data4` (0xB0, 0x90) and `#data16` (0xB6, 0x96), step it by 2.
Every form is the flag-setting subtraction `Rwn - operand` followed by one `SetRegister`
of `Rwn`; in the CMPD1 and CMPI1 families all three forms step by 1.  The lifter
succeeds on 0xB2 and 0x92 with length 4.  With `Rwn = 0x1000` the step of the `mem`
form of CMPD2 leaves 0x0FFF and that of its `#data16` form 0x0FFE. -/
theorem cmp2_mem_form_steps_by_one (labels : Nat → Bool) (g : Globals) (data rest : List Nat)
    (addr len0 : Nat) :
    Cmpd2.LiftxB0.il data
      = [ILExpr.Sub 2 (ILExpr.Register 2 (GetData4Low data 2))
            (ILExpr.Const 2 (GetData4High data 2)) Cmpd2.flags,
         ILExpr.SetRegister 2 (GetData4Low data 2)
            (ILExpr.Sub 2 (ILExpr.Register 2 (GetData4Low data 2)) (ILExpr.Const 2 2) 0) 0] ∧
    Cmpd2.LiftxB6.il data
      = [ILExpr.Sub 2 (ILExpr.Register 2 (GetData4Low data 2))
            (ILExpr.Const 2 (GetData16 data)) Cmpd2.flags,
         ILExpr.SetRegister 2 (GetData4Low data 2)
            (ILExpr.Sub 2 (ILExpr.Register 2 (GetData4Low data 2)) (ILExpr.Const 2 2) 0) 0] ∧
    Cmpd2.LiftxB2.il g data addr
      = [ILExpr.Sub 2 (ILExpr.Register 2 (GetData4Low data 2))
            (ILExpr.Load 2 (ILExpr.ConstPointer 3 (GetMem g addr data))) Cmpd2.flags,
         ILExpr.SetRegister 2 (GetData4Low data 2)
            (ILExpr.Sub 2 (ILExpr.Register 2 (GetData4Low data 2)) (ILExpr.Const 2 1) 0) 0] ∧
    Cmpi2.Liftx90.il data
      = [ILExpr.Sub 2 (ILExpr.Register 2 (GetData4Low data 2))
            (ILExpr.Const 2 (GetData4High data 2)) Cmpi2.flags,
         ILExpr.SetRegister 2 (GetData4Low data 2)
            (ILExpr.Add 2 (ILExpr.Register 2 (GetData4Low data 2)) (ILExpr.Const 2 2)) 0] ∧
    Cmpi2.Liftx96.il data
      = [ILExpr.Sub 2 (ILExpr.Register 2 (GetData4Low data 2))
            (ILExpr.Const 2 (GetData16 data)) Cmpi2.flags,
         ILExpr.SetRegister 2 (GetData4Low data 2)
            (ILExpr.Add 2 (ILExpr.Register 2 (GetData4Low data 2)) (ILExpr.Const 2 2)) 0] ∧
    Cmpi2.Liftx92.il g data addr
      = [ILExpr.Sub 2 (ILExpr.Register 2 (GetData4Low data 2))
            (ILExpr.Load 2 (ILExpr.ConstPointer 3 (GetMem g addr data))) Cmpi2.flags,
         ILExpr.SetRegister 2 (GetData4Low data 2)
            (ILExpr.Add 2 (ILExpr.Register 2 (GetData4Low data 2)) (ILExpr.Const 2 1)) 0] ∧
    ((Cmpd1.LiftxA0.il data)[1]? = (Cmpd1.LiftxA6.il data)[1]? ∧
      (Cmpd1.LiftxA2.il g data addr)[1]? = (Cmpd1.LiftxA6.il data)[1]? ∧
      (Cmpd1.LiftxA6.il data)[1]?
        = some (ILExpr.SetRegister 2 (GetData4Low data 2)
            (ILExpr.Sub 2 (ILExpr.Register 2 (GetData4Low data 2)) (ILExpr.Const 2 1) 0) 0)) ∧
    ((Cmpi1.Liftx80.il data)[1]? = (Cmpi1.Liftx86.il data)[1]? ∧
      (Cmpi1.Liftx82.il g data addr)[1]? = (Cmpi1.Liftx86.il data)[1]? ∧
      (Cmpi1.Liftx86.il data)[1]?
        = some (ILExpr.SetRegister 2 (GetData4Low data 2)
            (ILExpr.Add 2 (ILExpr.Register 2 (GetData4Low data 2)) (ILExpr.Const 2 1)) 0)) ∧
    GetInstructionLowLevelIL labels (0xB2 :: rest) addr len0 g
      = ⟨true, 4, UpdateExtSequence g addr 4⟩ ∧
    GetInstructionLowLevelIL labels (0x92 :: rest) addr len0 g
      = ⟨true, 4, UpdateExtSequence g addr 4⟩ ∧
    (ILExpr.Sub 2 (ILExpr.Register 2 1) (ILExpr.Const 2 1) 0).eval (fun _ => 0x1000) (fun _ => 0)
      = 0x0FFF ∧
    (ILExpr.Sub 2 (ILExpr.Register 2 1) (ILExpr.Const 2 2) 0).eval (fun _ => 0x1000) (fun _ => 0)
      = 0x0FFE := by
  refine ⟨rfl, rfl, rfl, rfl, rfl, rfl, ⟨rfl, rfl, rfl⟩, ⟨rfl, rfl, rfl⟩, ?_, ?_,
    by decide, by decide⟩
  · rw [lift_byte]; rfl
  · rw [lift_byte]; rfl

/-! ## MOV with a displacement -/

/-- C38. `Mov::LiftxD4` appends one instruction, an `il.Store` whose address argument is
the register expression of `Rw_n` and whose value argument is the address expression for
`Rw_m + data16`; it appends no `SetRegister` and no `Load`.  `Movb::LiftxF4` builds the
same address expression `A` and appends `SetRegister(1, Rb_n, Load(1, A))`.  The lifter
succeeds on 0xD4 with length 4. -/
theorem mov_xD4_stores_instead_of_loading (labels : Nat → Bool) (g : Globals)
    (data rest : List Nat) (addr len0 : Nat) :
    (∃ A,
      Mov.LiftxD4.il g data addr
        = [ILExpr.Store 2 (ILExpr.Register 2 (GetData4High data 2)) A Mov.flags] ∧
      Movb.LiftxF4.il g data addr
        = [ILExpr.SetRegister 1 ((GetData4High data 2 + 16) % 4294967296) (ILExpr.Load 1 A)
            Movb.flags] ∧
      A = (match ShouldUseExts g addr with
           | some seg8 => GetIndAddrExpr_Exts_Rw_data16 seg8 (GetData4Low data 2) (GetData16 data)
           | none =>
             match ShouldUseExtp g addr with
             | some pag10 =>
               GetIndAddrExpr_Extp_Rw_data16 pag10 (GetData4Low data 2) (GetData16 data)
             | none => GetIndAddrExpr_Rw_data16 (GetData4Low data 2) (GetData16 data))) ∧
    (∀ e ∈ Mov.LiftxD4.il g data addr, ∀ size reg value flags,
      e ≠ ILExpr.SetRegister size reg value flags) ∧
    GetInstructionLowLevelIL labels (0xD4 :: rest) addr len0 g
      = ⟨true, 4, UpdateExtSequence g addr 4⟩ ∧
    Mov.LiftxD4.il ⟨[], ⟨0, 0, 0, 0⟩⟩ [0xD4, 0x12, 0x10, 0x00] 0x1000
      = [ILExpr.Store 2 (ILExpr.Register 2 1) (GetIndAddrExpr_Rw_data16 2 0x10) Mov.flags] ∧
    Movb.LiftxF4.il ⟨[], ⟨0, 0, 0, 0⟩⟩ [0xF4, 0x12, 0x10, 0x00] 0x1000
      = [ILExpr.SetRegister 1 17 (ILExpr.Load 1 (GetIndAddrExpr_Rw_data16 2 0x10))
          Movb.flags] := by
  refine ⟨⟨_, rfl, rfl, rfl⟩, ?_, ?_, by decide, by decide⟩
  · intro e he size reg value flags heq
    simp only [Mov.LiftxD4.il, List.mem_singleton] at he
    rw [he] at heq
    exact ILExpr.noConfusion heq
  · rw [lift_byte]; rfl

/-- Witness for C38: on `D4 12 10 00` (MOV R1, [R2 + #0x10]) at 0x1000 with an empty store
the one instruction appended is the store, and it is not the register write of a load. -/
theorem mov_xD4_stores_instead_of_loading_witness :
    ILExpr.Store 2 (ILExpr.Register 2 1) (GetIndAddrExpr_Rw_data16 2 0x10) Mov.flags
        ∈ Mov.LiftxD4.il ⟨[], ⟨0, 0, 0, 0⟩⟩ [0xD4, 0x12, 0x10, 0x00] 0x1000 ∧
    ILExpr.Store 2 (ILExpr.Register 2 1) (GetIndAddrExpr_Rw_data16 2 0x10) Mov.flags
        ≠ ILExpr.SetRegister 2 1 (ILExpr.Load 2 (GetIndAddrExpr_Rw_data16 2 0x10))
            Mov.flags := by
  have h := mov_xD4_stores_instead_of_loading (fun _ => true) ⟨[], ⟨0, 0, 0, 0⟩⟩
    [0xD4, 0x12, 0x10, 0x00] [] 0x1000 0
  have hmem : ILExpr.Store 2 (ILExpr.Register 2 1) (GetIndAddrExpr_Rw_data16 2 0x10) Mov.flags
      ∈ Mov.LiftxD4.il ⟨[], ⟨0, 0, 0, 0⟩⟩ [0xD4, 0x12, 0x10, 0x00] 0x1000 := by
    rw [h.2.2.2.1]
    exact List.mem_singleton.mpr rfl
  exact ⟨hmem, h.2.1 _ hmem 2 1 _ Mov.flags⟩

/-! ## EXTR and ATOMIC -/

theorem ShouldUseExtr_SetExtr (g : Globals) (a n : Nat) :
    ShouldUseExtr (SetExtr g a n) a = true := by
  unfold ShouldUseExtr
  cases h : mapFind g.StateMap a with
  | none =>
    rw [SetExtr_find_none g a n h]
    show (if ExtRegister &&& ExtRegister ≠ 0 then true else false) = true
    decide
  | some st =>
    rw [SetExtr_find_some g a n st h]
    show (if (st.ext_state ||| ExtRegister) &&& ExtRegister ≠ 0 then true else false) = true
    rw [or_land_self]
    decide

/-- C39. On opcode 0xD1 the lifter succeeds with length 2 and calls
`SetExtr(addr + 2, (byte1 >> 4) & 3)` whatever bits 7:6 of byte 1 are: also for the
ATOMIC form (bits 00) the entry at `addr + 2` gets the RegisterBank kind, so that
`ShouldUseExtr` holds there; it is the fresh entry (RegisterBank, count) when there was
none.  The entry at `addr` is not touched.  On the bytes D1 00 (ATOMIC #1) at 0x1000 with
an empty store, the store afterwards has a register-bank override at 0x1002, and the
short code 0x10 there resolves to 0xF020 and not to 0xFE20. -/
theorem ExtrAtomic_sets_override_for_every_form (labels : Nat → Bool) (b1 : Nat)
    (rest : List Nat) (addr len0 : Nat) (g : Globals) (hb1 : b1 < 256) :
    GetInstructionLowLevelIL labels (0xD1 :: b1 :: rest) addr len0 g
      = ⟨true, 2, SetExtr g ((addr + 2) % 18446744073709551616) ((b1 >>> 4) &&& 3)⟩ ∧
    ShouldUseExtr (GetInstructionLowLevelIL labels (0xD1 :: b1 :: rest) addr len0 g).g
      ((addr + 2) % 18446744073709551616) = true ∧
    (mapFind g.StateMap ((addr + 2) % 18446744073709551616) = none →
      mapFind (GetInstructionLowLevelIL labels (0xD1 :: b1 :: rest) addr len0 g).g.StateMap
        ((addr + 2) % 18446744073709551616)
        = some ⟨ExtRegister, (b1 >>> 4) &&& 3, 0, 0, g.default_dpp⟩) ∧
    mapFind (GetInstructionLowLevelIL labels (0xD1 :: b1 :: rest) addr len0 g).g.StateMap addr
      = mapFind g.StateMap addr ∧
    ((GetInstructionLowLevelIL allLabels [0xD1, 0x00] 0x1000 2 ⟨[], ⟨0, 0, 0, 0⟩⟩).g
        = ⟨[(0x1002, ⟨ExtRegister, 0, 0, 0, ⟨0, 0, 0, 0⟩⟩)], ⟨0, 0, 0, 0⟩⟩ ∧
      0x00 &&& 0xC0 = 0x00 ∧
      TranslateReg (GetInstructionLowLevelIL allLabels [0xD1, 0x00] 0x1000 2
        ⟨[], ⟨0, 0, 0, 0⟩⟩).g 0x1002 0x10 = 0xF020 ∧
      TranslateReg ⟨[], ⟨0, 0, 0, 0⟩⟩ 0x1002 0x10 = 0xFE20) := by
  have hl : GetInstructionLowLevelIL labels (0xD1 :: b1 :: rest) addr len0 g
      = ⟨true, 2, SetExtr g ((addr + 2) % 18446744073709551616) ((b1 >>> 4) &&& 3)⟩ := by
    rw [lift_byte]
    have h1 : byteAt (0xD1 :: b1 :: rest) 1 = b1 := by simp [byteAt, Nat.mod_eq_of_lt hb1]
    show ExtrAtomic.Lift (0xD1 :: b1 :: rest) addr len0 g = _
    simp only [ExtrAtomic.Lift, h1, LiftxD7_count b1 hb1]
  have hc : (b1 >>> 4) &&& 3 < 4 := Nat.and_lt_two_pow _ (by decide : (3 : Nat) < 2 ^ 2)
  rw [hl]
  refine ⟨rfl, ShouldUseExtr_SetExtr _ _ _, ?_, ?_, by decide⟩
  · intro hn
    show mapFind (SetExtr g _ _).StateMap _ = _
    rw [SetExtr_find_none g _ _ hn, Nat.mod_eq_of_lt (by omega : (b1 >>> 4) &&& 3 < 256)]
  · show mapFind (SetExtr g _ _).StateMap addr = _
    exact SetExtr_find_ne g _ addr _ (by omega)

/-- Witness for C39: ATOMIC #2 (D1 10) and EXTR #2 (D1 90) at 0x1000 with an empty
store. -/
theorem ExtrAtomic_sets_override_for_every_form_witness :
    GetInstructionLowLevelIL allLabels (0xD1 :: 0x10 :: []) 0x1000 2 ⟨[], ⟨0, 0, 0, 0⟩⟩
      = ⟨true, 2, SetExtr ⟨[], ⟨0, 0, 0, 0⟩⟩ ((0x1000 + 2) % 18446744073709551616)
          ((0x10 >>> 4) &&& 3)⟩ ∧
    mapFind (GetInstructionLowLevelIL allLabels (0xD1 :: 0x10 :: []) 0x1000 2
        ⟨[], ⟨0, 0, 0, 0⟩⟩).g.StateMap ((0x1000 + 2) % 18446744073709551616)
      = some ⟨ExtRegister, (0x10 >>> 4) &&& 3, 0, 0, ⟨0, 0, 0, 0⟩⟩ ∧
    mapFind (GetInstructionLowLevelIL allLabels (0xD1 :: 0x90 :: []) 0x1000 2
        ⟨[], ⟨0, 0, 0, 0⟩⟩).g.StateMap ((0x1000 + 2) % 18446744073709551616)
      = some ⟨ExtRegister, (0x90 >>> 4) &&& 3, 0, 0, ⟨0, 0, 0, 0⟩⟩ :=
  ⟨(ExtrAtomic_sets_override_for_every_form allLabels 0x10 [] 0x1000 2 ⟨[], ⟨0, 0, 0, 0⟩⟩
      (by decide)).1,
   (ExtrAtomic_sets_override_for_every_form allLabels 0x10 [] 0x1000 2 ⟨[], ⟨0, 0, 0, 0⟩⟩
      (by decide)).2.2.1 rfl,
   (ExtrAtomic_sets_override_for_every_form allLabels 0x90 [] 0x1000 2 ⟨[], ⟨0, 0, 0, 0⟩⟩
      (by decide)).2.2.1 rfl⟩

end C166
